import Mathlib

/-!
# chrono_skid_steer: FSI interface bookkeeping and demo output writers

A shallow embedding of the parts of the repository that its specification
talks about:

* `ChFsiInterface` (src/chrono_fsi/physics/ChFsiInterface.cpp): mirroring of
  the rigid-body state into host-side backup buffers and the per-body /
  per-node CSV logs;
* the VTK and CSV writers of the demo programs;
* the start-up sequence and main loop of the three demo programs;
* the rig node and the rigid tire node of the vehicle co-simulation, and
  `Synchronize` of the skid-steer vehicle;
* the mesh of the toroidal tire built by `Create_MB_FE`.

Conventions of the embedding.

* `D` is the type of C++ `double` values.  No arithmetic on it is ever
  needed except where stated; comparisons with zero use a linear order.  Where
  the code computes with `double` values and the result matters, the
  operations are a parameter (`DoubleArith`), with IEEE 754 binary64
  (`binary64.arith`, on the rational numbers that the finite values stand for)
  and arithmetic without rounding (`DoubleArith.exact`) as instances.
* A C++ exception or an access outside a container does not lose the state:
  every operation returns an `Outcome`, the state reached together with the
  fault (if any) that stopped it.
* A text file is a list of lines, a line is the list of items streamed into it
  with `<<`.  String literals of the source that contain a line feed are split
  at the line feed.
-/

namespace chrono

/-! ## Faults and outcomes -/

/-- Ways in which an operation can stop early. -/
inductive Fault where
  /-- A thrown `std::runtime_error` carrying its message. -/
  | runtime_error (what : String)
  /-- An access outside the bounds of a container (undefined in C++). -/
  | out_of_range
  /-- Increment of an `int` that holds `INT_MAX` (undefined in C++). -/
  | signed_overflow
  /-- Remainder of a division by zero (undefined in C++). -/
  | division_by_zero
  /-- The process was ended by `MPI_Abort(MPI_COMM_WORLD, errorcode)`. -/
  | abort (errorcode : Int)
  /-- A failed `assert(expr)`: the process is ended by `abort()`. -/
  | assertion (expr : String)
  deriving DecidableEq, Repr

/-- The state reached by an operation and the fault that stopped it, if any. -/
structure Outcome (σ : Type) where
  fault : Option Fault
  state : σ

/-- Normal completion. -/
def Outcome.ok {σ : Type} (s : σ) : Outcome σ := ⟨none, s⟩

/-- Stop with fault `f` in state `s`. -/
def Outcome.stop {σ : Type} (f : Fault) (s : σ) : Outcome σ := ⟨some f, s⟩

/-- Loop `for (i = start; i < start + count; i++) body`, left as soon as the
body faults. -/
def forLoop {σ : Type} (body : Nat → σ → Outcome σ) : Nat → Nat → σ → Outcome σ
  | 0, _, s => Outcome.ok s
  | count + 1, i, s =>
    match body i s with
    | ⟨none, s1⟩ => forLoop body count (i + 1) s1
    | ⟨some f, s1⟩ => ⟨some f, s1⟩

/-! ## Vectors, bodies, nodes -/

/-- Three components of a `ChVector<>`. -/
structure ChVector (D : Type) where
  x : D
  y : D
  z : D
  deriving DecidableEq, Repr, Inhabited

/-- Four components of a `ChQuaternion<>`. -/
structure ChQuaternion (D : Type) where
  e0 : D
  e1 : D
  e2 : D
  e3 : D
  deriving DecidableEq, Repr, Inhabited

/-- Position and rotation of a `ChFrame<>`. -/
structure ChFrame (D : Type) where
  pos : ChVector D
  rot : ChQuaternion D
  deriving DecidableEq, Repr

/-- Kinematic state of a rigid body, as seen through the getters and setters
that the repository calls: `GetPos/SetPos`, `GetPos_dt/SetPos_dt`,
`GetPos_dtdt/SetPos_dtdt`, `GetRot/SetRot`, `GetWvel_par/SetWvel_par`,
`GetWacc_par/SetWacc_par` and `GetFrame_REF_to_abs`, together with the force
and torque accumulators `Xforce` and `Xtorque`. -/
structure ChBody (D : Type) where
  pos : ChVector D
  pos_dt : ChVector D
  pos_dtdt : ChVector D
  rot : ChQuaternion D
  wvel_par : ChVector D
  wacc_par : ChVector D
  frame_REF_to_abs : ChFrame D
  Xforce : ChVector D
  Xtorque : ChVector D
  deriving DecidableEq, Repr

/-- State of a finite-element node: `GetPos`, `GetPos_dt`, `GetPos_dtdt` and
the applied force set by `SetForce`. -/
structure ChNodeFEAxyzD (D : Type) where
  pos : ChVector D
  pos_dt : ChVector D
  pos_dtdt : ChVector D
  force : ChVector D
  deriving DecidableEq, Repr

/-- The conversions of `ChUtilsTypeConvert` between the multibody types and
the `Real3`/`Real4` types of the fluid solver (types `R3`, `R4`). -/
structure ChUtilsTypeConvert (D R3 R4 : Type) where
  ChVectorToReal3 : ChVector D → R3
  Real3ToChVector : R3 → ChVector D
  ChQuaternionToReal4 : ChQuaternion D → R4
  Real4ToChQuaternion : R4 → ChQuaternion D

/-- The accumulator functions of `ChBody` that the FSI interface calls; they
belong to the multibody engine. -/
structure ChBodyAccumulators (D : Type) where
  Empty_forces_accumulators : ChBody D → ChBody D
  Accumulate_force : ChVector D → ChVector D → Bool → ChBody D → ChBody D
  Accumulate_torque : ChVector D → Bool → ChBody D → ChBody D

/-- Component-wise sum of two vectors. -/
def ChVector.add {D : Type} [Add D] (a b : ChVector D) : ChVector D :=
  ⟨a.x + b.x, a.y + b.y, a.z + b.z⟩

/-- Model of `std::vector::resize`: keep the first `n` entries, pad with `d`. -/
def resizeList {α : Type} (d : α) (n : Nat) (l : List α) : List α :=
  l.take n ++ List.replicate (n - l.length) d

/-- The six buffers of `ChronoBodiesDataH`. -/
structure ChronoBodiesDataH (R3 R4 : Type) where
  pos_ChSystemH : List R3
  vel_ChSystemH : List R3
  acc_ChSystemH : List R3
  quat_ChSystemH : List R4
  omegaVelGRF_ChSystemH : List R3
  omegaAccGRF_ChSystemH : List R3
  deriving DecidableEq, Repr

/-- Model of `ChronoBodiesDataH::resize(s)`: all six buffers get `s` entries. -/
def ChronoBodiesDataH.resize {R3 R4 : Type} [Inhabited R3] [Inhabited R4]
    (b : ChronoBodiesDataH R3 R4) (s : Nat) : ChronoBodiesDataH R3 R4 :=
  { pos_ChSystemH := resizeList default s b.pos_ChSystemH
    vel_ChSystemH := resizeList default s b.vel_ChSystemH
    acc_ChSystemH := resizeList default s b.acc_ChSystemH
    quat_ChSystemH := resizeList default s b.quat_ChSystemH
    omegaVelGRF_ChSystemH := resizeList default s b.omegaVelGRF_ChSystemH
    omegaAccGRF_ChSystemH := resizeList default s b.omegaAccGRF_ChSystemH }

/-- The three buffers of `ChronoMeshDataH`. -/
structure ChronoMeshDataH (R3 : Type) where
  posFlex_ChSystemH_H : List R3
  velFlex_ChSystemH_H : List R3
  accFlex_ChSystemH_H : List R3
  deriving DecidableEq, Repr

/-! ## Text files -/

/-- One item streamed into a text file with `<<`. -/
inductive Item (D : Type) where
  /-- A string literal (or a `std::string`). -/
  | str (s : String)
  /-- An integer value. -/
  | int (n : Int)
  /-- A `double` value. -/
  | real (v : D)
  deriving DecidableEq, Repr

/-- One line of a text file: the items streamed into it, in order. -/
abbrev Line (D : Type) := List (Item D)

/-- One `open ... close` episode on a file: the name, whether the file was
opened with `std::fstream::app` (otherwise it is truncated), and the lines
written before it was closed. -/
structure FileWrite (D : Type) where
  name : String
  app : Bool
  lines : List (Line D)
  deriving DecidableEq, Repr

/-- Effect of one write episode on the contents of the file it names. -/
def FileWrite.apply {D : Type} (w : FileWrite D) (old : List (Line D)) : List (Line D) :=
  if w.app then old ++ w.lines else w.lines

/-- Contents of file `name` after the write episodes `log` (oldest first),
starting from the contents `old`. -/
def fileContents {D : Type} (name : String) : List (FileWrite D) → List (Line D) → List (Line D)
  | [], old => old
  | w :: ws, old => fileContents name ws (if w.name = name then w.apply old else old)

/-- The open-and-write pattern shared by the CSV writers,

    if (time > 0) file.open(filename, std::fstream::app);
    else { file.open(filename); file << header << std::endl; }
    file << row << std::endl;
    file.close();

as one write episode.  Opening a file is taken to succeed. -/
def csvEpisode {D : Type} [LinearOrder D] [Zero D] (filename : String) (time : D)
    (header row : Line D) : FileWrite D :=
  if 0 < time then { name := filename, app := true, lines := [row] }
  else { name := filename, app := false, lines := [header, row] }

/-- The integers streamed into a line, in order. -/
def intsOf {D : Type} (l : Line D) : List Int :=
  l.filterMap (fun it => match it with
    | Item.int n => some n
    | _ => none)

/-- The `double` values streamed into a line, in order. -/
def realsOf {D : Type} (l : Line D) : List D :=
  l.filterMap (fun it => match it with
    | Item.real v => some v
    | _ => none)

/-- The fields of a line: the runs of items between occurrences of the
delimiter string. -/
def splitFields {D : Type} (delim : String) : Line D → List (Line D)
  | [] => [[]]
  | Item.str s :: rest =>
    if s = delim then [] :: splitFields delim rest
    else
      match splitFields delim rest with
      | [] => [[Item.str s]]
      | f :: fs => (Item.str s :: f) :: fs
  | it :: rest =>
    match splitFields delim rest with
    | [] => [[it]]
    | f :: fs => (it :: f) :: fs

/-- The line `v.x() << " " << v.y() << " " << v.z()` of a point. -/
def pointLine {D : Type} (v : ChVector D) : Line D :=
  [Item.real v.x, Item.str " ", Item.real v.y, Item.str " ", Item.real v.z]

/-- A point record of a VTK file: three reals separated by blanks. -/
def isPointRecord {D : Type} : Line D → Bool
  | [Item.real _, Item.str " ", Item.real _, Item.str " ", Item.real _] => true
  | _ => false

/-- The item is an integer value. -/
def Item.isInt {D : Type} : Item D → Bool
  | Item.int _ => true
  | _ => false

/-- A cell record of a VTK file with `k` point indices: the text `"k "`
followed by `k` integers separated by blanks. -/
def isCellRecord {D : Type} (k : Nat) (l : Line D) : Bool :=
  match l with
  | Item.str c :: rest =>
    decide (c = toString k ++ " ") && decide (rest.length + 1 = 2 * k) &&
      decide (rest.countP Item.isInt = k)
  | _ => false

/-- The line consists of the given text only. -/
def isTextLine {D : Type} (t : String) : Line D → Bool
  | [Item.str s] => decide (s = t)
  | _ => false

/-- The section keyword that a line of a VTK file starts with, if any. -/
def sectionOf {D : Type} : Line D → Option String
  | Item.str s :: _ =>
    if s = "POINTS " ∨ s = "CELLS " ∨ s = "POLYGONS " ∨ s = "CELL_TYPES " then some s else none
  | _ => none

/-- The section keywords of a VTK file, in the order in which they occur. -/
def sectionKeywords {D : Type} (lines : List (Line D)) : List String :=
  lines.filterMap sectionOf

/-- The file has a `POINTS` section, later a `CELLS` or a `POLYGONS` section,
and a `CELL_TYPES` section. -/
def HasPointsCellsTypes {D : Type} (lines : List (Line D)) : Prop :=
  (List.Sublist ["POINTS ", "CELLS "] (sectionKeywords lines) ∨
    List.Sublist ["POINTS ", "POLYGONS "] (sectionKeywords lines)) ∧
  "CELL_TYPES " ∈ sectionKeywords lines

/-- The line whose fields, separated by `delim`, are the given strings. -/
def fieldsNamed {D : Type} (names : List String) : List (Line D) :=
  names.map (fun n => [Item.str n])

/-- A header row begins with the given field names, in that order. -/
def BeginsWithFields {D : Type} (delim : String) (header : Line D) (names : List String) : Prop :=
  (splitFields delim header).take names.length = fieldsNamed names

/-! ## ChFsiInterface -/

/-- The class of a finite element of the FSI mesh, as far as the dynamic
casts of the interface tell: a `ChElementCableANCF`, a
`ChElementShellANCF_3423`, or another class. -/
inductive ChElement where
  | ChElementCableANCF
  | ChElementShellANCF_3423
  | other
  deriving DecidableEq, Repr

/-- Two `int` components `x`, `y`. -/
structure int2 where
  x : Int
  y : Int
  deriving DecidableEq, Repr, Inhabited

/-- Four `int` components `x`, `y`, `z`, `w`. -/
structure int4 where
  x : Int
  y : Int
  z : Int
  w : Int
  deriving DecidableEq, Repr, Inhabited

/-- The part of the state of `ChFsiInterface` and of the systems it refers to
that its member functions read or write.

* `bodylist` is `m_sysMBS.Get_bodylist()`, `ChTime` is `m_sysMBS.GetChTime()`;
* `fsi_mesh` holds the nodes of `m_fsi_mesh`;
* `fsi_bodies` is `m_fsi_bodies`: each shared pointer is given as the position
  of the body it points to in `bodylist`;
* `fsi_nodes` is `m_fsi_nodes.size()`;
* `rigid_FSI_ForcesD`, `rigid_FSI_TorquesD`, `Flex_FSI_ForcesD` are the force
  arrays of `m_sysFSI.fsiGeneralData`;
* `files` is the log of all file write episodes so far;
* `fsi_elements` gives the class of each element of `m_fsi_mesh`, in the
  order of `GetElement(i)`;
* `CableElementsNodesH` and `ShellElementsNodesH` are the connectivity tables
  of `m_sysFSI.fsiGeneralData`. -/
structure ChFsiInterface (D R3 R4 : Type) where
  bodylist : List (ChBody D)
  ChTime : D
  fsi_mesh : List (ChNodeFEAxyzD D)
  fsi_bodies : List Nat
  fsi_nodes : Nat
  rigid_backup : ChronoBodiesDataH R3 R4
  flex_backup : ChronoMeshDataH R3
  rigid_FSI_ForcesD : List R3
  rigid_FSI_TorquesD : List R3
  Flex_FSI_ForcesD : List R3
  output_fsi : Bool
  outdir : String
  files : List (FileWrite D)
  fsi_elements : List ChElement := []
  CableElementsNodesH : List int2 := []
  ShellElementsNodesH : List int4 := []

namespace ChFsiInterface

variable {D R3 R4 : Type}

/-- Message of the exception thrown by `Copy_External_To_ChSystem`. -/
def what_Copy_External_To_ChSystem : String :=
  "Size of the external data does not match the " ++
  "ChSystem; thrown from Copy_External_To_ChSystem " ++
  "!\n"

/-- Message of the exception thrown by `Copy_ChSystem_to_External`. -/
def what_Copy_ChSystem_to_External : String :=
  "Size of the external data does not match the " ++
  "ChSystem; thrown from Copy_ChSystem_to_External " ++
  "!\n"

/-- Body of the loop of `Copy_External_To_ChSystem`: body `i` receives the
`i`-th entry of each of the six backup buffers. -/
def Copy_External_To_ChSystem_body (cv : ChUtilsTypeConvert D R3 R4) (i : Nat)
    (s : ChFsiInterface D R3 R4) : Outcome (ChFsiInterface D R3 R4) :=
  match s.bodylist[i]?, s.rigid_backup.pos_ChSystemH[i]?, s.rigid_backup.vel_ChSystemH[i]?,
      s.rigid_backup.acc_ChSystemH[i]?, s.rigid_backup.quat_ChSystemH[i]?,
      s.rigid_backup.omegaVelGRF_ChSystemH[i]?, s.rigid_backup.omegaAccGRF_ChSystemH[i]? with
  | some mBody, some p, some v, some a, some q, some w, some wa =>
    Outcome.ok { s with
      bodylist := s.bodylist.set i { mBody with
        pos := cv.Real3ToChVector p
        pos_dt := cv.Real3ToChVector v
        pos_dtdt := cv.Real3ToChVector a
        rot := cv.Real4ToChQuaternion q
        wvel_par := cv.Real3ToChVector w
        wacc_par := cv.Real3ToChVector wa } }
  | _, _, _, _, _, _, _ => Outcome.stop Fault.out_of_range s

/-- Model of `ChFsiInterface::Copy_External_To_ChSystem`. -/
def Copy_External_To_ChSystem (cv : ChUtilsTypeConvert D R3 R4)
    (s : ChFsiInterface D R3 R4) : Outcome (ChFsiInterface D R3 R4) :=
  let numBodies := s.bodylist.length
  if s.rigid_backup.pos_ChSystemH.length ≠ numBodies then
    Outcome.stop (Fault.runtime_error what_Copy_External_To_ChSystem) s
  else
    forLoop (Copy_External_To_ChSystem_body cv) numBodies 0 s

/-- Assignment `buf[i] = v` into a buffer; `none` outside its bounds. -/
def assignAt {α : Type} (buf : List α) (i : Nat) (v : α) : Option (List α) :=
  if i < buf.length then some (buf.set i v) else none

/-- Body of the first loop of `Copy_ChSystem_to_External`: the state of body
`i` is stored at position `i` of each of the six backup buffers. -/
def Copy_ChSystem_to_External_body (cv : ChUtilsTypeConvert D R3 R4) (i : Nat)
    (s : ChFsiInterface D R3 R4) : Outcome (ChFsiInterface D R3 R4) :=
  match s.bodylist[i]? with
  | none => Outcome.stop Fault.out_of_range s
  | some mBody =>
    let b := s.rigid_backup
    match assignAt b.pos_ChSystemH i (cv.ChVectorToReal3 mBody.pos),
        assignAt b.vel_ChSystemH i (cv.ChVectorToReal3 mBody.pos_dt),
        assignAt b.acc_ChSystemH i (cv.ChVectorToReal3 mBody.pos_dtdt),
        assignAt b.quat_ChSystemH i (cv.ChQuaternionToReal4 mBody.rot),
        assignAt b.omegaVelGRF_ChSystemH i (cv.ChVectorToReal3 mBody.wvel_par),
        assignAt b.omegaAccGRF_ChSystemH i (cv.ChVectorToReal3 mBody.wacc_par) with
    | some p, some v, some a, some q, some w, some wa =>
      Outcome.ok { s with
        rigid_backup :=
          { pos_ChSystemH := p
            vel_ChSystemH := v
            acc_ChSystemH := a
            quat_ChSystemH := q
            omegaVelGRF_ChSystemH := w
            omegaAccGRF_ChSystemH := wa } }
    | _, _, _, _, _, _ => Outcome.stop Fault.out_of_range s

/-- Body of the second loop of `Copy_ChSystem_to_External`: the state of mesh
node `i` is stored at position `i` of each of the three flex backup buffers. -/
def Copy_ChSystem_to_External_node (cv : ChUtilsTypeConvert D R3 R4) (i : Nat)
    (s : ChFsiInterface D R3 R4) : Outcome (ChFsiInterface D R3 R4) :=
  match s.fsi_mesh[i]? with
  | none => Outcome.stop Fault.out_of_range s
  | some node =>
    let b := s.flex_backup
    match assignAt b.posFlex_ChSystemH_H i (cv.ChVectorToReal3 node.pos),
        assignAt b.velFlex_ChSystemH_H i (cv.ChVectorToReal3 node.pos_dt),
        assignAt b.accFlex_ChSystemH_H i (cv.ChVectorToReal3 node.pos_dtdt) with
    | some p, some v, some a =>
      Outcome.ok { s with
        flex_backup :=
          { posFlex_ChSystemH_H := p
            velFlex_ChSystemH_H := v
            accFlex_ChSystemH_H := a } }
    | _, _, _ => Outcome.stop Fault.out_of_range s

/-- Model of `ChFsiInterface::Copy_ChSystem_to_External`. -/
def Copy_ChSystem_to_External [Inhabited R3] [Inhabited R4] (cv : ChUtilsTypeConvert D R3 R4)
    (s : ChFsiInterface D R3 R4) : Outcome (ChFsiInterface D R3 R4) :=
  let numBodies := s.bodylist.length
  if s.rigid_backup.pos_ChSystemH.length ≠ numBodies then
    Outcome.stop (Fault.runtime_error what_Copy_ChSystem_to_External) s
  else
    let s1 := { s with rigid_backup := s.rigid_backup.resize numBodies }
    match forLoop (Copy_ChSystem_to_External_body cv) numBodies 0 s1 with
    | ⟨some f, s2⟩ => ⟨some f, s2⟩
    | ⟨none, s2⟩ =>
      let numNodes := s2.fsi_mesh.length
      forLoop (Copy_ChSystem_to_External_node cv) numNodes 0 s2

/-- Message of the exception thrown by `ResizeChronoCablesData`. -/
def what_ResizeChronoCablesData : String :=
  "Size of the external data does not match the " ++
  "ChSystem; thrown from ChFsiInterface::ResizeChronoCableData " ++
  "!\n"

/-- Message of the exception thrown by `ResizeChronoShellsData`. -/
def what_ResizeChronoShellsData : String :=
  "Size of the external data does not match the " ++
  "ChSystem; thrown from ChFsiInterface::ResizeChronoShellsData " ++
  "!\n"

/-- The pair `(e[0], e[1])` read from an entry of the connectivity list;
`none` when an index is outside the entry. -/
def cableEntry (e : List Int) : Option int2 :=
  match e[0]?, e[1]? with
  | some a, some b => some ⟨a, b⟩
  | _, _ => none

/-- The quadruple `(e[0], e[1], e[2], e[3])` read from an entry of the
connectivity list; `none` when an index is outside the entry. -/
def shellEntry (e : List Int) : Option int4 :=
  match e[0]?, e[1]?, e[2]?, e[3]? with
  | some a, some b, some c, some d => some ⟨a, b, c, d⟩
  | _, _, _, _ => none

/-- Body of the loop of `ResizeChronoCablesData`: the components `x`, `y` of
entry `i` of the table receive `v[i][0]`, `v[i][1]`. -/
def ResizeChronoCablesData_body (CableElementsNodesSTDVector : List (List Int)) (i : Nat)
    (s : ChFsiInterface D R3 R4) : Outcome (ChFsiInterface D R3 R4) :=
  match CableElementsNodesSTDVector[i]? with
  | none => Outcome.stop Fault.out_of_range s
  | some e =>
    match cableEntry e with
    | none => Outcome.stop Fault.out_of_range s
    | some xy =>
      match assignAt s.CableElementsNodesH i xy with
      | none => Outcome.stop Fault.out_of_range s
      | some t => Outcome.ok { s with CableElementsNodesH := t }

/-- Model of `ChFsiInterface::ResizeChronoCablesData`; `numCables` counts the elements
of the mesh that are of class `ChElementCableANCF`. -/
def ResizeChronoCablesData (CableElementsNodesSTDVector : List (List Int))
    (s : ChFsiInterface D R3 R4) : Outcome (ChFsiInterface D R3 R4) :=
  let numCables := s.fsi_elements.countP (fun e => decide (e = ChElement.ChElementCableANCF))
  if CableElementsNodesSTDVector.length ≠ numCables then
    Outcome.stop (Fault.runtime_error what_ResizeChronoCablesData) s
  else
    forLoop (ResizeChronoCablesData_body CableElementsNodesSTDVector) numCables 0
      { s with CableElementsNodesH := resizeList default numCables s.CableElementsNodesH }

/-- Body of the loop of `ResizeChronoShellsData`: the components `x`, `y`,
`z`, `w` of entry `i` of the table receive `v[i][0]`, ..., `v[i][3]`. -/
def ResizeChronoShellsData_body (ShellElementsNodesSTDVector : List (List Int)) (i : Nat)
    (s : ChFsiInterface D R3 R4) : Outcome (ChFsiInterface D R3 R4) :=
  match ShellElementsNodesSTDVector[i]? with
  | none => Outcome.stop Fault.out_of_range s
  | some e =>
    match shellEntry e with
    | none => Outcome.stop Fault.out_of_range s
    | some xyzw =>
      match assignAt s.ShellElementsNodesH i xyzw with
      | none => Outcome.stop Fault.out_of_range s
      | some t => Outcome.ok { s with ShellElementsNodesH := t }

/-- Model of `ChFsiInterface::ResizeChronoShellsData`; `numShells` counts the elements
of the mesh that are of class `ChElementShellANCF_3423`. -/
def ResizeChronoShellsData (ShellElementsNodesSTDVector : List (List Int))
    (s : ChFsiInterface D R3 R4) : Outcome (ChFsiInterface D R3 R4) :=
  let numShells :=
    s.fsi_elements.countP (fun e => decide (e = ChElement.ChElementShellANCF_3423))
  if ShellElementsNodesSTDVector.length ≠ numShells then
    Outcome.stop (Fault.runtime_error what_ResizeChronoShellsData) s
  else
    forLoop (ResizeChronoShellsData_body ShellElementsNodesSTDVector) numShells 0
      { s with ShellElementsNodesH := resizeList default numShells s.ShellElementsNodesH }

/-- The variable `delim` of the CSV writers. -/
def delim : String := ","

/-- Header row of `FSI_body<i>.csv`. -/
def FSI_body_header : Line D :=
  [Item.str "Time", Item.str delim, Item.str "x", Item.str delim, Item.str "y", Item.str delim,
   Item.str "z", Item.str delim, Item.str "q0", Item.str delim, Item.str "q1",
   Item.str delim, Item.str "q2", Item.str delim, Item.str "q3", Item.str delim, Item.str "Vx",
   Item.str delim, Item.str "Vy", Item.str delim, Item.str "Vz", Item.str delim,
   Item.str "Fx", Item.str delim, Item.str "Fy", Item.str delim, Item.str "Fz", Item.str delim,
   Item.str "Tx", Item.str delim, Item.str "Ty", Item.str delim, Item.str "Tz"]

/-- Data row of `FSI_body<i>.csv`. -/
def FSI_body_row (time : D) (pos : ChVector D) (rot : ChQuaternion D) (vel mforce mtorque : ChVector D) :
    Line D :=
  [Item.real time, Item.str delim, Item.real pos.x, Item.str delim, Item.real pos.y, Item.str delim,
   Item.real pos.z, Item.str delim,
   Item.real rot.e0, Item.str delim, Item.real rot.e1, Item.str delim, Item.real rot.e2,
   Item.str delim, Item.real rot.e3, Item.str delim, Item.real vel.x, Item.str delim,
   Item.real vel.y, Item.str delim, Item.real vel.z, Item.str delim, Item.real mforce.x,
   Item.str delim, Item.real mforce.y, Item.str delim, Item.real mforce.z,
   Item.str delim, Item.real mtorque.x, Item.str delim, Item.real mtorque.y, Item.str delim,
   Item.real mtorque.z]

/-- Name of the CSV file of FSI body `i`. -/
def FSI_body_filename (outdir : String) (i : Nat) : String :=
  outdir ++ "/FSI_body" ++ toString i ++ ".csv"

/-- Body of the loop of `Add_Rigid_ForceTorques_To_ChSystem` for FSI body `i`.
The local sums `totalForce` and `totalTorque` are never read and are left out. -/
def Add_Rigid_ForceTorques_To_ChSystem_body [LinearOrder D] [Zero D]
    (cv : ChUtilsTypeConvert D R3 R4) (acc : ChBodyAccumulators D) (i : Nat)
    (s : ChFsiInterface D R3 R4) : Outcome (ChFsiInterface D R3 R4) :=
  match s.rigid_FSI_ForcesD[i]?, s.rigid_FSI_TorquesD[i]?, s.fsi_bodies[i]? with
  | some F, some T, some r =>
    match s.bodylist[r]? with
    | none => Outcome.stop Fault.out_of_range s
    | some body0 =>
      let mforce := cv.Real3ToChVector F
      let mtorque := cv.Real3ToChVector T
      let body1 := acc.Empty_forces_accumulators body0
      let body2 := acc.Accumulate_force mforce body1.pos false body1
      let body := acc.Accumulate_torque mtorque false body2
      let s1 := { s with bodylist := s.bodylist.set r body }
      if s1.output_fsi then
        let pos := body.pos
        let vel := body.pos_dt
        let rot := body.rot
        let filename := FSI_body_filename s1.outdir i
        Outcome.ok { s1 with
          files := s1.files ++
            [csvEpisode filename s1.ChTime FSI_body_header
              (FSI_body_row s1.ChTime pos rot vel mforce mtorque)] }
      else Outcome.ok s1
  | _, _, _ => Outcome.stop Fault.out_of_range s

/-- Header row of `FSI_node<i>.csv`. -/
def FSI_node_header : Line D :=
  [Item.str "Time", Item.str delim, Item.str "x", Item.str delim, Item.str "y", Item.str delim,
   Item.str "z", Item.str delim, Item.str "Vx", Item.str delim, Item.str "Vy",
   Item.str delim, Item.str "Vz", Item.str delim, Item.str "Fx", Item.str delim, Item.str "Fy",
   Item.str delim, Item.str "Fz"]

/-- Data row of `FSI_node<i>.csv`. -/
def FSI_node_row (time : D) (pos vel mforce : ChVector D) : Line D :=
  [Item.real time, Item.str delim, Item.real pos.x, Item.str delim, Item.real pos.y, Item.str delim,
   Item.real pos.z, Item.str delim, Item.real vel.x,
   Item.str delim, Item.real vel.y, Item.str delim, Item.real vel.z, Item.str delim,
   Item.real mforce.x, Item.str delim, Item.real mforce.y, Item.str delim,
   Item.real mforce.z]

/-- Name of the CSV file of mesh node `i`. -/
def FSI_node_filename (outdir : String) (i : Nat) : String :=
  outdir ++ "/FSI_node" ++ toString i ++ ".csv"

/-- Body of the loop of `Add_Flex_Forces_To_ChSystem` for node `i`. -/
def Add_Flex_Forces_To_ChSystem_body [LinearOrder D] [Zero D]
    (cv : ChUtilsTypeConvert D R3 R4) (i : Nat)
    (s : ChFsiInterface D R3 R4) : Outcome (ChFsiInterface D R3 R4) :=
  match s.Flex_FSI_ForcesD[i]?, s.fsi_mesh[i]? with
  | some F, some node0 =>
    let mforce := cv.Real3ToChVector F
    let node := { node0 with force := mforce }
    let s1 := { s with fsi_mesh := s.fsi_mesh.set i node }
    if s1.output_fsi then
      let pos := node.pos
      let vel := node.pos_dt
      let filename := FSI_node_filename s1.outdir i
      Outcome.ok { s1 with
        files := s1.files ++
          [csvEpisode filename s1.ChTime FSI_node_header
            (FSI_node_row s1.ChTime pos vel mforce)] }
    else Outcome.ok s1
  | _, _ => Outcome.stop Fault.out_of_range s

/-- Model of `ChFsiInterface::Add_Flex_Forces_To_ChSystem`. -/
def Add_Flex_Forces_To_ChSystem [LinearOrder D] [Zero D]
    (cv : ChUtilsTypeConvert D R3 R4)
    (s : ChFsiInterface D R3 R4) : Outcome (ChFsiInterface D R3 R4) :=
  let numNodes := s.fsi_nodes
  forLoop (Add_Flex_Forces_To_ChSystem_body cv) numNodes 0 s

end ChFsiInterface

/-- Largest value of a C++ `int`. -/
def INT_MAX : Int := 2147483647

/-! ## Decimal numerals -/

/-- Value of a decimal digit character. -/
def digitValue (c : Char) : Nat := c.toNat - 48

/-- Value of a string of decimal digits. -/
def decimalValue (cs : List Char) : Nat :=
  cs.foldl (fun acc c => 10 * acc + digitValue c) 0

/-! ## Runs of the demo programs -/

/-- What a demo program does that is visible from outside, in order. -/
inductive Event (D : Type) where
  /-- Call of `filesystem::create_directory` on a path. -/
  | create_directory (path : String)
  /-- A line printed to `std::cerr`. -/
  | cerr (text : String)
  /-- A line printed to `std::cout` (the literal text; streamed values are not
  recorded). -/
  | cout (text : String)
  /-- A call into the simulation engine that only configures or queries it. -/
  | engine (call : String)
  /-- `sysFSI.ReadParametersFromFile(inputJson)`. -/
  | ReadParametersFromFile (inputJson : String)
  /-- `sysFSI.PrintParticleToFile(dir)`. -/
  | PrintParticleToFile (dir : String)
  /-- `WriteCylinderVTK(filename, ..., res)`. -/
  | WriteCylinderVTK (filename : String) (res : Nat)
  /-- `fea::ChMeshExporter::writeFrame(my_mesh, filename, MESH_CONNECTIVITY)`. -/
  | writeFrame (filename : String) (connectivity : String)
  /-- `SaveParaViewFiles(sysFSI, sysMBS, time)`. -/
  | SaveParaViewFiles (mTime : D)
  /-- `ofile.open(path)`, `ofile << time << ...` and `ofile.close()`. -/
  | ofile_open (path : String)
  | ofile_line (time : D)
  | ofile_close
  /-- `rover->Update()`. -/
  | Update
  /-- `fsi_vis.Render()` and its result. -/
  | Render (result : Bool)
  /-- `sysFSI.DoStepDynamics_FSI()`. -/
  | DoStepDynamics_FSI
  deriving DecidableEq, Repr

/-- How far a run got. -/
inductive Status where
  /-- `main` returned with the given status. -/
  | returned (code : Int)
  /-- The run was stopped by a fault. -/
  | faulted (f : Fault)
  /-- The run is still inside the simulation loop after the number of
  iterations that were followed. -/
  | running
  deriving DecidableEq, Repr

/-- The events of a run and how far it got. -/
structure Run (D : Type) where
  trace : List (Event D)
  status : Status

/-- What the main programs take from outside.

* `GetChronoOutputPath` and `GetChronoDataFile` give the output root and the
  path of a data file;
* `create_directory path` is the result of `filesystem::create_directory`;
* `GetStepSize json` is `sysFSI.GetStepSize()` after the parameters were read
  from `json`;
* `steps fps dT` is `(unsigned int)(1 / (fps * dT))`;
* `Render n` is the result of `fsi_vis.Render()` in iteration `n`;
* `t_end`, `out_fps`, `render_fps` are the values of the globals of that
  name (for the Viper demo `t_end` is `total_time`, and `dT` the global `dT`). -/
structure MainEnv (D : Type) where
  GetChronoOutputPath : String
  GetChronoDataFile : String → String
  create_directory : String → Bool
  GetStepSize : String → D
  steps : D → D → Nat
  Render : Nat → Bool
  t_end : D
  out_fps : D
  render_fps : D
  dT : D

/-- The event is a `ReadParametersFromFile`. -/
def Event.isRead {D : Type} : Event D → Bool
  | Event.ReadParametersFromFile _ => true
  | _ => false

/-- The event is a simulation step. -/
def Event.isStep {D : Type} : Event D → Bool
  | Event.DoStepDynamics_FSI => true
  | _ => false

/-- The event is a directory creation. -/
def Event.isCreate {D : Type} : Event D → Bool
  | Event.create_directory _ => true
  | _ => false

/-- File name of a per-frame VTK output event of the FSI demos. -/
def Event.frameFile {D : Type} : Event D → Option String
  | Event.WriteCylinderVTK filename _ => some filename
  | Event.writeFrame filename _ => some filename
  | _ => none

/-- Value of an expression of type `unsigned int` (32 bits). -/
def u32 (n : Int) : Int := n % 4294967296

/-! ## demo_FSI_CylinderDrop: WriteCylinderVTK -/

namespace demo_FSI_CylinderDrop

variable {D : Type}

/-- The operations on `double` and on frames used by `WriteCylinderVTK`:
product, quotient, `cos`, `sin`, conversion of an integer, the literal
`3.1415`, and `ChFrame::TransformPointLocalToParent`. -/
structure DoubleOps (D : Type) where
  mul : D → D → D
  div : D → D → D
  cos : D → D
  sin : D → D
  ofInt : Int → D
  c3_1415 : D
  TransformPointLocalToParent : ChFrame D → ChVector D → ChVector D

/-- The point `ChVector<>(radius * cos(2 * i * 3.1415 / res), side * length / 2,
radius * sin(2 * i * 3.1415 / res))` of a ring in the local frame; `side` is
`-1` or `+1`. -/
def ringPoint (ops : DoubleOps D) (radius length : D) (side : Int) (res : Nat) (i : Int) :
    ChVector D :=
  let angle := ops.div (ops.mul (ops.ofInt (2 * i)) ops.c3_1415) (ops.ofInt res)
  ⟨ops.mul radius (ops.cos angle),
   ops.div (ops.mul (ops.ofInt side) length) (ops.ofInt 2),
   ops.mul radius (ops.sin angle)⟩

/-- A cell line `"4 " << a << " " << b << " " << c << " " << d`. -/
def quadLine (a b c d : Int) : Line D :=
  [Item.str "4 ", Item.int a, Item.str " ", Item.int b, Item.str " ", Item.int c, Item.str " ",
   Item.int d]

/-- The point lines written by the two loops over the rings of
`WriteCylinderVTK`: first the ring with `-1 * length / 2`, then the ring with
`+1 * length / 2`. -/
def cylinderPoints (ops : DoubleOps D) (radius length : D) (frame : ChFrame D) (res : Nat) :
    List (Line D) :=
  (List.range res).map (fun (i : Nat) =>
      pointLine (ops.TransformPointLocalToParent frame (ringPoint ops radius length (-1) res i)))
  ++ (List.range res).map (fun (i : Nat) =>
      pointLine (ops.TransformPointLocalToParent frame (ringPoint ops radius length 1 res i)))

/-- The cell lines written by `WriteCylinderVTK`, in the order of the source.
Expressions that involve the `unsigned int` `res` are evaluated in
`unsigned int`. -/
def cylinderCells (res : Nat) : List (Line D) :=
  let r : Int := res
  (List.range (u32 (r - 1)).toNat).map (fun (i : Nat) =>
      quadLine i (i + 1) (u32 (i + r + 1)) (u32 (i + r)))
  ++ [quadLine (u32 (r - 1)) 0 r (u32 (2 * r - 1))]
  ++ (List.range (res / 4)).map (fun (i : Nat) =>
      quadLine i (i + 1) (u32 (r / 2 - i - 1)) (u32 (r / 2 - i)))
  ++ (List.range (res / 4)).map (fun (i : Nat) =>
      quadLine (u32 (i + r)) (u32 (i + 1 + r)) (u32 (r / 2 - i - 1 + r)) (u32 (r / 2 - i + r)))
  ++ [quadLine (r / 2) (u32 (1 + r / 2)) (u32 (r - 1)) 0]
  ++ (List.range (res / 4 - 1)).map (fun (j : Nat) =>
      let i : Int := j + 1
      quadLine (u32 (i + r / 2)) (u32 (i + 1 + r / 2)) (u32 (r / 2 - i - 1 + r / 2))
        (u32 (r / 2 - i + r / 2)))
  ++ [quadLine (u32 (3 * r) / 2) (u32 (1 + u32 (3 * r) / 2)) (u32 (2 * r - 1)) r]
  ++ (List.range (res / 4 - 1)).map (fun (j : Nat) =>
      let i : Int := j + 1
      quadLine (u32 (i + u32 (3 * r) / 2)) (u32 (i + 1 + u32 (3 * r) / 2)) (u32 (2 * r - i - 1))
        (u32 (2 * r - i)))

/-- The lines that `WriteCylinderVTK` streams into the file.  The loop
counters are C++ `int`s compared with the `unsigned int` `res`; the loops are
given for the resolutions at which no `int` computation overflows. -/
def cylinderVTK (ops : DoubleOps D) (radius length : D) (frame : ChFrame D) (res : Nat) :
    List (Line D) :=
  let r : Int := res
  [[Item.str "# vtk DataFile Version 1.0"],
   [Item.str "Unstructured Grid Example"],
   [Item.str "ASCII"],
   [],
   [],
   [Item.str "DATASET UNSTRUCTURED_GRID"],
   [Item.str "POINTS ", Item.int (u32 (2 * r)), Item.str " float"]]
  ++ cylinderPoints ops radius length frame res
  ++ [[], [],
      [Item.str "CELLS ", Item.int (u32 (r + r)), Item.str "\t", Item.int (u32 (5 * u32 (r + r)))]]
  ++ cylinderCells res
  ++ [[], [Item.str "CELL_TYPES ", Item.int (u32 (r + r))]]
  ++ (List.range (u32 (r + r)).toNat).map (fun _ => [Item.str "9"])

/-- Model of `WriteCylinderVTK(filename, radius, length, frame, res)` as a write
episode: the file is opened with `std::ios::app`. -/
def WriteCylinderVTK (ops : DoubleOps D) (filename : String) (radius length : D)
    (frame : ChFrame D) (res : Nat) : FileWrite D :=
  { name := filename, app := true, lines := cylinderVTK ops radius length frame res }

/-- Global `output`. -/
def output : Bool := true

/-- Global `render`. -/
def render : Bool := true

/-- The variables of the simulation loop of `main`: `time`, `current_step`,
the function-static `counter`, and the number of loop iterations so far. -/
structure LoopState (D : Type) where
  time : D
  current_step : Int
  counter : Int
  iteration : Nat

/-- One iteration of the body of the simulation loop of `main`: the events
of the iteration and either the status with which the run ends in it (a fault,
or `return 0` after `break`) or the variables for the next iteration. -/
def loopBody [Add D] (env : MainEnv D) (out_dir : String) (dT : D)
    (output_steps render_steps : Nat) (st : LoopState D) :
    List (Event D) × (Status ⊕ LoopState D) :=
  let t1 : List (Event D) := [Event.cout "step: ", Event.cout "   box: ", Event.cout "   cyl: "]
  if output_steps = 0 then (t1, Sum.inl (Status.faulted Fault.division_by_zero))
  else if output = true ∧ st.current_step % output_steps = 0 ∧ st.counter = INT_MAX then
    (t1 ++ [Event.cout "-------- Output", Event.PrintParticleToFile (out_dir ++ "/particles")],
      Sum.inl (Status.faulted Fault.signed_overflow))
  else
    let doOutput : Bool := output && decide (st.current_step % output_steps = 0)
    let t2 : List (Event D) :=
      if doOutput then
        [Event.cout "-------- Output", Event.PrintParticleToFile (out_dir ++ "/particles"),
         Event.WriteCylinderVTK (out_dir ++ "/vtk/cylinder." ++ toString st.counter ++ ".vtk") 100]
      else []
    let counter := if doOutput then st.counter + 1 else st.counter
    if render_steps = 0 then (t1 ++ t2, Sum.inl (Status.faulted Fault.division_by_zero))
    else if render = true ∧ st.current_step % render_steps = 0 ∧ env.Render st.iteration = false
    then
      (t1 ++ t2 ++ [Event.Render false, Event.cout "Simulation time: "],
        Sum.inl (Status.returned 0))
    else
      let t3 : List (Event D) :=
        if render = true ∧ st.current_step % render_steps = 0 then [Event.Render true] else []
      if st.current_step = INT_MAX then
        (t1 ++ t2 ++ t3 ++ [Event.DoStepDynamics_FSI],
          Sum.inl (Status.faulted Fault.signed_overflow))
      else
        (t1 ++ t2 ++ t3 ++ [Event.DoStepDynamics_FSI],
          Sum.inr { time := st.time + dT, current_step := st.current_step + 1,
                    counter := counter, iteration := st.iteration + 1 })

/-- The simulation loop `while (time < t_end) { ... }` of `main`, followed for
at most `fuel` iterations, and the end of `main` after it. -/
def mainLoop [LinearOrder D] [Add D] (env : MainEnv D) (out_dir : String) (dT : D)
    (output_steps render_steps : Nat) : Nat → LoopState D → Run D
  | 0, _ => ⟨[], Status.running⟩
  | fuel + 1, st =>
    if st.time < env.t_end then
      match loopBody env out_dir dT output_steps render_steps st with
      | (t, Sum.inl status) => ⟨t, status⟩
      | (t, Sum.inr st1) =>
        let rest := mainLoop env out_dir dT output_steps render_steps fuel st1
        ⟨t ++ rest.trace, rest.status⟩
    else ⟨[Event.cout "Simulation time: "], Status.returned 0⟩

/-- The part of `main` from `sysFSI.ReadParametersFromFile(inputJson)` on;
`t` holds the events before it. -/
def mainFromRead [LinearOrder D] [Add D] [Zero D] (env : MainEnv D) (out_dir : String)
    (t : List (Event D)) (inputJson : String) (fuel : Nat) : Run D :=
  let dT := env.GetStepSize inputJson
  let output_steps := env.steps env.out_fps dT
  let render_steps := env.steps env.render_fps dT
  let rest := mainLoop env out_dir dT output_steps render_steps fuel
    { time := 0, current_step := 0, counter := 0, iteration := 0 }
  ⟨t ++ [Event.ReadParametersFromFile inputJson,
      Event.engine "SetBoundaries", Event.engine "SetOutputDirectory",
      Event.engine "SampleBox", Event.engine "AddSPHParticle (each sampled point)",
      Event.engine "CreateSolidPhase", Event.engine "Initialize",
      Event.engine "SetTimestepperType", Event.engine "ChVisualizationFsi"]
    ++ rest.trace, rest.status⟩

/-- Model of `main(argc, argv)` of demo_FSI_CylinderDrop; `argc` is the length of
`argv`, and the simulation loop is followed for at most `fuel` iterations. -/
def main [LinearOrder D] [Add D] [Zero D] (env : MainEnv D) (argv : List String) (fuel : Nat) :
    Run D :=
  let argc := argv.length
  let out_dir := env.GetChronoOutputPath ++ "FSI_Cylinder_Drop/"
  if env.create_directory out_dir = false then
    ⟨[Event.create_directory out_dir, Event.cerr ("Error creating directory " ++ out_dir)],
      Status.returned 1⟩
  else if env.create_directory (out_dir ++ "/particles") = false then
    ⟨[Event.create_directory out_dir, Event.create_directory (out_dir ++ "/particles"),
      Event.cerr ("Error creating directory " ++ out_dir ++ "/particles")], Status.returned 1⟩
  else if env.create_directory (out_dir ++ "/vtk") = false then
    ⟨[Event.create_directory out_dir, Event.create_directory (out_dir ++ "/particles"),
      Event.create_directory (out_dir ++ "/vtk"),
      Event.cerr ("Error creating directory " ++ out_dir ++ "/vtk")], Status.returned 1⟩
  else
    let t0 : List (Event D) :=
      [Event.create_directory out_dir, Event.create_directory (out_dir ++ "/particles"),
       Event.create_directory (out_dir ++ "/vtk"),
       Event.engine "ChSystemSMC sysMBS", Event.engine "ChSystemFsi sysFSI(sysMBS)"]
    let inputJson := env.GetChronoDataFile "fsi/input_json/demo_FSI_CylinderDrop_Explicit.json"
    if argc = 1 then
      mainFromRead env out_dir (t0 ++ [Event.cout "Use the default JSON file"]) inputJson fuel
    else if argc = 2 then
      let my_inputJson := argv.getD 1 ""
      let inputJson := my_inputJson
      mainFromRead env out_dir (t0 ++ [Event.cout "Use the specified JSON file"]) inputJson fuel
    else
      ⟨t0 ++ [Event.cout "usage: ./demo_FSI_CylinderDrop <json_file>"], Status.returned 1⟩

end demo_FSI_CylinderDrop

/-! ## demo_FSI_Flexible_Toroidal_Tire: main -/

namespace demo_FSI_Flexible_Toroidal_Tire

variable {D : Type}

/-- Global `output`. -/
def output : Bool := true

/-- Global `render`. -/
def render : Bool := true

/-- The variables of the simulation loop of `main`: `time`, `current_step`,
the function-static `counter`, and the number of loop iterations so far. -/
structure LoopState (D : Type) where
  time : D
  current_step : Int
  counter : Int
  iteration : Nat

/-- One iteration of the body of the simulation loop of `main`: the events
of the iteration and either the status with which the run ends in it (a fault,
or `return 0` after `break`) or the variables for the next iteration. -/
def loopBody [Add D] (env : MainEnv D) (out_dir : String) (dT : D)
    (output_steps render_steps : Nat) (st : LoopState D) :
    List (Event D) × (Status ⊕ LoopState D) :=
  let MESH_CONNECTIVITY := out_dir ++ "Flex_MESH.vtk"
  let t1 : List (Event D) := [Event.cout " time: "]
  if output_steps = 0 then (t1, Sum.inl (Status.faulted Fault.division_by_zero))
  else if output = true ∧ st.current_step % output_steps = 0 ∧ st.counter = INT_MAX then
    (t1 ++ [Event.cout "-------- Output", Event.PrintParticleToFile (out_dir ++ "/particles")],
      Sum.inl (Status.faulted Fault.signed_overflow))
  else
    let doOutput : Bool := output && decide (st.current_step % output_steps = 0)
    let t2 : List (Event D) :=
      if doOutput then
        [Event.cout "-------- Output", Event.PrintParticleToFile (out_dir ++ "/particles"),
         Event.writeFrame (out_dir ++ "/vtk/flex_body." ++ toString st.counter ++ ".vtk")
             MESH_CONNECTIVITY]
      else []
    let counter := if doOutput then st.counter + 1 else st.counter
    if render_steps = 0 then (t1 ++ t2, Sum.inl (Status.faulted Fault.division_by_zero))
    else if render = true ∧ st.current_step % render_steps = 0 ∧ env.Render st.iteration = false
    then
      (t1 ++ t2 ++ [Event.Render false, Event.cout "Simulation time: "],
        Sum.inl (Status.returned 0))
    else
      let t3 : List (Event D) :=
        if render = true ∧ st.current_step % render_steps = 0 then [Event.Render true] else []
      if st.current_step = INT_MAX then
        (t1 ++ t2 ++ t3 ++ [Event.DoStepDynamics_FSI],
          Sum.inl (Status.faulted Fault.signed_overflow))
      else
        (t1 ++ t2 ++ t3 ++ [Event.DoStepDynamics_FSI],
          Sum.inr { time := st.time + dT, current_step := st.current_step + 1,
                    counter := counter, iteration := st.iteration + 1 })

/-- The simulation loop `while (time < t_end) { ... }` of `main`, followed for
at most `fuel` iterations, and the end of `main` after it. -/
def mainLoop [LinearOrder D] [Add D] (env : MainEnv D) (out_dir : String) (dT : D)
    (output_steps render_steps : Nat) : Nat → LoopState D → Run D
  | 0, _ => ⟨[], Status.running⟩
  | fuel + 1, st =>
    if st.time < env.t_end then
      match loopBody env out_dir dT output_steps render_steps st with
      | (t, Sum.inl status) => ⟨t, status⟩
      | (t, Sum.inr st1) =>
        let rest := mainLoop env out_dir dT output_steps render_steps fuel st1
        ⟨t ++ rest.trace, rest.status⟩
    else ⟨[Event.cout "Simulation time: "], Status.returned 0⟩

/-- The part of `main` from `sysFSI.ReadParametersFromFile(inputJson)` on;
`t` holds the events before it. -/
def mainFromRead [LinearOrder D] [Add D] [Zero D] (env : MainEnv D) (out_dir : String)
    (t : List (Event D)) (inputJson : String) (fuel : Nat) : Run D :=
  let dT := env.GetStepSize inputJson
  let output_steps := env.steps env.out_fps dT
  let render_steps := env.steps env.render_fps dT
  let rest := mainLoop env out_dir dT output_steps render_steps fuel
    { time := 0, current_step := 0, counter := 0, iteration := 0 }
  ⟨t ++ [Event.ReadParametersFromFile inputJson,
      Event.engine "SetContainerDim", Event.engine "SetBoundaries",
      Event.engine "SetOutputDirectory", Event.engine "SampleBox",
      Event.engine "AddSPHParticle (each sampled point)", Event.engine "Create_MB_FE",
      Event.engine "Initialize", Event.engine "GetFsiMesh",
      Event.engine "ChVisualizationFsi", Event.engine "SetSolver"]
    ++ rest.trace, rest.status⟩

/-- Model of `main(argc, argv)` of demo_FSI_Flexible_Toroidal_Tire; `argc` is the
length of `argv`, and the simulation loop is followed for at most `fuel`
iterations. -/
def main [LinearOrder D] [Add D] [Zero D] (env : MainEnv D) (argv : List String) (fuel : Nat) :
    Run D :=
  let argc := argv.length
  let out_dir := env.GetChronoOutputPath ++ "FSI_Flexible_Toroidal_Tire/"
  if env.create_directory out_dir = false then
    ⟨[Event.create_directory out_dir, Event.cerr ("Error creating directory " ++ out_dir)],
      Status.returned 1⟩
  else if env.create_directory (out_dir ++ "/particles") = false then
    ⟨[Event.create_directory out_dir, Event.create_directory (out_dir ++ "/particles"),
      Event.cerr ("Error creating directory " ++ out_dir ++ "/particles")], Status.returned 1⟩
  else if env.create_directory (out_dir ++ "/vtk") = false then
    ⟨[Event.create_directory out_dir, Event.create_directory (out_dir ++ "/particles"),
      Event.create_directory (out_dir ++ "/vtk"),
      Event.cerr ("Error creating directory " ++ out_dir ++ "/vtk")], Status.returned 1⟩
  else
    let t0 : List (Event D) :=
      [Event.create_directory out_dir, Event.create_directory (out_dir ++ "/particles"),
       Event.create_directory (out_dir ++ "/vtk"),
       Event.engine "ChSystemSMC sysMBS", Event.engine "ChSystemFsi sysFSI(sysMBS)"]
    let inputJson := env.GetChronoDataFile "fsi/input_json/demo_FSI_Flexible_Elements_Explicit.json"
    if argc = 1 then
      mainFromRead env out_dir (t0 ++ [Event.cout "Use the default JSON file"]) inputJson fuel
    else if argc = 2 then
      let my_inputJson := argv.getD 1 ""
      let inputJson := my_inputJson
      mainFromRead env out_dir (t0 ++ [Event.cout "Use the specified JSON file"]) inputJson fuel
    else
      ⟨t0 ++ [Event.cout "usage: ./demo_FSI_Flexible_Elements <json_file>"], Status.returned 1⟩

end demo_FSI_Flexible_Toroidal_Tire

/-! ## demo_ROBOT_Viper_SPH: SaveParaViewFiles -/

namespace demo_ROBOT_Viper_SPH

variable {D : Type}

/-- Global `save_obj`: if true, save as Wavefront OBJ; if false, save as VTK. -/
def save_obj : Bool := false

/-- The four wheel positions of the rover. -/
inductive ViperWheelID where
  | V_LF
  | V_RF
  | V_LB
  | V_RB
  deriving DecidableEq, Repr

/-- The chain `if (i == 0) ... V_LF; if (i == 1) ... V_RF; if (i == 2) ... V_LB;
if (i == 3) ... V_RB` that picks the part of wheel position `i`. -/
def wheelID : Nat → ViperWheelID
  | 0 => ViperWheelID.V_LF
  | 1 => ViperWheelID.V_RF
  | 2 => ViperWheelID.V_LB
  | _ => ViperWheelID.V_RB

/-- A triangle mesh: `getCoordsVertices()` and `getIndicesVertexes()`. -/
structure ChTriangleMeshConnected (D : Type) where
  CoordsVertices : List (ChVector D)
  IndicesVertexes : List (ChVector Int)

/-- The bodies of the rover that are saved: `GetChassis()`, `GetWheel(id)`,
`GetUpright(id)`, `GetLowerArm(id)`, `GetUpperArm(id)`, each followed by
`GetBody()`. -/
structure Viper (D : Type) where
  Chassis : ChBody D
  Wheel : ViperWheelID → ChBody D
  Upright : ViperWheelID → ChBody D
  LowerArm : ViperWheelID → ChBody D
  UpperArm : ViperWheelID → ChBody D

/-- What `SaveParaViewFiles` takes from outside the repository.

* `out_dir` is the global `out_dir`;
* `mesh path pos rot` is the mesh obtained by `LoadWavefrontMesh(path)`,
  `Transform` (scale 1), `RepairDuplicateVertexes`, `ComputeMassProperties`
  and `Transform(pos, rot)`;
* `Cross_AngZ_PI rot` is the value of `rot` after
  `rot.Cross(rot, Q_from_AngZ(CH_C_PI))`;
* `WriteWavefront` gives the lines of a Wavefront file;
* `RotatePlus rot node center` is `ChMatrix33<>(rot) * node + center`;
* `lx`, `ly`, `lz` are the half sizes `0.1`, `0.25`, `0.05` of the obstacle. -/
structure Environment (D : Type) where
  out_dir : String
  GetChronoDataFile : String → String
  mesh : String → ChVector D → ChQuaternion D → ChTriangleMeshConnected D
  Cross_AngZ_PI : ChQuaternion D → ChQuaternion D
  WriteWavefront : ChTriangleMeshConnected D → List (Line D)
  RotatePlus : ChQuaternion D → ChVector D → ChVector D → ChVector D
  lx : D
  ly : D
  lz : D

/-- The function-static `frame_number` and the log of file write episodes. -/
structure State (D : Type) where
  frame_number : Int
  files : List (FileWrite D)

/-- State before the first call: `static int frame_number = -1`. -/
def State.init (D : Type) : State D := { frame_number := -1, files := [] }

/-- The line `"3 " << f.x() << " " << f.y() << " " << f.z()` of a face. -/
def triangleLine (f : ChVector Int) : Line D :=
  [Item.str "3 ", Item.int f.x, Item.str " ", Item.int f.y, Item.str " ", Item.int f.z]

/-- The lines written to a mesh `.vtk` file between `file.open(filename)` and
`file.close()`. -/
def meshVTK (mmesh : ChTriangleMeshConnected D) : List (Line D) :=
  let nv := mmesh.CoordsVertices.length
  let nf := mmesh.IndicesVertexes.length
  [[Item.str "# vtk DataFile Version 2.0"],
   [Item.str "VTK from simulation"],
   [Item.str "ASCII"],
   [Item.str "DATASET UNSTRUCTURED_GRID"],
   [Item.str "POINTS ", Item.int nv, Item.str " float"]]
  ++ mmesh.CoordsVertices.map (fun v => pointLine v)
  ++ [[Item.str "CELLS ", Item.int nf, Item.str " ", Item.int (4 * nf)]]
  ++ mmesh.IndicesVertexes.map (fun f => triangleLine f)
  ++ [[Item.str "CELL_TYPES ", Item.int nf]]
  ++ (List.range nf).map (fun _ => [Item.str "5 "])

/-- The `if (save_obj) ... else ...` block that saves one mesh; `stem` is the
file name without its extension. -/
def saveMesh (env : Environment D) (stem : String) (mmesh : ChTriangleMeshConnected D) :
    FileWrite D :=
  if save_obj then
    { name := stem ++ ".obj", app := false, lines := env.WriteWavefront mmesh }
  else
    { name := stem ++ ".vtk", app := false, lines := meshVTK mmesh }

/-- Block "save the VIPER body to obj/vtk files". -/
def saveChassis (env : Environment D) (rover : Viper D) (frame_number : Int) : FileWrite D :=
  let rover_dir := env.out_dir ++ "/rover"
  let body := rover.Chassis
  let body_ref_frame := body.frame_REF_to_abs
  let body_pos := body_ref_frame.pos
  let body_rot := body_ref_frame.rot
  let obj_path := env.GetChronoDataFile "robot/viper/obj/viper_chassis.obj"
  let mmesh := env.mesh obj_path body_pos body_rot
  saveMesh env (rover_dir ++ "/body_" ++ toString frame_number) mmesh

/-- Block "save the wheels to obj/vtk files", iteration `i`. -/
def saveWheel (env : Environment D) (rover : Viper D) (frame_number : Int) (i : Nat) :
    FileWrite D :=
  let rover_dir := env.out_dir ++ "/rover"
  let body := rover.Wheel (wheelID i)
  let body_ref_frame := body.frame_REF_to_abs
  let body_pos := body_ref_frame.pos
  let body_rot :=
    if i = 0 ∨ i = 2 then env.Cross_AngZ_PI body_ref_frame.rot else body_ref_frame.rot
  let obj_path := env.GetChronoDataFile "robot/viper/obj/viper_wheel.obj"
  let mmesh := env.mesh obj_path body_pos body_rot
  saveMesh env (rover_dir ++ "/wheel_" ++ toString (i + 1) ++ "_" ++ toString frame_number) mmesh

/-- The choice of the left or right mesh file of a rod:
`if (i == 0 || i == 2) obj_path = L; if (i == 1 || i == 3) obj_path = R`,
starting from the empty path. -/
def leftRightPath (env : Environment D) (i : Nat) (left right : String) : String :=
  let obj_path := ""
  let obj_path := if i = 0 ∨ i = 2 then env.GetChronoDataFile left else obj_path
  if i = 1 ∨ i = 3 then env.GetChronoDataFile right else obj_path

/-- Block "save the steering rod to obj/vtk files", iteration `i`. -/
def saveSteerRod (env : Environment D) (rover : Viper D) (frame_number : Int) (i : Nat) :
    FileWrite D :=
  let rover_dir := env.out_dir ++ "/rover"
  let body := rover.Upright (wheelID i)
  let body_ref_frame := body.frame_REF_to_abs
  let obj_path := leftRightPath env i "robot/viper/obj/viper_L_steer.obj"
    "robot/viper/obj/viper_R_steer.obj"
  let mmesh := env.mesh obj_path body_ref_frame.pos body_ref_frame.rot
  saveMesh env (rover_dir ++ "/steerRod_" ++ toString (i + 1) ++ "_" ++ toString frame_number) mmesh

/-- Block "save the lower rod to obj/vtk files", iteration `i`. -/
def saveLowerRod (env : Environment D) (rover : Viper D) (frame_number : Int) (i : Nat) :
    FileWrite D :=
  let rover_dir := env.out_dir ++ "/rover"
  let body := rover.LowerArm (wheelID i)
  let body_ref_frame := body.frame_REF_to_abs
  let obj_path := leftRightPath env i "robot/viper/obj/viper_L_bt_sus.obj"
    "robot/viper/obj/viper_R_bt_sus.obj"
  let mmesh := env.mesh obj_path body_ref_frame.pos body_ref_frame.rot
  saveMesh env (rover_dir ++ "/lowerRod_" ++ toString (i + 1) ++ "_" ++ toString frame_number) mmesh

/-- Block "save the upper rod to obj/vtk files", iteration `i`. -/
def saveUpperRod (env : Environment D) (rover : Viper D) (frame_number : Int) (i : Nat) :
    FileWrite D :=
  let rover_dir := env.out_dir ++ "/rover"
  let body := rover.UpperArm (wheelID i)
  let body_ref_frame := body.frame_REF_to_abs
  let obj_path := leftRightPath env i "robot/viper/obj/viper_L_up_sus.obj"
    "robot/viper/obj/viper_R_up_sus.obj"
  let mmesh := env.mesh obj_path body_ref_frame.pos body_ref_frame.rot
  saveMesh env (rover_dir ++ "/upperRod_" ++ toString (i + 1) ++ "_" ++ toString frame_number) mmesh

/-- The lines written to an obstacle `.vtk` file for a box at `center` with
rotation `Rotation`. -/
def obstacleVTK [Neg D] (env : Environment D) (center : ChVector D) (Rotation : ChQuaternion D) :
    List (Line D) :=
  let lx := env.lx
  let ly := env.ly
  let lz := env.lz
  let Node1 : ChVector D := ⟨-lx, -ly, -lz⟩
  let Node2 : ChVector D := ⟨lx, -ly, -lz⟩
  let Node3 : ChVector D := ⟨lx, -ly, lz⟩
  let Node4 : ChVector D := ⟨-lx, -ly, lz⟩
  let Node5 : ChVector D := ⟨-lx, ly, -lz⟩
  let Node6 : ChVector D := ⟨lx, ly, -lz⟩
  let Node7 : ChVector D := ⟨lx, ly, lz⟩
  let Node8 : ChVector D := ⟨-lx, ly, lz⟩
  let vertex1 := env.RotatePlus Rotation Node1 center
  let vertex2 := env.RotatePlus Rotation Node2 center
  let vertex3 := env.RotatePlus Rotation Node3 center
  let vertex4 := env.RotatePlus Rotation Node4 center
  let vertex5 := env.RotatePlus Rotation Node5 center
  let vertex6 := env.RotatePlus Rotation Node6 center
  let vertex7 := env.RotatePlus Rotation Node7 center
  let vertex8 := env.RotatePlus Rotation Node8 center
  [[Item.str "# vtk DataFile Version 2.0"],
   [Item.str "VTK from simulation"],
   [Item.str "ASCII"],
   [Item.str "DATASET POLYDATA"],
   [Item.str "POINTS ", Item.int 8, Item.str " ", Item.str "float"],
   pointLine vertex1, pointLine vertex2, pointLine vertex3, pointLine vertex4,
   pointLine vertex5, pointLine vertex6, pointLine vertex7, pointLine vertex8,
   [Item.str "POLYGONS ", Item.int 6, Item.str " ", Item.int 30],
   [Item.str "4 ", Item.int 0, Item.str " ", Item.int 1, Item.str " ", Item.int 2, Item.str " ",
    Item.int 3],
   [Item.str "4 ", Item.int 0, Item.str " ", Item.int 1, Item.str " ", Item.int 5, Item.str " ",
    Item.int 4],
   [Item.str "4 ", Item.int 0, Item.str " ", Item.int 4, Item.str " ", Item.int 7, Item.str " ",
    Item.int 3],
   [Item.str "4 ", Item.int 4, Item.str " ", Item.int 5, Item.str " ", Item.int 6, Item.str " ",
    Item.int 7],
   [Item.str "4 ", Item.int 1, Item.str " ", Item.int 5, Item.str " ", Item.int 6, Item.str " ",
    Item.int 2],
   [Item.str "4 ", Item.int 3, Item.str " ", Item.int 2, Item.str " ", Item.int 6, Item.str " ",
    Item.int 7]]

/-- Block "save box obstacle to vtk files", iteration `i`: the obstacle is the
body at position `i + 2 + 16` of the body list. -/
def saveObstacle [Neg D] (env : Environment D) (bodylist : List (ChBody D)) (i : Nat)
    (s : State D) : Outcome (State D) :=
  let rover_dir := env.out_dir ++ "/rover"
  let filename := rover_dir ++ "/obstacle_" ++ toString (i + 1) ++ "_" ++ toString s.frame_number
    ++ ".vtk"
  match bodylist[i + 2 + 16]? with
  | none => Outcome.stop Fault.out_of_range s
  | some Body =>
    let center := Body.pos
    let Rotation := Body.rot
    Outcome.ok { s with
      files := s.files ++ [{ name := filename, app := false, lines := obstacleVTK env center Rotation }] }

/-- The variable `delim` of the CSV writer. -/
def delim : String := ","

/-- Header row of `body_pos_rot_vel<i>.csv`. -/
def body_pos_rot_vel_header : Line D :=
  [Item.str "Time", Item.str delim, Item.str "x", Item.str delim, Item.str "y", Item.str delim,
   Item.str "z", Item.str delim, Item.str "q0", Item.str delim, Item.str "q1", Item.str delim,
   Item.str "q2", Item.str delim, Item.str "q3", Item.str delim, Item.str "Vx", Item.str delim,
   Item.str "Vy", Item.str delim, Item.str "Vz"]

/-- Data row of `body_pos_rot_vel<i>.csv`. -/
def body_pos_rot_vel_row (time : D) (pos : ChVector D) (rot : ChQuaternion D) (vel : ChVector D) :
    Line D :=
  [Item.real time, Item.str delim, Item.real pos.x, Item.str delim, Item.real pos.y, Item.str delim,
   Item.real pos.z, Item.str delim, Item.real rot.e0,
   Item.str delim, Item.real rot.e1, Item.str delim, Item.real rot.e2, Item.str delim,
   Item.real rot.e3, Item.str delim, Item.real vel.x, Item.str delim, Item.real vel.y,
   Item.str delim, Item.real vel.z]

/-- Name of the CSV file of body `i`. -/
def body_pos_rot_vel_filename (out_dir : String) (i : Nat) : String :=
  let rover_dir := out_dir ++ "/rover"
  rover_dir ++ "/body_pos_rot_vel" ++ toString i ++ ".csv"

/-- Block "save rigid body position and rotation", iteration `i`. -/
def saveBodyCsv [LinearOrder D] [Zero D] (env : Environment D) (bodylist : List (ChBody D))
    (ChTime : D) (i : Nat) (s : State D) : Outcome (State D) :=
  match bodylist[i]? with
  | none => Outcome.stop Fault.out_of_range s
  | some body =>
    let ref_frame := body.frame_REF_to_abs
    let pos := ref_frame.pos
    let rot := ref_frame.rot
    let vel := body.pos_dt
    let filename := body_pos_rot_vel_filename env.out_dir i
    Outcome.ok { s with
      files := s.files ++
        [csvEpisode filename ChTime body_pos_rot_vel_header
          (body_pos_rot_vel_row ChTime pos rot vel)] }

/-- The write episodes of the five mesh-saving loops of `SaveParaViewFiles`,
in the order of the source: the chassis (`for (int i = 0; i < 1; i++)`), then
four wheels, four steering rods, four lower rods, four upper rods. -/
def saveMeshes (env : Environment D) (rover : Viper D) (frame_number : Int) :
    List (FileWrite D) :=
  (List.range 1).map (fun _ => saveChassis env rover frame_number)
  ++ (List.range 4).map (saveWheel env rover frame_number)
  ++ (List.range 4).map (saveSteerRod env rover frame_number)
  ++ (List.range 4).map (saveLowerRod env rover frame_number)
  ++ (List.range 4).map (saveUpperRod env rover frame_number)

/-- Model of `SaveParaViewFiles(sysFSI, sysMBS, mTime)`, where `bodylist` is
`sysMBS.Get_bodylist()` and `ChTime` is `sysMBS.GetChTime()`.  The messages
printed at the end to the standard output are not part of the state. -/
def SaveParaViewFiles [LinearOrder D] [Zero D] [Neg D] (env : Environment D) (rover : Viper D)
    (bodylist : List (ChBody D)) (ChTime : D) (s : State D) : Outcome (State D) :=
  if s.frame_number = INT_MAX then Outcome.stop Fault.signed_overflow s
  else
    let frame_number := s.frame_number + 1
    let s1 : State D :=
      { frame_number := frame_number
        files := s.files ++ saveMeshes env rover frame_number }
    match forLoop (saveObstacle env bodylist) 2 0 s1 with
    | ⟨some f, s2⟩ => ⟨some f, s2⟩
    | ⟨none, s2⟩ => forLoop (saveBodyCsv env bodylist ChTime) (bodylist.length - 1) 1 s2

/-- What one call of `SaveParaViewFiles` reads: the rover, the body list and
the time of the system at the moment of the call. -/
structure Call (D : Type) where
  rover : Viper D
  bodylist : List (ChBody D)
  ChTime : D

/-- The successive calls of `SaveParaViewFiles` made by a run, from the
oldest on; a call that faults ends the run. -/
def SaveParaViewFiles_calls [LinearOrder D] [Zero D] [Neg D] (env : Environment D) :
    List (Call D) → State D → Outcome (State D)
  | [], s => Outcome.ok s
  | c :: cs, s =>
    match SaveParaViewFiles env c.rover c.bodylist c.ChTime s with
    | ⟨none, s1⟩ => SaveParaViewFiles_calls env cs s1
    | ⟨some f, s1⟩ => ⟨some f, s1⟩

/-- The names of the 19 VTK files of output frame `k` of the Viper demo, in
the order in which they are written. -/
def frameFileNames (rover_dir : String) (k : Nat) : List String :=
  [rover_dir ++ "/body_" ++ toString k ++ ".vtk",
   rover_dir ++ "/wheel_" ++ "1" ++ "_" ++ toString k ++ ".vtk",
   rover_dir ++ "/wheel_" ++ "2" ++ "_" ++ toString k ++ ".vtk",
   rover_dir ++ "/wheel_" ++ "3" ++ "_" ++ toString k ++ ".vtk",
   rover_dir ++ "/wheel_" ++ "4" ++ "_" ++ toString k ++ ".vtk",
   rover_dir ++ "/steerRod_" ++ "1" ++ "_" ++ toString k ++ ".vtk",
   rover_dir ++ "/steerRod_" ++ "2" ++ "_" ++ toString k ++ ".vtk",
   rover_dir ++ "/steerRod_" ++ "3" ++ "_" ++ toString k ++ ".vtk",
   rover_dir ++ "/steerRod_" ++ "4" ++ "_" ++ toString k ++ ".vtk",
   rover_dir ++ "/lowerRod_" ++ "1" ++ "_" ++ toString k ++ ".vtk",
   rover_dir ++ "/lowerRod_" ++ "2" ++ "_" ++ toString k ++ ".vtk",
   rover_dir ++ "/lowerRod_" ++ "3" ++ "_" ++ toString k ++ ".vtk",
   rover_dir ++ "/lowerRod_" ++ "4" ++ "_" ++ toString k ++ ".vtk",
   rover_dir ++ "/upperRod_" ++ "1" ++ "_" ++ toString k ++ ".vtk",
   rover_dir ++ "/upperRod_" ++ "2" ++ "_" ++ toString k ++ ".vtk",
   rover_dir ++ "/upperRod_" ++ "3" ++ "_" ++ toString k ++ ".vtk",
   rover_dir ++ "/upperRod_" ++ "4" ++ "_" ++ toString k ++ ".vtk",
   rover_dir ++ "/obstacle_" ++ "1" ++ "_" ++ toString k ++ ".vtk",
   rover_dir ++ "/obstacle_" ++ "2" ++ "_" ++ toString k ++ ".vtk"]

/-! ## demo_ROBOT_Viper_SPH: main -/

/-- Global `output`. -/
def output : Bool := true

/-- Global `render`. -/
def render : Bool := true

/-- The variables of the simulation loop of `main`: `time`, `current_step`,
and the number of loop iterations so far. -/
structure LoopState (D : Type) where
  time : D
  current_step : Int
  iteration : Nat

/-- The end of `main` after the simulation loop:
`if (output) ofile.close(); return 0;`. -/
def mainEnd : List (Event D) := if output then [Event.ofile_close] else []

/-- One iteration of the body of the simulation loop of `main`: the events
of the iteration and either the status with which the run ends in it (a fault,
or `return 0` after `break`) or the variables for the next iteration.  What a
call of `SaveParaViewFiles` does is given by `SaveParaViewFiles`. -/
def loopBody [Add D] (env : MainEnv D) (out_dir : String)
    (output_steps render_steps : Nat) (st : LoopState D) :
    List (Event D) × (Status ⊕ LoopState D) :=
  let t1 : List (Event D) :=
    [Event.cout "  time: ", Event.Update, Event.cout "  pos: ", Event.cout "  vel: "]
  let t1 := if output then t1 ++ [Event.ofile_line st.time] else t1
  if output = true ∧ output_steps = 0 then (t1, Sum.inl (Status.faulted Fault.division_by_zero))
  else
    let t2 : List (Event D) :=
      if output = true ∧ st.current_step % output_steps = 0 then
        [Event.PrintParticleToFile (out_dir ++ "/particles"), Event.SaveParaViewFiles st.time]
      else []
    if render_steps = 0 then (t1 ++ t2, Sum.inl (Status.faulted Fault.division_by_zero))
    else if render = true ∧ st.current_step % render_steps = 0 ∧ env.Render st.iteration = false
    then
      (t1 ++ t2 ++ [Event.Render false] ++ mainEnd, Sum.inl (Status.returned 0))
    else
      let t3 : List (Event D) :=
        if render = true ∧ st.current_step % render_steps = 0 then [Event.Render true] else []
      if st.current_step = INT_MAX then
        (t1 ++ t2 ++ t3 ++ [Event.DoStepDynamics_FSI],
          Sum.inl (Status.faulted Fault.signed_overflow))
      else
        (t1 ++ t2 ++ t3 ++ [Event.DoStepDynamics_FSI],
          Sum.inr { time := st.time + env.dT, current_step := st.current_step + 1,
                    iteration := st.iteration + 1 })

/-- The simulation loop `while (time < total_time) { ... }` of `main`,
followed for at most `fuel` iterations, and the end of `main` after it. -/
def mainLoop [LinearOrder D] [Add D] (env : MainEnv D) (out_dir : String)
    (output_steps render_steps : Nat) : Nat → LoopState D → Run D
  | 0, _ => ⟨[], Status.running⟩
  | fuel + 1, st =>
    if st.time < env.t_end then
      match loopBody env out_dir output_steps render_steps st with
      | (t, Sum.inl status) => ⟨t, status⟩
      | (t, Sum.inr st1) =>
        let rest := mainLoop env out_dir output_steps render_steps fuel st1
        ⟨t ++ rest.trace, rest.status⟩
    else ⟨mainEnd, Status.returned 0⟩

/-- The part of `main` from `sysFSI.ReadParametersFromFile(inputJson)` on;
`t` holds the events before it. -/
def mainFromRead [LinearOrder D] [Add D] [Zero D] (env : MainEnv D) (out_dir : String)
    (t : List (Event D)) (inputJson : String) (fuel : Nat) : Run D :=
  let output_steps := env.steps env.out_fps env.dT
  let render_steps := env.steps env.render_fps env.dT
  let rest := mainLoop env out_dir output_steps render_steps fuel
    { time := 0, current_step := 0, iteration := 0 }
  ⟨t ++ [Event.ReadParametersFromFile inputJson,
      Event.engine "SetStepSize", Event.engine "SetContainerDim",
      Event.engine "SetDiscreType", Event.engine "SetWallBC", Event.engine "SetSPHMethod",
      Event.engine "SetBoundaries", Event.engine "SetOutputDirectory",
      Event.engine "SetOutputLength", Event.engine "SampleBox",
      Event.engine "AddSPHParticle (each sampled point)", Event.engine "CreateSolidPhase",
      Event.engine "Initialize", Event.engine "GetFsiBodies"]
    ++ (if output then [Event.ofile_open (out_dir ++ "./body_position.txt")] else [])
    ++ [Event.engine "ChVisualizationFsi"]
    ++ rest.trace, rest.status⟩

/-- Model of `main(argc, argv)` of demo_ROBOT_Viper_SPH; `argc` is the length of `argv`,
and the simulation loop is followed for at most `fuel` iterations. -/
def main [LinearOrder D] [Add D] [Zero D] (env : MainEnv D) (argv : List String) (fuel : Nat) :
    Run D :=
  let argc := argv.length
  let out_dir := env.GetChronoOutputPath ++ "FSI_Viper/"
  if env.create_directory out_dir = false then
    ⟨[Event.create_directory out_dir, Event.cerr ("Error creating directory " ++ out_dir)],
      Status.returned 1⟩
  else if env.create_directory (out_dir ++ "/particles") = false then
    ⟨[Event.create_directory out_dir, Event.create_directory (out_dir ++ "/particles"),
      Event.cerr ("Error creating directory " ++ out_dir ++ "/particles")], Status.returned 1⟩
  else if env.create_directory (out_dir ++ "/rover") = false then
    ⟨[Event.create_directory out_dir, Event.create_directory (out_dir ++ "/particles"),
      Event.create_directory (out_dir ++ "/rover"),
      Event.cerr ("Error creating directory " ++ out_dir ++ "/rover")], Status.returned 1⟩
  else
    let t0 : List (Event D) :=
      [Event.create_directory out_dir, Event.create_directory (out_dir ++ "/particles"),
       Event.create_directory (out_dir ++ "/rover"),
       Event.engine "ChSystemNSC sysMBS", Event.engine "ChSystemFsi sysFSI(sysMBS)",
       Event.engine "sysMBS.Set_G_acc", Event.engine "sysFSI.Set_G_acc"]
    let inputJson := env.GetChronoDataFile "fsi/input_json/demo_FSI_Viper_granular_NSC.json"
    if argc = 2 then
      let inputJson := argv.getD 1 ""
      mainFromRead env out_dir t0 inputJson fuel
    else if argc ≠ 1 then
      ⟨t0 ++ [Event.cout "usage: ./demo_ROBOT_Viper_SPH <json_file>"], Status.returned 1⟩
    else
      mainFromRead env out_dir t0 inputJson fuel

end demo_ROBOT_Viper_SPH

/-! ## Arithmetic of `double` -/

/-- The operations on C++ `double` values that the rig node uses: the four
arithmetic operators, the unary minus, the comparison `<`, and
`literal m k`, the value of the decimal literal `m * 10^(-k)` (`2` is
`literal 2 0`, `1.5` is `literal 15 1`); an `int` operand is converted to the
`double` of the same value. -/
structure DoubleArith (D : Type) where
  add : D → D → D
  sub : D → D → D
  mul : D → D → D
  div : D → D → D
  neg : D → D
  lt : D → D → Bool
  literal : Int → Nat → D

/-- Arithmetic without rounding, on an ordered field. -/
def DoubleArith.exact (F : Type) [LinearOrderedField F] : DoubleArith F :=
  { add := fun a b => a + b, sub := fun a b => a - b, mul := fun a b => a * b,
    div := fun a b => a / b, neg := fun a => -a, lt := fun a b => decide (a < b),
    literal := fun m k => (m : F) / 10 ^ k }

namespace binary64

/-- The integer nearest to `q`; of the two integers nearest to a value
half-way between them, the even one. -/
def roundTiesToEven (q : ℚ) : ℤ :=
  if q - ⌊q⌋ < 1 / 2 then ⌊q⌋
  else if 1 / 2 < q - ⌊q⌋ then ⌊q⌋ + 1
  else if ⌊q⌋ % 2 = 0 then ⌊q⌋ else ⌊q⌋ + 1

/-- Modelled from the spec: the arithmetic of `double` is that of the
language, IEEE 754 binary64 with rounding to nearest, ties to even.  A finite
`double` is the rational number it stands for; `round q` is the `double`
nearest to `q`, a multiple of `2 ^ (e - 52)` where `2 ^ e ≤ |q| < 2 ^ (e + 1)`
(53 significant bits).  The range of the exponent is not bounded: the model is
that of binary64 for results in its normal range, `2 ^ (-1022) ≤ |q| <
2 ^ 1024`; infinities, NaN and the sign of zero are outside it. -/
def round (q : ℚ) : ℚ :=
  if q = 0 then 0
  else (roundTiesToEven (q / 2 ^ (Int.log 2 |q| - 52)) : ℚ) * 2 ^ (Int.log 2 |q| - 52)

/-- The operations of `double`: each is the exact operation followed by
rounding. -/
def arith : DoubleArith ℚ :=
  { add := fun a b => round (a + b), sub := fun a b => round (a - b),
    mul := fun a b => round (a * b), div := fun a b => round (a / b), neg := fun a => -a,
    lt := fun a b => decide (a < b), literal := fun m k => round ((m : ℚ) / 10 ^ k) }

end binary64

/-! ## ChVehicleCosimRigNode -/

/-- Two components of a `ChVector2<>`. -/
structure ChVector2 (D : Type) where
  x : D
  y : D
  deriving DecidableEq, Repr

/-- What `InitializeMBS` sets on a body it creates: `SetMass`, `SetInertiaXX`,
`SetPos`, `SetRot`, `SetPos_dt` and, on the spindle only, `SetWvel_loc`. -/
structure RigBody (D : Type) where
  Mass : D
  InertiaXX : ChVector D
  Pos : ChVector D
  Rot : ChQuaternion D
  Pos_dt : ChVector D
  Wvel_loc : Option (ChVector D)
  deriving DecidableEq, Repr

/-- The members of the base class `ChVehicleCosimMBSNode` that the rig node
reads or writes.

* `m_num_tire_nodes` is the number of tire nodes of the co-simulation;
* `m_DBP_rig` tells whether a drawbar-pull rig is attached (the pointer is not
  null);
* `bodies` and `links` are the bodies and the names of the links added to
  `m_system`;
* `cout` holds the lines printed to `std::cout`, `files` the file write
  episodes. -/
structure ChVehicleCosimMBSNode (D : Type) where
  m_num_tire_nodes : Nat
  m_DBP_rig : Bool
  m_verbose : Bool
  m_step_size : D
  m_node_out_dir : String
  bodies : List (RigBody D)
  links : List String
  cout : List (Line D)
  files : List (FileWrite D)

/-- The state of a `ChVehicleCosimRigNode`: the base class and the members
`m_toe_angle`, `m_total_mass`, `m_chassis`, `m_spindle` and `m_rev_motor` (the
name of the motor link, if created). -/
structure ChVehicleCosimRigNode (D : Type) extends ChVehicleCosimMBSNode D where
  m_toe_angle : D
  m_total_mass : D
  m_chassis : Option (RigBody D)
  m_spindle : Option (RigBody D)
  m_rev_motor : Option String

namespace ChVehicleCosimRigNode

variable {D : Type}

/-- Model of the constructor
`ChVehicleCosimRigNode() : ChVehicleCosimMBSNode(), m_toe_angle(0), m_total_mass(0) {}`;
`base` is the base class as constructed. -/
def ChVehicleCosimRigNode [Zero D] (base : ChVehicleCosimMBSNode D) :
    chrono.ChVehicleCosimRigNode D :=
  { base with
    m_toe_angle := 0, m_total_mass := 0, m_chassis := none, m_spindle := none,
    m_rev_motor := none }

/-- Model of `SetTotalMass(mass)`. -/
def SetTotalMass (mass : D) (s : chrono.ChVehicleCosimRigNode D) :
    chrono.ChVehicleCosimRigNode D :=
  { s with m_total_mass := mass }

/-- Model of `GetSpindleLoad(i)`. -/
def GetSpindleLoad (_i : Nat) (s : chrono.ChVehicleCosimRigNode D) : D := s.m_total_mass

/-- Model of `InitializeMBS(tire_info, terrain_size, terrain_height)`; `ops` are
the operations on `double`.  The two `assert`s are checked: a failed one ends
the process.  Without a drawbar-pull rig the error is printed and
`MPI_Abort(MPI_COMM_WORLD, 1)` ends the process.  Of the motor link only its
name and its being added to the system are kept. -/
def InitializeMBS (ops : DoubleArith D) (tire_info : List (ChVector D))
    (terrain_size : ChVector2 D) (terrain_height : D) (s : chrono.ChVehicleCosimRigNode D) :
    Outcome (chrono.ChVehicleCosimRigNode D) :=
  if s.m_num_tire_nodes ≠ 1 then Outcome.stop (Fault.assertion "m_num_tire_nodes == 1") s
  else if tire_info.length ≠ 1 then Outcome.stop (Fault.assertion "tire_info.size() == 1") s
  else
    match tire_info[0]? with
    | none => Outcome.stop Fault.out_of_range s
    | some info =>
      let tire_mass := info.x
      let tire_radius := info.y
      if s.m_DBP_rig = false then
        Outcome.stop (Fault.abort 1)
          { s with
            cout := s.cout
              ++ [[Item.str "\n\nERROR: Single-wheel test rig REQUIRES a drawbar-pull rig!\n\n"]] }
      else
        let origin : ChVector D :=
          ⟨ops.add (ops.div (ops.neg terrain_size.x) (ops.literal 2 0))
              (ops.mul (ops.literal 15 1) tire_radius),
            ops.literal 0 0, ops.add terrain_height tire_radius⟩
        let m_total_mass :=
          if ops.lt (ops.sub s.m_total_mass tire_mass) (ops.literal 2 0) then
            ops.add tire_mass (ops.literal 2 0)
          else s.m_total_mass
        let body_mass := ops.div (ops.sub m_total_mass tire_mass) (ops.literal 2 0)
        let cout :=
          if s.m_verbose then
            s.cout ++ [[Item.str "[Rig node    ] total mass = ", Item.real m_total_mass],
                       [Item.str "[Rig node    ] tire mass  = ", Item.real tire_mass],
                       [Item.str "[Rig node    ] body mass  = ", Item.real body_mass]]
          else s.cout
        let chassis_inertia : ChVector D := ⟨ops.literal 1 1, ops.literal 1 1, ops.literal 1 1⟩
        let spindle_inertia : ChVector D := ⟨ops.literal 1 1, ops.literal 1 1, ops.literal 1 1⟩
        let QUNIT : ChQuaternion D :=
          ⟨ops.literal 1 0, ops.literal 0 0, ops.literal 0 0, ops.literal 0 0⟩
        let VNULL : ChVector D := ⟨ops.literal 0 0, ops.literal 0 0, ops.literal 0 0⟩
        let m_chassis : RigBody D :=
          { Mass := body_mass, InertiaXX := chassis_inertia, Pos := origin, Rot := QUNIT,
            Pos_dt := VNULL, Wvel_loc := none }
        let m_spindle : RigBody D :=
          { Mass := body_mass, InertiaXX := spindle_inertia, Pos := origin, Rot := QUNIT,
            Pos_dt := VNULL, Wvel_loc := some VNULL }
        let outf : FileWrite D :=
          { name := s.m_node_out_dir ++ "/settings.info", app := false,
            lines := [[Item.str "System settings"],
                      [Item.str "   Integration step size = ", Item.real s.m_step_size],
                      [Item.str "Rig body masses"],
                      [Item.str "   total equivalent mass = ", Item.real m_total_mass],
                      [Item.str "   individual body mass  = ", Item.real body_mass],
                      []] }
        Outcome.ok
          { s with
            m_total_mass := m_total_mass, m_chassis := some m_chassis,
            m_spindle := some m_spindle, m_rev_motor := some "motor",
            bodies := s.bodies ++ [m_chassis, m_spindle], links := s.links ++ ["motor"],
            cout := cout, files := s.files ++ [outf] }

end ChVehicleCosimRigNode

/-! ## Skid_steer_Vehicle -/

namespace Skid_steer_Vehicle

/-- What `Synchronize` does to the subsystems of the vehicle, in order: the
calls of `Synchronize` on the powertrains and on the drivelines with their
arguments, and the values written to the log. -/
inductive Call (D I : Type) where
  /-- `m_powertrain->Synchronize(time, driver_inputs, shaft_speed)`. -/
  | m_powertrain_Synchronize (time : D) (driver_inputs : I) (shaft_speed : D)
  /-- `m_driveline->Synchronize(time, driver_inputs, torque)`. -/
  | m_driveline_Synchronize (time : D) (driver_inputs : I) (torque : D)
  /-- `m_powertrain_r->Synchronize(time, driver_inputs, shaft_speed)`. -/
  | m_powertrain_r_Synchronize (time : D) (driver_inputs : I) (shaft_speed : D)
  /-- `m_driveline_r->Synchronize(time, driver_inputs, torque)`. -/
  | m_driveline_r_Synchronize (time : D) (driver_inputs : I) (torque : D)
  /-- `GetLog() << text << value`. -/
  | GetLog (text : String) (value : D)
  deriving DecidableEq, Repr

/-- The member functions of the powertrain (type `P`) and of the driveline
(type `L`) that `Synchronize` calls; `GetDriveshaftSpeed` is
`GetDriveshaft()->GetPos_dt()`. -/
structure Subsystems (D I P L : Type) where
  powertrain_Synchronize : D → I → D → P → P
  GetOutputTorque : P → D
  GetDriveshaftSpeed : L → D
  driveline_Synchronize : D → I → D → L → L

end Skid_steer_Vehicle

/-- The four subsystem pointers of a `Skid_steer_Vehicle` (`none` is the null
pointer): left powertrain and driveline, right powertrain and driveline. -/
structure Skid_steer_Vehicle (P L : Type) where
  m_powertrain : Option P
  m_driveline : Option L
  m_powertrain_r : Option P
  m_driveline_r : Option L

namespace Skid_steer_Vehicle

variable {D I P L : Type}

/-- Model of `Skid_steer_Vehicle::Synchronize(time, driver_inputs, terrain)`: the vehicle
afterwards and the calls made.  The last line of the left block of the source,
`m_driveline->GetSpindleTorque`, is an unfinished statement; it is taken to
do nothing.  On the right side the `if (m_driveline_r)` governs the call of
`Synchronize` only, and the log line is written in any case. -/
def Synchronize [Zero D] [Sub D] [OfNat D 10] (sub : Subsystems D I P L) (time : D)
    (driver_inputs : I) (v : Skid_steer_Vehicle P L) :
    Skid_steer_Vehicle P L × List (Call D I) :=
  let powertrain_torque_l : D := 0
  let powertrain_torque_r : D := 0
  let left1 : Option P × D × List (Call D I) :=
    match v.m_powertrain, v.m_driveline with
    | some p, some l =>
      let p1 := sub.powertrain_Synchronize time driver_inputs (sub.GetDriveshaftSpeed l) p
      (some p1, sub.GetOutputTorque p1,
        [Call.m_powertrain_Synchronize time driver_inputs (sub.GetDriveshaftSpeed l)])
    | p, _ => (p, powertrain_torque_l, [])
  let left2 : Option L × List (Call D I) :=
    match v.m_driveline with
    | some l =>
      let powertrain_torque_l := left1.2.1 - 10
      (some (sub.driveline_Synchronize time driver_inputs powertrain_torque_l l),
        [Call.m_driveline_Synchronize time driver_inputs powertrain_torque_l,
         Call.GetLog "left side input torque is: " powertrain_torque_l])
    | none => (none, [])
  let right1 : Option P × D × List (Call D I) :=
    match v.m_powertrain_r, v.m_driveline_r with
    | some p, some l =>
      let p1 := sub.powertrain_Synchronize time driver_inputs (sub.GetDriveshaftSpeed l) p
      (some p1, sub.GetOutputTorque p1,
        [Call.m_powertrain_r_Synchronize time driver_inputs (sub.GetDriveshaftSpeed l)])
    | p, _ => (p, powertrain_torque_r, [])
  let right2 : Option L × List (Call D I) :=
    match v.m_driveline_r with
    | some l =>
      (some (sub.driveline_Synchronize time driver_inputs right1.2.1 l),
        [Call.m_driveline_r_Synchronize time driver_inputs right1.2.1])
    | none => (none, [])
  ({ m_powertrain := left1.1, m_driveline := left2.1, m_powertrain_r := right1.1,
     m_driveline_r := right2.1 },
    left1.2.2 ++ left2.2 ++ right1.2.2 ++ right2.2
      ++ [Call.GetLog "right side input torque is: " right1.2.1])

end Skid_steer_Vehicle

/-! ## ChVehicleCosimTireNodeRigid -/

/-- What the node takes from its `RigidTire` (`m_tire`): the results of
`GetNumVertices`, `GetNumNormals`, `GetNumTriangles`, `GetMeshVertices`,
`GetMeshNormals`, `GetMeshConnectivity`, `GetMeshNormalIndices`, and the two
arrays `pos`, `vel` filled by `GetMeshVertexStates(pos, vel)`. -/
structure RigidTire (D : Type) where
  NumVertices : Nat
  NumNormals : Nat
  NumTriangles : Nat
  MeshVertices : List (ChVector D)
  MeshNormals : List (ChVector D)
  MeshConnectivity : List (ChVector Int)
  MeshNormalIndices : List (ChVector Int)
  MeshVertexStates : List (ChVector D) × List (ChVector D)

/-- The fields of `m_mesh_data`. -/
structure MeshData (D : Type) where
  nv : Nat
  nn : Nat
  nt : Nat
  verts : List (ChVector D)
  norms : List (ChVector D)
  idx_verts : List (ChVector Int)
  idx_norms : List (ChVector Int)

/-- Point of application, force and moment of a `TerrainForce`. -/
structure TerrainForce (D : Type) where
  point : ChVector D
  force : ChVector D
  moment : ChVector D

/-- The state of a `ChVehicleCosimTireNodeRigid`.

* `m_outf` holds the lines written to the results stream while it is open,
  and is `none` when the stream is not open;
* `cout` holds the lines printed to `std::cout`, `files` the file write
  episodes. -/
structure ChVehicleCosimTireNodeRigid (D : Type) where
  m_tire : RigidTire D
  m_mesh_data : MeshData D
  m_adjElements : List (List Nat)
  m_vertexArea : List D
  m_force : TerrainForce D
  m_outf : Option (List (Line D))
  m_node_out_dir : String
  m_verbose : Bool
  cout : List (Line D)
  files : List (FileWrite D)

namespace ChVehicleCosimTireNodeRigid

variable {D : Type}

/-- The row `csv << n << endl` of a `CSV_writer` with delimiter `" "`: every
streamed value is followed by the delimiter. -/
def countRow (n : Nat) : Line D := [Item.int n, Item.str " "]

/-- The row `csv << v << endl` for a `ChVector<>`. -/
def vectorRow (v : ChVector D) : Line D :=
  [Item.real v.x, Item.str " ", Item.real v.y, Item.str " ", Item.real v.z, Item.str " "]

/-- The row `csv << t << endl` for a `ChVector<int>`. -/
def triangleRow (t : ChVector Int) : Line D :=
  [Item.int t.x, Item.str " ", Item.int t.y, Item.str " ", Item.int t.z, Item.str " "]

/-- Loop `for (i = 0; i < n; i++) csv << v[i] << endl;` on the rows `csv`
written so far. -/
def writeRows {α : Type} (row : α → Line D) (v : List α) (n : Nat) (csv : List (Line D)) :
    Outcome (List (Line D)) :=
  forLoop
    (fun i c =>
      match v[i]? with
      | none => Outcome.stop Fault.out_of_range c
      | some a => Outcome.ok (c ++ [row a]))
    n 0 csv

/-- Model of `WriteTireStateInformation(csv)`. -/
def WriteTireStateInformation (s : ChVehicleCosimTireNodeRigid D) (csv : List (Line D)) :
    Outcome (List (Line D)) :=
  let num_vertices := s.m_tire.NumVertices
  let csv := csv ++ [countRow num_vertices]
  let pos := s.m_tire.MeshVertexStates.1
  let vel := s.m_tire.MeshVertexStates.2
  match writeRows vectorRow pos num_vertices csv with
  | ⟨some f, csv⟩ => ⟨some f, csv⟩
  | ⟨none, csv⟩ => writeRows vectorRow vel num_vertices csv

/-- Model of `WriteTireMeshInformation(csv)`. -/
def WriteTireMeshInformation (s : ChVehicleCosimTireNodeRigid D) (csv : List (Line D)) :
    Outcome (List (Line D)) :=
  let csv := csv ++ [countRow s.m_tire.NumTriangles]
  let triangles := s.m_tire.MeshConnectivity
  writeRows triangleRow triangles s.m_tire.NumTriangles csv

/-- The line appended to the results stream by `OnOutputData`. -/
def resultsLine (frame : Int) (m_force : TerrainForce D) : Line D :=
  [Item.int frame, Item.str "  ",
   Item.real m_force.point.x, Item.str "  ", Item.real m_force.point.y, Item.str "  ",
   Item.real m_force.point.z, Item.str "  ",
   Item.real m_force.force.x, Item.str "  ", Item.real m_force.force.y, Item.str "  ",
   Item.real m_force.force.z, Item.str "  ",
   Item.real m_force.moment.x, Item.str "  ", Item.real m_force.moment.y, Item.str "  ",
   Item.real m_force.moment.z, Item.str "  "]

/-- The part of `OnOutputData(frame)` from `utils::CSV_writer csv(" ")` on;
`OutputFilename` is the function of that name of the base class.  The rows
collected in the `CSV_writer` are written as one new file. -/
def OnOutputData_frame (OutputFilename : String → String → String → Int → Nat → String)
    (frame : Int) (s1 : ChVehicleCosimTireNodeRigid D) :
    Outcome (ChVehicleCosimTireNodeRigid D) :=
  match WriteTireStateInformation s1 [] with
  | ⟨some f, _⟩ => ⟨some f, s1⟩
  | ⟨none, csv⟩ =>
    match WriteTireMeshInformation s1 csv with
    | ⟨some f, _⟩ => ⟨some f, s1⟩
    | ⟨none, csv⟩ =>
      if frame = INT_MAX then Outcome.stop Fault.signed_overflow s1
      else
        let filename := OutputFilename (s1.m_node_out_dir ++ "/simulation") "data" "dat" (frame + 1) 5
        let episode : FileWrite D := { name := filename, app := false, lines := csv }
        let s2 := { s1 with files := s1.files ++ [episode] }
        if s2.m_verbose then
          Outcome.ok { s2 with
            cout := s2.cout ++ [[Item.str "[Tire node   ] write output file ==> ",
                                 Item.str filename]] }
        else Outcome.ok s2

/-- Model of `OnOutputData(frame)`: a line is appended to the results stream if it
is open, and the frame output file is written. -/
def OnOutputData (OutputFilename : String → String → String → Int → Nat → String) (frame : Int)
    (s : ChVehicleCosimTireNodeRigid D) : Outcome (ChVehicleCosimTireNodeRigid D) :=
  match s.m_outf with
  | some lines =>
    OnOutputData_frame OutputFilename frame
      { s with m_outf := some (lines ++ [resultsLine frame s.m_force]) }
  | none => OnOutputData_frame OutputFilename frame s

/-- Element `l[i]` for an index of type `int`; `none` outside the bounds. -/
def atInt {α : Type} (l : List α) (i : Int) : Option α :=
  if 0 ≤ i then l[i.toNat]? else none

/-- Model of `adj[i].push_back(ie)`; `none` when `i` is outside the bounds. -/
def pushAt (adj : List (List Nat)) (i : Int) (ie : Nat) : Option (List (List Nat)) :=
  match atInt adj i with
  | some a => some (adj.set i.toNat (a ++ [ie]))
  | none => none

/-- The local variables and members that the first loop of `InitializeTire`
works on. -/
structure TriangleLoop (D : Type) where
  m_adjElements : List (List Nat)
  triArea : List D

/-- The area of triangle `ie` as computed in the first loop of
`InitializeTire` from `idx_verts[ie]` and `verts`; `area v1 v2 v3` is
`0.5 * Vcross(v2 - v1, v3 - v1).Length()`.  The result is `none` when an index
is outside the bounds. -/
def triangleAreaOf (area : ChVector D → ChVector D → ChVector D → D)
    (m_mesh_data : MeshData D) (ie : Nat) : Option D :=
  match m_mesh_data.idx_verts[ie]? with
  | none => none
  | some t =>
    let iv1 := t.x
    let iv2 := t.y
    let iv3 := t.z
    match atInt m_mesh_data.verts iv1, atInt m_mesh_data.verts iv2,
        atInt m_mesh_data.verts iv3 with
    | some v1, some v2, some v3 => some (area v1 v2 v3)
    | _, _, _ => none

/-- Body of the first loop of `InitializeTire`, for triangle `ie`: the area
of the triangle is stored in `triArea[ie]`, and `ie` is appended to the
adjacency lists of its three corners. -/
def InitializeTire_triangle (area : ChVector D → ChVector D → ChVector D → D)
    (m_mesh_data : MeshData D) (ie : Nat) (st : TriangleLoop D) : Outcome (TriangleLoop D) :=
  match m_mesh_data.idx_verts[ie]?, triangleAreaOf area m_mesh_data ie with
  | some t, some a =>
    match ChFsiInterface.assignAt st.triArea ie a with
    | none => Outcome.stop Fault.out_of_range st
    | some triArea =>
      match pushAt st.m_adjElements t.x ie with
      | none => Outcome.stop Fault.out_of_range st
      | some adj1 =>
        match pushAt adj1 t.y ie with
        | none => Outcome.stop Fault.out_of_range st
        | some adj2 =>
          match pushAt adj2 t.z ie with
          | none => Outcome.stop Fault.out_of_range st
          | some adj3 => Outcome.ok { m_adjElements := adj3, triArea := triArea }
  | _, _ => Outcome.stop Fault.out_of_range st

/-- The inner loop `for (ie = 0; ie < adj.size(); ie++) area += triArea[adj[ie]];`
over the adjacency list `adj`, started with the value `area`; `none` when an
index is outside `triArea`. -/
def sumAreas [Add D] (triArea : List D) : List Nat → D → Option D
  | [], area => some area
  | ie :: rest, area =>
    match triArea[ie]? with
    | none => none
    | some a => sumAreas triArea rest (area + a)

/-- Body of the second loop of `InitializeTire`, for vertex `i` (`in` in the
source). -/
def InitializeTire_vertex [Zero D] [Add D] [Div D] [NatCast D] (triArea : List D) (i : Nat)
    (s : ChVehicleCosimTireNodeRigid D) : Outcome (ChVehicleCosimTireNodeRigid D) :=
  match s.m_adjElements[i]? with
  | none => Outcome.stop Fault.out_of_range s
  | some adj =>
    match sumAreas triArea adj 0 with
    | none => Outcome.stop Fault.out_of_range s
    | some area =>
      match ChFsiInterface.assignAt s.m_vertexArea i (area / (adj.length : D)) with
      | none => Outcome.stop Fault.out_of_range s
      | some m_vertexArea => Outcome.ok { s with m_vertexArea := m_vertexArea }

/-- The mesh data that `InitializeTire` takes from the tire:
`m_mesh_data.nv = m_tire->GetNumVertices()` and so on for `nn`, `nt`, `verts`,
`norms`, `idx_verts`, `idx_norms`. -/
def meshDataOf (m_tire : RigidTire D) : MeshData D :=
  { nv := m_tire.NumVertices, nn := m_tire.NumNormals, nt := m_tire.NumTriangles,
    verts := m_tire.MeshVertices, norms := m_tire.MeshNormals,
    idx_verts := m_tire.MeshConnectivity, idx_norms := m_tire.MeshNormalIndices }

/-- Model of `InitializeTire(wheel)` from `m_mesh_data.nv = ...` on (the calls that
attach the tire to the wheel and the contact material are left out); `area` is as in
`InitializeTire_triangle`.  A new `std::vector<double>` holds zeros. -/
def InitializeTire [Zero D] [Add D] [Div D] [NatCast D]
    (area : ChVector D → ChVector D → ChVector D → D) (s : ChVehicleCosimTireNodeRigid D) :
    Outcome (ChVehicleCosimTireNodeRigid D) :=
  let m_mesh_data : MeshData D := meshDataOf s.m_tire
  let s1 := { s with m_mesh_data := m_mesh_data }
  match forLoop (InitializeTire_triangle area m_mesh_data) m_mesh_data.nt 0
      { m_adjElements := resizeList [] m_mesh_data.nv s1.m_adjElements,
        triArea := List.replicate m_mesh_data.nt 0 } with
  | ⟨some f, st⟩ => ⟨some f, { s1 with m_adjElements := st.m_adjElements }⟩
  | ⟨none, st⟩ =>
    let s2 := { s1 with
      m_adjElements := st.m_adjElements,
      m_vertexArea := resizeList 0 s1.m_tire.NumVertices s1.m_vertexArea }
    forLoop (InitializeTire_vertex st.triArea) s2.m_tire.NumVertices 0 s2

/-- The entries that a triangle with index `ie` and corners `t` adds to the
adjacency list of vertex `v`: `ie`, once for every corner of `t` that is `v`. -/
def cornerEntries (t : ChVector Int) (v : Nat) (ie : Nat) : List Nat :=
  ([t.x, t.y, t.z].filter (fun c => decide (c = (v : Int)))).map (fun _ => ie)

/-- The indices of the triangles among the first `k` of `idx_verts` that have
vertex `v` as a corner, in increasing order; a triangle is listed once for
each of its corners that is `v`. -/
def incidentTriangles (idx_verts : List (ChVector Int)) (v : Nat) (k : Nat) : List Nat :=
  (List.range k).flatMap
    (fun ie =>
      match idx_verts[ie]? with
      | some t => cornerEntries t v ie
      | none => [])

/-- The arithmetic mean of a list of areas: their sum, taken from the left,
divided by their number. -/
def arithmeticMean [Zero D] [Add D] [Div D] [NatCast D] (areas : List D) : D :=
  areas.foldl (fun acc a => acc + a) 0 / (areas.length : D)

end ChVehicleCosimTireNodeRigid

/-! ## demo_FSI_Flexible_Toroidal_Tire: Create_MB_FE -/

namespace demo_FSI_Flexible_Toroidal_Tire

/-- Global `int m_div_circumference = 60;`. -/
def m_div_circumference : Int := 60

/-- Global `int m_div_width = 12;`. -/
def m_div_width : Int := 12

/-- Model of `t[i].push_back(x)` on a vector of vectors; `none` when `i` is
outside the bounds. -/
def push_backAt {α : Type} (t : List (List α)) (i : Int) (x : α) : Option (List (List α)) :=
  match ChVehicleCosimTireNodeRigid.atInt t i with
  | some a => some (t.set i.toNat (a ++ [x]))
  | none => none

/-- Modelled from the spec: `fea::ChMesh` belongs to the multibody engine and
is not part of the sources.  The mesh is taken to be the list of its nodes and
the list of its elements: `AddNode` and `AddElement` append, `GetNnodes()` is
the number of nodes and `GetNode(n)` is node `n` of the list.  An element is
given by the four nodes passed to `SetNodes`.  The other fields are the local
tables `_1D_elementsNodes_mesh` and `_2D_elementsNodes_mesh`, the global
`NodeNeighborElement_mesh`, the local counter `num_elem`, and the nodes fixed
to the wheel by a `ChLinkPointFrame`. -/
structure MeshBuild (N : Type) where
  nodes : List N
  elements : List (N × N × N × N)
  links : List N
  _1D_elementsNodes_mesh : List (List Int)
  _2D_elementsNodes_mesh : List (List Int)
  NodeNeighborElement_mesh : List (List Int)
  num_elem : Int

variable {N : Type}

/-- Body of the loops of `Create_MB_FE` that create the nodes, for ring `i` and
position `j` across the width; `node i j` is the `ChNodeFEAxyzD` built from
the location and direction computed for `i` and `j`. -/
def Create_MB_FE_node (node : Int → Int → N) (W : Int) (i j : Nat) (st : MeshBuild N) :
    Outcome (MeshBuild N) :=
  let n := node i j
  let st1 := { st with nodes := st.nodes ++ [n] }
  if (j : Int) = 0 ∨ (j : Int) = W then
    Outcome.ok { st1 with links := st1.links ++ [n] }
  else
    Outcome.ok st1

/-- Body of the loops of `Create_MB_FE` that create the shell elements, for
ring `i` and position `j`.  An index outside a vector stops the run. -/
def Create_MB_FE_element (C W : Int) (i j : Nat) (st : MeshBuild N) : Outcome (MeshBuild N) :=
  let inode1 : Int := j + i * (W + 1)
  let inode2 : Int := j + 1 + i * (W + 1)
  let inode0 : Int := if (i : Int) = C - 1 then j else j + (i + 1) * (W + 1)
  let inode3 : Int := if (i : Int) = C - 1 then j + 1 else j + 1 + (i + 1) * (W + 1)
  match ChVehicleCosimTireNodeRigid.atInt st.nodes inode0,
      ChVehicleCosimTireNodeRigid.atInt st.nodes inode1,
      ChVehicleCosimTireNodeRigid.atInt st.nodes inode2,
      ChVehicleCosimTireNodeRigid.atInt st.nodes inode3 with
  | some node0, some node1, some node2, some node3 =>
    let tables : Option (List (List Int) × List (List Int)) := do
      let t0 ← push_backAt st._2D_elementsNodes_mesh st.num_elem inode0
      let t1 ← push_backAt t0 st.num_elem inode1
      let t2 ← push_backAt t1 st.num_elem inode2
      let t3 ← push_backAt t2 st.num_elem inode3
      let n0 ← push_backAt st.NodeNeighborElement_mesh inode0 st.num_elem
      let n1 ← push_backAt n0 inode1 st.num_elem
      let n2 ← push_backAt n1 inode2 st.num_elem
      let n3 ← push_backAt n2 inode3 st.num_elem
      pure (t3, n3)
    match tables with
    | some (t, n) =>
      Outcome.ok
        { st with
          _2D_elementsNodes_mesh := t,
          NodeNeighborElement_mesh := n,
          elements := st.elements ++ [(node0, node1, node2, node3)],
          num_elem := st.num_elem + 1 }
    | none => Outcome.stop Fault.out_of_range st
  | _, _, _, _ => Outcome.stop Fault.out_of_range st

/-- The part of `Create_MB_FE` that builds the mesh of the tire, for
`m_div_circumference = C` and `m_div_width = W`; `neighbors` is the value of
the global `NodeNeighborElement_mesh` at the call.  The values of type `int`
are integers here, which is the arithmetic of `int` as long as `C * (W + 1)`
is at most `INT_MAX`.  The lines sent to `std::cout` are left out. -/
def Create_MB_FE_mesh (node : Int → Int → N) (C W : Int) (neighbors : List (List Int)) :
    Outcome (MeshBuild N) :=
  let st0 : MeshBuild N :=
    { nodes := [], elements := [], links := [], _1D_elementsNodes_mesh := [],
      _2D_elementsNodes_mesh := [], NodeNeighborElement_mesh := neighbors, num_elem := 0 }
  match forLoop (fun i st => forLoop (fun j st => Create_MB_FE_node node W i j st)
      (W + 1).toNat 0 st) C.toNat 0 st0 with
  | ⟨some f, st1⟩ => ⟨some f, st1⟩
  | ⟨none, st1⟩ =>
    let TotalNumElements : Int := C * W
    let TotalNumNodes : Int := st1.nodes.length
    let st2 : MeshBuild N :=
      { st1 with
        _2D_elementsNodes_mesh := resizeList [] TotalNumElements.toNat st1._2D_elementsNodes_mesh,
        NodeNeighborElement_mesh :=
          resizeList [] TotalNumNodes.toNat st1.NodeNeighborElement_mesh,
        num_elem := 0 }
    forLoop (fun i st => forLoop (fun j st => Create_MB_FE_element C W i j st) W.toNat 0 st)
      C.toNat 0 st2

/-- The mesh that `Create_MB_FE` builds with the values of the globals
`m_div_circumference` and `m_div_width`. -/
def Create_MB_FE (node : Int → Int → N) (neighbors : List (List Int)) : Outcome (MeshBuild N) :=
  Create_MB_FE_mesh node m_div_circumference m_div_width neighbors

/-- The state of the node loops of `Create_MB_FE` at ring `i`, position `j`,
for width `w`: the nodes made so far, in the order of the loops, and tables
that are as at the start. -/
def NodesBuilt (node : Int → Int → N) (w : Nat) (neighbors : List (List Int)) (i j : Nat)
    (st : MeshBuild N) : Prop :=
  st.nodes.length = i * (w + 1) + j ∧
  (∀ a b : Nat, b ≤ w → (a < i ∨ (a = i ∧ b < j)) →
    st.nodes[b + a * (w + 1)]? = some (node a b)) ∧
  st.elements = [] ∧ st._2D_elementsNodes_mesh = [] ∧ st.NodeNeighborElement_mesh = neighbors

/-- The node indices of the element of ring `i`, position `j`, with the ring
after the last one being the first: `(j + ((i+1) mod c)*(w+1), j + i*(w+1),
j+1 + i*(w+1), j+1 + ((i+1) mod c)*(w+1))`. -/
def ringIndices (c w i j : Nat) : List Int :=
  [((j + (i + 1) % c * (w + 1) : Nat) : Int), ((j + i * (w + 1) : Nat) : Int),
   ((j + 1 + i * (w + 1) : Nat) : Int), ((j + 1 + (i + 1) % c * (w + 1) : Nat) : Int)]

/-- The nodes of the element of ring `i`, position `j`, with the ring after
the last one being the first. -/
def ringNodes (node : Int → Int → N) (c i j : Nat) : N × N × N × N :=
  (node ((i + 1) % c : Nat) j, node i j, node i (j + 1 : Nat), node ((i + 1) % c : Nat) (j + 1 : Nat))

/-- The state of the element loops of `Create_MB_FE` at ring `i`, position
`j`, for `c` rings of width `w` over the nodes `nodes`: the elements made so
far are numbered in the order of the loops and their rows of the table hold
their node indices; the other rows are empty. -/
def ElementsBuilt (node : Int → Int → N) (c w : Nat) (nodes : List N) (i j : Nat)
    (st : MeshBuild N) : Prop :=
  st.nodes = nodes ∧
  st.num_elem = ((i * w + j : Nat) : Int) ∧
  st.elements.length = i * w + j ∧
  st._2D_elementsNodes_mesh.length = c * w ∧
  st.NodeNeighborElement_mesh.length = c * (w + 1) ∧
  (∀ a b : Nat, b < w → (a < i ∨ (a = i ∧ b < j)) →
    st._2D_elementsNodes_mesh[a * w + b]? = some (ringIndices c w a b) ∧
    st.elements[a * w + b]? = some (ringNodes node c a b)) ∧
  (∀ k : Nat, i * w + j ≤ k → k < c * w → st._2D_elementsNodes_mesh[k]? = some [])

end demo_FSI_Flexible_Toroidal_Tire


/-! ## Iterations of the simulation loops -/

/-- The event is a file output of a loop iteration: the particle files, the
per-frame VTK file, the ParaView files, or a line of `body_position.txt`. -/
def Event.isOutput {D : Type} : Event D → Bool
  | Event.PrintParticleToFile _ => true
  | Event.WriteCylinderVTK _ _ => true
  | Event.writeFrame _ _ => true
  | Event.SaveParaViewFiles _ => true
  | Event.ofile_line _ => true
  | _ => false

/-- The events of the successive iterations of a loop `while (cond) { body }`
started in state `st` and followed for at most `fuel` iterations, one list per
iteration.  The iteration in which the run ends (a fault, or `break`) is the
last one listed. -/
def iterationsOf {σ E : Type} (cond : σ → Bool) (body : σ → List E × (Status ⊕ σ)) :
    Nat → σ → List (List E)
  | 0, _ => []
  | fuel + 1, st =>
    if cond st = true then
      match body st with
      | (t, Sum.inl _) => [t]
      | (t, Sum.inr st1) => t :: iterationsOf cond body fuel st1
    else []

/-- Every file output of the iteration with index `n` (counted from 0) comes
when exactly `n + k` simulation steps were made since the loop was entered:
`its` lists the events of the iterations. -/
def OutputAfterSteps {D : Type} (k : Nat) (its : List (List (Event D))) : Prop :=
  ∀ (n : Nat) (evs : List (Event D)), its[n]? = some evs →
    ∀ (pre : List (Event D)) (e : Event D) (post : List (Event D)),
      evs = pre ++ e :: post → e.isOutput = true →
      ((its.take n).flatten ++ pre).countP Event.isStep = n + k

/-! ## Example inputs -/

namespace Example

/-- A body at rest at the origin. -/
def body : ChBody Int :=
  { pos := ⟨0, 0, 0⟩, pos_dt := ⟨0, 0, 0⟩, pos_dtdt := ⟨0, 0, 0⟩, rot := ⟨1, 0, 0, 0⟩,
    wvel_par := ⟨0, 0, 0⟩, wacc_par := ⟨0, 0, 0⟩, frame_REF_to_abs := ⟨⟨0, 0, 0⟩, ⟨1, 0, 0, 0⟩⟩,
    Xforce := ⟨0, 0, 0⟩, Xtorque := ⟨0, 0, 0⟩ }

/-- Conversions that keep the components. -/
def convert : ChUtilsTypeConvert Int (ChVector Int) (ChQuaternion Int) :=
  { ChVectorToReal3 := id, Real3ToChVector := id, ChQuaternionToReal4 := id,
    Real4ToChQuaternion := id }

/-- An interface over a system of one body whose backup buffers are empty. -/
def interface : ChFsiInterface Int (ChVector Int) (ChQuaternion Int) :=
  { bodylist := [body], ChTime := 0, fsi_mesh := [], fsi_bodies := [0], fsi_nodes := 0,
    rigid_backup := ⟨[], [], [], [], [], []⟩, flex_backup := ⟨[], [], []⟩,
    rigid_FSI_ForcesD := [⟨1, 2, 3⟩], rigid_FSI_TorquesD := [⟨4, 5, 6⟩], Flex_FSI_ForcesD := [],
    output_fsi := true, outdir := "out", files := [] }

/-- An interface whose mesh has two shell elements and one cable element. -/
def meshInterface : ChFsiInterface Int (ChVector Int) (ChQuaternion Int) :=
  { interface with
    fsi_elements := [ChElement.ChElementShellANCF_3423, ChElement.ChElementCableANCF,
                     ChElement.ChElementShellANCF_3423],
    CableElementsNodesH := [⟨9, 9⟩, ⟨8, 8⟩] }

/-- An interface over a mesh of one node in motion, with one fluid force. -/
def flexInterface : ChFsiInterface Int (ChVector Int) (ChQuaternion Int) :=
  { interface with
    fsi_mesh := [⟨⟨1, 2, 3⟩, ⟨4, 5, 6⟩, ⟨0, 0, 0⟩, ⟨0, 0, 0⟩⟩], fsi_nodes := 1,
    Flex_FSI_ForcesD := [⟨7, 8, 9⟩] }
/-- Integer stand-ins for the operations on `double`. -/
def doubleOps : demo_FSI_CylinderDrop.DoubleOps Int :=
  { mul := fun a b => a * b, div := fun a b => a / b, cos := id, sin := id, ofInt := id,
    c3_1415 := 3, TransformPointLocalToParent := fun _ v => v }

/-- A one-triangle mesh for every part of the rover. -/
def environment : demo_ROBOT_Viper_SPH.Environment Int :=
  { out_dir := "out/FSI_Viper/", GetChronoDataFile := fun f => "data/" ++ f,
    mesh := fun _ _ _ => ⟨[⟨0, 0, 0⟩, ⟨1, 0, 0⟩, ⟨0, 1, 0⟩], [⟨0, 1, 2⟩]⟩,
    Cross_AngZ_PI := id, WriteWavefront := fun _ => [],
    RotatePlus := fun _ node center => ⟨node.x + center.x, node.y + center.y, node.z + center.z⟩,
    lx := 1, ly := 2, lz := 3 }

/-- A rover all of whose parts are `body`. -/
def rover : demo_ROBOT_Viper_SPH.Viper Int :=
  { Chassis := body, Wheel := fun _ => body, Upright := fun _ => body, LowerArm := fun _ => body,
    UpperArm := fun _ => body }

/-- A system of twenty bodies. -/
def bodylist : List (ChBody Int) := List.replicate 20 body

/-- An environment of the main programs in which every directory can be
created, the step size is 1, output is made every second step, rendering
every step, and the simulation ends at time 3. -/
def mainEnv : MainEnv Int :=
  { GetChronoOutputPath := "out/", GetChronoDataFile := fun f => "data/" ++ f,
    create_directory := fun _ => true, GetStepSize := fun _ => 1, steps := fun fps _ => fps.toNat,
    Render := fun _ => true, t_end := 3, out_fps := 2, render_fps := 1, dT := 1 }

/-- The base class of a rig node of a co-simulation with one tire node and a
drawbar-pull rig attached, over the rational numbers. -/
def mbsNode : ChVehicleCosimMBSNode ℚ :=
  { m_num_tire_nodes := 1, m_DBP_rig := true, m_verbose := true, m_step_size := 1 / 1000,
    m_node_out_dir := "RIG", bodies := [], links := [], cout := [], files := [] }

/-- A tire whose mesh has four vertices and two triangles that share the
edge from vertex 1 to vertex 2. -/
def tire : RigidTire ℚ :=
  { NumVertices := 4, NumNormals := 0, NumTriangles := 2,
    MeshVertices := [⟨0, 0, 0⟩, ⟨1, 0, 0⟩, ⟨0, 1, 0⟩, ⟨1, 1, 0⟩],
    MeshNormals := [], MeshConnectivity := [⟨0, 1, 2⟩, ⟨1, 3, 2⟩], MeshNormalIndices := [],
    MeshVertexStates :=
      ([⟨0, 0, 5⟩, ⟨1, 0, 5⟩, ⟨0, 1, 5⟩, ⟨1, 1, 5⟩], [⟨2, 0, 0⟩, ⟨2, 0, 0⟩, ⟨2, 0, 0⟩, ⟨2, 0, 0⟩]) }

/-- A newly constructed tire node for `tire` whose results stream is open. -/
def tireNode : ChVehicleCosimTireNodeRigid ℚ :=
  { m_tire := tire, m_mesh_data := ⟨0, 0, 0, [], [], [], []⟩, m_adjElements := [],
    m_vertexArea := [], m_force := ⟨⟨0, 0, 0⟩, ⟨0, 0, 0⟩, ⟨0, 0, 0⟩⟩, m_outf := some [],
    m_node_out_dir := "TIRE", m_verbose := false, cout := [], files := [] }

/-- A stand-in for the area of a triangle: the sum of the `x` components of
its corners. -/
def area (v1 v2 v3 : ChVector ℚ) : ℚ := v1.x + v2.x + v3.x

/-- An interface over one body in motion whose backup buffers have one
entry each. -/
def roundTripInterface : ChFsiInterface Int (ChVector Int) (ChQuaternion Int) :=
  { interface with
    bodylist := [{ body with pos := ⟨1, 2, 3⟩, pos_dt := ⟨4, 5, 6⟩, wvel_par := ⟨7, 8, 9⟩ }],
    rigid_backup := ⟨[⟨0, 0, 0⟩], [⟨0, 0, 0⟩], [⟨0, 0, 0⟩], [⟨1, 0, 0, 0⟩], [⟨0, 0, 0⟩],
                     [⟨0, 0, 0⟩]⟩ }

/-- Subsystems over the integers: the state of a powertrain is its output
torque, which `Synchronize` keeps; the driveshaft of a driveline turns at
speed 7. -/
def subsystems : Skid_steer_Vehicle.Subsystems Int Unit Int Unit :=
  { powertrain_Synchronize := fun _ _ _ p => p, GetOutputTorque := fun p => p,
    GetDriveshaftSpeed := fun _ => 7, driveline_Synchronize := fun _ _ _ l => l }

/-- The environment `mainEnv` when the program is run again: the output
directories exist, and every `filesystem::create_directory` reports failure. -/
def rerunEnv : MainEnv Int :=
  { mainEnv with create_directory := fun _ => false }

end Example

/-! ## Properties of runs -/

/-- The three directory creations of a demo (root, `particles`, and the
sub-directory `sub`) all report success. -/
def DirectoriesCreated {D : Type} (env : MainEnv D) (out_dir sub : String) : Prop :=
  env.create_directory out_dir = true ∧
  env.create_directory (out_dir ++ "/particles") = true ∧
  env.create_directory (out_dir ++ sub) = true

/-- How a main program `run` treats its arguments: with `argc = 1` the one
parameter file read is `defaultJson`, with `argc = 2` it is `argv[1]`, and with
`argc > 2` the run prints `usage`, returns 1, reads no parameter file and
performs no simulation step. -/
def ScenarioFromArguments {D : Type} (run : List String → Nat → Run D)
    (defaultJson usage : String) : Prop :=
  ∀ (argv : List String) (fuel : Nat),
    (∀ a0, argv = [a0] →
      (run argv fuel).trace.filter Event.isRead = [Event.ReadParametersFromFile defaultJson]) ∧
    (∀ a0 a1, argv = [a0, a1] →
      (run argv fuel).trace.filter Event.isRead = [Event.ReadParametersFromFile a1]) ∧
    (2 < argv.length →
      (run argv fuel).status = Status.returned 1 ∧
      (run argv fuel).trace.getLast? = some (Event.cout usage) ∧
      (run argv fuel).trace.filter Event.isRead = [] ∧
      (run argv fuel).trace.filter Event.isStep = [])

/-- How a main program `run` creates its directories `out_dir`,
`out_dir/particles` and `out_dir` followed by `sub`: the creations come first
and in that order; the first one that fails is followed by a message on
`std::cerr` and `return 1` and by nothing else; when all three succeed the
run goes on with the event `next`, and creates no further directory. -/
def DirectoriesFirst {D : Type} (env : MainEnv D) (run : List String → Nat → Run D)
    (out_dir sub : String) (next : Event D) : Prop :=
  ∀ (argv : List String) (fuel : Nat),
    (env.create_directory out_dir = false →
      run argv fuel
        = ⟨[Event.create_directory out_dir, Event.cerr ("Error creating directory " ++ out_dir)],
            Status.returned 1⟩) ∧
    (env.create_directory out_dir = true →
      env.create_directory (out_dir ++ "/particles") = false →
      run argv fuel
        = ⟨[Event.create_directory out_dir, Event.create_directory (out_dir ++ "/particles"),
            Event.cerr ("Error creating directory " ++ out_dir ++ "/particles")],
            Status.returned 1⟩) ∧
    (env.create_directory out_dir = true →
      env.create_directory (out_dir ++ "/particles") = true →
      env.create_directory (out_dir ++ sub) = false →
      run argv fuel
        = ⟨[Event.create_directory out_dir, Event.create_directory (out_dir ++ "/particles"),
            Event.create_directory (out_dir ++ sub),
            Event.cerr ("Error creating directory " ++ out_dir ++ sub)],
            Status.returned 1⟩) ∧
    (DirectoriesCreated env out_dir sub →
      (∃ rest, (run argv fuel).trace
        = Event.create_directory out_dir :: Event.create_directory (out_dir ++ "/particles")
          :: Event.create_directory (out_dir ++ sub) :: next :: rest) ∧
      (run argv fuel).trace.filter Event.isCreate
        = [Event.create_directory out_dir, Event.create_directory (out_dir ++ "/particles"),
           Event.create_directory (out_dir ++ sub)])

/-- The header row and a data row list the given columns: the fields of the
header are the names of the columns and the fields of the data row are their
values, in the same order. -/
def RowMatchesHeader {D : Type} (delim : String) (header row : Line D)
    (columns : List (String × D)) : Prop :=
  splitFields delim header = fieldsNamed (columns.map Prod.fst) ∧
  splitFields delim row = columns.map (fun c => [Item.real c.2]) ∧
  (splitFields delim header).length = columns.length ∧
  (splitFields delim row).length = columns.length

/-- The six rigid backup buffers below index `i` hold the converted state of
the bodies of `bodylist`, and all six have as many entries as `bodylist`. -/
def BackupHolds {D R3 R4 : Type} (cv : ChUtilsTypeConvert D R3 R4) (bodylist : List (ChBody D)) (i : Nat)
    (b : ChronoBodiesDataH R3 R4) : Prop :=
  b.pos_ChSystemH.length = bodylist.length ∧ b.vel_ChSystemH.length = bodylist.length ∧
  b.acc_ChSystemH.length = bodylist.length ∧ b.quat_ChSystemH.length = bodylist.length ∧
  b.omegaVelGRF_ChSystemH.length = bodylist.length ∧
  b.omegaAccGRF_ChSystemH.length = bodylist.length ∧
  ∀ (j : Nat) (mBody : ChBody D), j < i → bodylist[j]? = some mBody →
    b.pos_ChSystemH[j]? = some (cv.ChVectorToReal3 mBody.pos) ∧
    b.vel_ChSystemH[j]? = some (cv.ChVectorToReal3 mBody.pos_dt) ∧
    b.acc_ChSystemH[j]? = some (cv.ChVectorToReal3 mBody.pos_dtdt) ∧
    b.quat_ChSystemH[j]? = some (cv.ChQuaternionToReal4 mBody.rot) ∧
    b.omegaVelGRF_ChSystemH[j]? = some (cv.ChVectorToReal3 mBody.wvel_par) ∧
    b.omegaAccGRF_ChSystemH[j]? = some (cv.ChVectorToReal3 mBody.wacc_par)

/-- An iteration whose events end with the one simulation step it makes, or
that makes no step and ends the run. -/
def StepLast {D σ : Type} (body : σ → List (Event D) × (Status ⊕ σ)) : Prop :=
  ∀ st, (∃ pre, (body st).1 = pre ++ [Event.DoStepDynamics_FSI] ∧
      pre.countP Event.isStep = 0) ∨
    ((body st).1.countP Event.isStep = 0 ∧ ∃ status, (body st).2 = Sum.inl status)

/-- In a loop with iterations `its` and events `trace`, every iteration makes
its file output before its simulation step: an output of iteration `n` comes
after exactly `n` steps, iteration `n` starts after exactly `n` steps, and
`trace` is made of the events of the iterations, followed by events that are
neither a step nor an output. -/
def OutputBeforeStep {D : Type} (its : List (List (Event D))) (trace : List (Event D)) : Prop :=
  OutputAfterSteps 0 its ∧
  (∀ n, n < its.length → ((its.take n).flatten).countP Event.isStep = n) ∧
  ∃ tail, trace = its.flatten ++ tail ∧ tail.countP Event.isStep = 0 ∧
    tail.countP Event.isOutput = 0

/-- The run stopped at a directory creation: its last event is the error
message for some path, it returned 1, and it read no parameter file and made
no simulation step. -/
def StopsAtDirectory {D : Type} (run : Run D) : Prop :=
  run.status = Status.returned 1 ∧
  (∃ path, run.trace.getLast? = some (Event.cerr ("Error creating directory " ++ path))) ∧
  run.trace.filter Event.isRead = [] ∧
  run.trace.filter Event.isStep = []

end chrono

/-! # Theorems -/

namespace chrono

/-- A loop whose body never throws a `runtime_error` does not throw one. -/
theorem forLoop_fault_of_body {σ : Type} (body : Nat → σ → Outcome σ) (P : Fault → Prop)
    (hb : ∀ i s f, (body i s).fault = some f → P f) :
    ∀ count i s f, (forLoop body count i s).fault = some f → P f := by
  intro count
  induction count with
  | zero => intro i s f h; simp [forLoop, Outcome.ok] at h
  | succ n ih =>
    intro i s f h
    unfold forLoop at h
    cases hbody : body i s with
    | mk flt s1 =>
      cases flt with
      | none => rw [hbody] at h; exact ih _ _ _ h
      | some g =>
        rw [hbody] at h
        have := hb i s g (by rw [hbody])
        simp at h
        rw [← h]; exact this

/-- A relation that every iteration establishes between the state before and
after it, and that is reflexive and transitive, holds across the loop. -/
theorem forLoop_rel {σ : Type} (body : Nat → σ → Outcome σ) (R : σ → σ → Prop)
    (hrefl : ∀ s, R s s) (htrans : ∀ a b c, R a b → R b c → R a c)
    (hb : ∀ i s, R s (body i s).state) :
    ∀ count i s, R s (forLoop body count i s).state := by
  intro count
  induction count with
  | zero => intro i s; exact hrefl s
  | succ n ih =>
    intro i s
    unfold forLoop
    have h1 := hb i s
    cases hbody : body i s with
    | mk flt s1 =>
      rw [hbody] at h1
      cases flt with
      | none => exact htrans _ _ _ h1 (ih _ _)
      | some g => exact h1

namespace ChFsiInterface

variable {D R3 R4 : Type}

theorem Copy_External_To_ChSystem_body_fault (cv : ChUtilsTypeConvert D R3 R4) (i : Nat)
    (s : ChFsiInterface D R3 R4) (f : Fault)
    (h : (Copy_External_To_ChSystem_body cv i s).fault = some f) : f = Fault.out_of_range := by
  unfold Copy_External_To_ChSystem_body at h
  split at h
  · simp [Outcome.ok] at h
  · simp [Outcome.stop] at h; exact h.symm

theorem Copy_ChSystem_to_External_body_fault (cv : ChUtilsTypeConvert D R3 R4) (i : Nat)
    (s : ChFsiInterface D R3 R4) (f : Fault)
    (h : (Copy_ChSystem_to_External_body cv i s).fault = some f) : f = Fault.out_of_range := by
  unfold Copy_ChSystem_to_External_body at h
  split at h
  · simp [Outcome.stop] at h; exact h.symm
  · dsimp only at h
    split at h
    · simp [Outcome.ok] at h
    · simp [Outcome.stop] at h; exact h.symm

theorem Copy_ChSystem_to_External_node_fault (cv : ChUtilsTypeConvert D R3 R4) (i : Nat)
    (s : ChFsiInterface D R3 R4) (f : Fault)
    (h : (Copy_ChSystem_to_External_node cv i s).fault = some f) : f = Fault.out_of_range := by
  unfold Copy_ChSystem_to_External_node at h
  split at h
  · simp [Outcome.stop] at h; exact h.symm
  · dsimp only at h
    split at h
    · simp [Outcome.ok] at h
    · simp [Outcome.stop] at h; exact h.symm

/-- C1. Both state-mirroring operations throw their `runtime_error` exactly
when the length of the backup position buffer `pos_ChSystemH` differs from the
number of bodies of the system; when the lengths agree no `runtime_error` at
all is raised. -/
theorem copy_throws_iff_size_mismatch [Inhabited R3] [Inhabited R4]
    (cv : ChUtilsTypeConvert D R3 R4) (s : ChFsiInterface D R3 R4) :
    ((Copy_ChSystem_to_External cv s).fault
        = some (Fault.runtime_error what_Copy_ChSystem_to_External)
      ↔ s.rigid_backup.pos_ChSystemH.length ≠ s.bodylist.length) ∧
    ((Copy_External_To_ChSystem cv s).fault
        = some (Fault.runtime_error what_Copy_External_To_ChSystem)
      ↔ s.rigid_backup.pos_ChSystemH.length ≠ s.bodylist.length) ∧
    (s.rigid_backup.pos_ChSystemH.length = s.bodylist.length →
      ∀ what, (Copy_ChSystem_to_External cv s).fault ≠ some (Fault.runtime_error what) ∧
        (Copy_External_To_ChSystem cv s).fault ≠ some (Fault.runtime_error what)) := by
  have hA : s.rigid_backup.pos_ChSystemH.length = s.bodylist.length →
      ∀ what, (Copy_ChSystem_to_External cv s).fault ≠ some (Fault.runtime_error what) := by
    intro heq what hf
    unfold Copy_ChSystem_to_External at hf
    simp only [ne_eq, heq, not_true_eq_false, if_false] at hf
    split at hf
    · next f s2 hloop =>
      have := forLoop_fault_of_body _ (fun f => f = Fault.out_of_range)
        (Copy_ChSystem_to_External_body_fault cv) _ _ _ f (by rw [hloop])
      simp at hf
      rw [this] at hf
      exact Fault.noConfusion hf
    · have := forLoop_fault_of_body _ (fun f => f = Fault.out_of_range)
        (Copy_ChSystem_to_External_node_fault cv) _ _ _ _ hf
      exact Fault.noConfusion this
  have hB : s.rigid_backup.pos_ChSystemH.length = s.bodylist.length →
      ∀ what, (Copy_External_To_ChSystem cv s).fault ≠ some (Fault.runtime_error what) := by
    intro heq what hf
    unfold Copy_External_To_ChSystem at hf
    simp only [ne_eq, heq, not_true_eq_false, if_false] at hf
    have := forLoop_fault_of_body _ (fun f => f = Fault.out_of_range)
      (Copy_External_To_ChSystem_body_fault cv) _ _ _ _ hf
    exact Fault.noConfusion this
  refine ⟨⟨?_, ?_⟩, ⟨?_, ?_⟩, fun heq what => ⟨hA heq what, hB heq what⟩⟩
  · intro hf hlen
    exact hA hlen _ hf
  · intro hne
    simp [Copy_ChSystem_to_External, hne, Outcome.stop]
  · intro hf hlen
    exact hB hlen _ hf
  · intro hne
    simp [Copy_External_To_ChSystem, hne, Outcome.stop]

/-- C2. When the backup position buffer and the body list differ in length,
both state-mirroring operations stop in exactly the state they were called
in: all backup buffers (entries and lengths), all bodies, all nodes and the
file log are unchanged. -/
theorem copy_size_mismatch_state_unchanged [Inhabited R3] [Inhabited R4]
    (cv : ChUtilsTypeConvert D R3 R4) (s : ChFsiInterface D R3 R4)
    (h : s.rigid_backup.pos_ChSystemH.length ≠ s.bodylist.length) :
    (Copy_ChSystem_to_External cv s).fault ≠ none ∧
    (Copy_ChSystem_to_External cv s).state = s ∧
    (Copy_External_To_ChSystem cv s).fault ≠ none ∧
    (Copy_External_To_ChSystem cv s).state = s := by
  simp [Copy_ChSystem_to_External, Copy_External_To_ChSystem, h, Outcome.stop]

end ChFsiInterface

/-! ## File names -/

section names

theorem digitValue_digitChar (d : Nat) (h : d < 10) : digitValue (Nat.digitChar d) = d := by
  interval_cases d <;> rfl

theorem toDigitsCore_append (fuel : Nat) :
    ∀ (n : Nat) (ds : List Char),
      Nat.toDigitsCore 10 fuel n ds = Nat.toDigitsCore 10 fuel n [] ++ ds := by
  induction fuel with
  | zero => intro n ds; simp [Nat.toDigitsCore]
  | succ f ih =>
    intro n ds
    simp only [Nat.toDigitsCore]
    split
    · simp
    · rw [ih (n / 10) (Nat.digitChar (n % 10) :: ds), ih (n / 10) [Nat.digitChar (n % 10)]]
      simp

theorem decimalValue_append_singleton (cs : List Char) (c : Char) :
    decimalValue (cs ++ [c]) = 10 * decimalValue cs + digitValue c := by
  simp [decimalValue, List.foldl_append]

theorem decimalValue_toDigitsCore (fuel : Nat) :
    ∀ n : Nat, n < fuel → decimalValue (Nat.toDigitsCore 10 fuel n []) = n := by
  induction fuel with
  | zero => intro n h; omega
  | succ f ih =>
    intro n h
    simp only [Nat.toDigitsCore]
    split
    · next h0 =>
      have hn : n < 10 := by omega
      have : n % 10 = n := Nat.mod_eq_of_lt hn
      simp [decimalValue, this, digitValue_digitChar n hn]
    · next h0 =>
      rw [toDigitsCore_append, decimalValue_append_singleton, ih (n / 10) (by omega),
        digitValue_digitChar _ (Nat.mod_lt _ (by decide))]
      omega

/-- The decimal numeral of a natural number determines the number. -/
theorem toString_nat_injective (a b : Nat) (h : toString a = toString b) : a = b := by
  have h1 : (Nat.toDigits 10 a) = (Nat.toDigits 10 b) := by
    have := congrArg String.data h
    exact this
  have ha := decimalValue_toDigitsCore (a + 1) a (by omega)
  have hb := decimalValue_toDigitsCore (b + 1) b (by omega)
  unfold Nat.toDigits at h1
  rw [h1] at ha
  omega

/-- A file name that embeds a decimal number between a fixed beginning and a
fixed end determines the number. -/
theorem numbered_name_injective (pre suf : String) (a b : Nat)
    (h : pre ++ toString a ++ suf = pre ++ toString b ++ suf) : a = b := by
  apply toString_nat_injective
  have h1 := String.ext_iff.mp h
  simp only [String.data_append] at h1
  have h2 := List.append_cancel_right h1
  have h3 := List.append_cancel_left h2
  exact String.ext_iff.mpr h3

theorem toString_int_natCast (n : Nat) : toString (n : Int) = toString n := rfl

end names

/-! ## CSV writers -/

section csv

variable {D : Type}

theorem fileContents_append (name : String) (l1 l2 : List (FileWrite D)) (old : List (Line D)) :
    fileContents name (l1 ++ l2) old = fileContents name l2 (fileContents name l1 old) := by
  induction l1 generalizing old with
  | nil => rfl
  | cons w ws ih => simp [fileContents, ih]

/-- Only the write episodes that name a file matter for its contents. -/
theorem fileContents_filter (name : String) (log : List (FileWrite D)) (old : List (Line D)) :
    fileContents name log old
      = fileContents name (log.filter (fun w => decide (w.name = name))) old := by
  induction log generalizing old with
  | nil => rfl
  | cons w ws ih =>
    by_cases h : w.name = name
    · simp [fileContents, List.filter, h, ih]
    · simp [fileContents, List.filter, h, ih]

theorem csvEpisode_name [LinearOrder D] [Zero D] (name : String) (t : D) (header row : Line D) :
    (csvEpisode name t header row).name = name := by
  unfold csvEpisode; split <;> rfl

theorem csvEpisode_apply [LinearOrder D] [Zero D] (name : String) (t : D) (header row : Line D)
    (old : List (Line D)) :
    (csvEpisode name t header row).apply old
      = if 0 < t then old ++ [row] else [header, row] := by
  unfold csvEpisode FileWrite.apply; split <;> simp

/-- Appending episodes (all at positive times) add their rows in order. -/
theorem fileContents_csv_appends [LinearOrder D] [Zero D] (name : String) (header : Line D)
    (rest : List (D × Line D)) (hrest : ∀ p ∈ rest, 0 < p.1) (old : List (Line D)) :
    fileContents name (rest.map (fun p => csvEpisode name p.1 header p.2)) old
      = old ++ rest.map Prod.snd := by
  induction rest generalizing old with
  | nil => simp [fileContents]
  | cons p ps ih =>
    have hp : 0 < p.1 := hrest p (List.mem_cons_self _ _)
    have hps : ∀ q ∈ ps, 0 < q.1 := fun q hq => hrest q (List.mem_cons_of_mem _ hq)
    simp only [List.map_cons, fileContents, csvEpisode_name, if_true, csvEpisode_apply, hp]
    rw [ih hps]
    simp

/-- The iteration of `Add_Rigid_ForceTorques_To_ChSystem` for body `i`, when it
completes with output enabled, adds one episode on `FSI_body<i>.csv`. -/
theorem Add_Rigid_ForceTorques_To_ChSystem_body_files {R3 R4 : Type} [LinearOrder D] [Zero D]
    (cv : ChUtilsTypeConvert D R3 R4) (acc : ChBodyAccumulators D) (i : Nat)
    (s s1 : ChFsiInterface D R3 R4)
    (hrun : ChFsiInterface.Add_Rigid_ForceTorques_To_ChSystem_body cv acc i s = ⟨none, s1⟩)
    (hout : s.output_fsi = true) :
    ∃ tail, s1.files = s.files ++
      [csvEpisode (ChFsiInterface.FSI_body_filename s.outdir i) s.ChTime
        ChFsiInterface.FSI_body_header (Item.real s.ChTime :: tail)] := by
  unfold ChFsiInterface.Add_Rigid_ForceTorques_To_ChSystem_body at hrun
  split at hrun
  · split at hrun
    · simp [Outcome.stop] at hrun
    · simp only [hout, if_true, Outcome.ok, Outcome.mk.injEq, true_and] at hrun
      subst hrun
      exact ⟨_, rfl⟩
  · simp [Outcome.stop] at hrun

/-- The iteration of `Add_Flex_Forces_To_ChSystem` for node `i`, when it
completes with output enabled, adds one episode on `FSI_node<i>.csv`. -/
theorem Add_Flex_Forces_To_ChSystem_body_files {R3 R4 : Type} [LinearOrder D] [Zero D]
    (cv : ChUtilsTypeConvert D R3 R4) (i : Nat) (s s1 : ChFsiInterface D R3 R4)
    (hrun : ChFsiInterface.Add_Flex_Forces_To_ChSystem_body cv i s = ⟨none, s1⟩)
    (hout : s.output_fsi = true) :
    ∃ tail, s1.files = s.files ++
      [csvEpisode (ChFsiInterface.FSI_node_filename s.outdir i) s.ChTime
        ChFsiInterface.FSI_node_header (Item.real s.ChTime :: tail)] := by
  unfold ChFsiInterface.Add_Flex_Forces_To_ChSystem_body at hrun
  split at hrun
  · simp only [hout, if_true, Outcome.ok, Outcome.mk.injEq, true_and] at hrun
    subst hrun
    exact ⟨_, rfl⟩
  · simp [Outcome.stop] at hrun

/-- The iteration of the last loop of `SaveParaViewFiles` for body `i`, when it
completes, adds one episode on `body_pos_rot_vel<i>.csv`. -/
theorem saveBodyCsv_files [LinearOrder D] [Zero D] (env : demo_ROBOT_Viper_SPH.Environment D)
    (bodylist : List (ChBody D)) (ChTime : D) (i : Nat) (s s1 : demo_ROBOT_Viper_SPH.State D)
    (hrun : demo_ROBOT_Viper_SPH.saveBodyCsv env bodylist ChTime i s = ⟨none, s1⟩) :
    ∃ tail, s1.files = s.files ++
      [csvEpisode (demo_ROBOT_Viper_SPH.body_pos_rot_vel_filename env.out_dir i) ChTime
        demo_ROBOT_Viper_SPH.body_pos_rot_vel_header (Item.real ChTime :: tail)] := by
  unfold demo_ROBOT_Viper_SPH.saveBodyCsv at hrun
  split at hrun
  · simp [Outcome.stop] at hrun
  · simp only [Outcome.ok, Outcome.mk.injEq, true_and] at hrun
    subst hrun
    exact ⟨_, rfl⟩

/-- The iteration of `Add_Rigid_ForceTorques_To_ChSystem` for FSI body `i`
completes when the two force arrays, the list of FSI bodies and the body list
cover the indices it reads; with output enabled it adds one episode on
`FSI_body<i>.csv` whose data row is the time, the state of the body and the
fluid force and torque. -/
theorem Add_Rigid_ForceTorques_To_ChSystem_body_writes {R3 R4 : Type} [LinearOrder D] [Zero D]
    (cv : ChUtilsTypeConvert D R3 R4) (acc : ChBodyAccumulators D) (i r : Nat)
    (s : ChFsiInterface D R3 R4) (F T : R3) (body0 : ChBody D)
    (hF : s.rigid_FSI_ForcesD[i]? = some F) (hT : s.rigid_FSI_TorquesD[i]? = some T)
    (hr : s.fsi_bodies[i]? = some r) (hb : s.bodylist[r]? = some body0)
    (hout : s.output_fsi = true) :
    (ChFsiInterface.Add_Rigid_ForceTorques_To_ChSystem_body cv acc i s).fault = none ∧
    ∃ body : ChBody D,
      (ChFsiInterface.Add_Rigid_ForceTorques_To_ChSystem_body cv acc i s).state.bodylist[r]?
        = some body ∧
      (ChFsiInterface.Add_Rigid_ForceTorques_To_ChSystem_body cv acc i s).state.files
        = s.files ++
          [csvEpisode (ChFsiInterface.FSI_body_filename s.outdir i) s.ChTime
            ChFsiInterface.FSI_body_header
            (ChFsiInterface.FSI_body_row s.ChTime body.pos body.rot body.pos_dt
              (cv.Real3ToChVector F) (cv.Real3ToChVector T))] := by
  have hlt : r < s.bodylist.length := by
    by_contra hcon
    rw [List.getElem?_eq_none (by omega)] at hb
    cases hb
  unfold ChFsiInterface.Add_Rigid_ForceTorques_To_ChSystem_body
  simp only [hF, hT, hr, hb, hout, if_true, Outcome.ok]
  exact ⟨trivial, _, List.getElem?_set_self hlt, rfl⟩

/-- The iteration of `Add_Flex_Forces_To_ChSystem` for node `i` completes when
the force array and the mesh cover index `i`; with output enabled it adds one
episode on `FSI_node<i>.csv` whose data row is the time, the position and
velocity of the node and the fluid force. -/
theorem Add_Flex_Forces_To_ChSystem_body_writes {R3 R4 : Type} [LinearOrder D] [Zero D]
    (cv : ChUtilsTypeConvert D R3 R4) (i : Nat) (s : ChFsiInterface D R3 R4) (F : R3)
    (node0 : ChNodeFEAxyzD D)
    (hF : s.Flex_FSI_ForcesD[i]? = some F) (hn : s.fsi_mesh[i]? = some node0)
    (hout : s.output_fsi = true) :
    (ChFsiInterface.Add_Flex_Forces_To_ChSystem_body cv i s).fault = none ∧
    (ChFsiInterface.Add_Flex_Forces_To_ChSystem_body cv i s).state.files
      = s.files ++
        [csvEpisode (ChFsiInterface.FSI_node_filename s.outdir i) s.ChTime
          ChFsiInterface.FSI_node_header
          (ChFsiInterface.FSI_node_row s.ChTime node0.pos node0.pos_dt
            (cv.Real3ToChVector F))] := by
  unfold ChFsiInterface.Add_Flex_Forces_To_ChSystem_body
  simp only [hF, hn, hout, if_true, Outcome.ok]
  exact ⟨trivial, trivial⟩

/-- The iteration of the last loop of `SaveParaViewFiles` for body `i` of the
body list completes and adds one episode on `body_pos_rot_vel<i>.csv` whose
data row is the time and the position, orientation and velocity of the
body. -/
theorem saveBodyCsv_writes [LinearOrder D] [Zero D] (env : demo_ROBOT_Viper_SPH.Environment D)
    (bodylist : List (ChBody D)) (ChTime : D) (i : Nat) (s : demo_ROBOT_Viper_SPH.State D)
    (body : ChBody D) (hb : bodylist[i]? = some body) :
    (demo_ROBOT_Viper_SPH.saveBodyCsv env bodylist ChTime i s).fault = none ∧
    (demo_ROBOT_Viper_SPH.saveBodyCsv env bodylist ChTime i s).state.files
      = s.files ++
        [csvEpisode (demo_ROBOT_Viper_SPH.body_pos_rot_vel_filename env.out_dir i) ChTime
          demo_ROBOT_Viper_SPH.body_pos_rot_vel_header
          (demo_ROBOT_Viper_SPH.body_pos_rot_vel_row ChTime body.frame_REF_to_abs.pos
            body.frame_REF_to_abs.rot body.pos_dt)] := by
  unfold demo_ROBOT_Viper_SPH.saveBodyCsv
  simp only [hb, Outcome.ok]
  exact ⟨trivial, trivial⟩

/-- The three CSV headers start with a string, so no data row (which starts
with the time) equals one of them. -/
theorem csv_header_ne_row (header : Line D)
    (hh : header = ChFsiInterface.FSI_body_header ∨ header = ChFsiInterface.FSI_node_header ∨
      header = demo_ROBOT_Viper_SPH.body_pos_rot_vel_header)
    (t : D) (tail : Line D) : header ≠ Item.real t :: tail := by
  rcases hh with h | h | h <;> subst h <;>
    simp [ChFsiInterface.FSI_body_header, ChFsiInterface.FSI_node_header,
      demo_ROBOT_Viper_SPH.body_pos_rot_vel_header]

/-- C3. For each of the three CSV files (`FSI_body<i>.csv`, `FSI_node<i>.csv`,
`body_pos_rot_vel<i>.csv`), at a simulation time `t ≥ 0`:

* each writer adds, per file and per call, one write episode `csvEpisode`
  with the header of that file and a data row that starts with the time;
* the episode contains the header row exactly when `t = 0` (for any `t`:
  exactly when `t > 0` fails), and always the data row;
* an episode at `t > 0` leaves the old rows in place and adds the data row
  after them;
* if the episodes on a file are one at time `0` followed by episodes at times
  `> 0`, whatever is written to other files in between, the file ends up as
  the header row followed by the data rows in write order;
* the files of different bodies (nodes) have different names;
* each writer completes and writes its episode whenever the arrays it reads
  cover the index it treats (and, for the two writers of the FSI interface,
  output is enabled). -/
theorem csv_header_once_then_append [LinearOrder D] [Zero D] (header : Line D)
    (hh : header = ChFsiInterface.FSI_body_header ∨ header = ChFsiInterface.FSI_node_header ∨
      header = demo_ROBOT_Viper_SPH.body_pos_rot_vel_header) (name : String) :
    (∀ (R3 R4 : Type) (cv : ChUtilsTypeConvert D R3 R4) (acc : ChBodyAccumulators D) (i : Nat)
        (s s1 : ChFsiInterface D R3 R4),
        ChFsiInterface.Add_Rigid_ForceTorques_To_ChSystem_body cv acc i s = ⟨none, s1⟩ →
        s.output_fsi = true →
        ∃ tail, s1.files = s.files ++
          [csvEpisode (ChFsiInterface.FSI_body_filename s.outdir i) s.ChTime
            ChFsiInterface.FSI_body_header (Item.real s.ChTime :: tail)]) ∧
    (∀ (R3 R4 : Type) (cv : ChUtilsTypeConvert D R3 R4) (i : Nat) (s s1 : ChFsiInterface D R3 R4),
        ChFsiInterface.Add_Flex_Forces_To_ChSystem_body cv i s = ⟨none, s1⟩ →
        s.output_fsi = true →
        ∃ tail, s1.files = s.files ++
          [csvEpisode (ChFsiInterface.FSI_node_filename s.outdir i) s.ChTime
            ChFsiInterface.FSI_node_header (Item.real s.ChTime :: tail)]) ∧
    (∀ (env : demo_ROBOT_Viper_SPH.Environment D) (bodylist : List (ChBody D)) (ChTime : D)
        (i : Nat) (s s1 : demo_ROBOT_Viper_SPH.State D),
        demo_ROBOT_Viper_SPH.saveBodyCsv env bodylist ChTime i s = ⟨none, s1⟩ →
        ∃ tail, s1.files = s.files ++
          [csvEpisode (demo_ROBOT_Viper_SPH.body_pos_rot_vel_filename env.out_dir i) ChTime
            demo_ROBOT_Viper_SPH.body_pos_rot_vel_header (Item.real ChTime :: tail)]) ∧
    (∀ (t : D) (tail : Line D),
        (header ∈ (csvEpisode name t header (Item.real t :: tail)).lines ↔ ¬ 0 < t) ∧
        (0 ≤ t → (header ∈ (csvEpisode name t header (Item.real t :: tail)).lines ↔ t = 0)) ∧
        (Item.real t :: tail) ∈ (csvEpisode name t header (Item.real t :: tail)).lines) ∧
    (∀ (t : D) (row : Line D) (old : List (Line D)), 0 < t →
        (csvEpisode name t header row).apply old = old ++ [row]) ∧
    (∀ (log : List (FileWrite D)) (row0 : Line D) (rest : List (D × Line D))
        (old : List (Line D)),
        log.filter (fun w => decide (w.name = name))
          = csvEpisode name 0 header row0
            :: rest.map (fun p => csvEpisode name p.1 header p.2) →
        (∀ p ∈ rest, 0 < p.1) →
        fileContents name log old = header :: row0 :: rest.map Prod.snd) ∧
    (∀ (outdir : String) (i j : Nat),
        (ChFsiInterface.FSI_body_filename outdir i = ChFsiInterface.FSI_body_filename outdir j →
          i = j) ∧
        (ChFsiInterface.FSI_node_filename outdir i = ChFsiInterface.FSI_node_filename outdir j →
          i = j) ∧
        (demo_ROBOT_Viper_SPH.body_pos_rot_vel_filename outdir i
            = demo_ROBOT_Viper_SPH.body_pos_rot_vel_filename outdir j → i = j)) ∧
    (∀ (R3 R4 : Type) (cv : ChUtilsTypeConvert D R3 R4) (acc : ChBodyAccumulators D) (i r : Nat)
        (s : ChFsiInterface D R3 R4) (F T : R3) (body0 : ChBody D),
        s.rigid_FSI_ForcesD[i]? = some F → s.rigid_FSI_TorquesD[i]? = some T →
        s.fsi_bodies[i]? = some r → s.bodylist[r]? = some body0 → s.output_fsi = true →
        (ChFsiInterface.Add_Rigid_ForceTorques_To_ChSystem_body cv acc i s).fault = none ∧
        ∃ tail,
          (ChFsiInterface.Add_Rigid_ForceTorques_To_ChSystem_body cv acc i s).state.files
            = s.files ++
              [csvEpisode (ChFsiInterface.FSI_body_filename s.outdir i) s.ChTime
                ChFsiInterface.FSI_body_header (Item.real s.ChTime :: tail)]) ∧
    (∀ (R3 R4 : Type) (cv : ChUtilsTypeConvert D R3 R4) (i : Nat) (s : ChFsiInterface D R3 R4)
        (F : R3) (node0 : ChNodeFEAxyzD D),
        s.Flex_FSI_ForcesD[i]? = some F → s.fsi_mesh[i]? = some node0 → s.output_fsi = true →
        (ChFsiInterface.Add_Flex_Forces_To_ChSystem_body cv i s).fault = none ∧
        ∃ tail,
          (ChFsiInterface.Add_Flex_Forces_To_ChSystem_body cv i s).state.files
            = s.files ++
              [csvEpisode (ChFsiInterface.FSI_node_filename s.outdir i) s.ChTime
                ChFsiInterface.FSI_node_header (Item.real s.ChTime :: tail)]) ∧
    (∀ (env : demo_ROBOT_Viper_SPH.Environment D) (bodylist : List (ChBody D)) (ChTime : D)
        (i : Nat) (s : demo_ROBOT_Viper_SPH.State D) (body : ChBody D),
        bodylist[i]? = some body →
        (demo_ROBOT_Viper_SPH.saveBodyCsv env bodylist ChTime i s).fault = none ∧
        ∃ tail,
          (demo_ROBOT_Viper_SPH.saveBodyCsv env bodylist ChTime i s).state.files
            = s.files ++
              [csvEpisode (demo_ROBOT_Viper_SPH.body_pos_rot_vel_filename env.out_dir i) ChTime
                demo_ROBOT_Viper_SPH.body_pos_rot_vel_header (Item.real ChTime :: tail)]) := by
  refine ⟨?_, ?_, ?_, ?_, ?_, ?_, ?_, ?_, ?_, ?_⟩
  · intro R3 R4 cv acc i s s1 hrun hout
    exact Add_Rigid_ForceTorques_To_ChSystem_body_files cv acc i s s1 hrun hout
  · intro R3 R4 cv i s s1 hrun hout
    exact Add_Flex_Forces_To_ChSystem_body_files cv i s s1 hrun hout
  · intro env bodylist ChTime i s s1 hrun
    exact saveBodyCsv_files env bodylist ChTime i s s1 hrun
  · intro t tail
    have hne := csv_header_ne_row header hh t tail
    have key : header ∈ (csvEpisode name t header (Item.real t :: tail)).lines ↔ ¬ 0 < t := by
      unfold csvEpisode
      by_cases ht : 0 < t
      · simp [ht, hne]
      · simp [ht]
    refine ⟨key, ?_, ?_⟩
    · intro h0
      rw [key]
      constructor
      · intro hn; exact le_antisymm (not_lt.mp hn) h0
      · intro h; rw [h]; exact lt_irrefl _
    · unfold csvEpisode
      by_cases ht : 0 < t <;> simp [ht]
  · intro t row old ht
    rw [csvEpisode_apply]; simp [ht]
  · intro log row0 rest old hlog hrest
    rw [fileContents_filter, hlog]
    simp only [fileContents, csvEpisode_name, if_true, csvEpisode_apply, lt_irrefl, if_false]
    rw [fileContents_csv_appends name header rest hrest]
    simp
  · intro outdir i j
    exact ⟨numbered_name_injective _ _ i j, numbered_name_injective _ _ i j,
      numbered_name_injective _ _ i j⟩
  · intro R3 R4 cv acc i r s F T body0 hF hT hr hb hout
    obtain ⟨h1, body, _, h2⟩ :=
      Add_Rigid_ForceTorques_To_ChSystem_body_writes cv acc i r s F T body0 hF hT hr hb hout
    exact ⟨h1, _, h2⟩
  · intro R3 R4 cv i s F node0 hF hn hout
    obtain ⟨h1, h2⟩ := Add_Flex_Forces_To_ChSystem_body_writes cv i s F node0 hF hn hout
    exact ⟨h1, _, h2⟩
  · intro env bodylist ChTime i s body hb
    obtain ⟨h1, h2⟩ := saveBodyCsv_writes env bodylist ChTime i s body hb
    exact ⟨h1, _, h2⟩

/-- C8 as stated fails: the header row of `FSI_node<i>.csv` does not begin
with `Time,x,y,z,q0,q1,q2,q3,Vx,Vy,Vz` (a node has no orientation, the field
after `z` is `Vx`). -/
theorem FSI_node_header_not_standard :
    ¬ BeginsWithFields "," (ChFsiInterface.FSI_node_header : Line Int)
        ["Time", "x", "y", "z", "q0", "q1", "q2", "q3", "Vx", "Vy", "Vz"] := by
  simp [BeginsWithFields, ChFsiInterface.FSI_node_header, ChFsiInterface.delim, splitFields,
    fieldsNamed]

/-- C8, amended. The header rows of `FSI_body<i>.csv` and of
`body_pos_rot_vel<i>.csv` begin with the fields
`Time,x,y,z,q0,q1,q2,q3,Vx,Vy,Vz`; the header row of `FSI_node<i>.csv` is
`Time,x,y,z,Vx,Vy,Vz,Fx,Fy,Fz`: it begins with `Time,x,y,z` and has no
quaternion fields. -/
theorem csv_headers_fields (D : Type) :
    BeginsWithFields "," (ChFsiInterface.FSI_body_header : Line D)
        ["Time", "x", "y", "z", "q0", "q1", "q2", "q3", "Vx", "Vy", "Vz"] ∧
    BeginsWithFields "," (demo_ROBOT_Viper_SPH.body_pos_rot_vel_header : Line D)
        ["Time", "x", "y", "z", "q0", "q1", "q2", "q3", "Vx", "Vy", "Vz"] ∧
    splitFields "," (ChFsiInterface.FSI_node_header : Line D)
      = fieldsNamed ["Time", "x", "y", "z", "Vx", "Vy", "Vz", "Fx", "Fy", "Fz"] ∧
    BeginsWithFields "," (ChFsiInterface.FSI_node_header : Line D) ["Time", "x", "y", "z"] := by
  simp [BeginsWithFields, ChFsiInterface.FSI_node_header, ChFsiInterface.FSI_body_header,
    demo_ROBOT_Viper_SPH.body_pos_rot_vel_header, ChFsiInterface.delim,
    demo_ROBOT_Viper_SPH.delim, splitFields, fieldsNamed]

end csv

/-! ## VTK writers -/

section vtk

variable {D : Type}

theorem isPointRecord_pointLine (v : ChVector D) : isPointRecord (pointLine v) = true := rfl

theorem countP_map_true {α β : Type} (p : β → Bool) (f : α → β) (l : List α)
    (h : ∀ a, p (f a) = true) : (l.map f).countP p = l.length := by
  induction l with
  | nil => rfl
  | cons a as ih => simp [List.countP_cons, h, ih]

theorem countP_map_false {α β : Type} (p : β → Bool) (f : α → β) (l : List α)
    (h : ∀ a, p (f a) = false) : (l.map f).countP p = 0 := by
  induction l with
  | nil => rfl
  | cons a as ih => simp [List.countP_cons, h, ih]

theorem countP_isPointRecord_map_pointLine {α : Type} (f : α → ChVector D) (l : List α) :
    (l.map (fun a => pointLine (f a))).countP isPointRecord = l.length :=
  countP_map_true _ _ _ (fun _ => rfl)

theorem countP_isPointRecord_map_quadLine {α : Type} (a b c d : α → Int) (l : List α) :
    (l.map (fun x => (demo_FSI_CylinderDrop.quadLine (a x) (b x) (c x) (d x) : Line D))).countP
      isPointRecord = 0 :=
  countP_map_false _ _ _ (fun _ => rfl)

theorem countP_isPointRecord_map_const {α : Type} (s : String) (l : List α) :
    (l.map (fun _ => ([Item.str s] : Line D))).countP isPointRecord = 0 :=
  countP_map_false _ _ _ (fun _ => rfl)

theorem countP_isPointRecord_cylinderCells (res : Nat) :
    (demo_FSI_CylinderDrop.cylinderCells res : List (Line D)).countP isPointRecord = 0 := by
  simp only [demo_FSI_CylinderDrop.cylinderCells, List.countP_append,
    countP_isPointRecord_map_quadLine]
  simp [isPointRecord, demo_FSI_CylinderDrop.quadLine]

/-- C4. For every resolution `res` in the range of the `int` loop counters
(`res ≤ 2^30`), the lines streamed by `WriteCylinderVTK` consist of a preamble
without point records, the line `POINTS 2*res float`, then the `res` points
of the ring at local `y = -1 * length / 2` followed by the `res` points of the
ring at local `y = +1 * length / 2`, each transformed by the frame, and a rest
without point records; the number of point records is the declared `2*res`.
The file is opened in append mode: written to a new file, these lines are its
contents. -/
theorem WriteCylinderVTK_points (ops : demo_FSI_CylinderDrop.DoubleOps D) (filename : String)
    (radius length : D) (frame : ChFrame D) (res : Nat) (hres : res ≤ 2 ^ 30) :
    ∃ before after : List (Line D),
      (demo_FSI_CylinderDrop.WriteCylinderVTK ops filename radius length frame res).lines
        = before ++ [[Item.str "POINTS ", Item.int (2 * res), Item.str " float"]]
          ++ (List.range res).map (fun (i : Nat) =>
                pointLine (ops.TransformPointLocalToParent frame
                  (demo_FSI_CylinderDrop.ringPoint ops radius length (-1) res i)))
          ++ (List.range res).map (fun (i : Nat) =>
                pointLine (ops.TransformPointLocalToParent frame
                  (demo_FSI_CylinderDrop.ringPoint ops radius length 1 res i)))
          ++ after ∧
      before.countP isPointRecord = 0 ∧ after.countP isPointRecord = 0 ∧
      (∀ (side : Int) (i : Int),
        (demo_FSI_CylinderDrop.ringPoint ops radius length side res i).y
          = ops.div (ops.mul (ops.ofInt side) length) (ops.ofInt 2)) ∧
      (demo_FSI_CylinderDrop.WriteCylinderVTK ops filename radius length frame res).lines.countP
        isPointRecord = 2 * res ∧
      (demo_FSI_CylinderDrop.WriteCylinderVTK ops filename radius length frame res).app = true ∧
      fileContents filename
          [demo_FSI_CylinderDrop.WriteCylinderVTK ops filename radius length frame res] []
        = (demo_FSI_CylinderDrop.WriteCylinderVTK ops filename radius length frame res).lines := by
  have hu : u32 (2 * (res : Int)) = 2 * (res : Int) := by
    unfold u32
    apply Int.emod_eq_of_lt
    · positivity
    · have : (res : Int) ≤ 2 ^ 30 := by exact_mod_cast hres
      omega
  refine ⟨[[Item.str "# vtk DataFile Version 1.0"], [Item.str "Unstructured Grid Example"],
      [Item.str "ASCII"], [], [], [Item.str "DATASET UNSTRUCTURED_GRID"]],
    [[], [], [Item.str "CELLS ", Item.int (u32 ((res : Int) + res)), Item.str "\t",
        Item.int (u32 (5 * u32 ((res : Int) + res)))]]
      ++ demo_FSI_CylinderDrop.cylinderCells res
      ++ [[], [Item.str "CELL_TYPES ", Item.int (u32 ((res : Int) + res))]]
      ++ (List.range (u32 ((res : Int) + res)).toNat).map (fun _ => [Item.str "9"]),
    ?_, ?_, ?_, ?_, ?_, rfl, ?_⟩
  · simp only [demo_FSI_CylinderDrop.WriteCylinderVTK, demo_FSI_CylinderDrop.cylinderVTK, hu,
      demo_FSI_CylinderDrop.cylinderPoints]
    simp only [List.append_assoc, List.cons_append, List.nil_append]
  · simp [isPointRecord]
  · simp only [List.countP_append, countP_isPointRecord_cylinderCells,
      countP_isPointRecord_map_const]
    simp [isPointRecord]
  · intro side i; rfl
  · simp only [demo_FSI_CylinderDrop.WriteCylinderVTK, demo_FSI_CylinderDrop.cylinderVTK,
      demo_FSI_CylinderDrop.cylinderPoints,
      List.countP_append, countP_isPointRecord_cylinderCells, countP_isPointRecord_map_const,
      countP_isPointRecord_map_pointLine]
    simp [isPointRecord]
    omega
  · simp [fileContents, FileWrite.apply, demo_FSI_CylinderDrop.WriteCylinderVTK]

/-! ### Mesh files of the Viper demo -/

theorem isCellRecord_triangleLine (f : ChVector Int) :
    isCellRecord 3 (demo_ROBOT_Viper_SPH.triangleLine f : Line D) = true := by
  simp [isCellRecord, demo_ROBOT_Viper_SPH.triangleLine, Item.isInt, List.countP_cons]
  rfl

theorem filter_map_true {α β : Type} (p : β → Bool) (f : α → β) (l : List α)
    (h : ∀ a, p (f a) = true) : (l.map f).filter p = l.map f := by
  induction l with
  | nil => rfl
  | cons a as ih => simp [List.filter_cons, h, ih]

theorem filter_map_false {α β : Type} (p : β → Bool) (f : α → β) (l : List α)
    (h : ∀ a, p (f a) = false) : (l.map f).filter p = [] := by
  induction l with
  | nil => rfl
  | cons a as ih => simp [List.filter_cons, h, ih]

theorem sum_map_const_nat {α : Type} (c : Nat) (l : List α) :
    (l.map (fun _ => c)).sum = c * l.length := by
  induction l with
  | nil => rfl
  | cons a as ih =>
    simp only [List.map_cons, List.sum_cons, ih, List.length_cons, Nat.mul_succ]
    omega

theorem map_const_eq_replicate {α : Type} (a : α) (n : Nat) :
    (List.range n).map (fun _ => a) = List.replicate n a := by
  apply List.ext_getElem <;> simp

/-- Shape and counts of the lines of a mesh `.vtk` file. -/
theorem meshVTK_shape (mmesh : demo_ROBOT_Viper_SPH.ChTriangleMeshConnected D) :
    (demo_ROBOT_Viper_SPH.meshVTK mmesh
      = [[Item.str "# vtk DataFile Version 2.0"], [Item.str "VTK from simulation"],
          [Item.str "ASCII"], [Item.str "DATASET UNSTRUCTURED_GRID"]]
        ++ [[Item.str "POINTS ", Item.int mmesh.CoordsVertices.length, Item.str " float"]]
        ++ mmesh.CoordsVertices.map (fun v => pointLine v)
        ++ [[Item.str "CELLS ", Item.int mmesh.IndicesVertexes.length, Item.str " ",
              Item.int (4 * mmesh.IndicesVertexes.length)]]
        ++ mmesh.IndicesVertexes.map (fun f =>
            [Item.str "3 ", Item.int f.x, Item.str " ", Item.int f.y, Item.str " ", Item.int f.z])
        ++ [[Item.str "CELL_TYPES ", Item.int mmesh.IndicesVertexes.length]]
        ++ List.replicate mmesh.IndicesVertexes.length [Item.str "5 "]) ∧
    (demo_ROBOT_Viper_SPH.meshVTK mmesh).countP isPointRecord = mmesh.CoordsVertices.length ∧
    (demo_ROBOT_Viper_SPH.meshVTK mmesh).countP (isCellRecord 3)
      = mmesh.IndicesVertexes.length ∧
    (((demo_ROBOT_Viper_SPH.meshVTK mmesh).filter (isCellRecord 3)).map
        (fun l => 1 + l.countP Item.isInt)).sum = 4 * mmesh.IndicesVertexes.length ∧
    (demo_ROBOT_Viper_SPH.meshVTK mmesh).countP (isTextLine "5 ")
      = mmesh.IndicesVertexes.length := by
  have h3 : ∀ s : String, s ≠ "3 " →
      ∀ rest : Line D, isCellRecord 3 (Item.str s :: rest) = false := by
    intro s hs rest
    have : toString 3 ++ " " = "3 " := rfl
    simp [isCellRecord, this, hs]
  refine ⟨?_, ?_, ?_, ?_, ?_⟩
  · simp only [demo_ROBOT_Viper_SPH.meshVTK, map_const_eq_replicate]
    rfl
  · simp only [demo_ROBOT_Viper_SPH.meshVTK, List.countP_append]
    rw [countP_map_true isPointRecord (fun v => pointLine v) _ (fun _ => rfl),
      countP_map_false isPointRecord (fun f => demo_ROBOT_Viper_SPH.triangleLine f) _
        (fun _ => rfl),
      countP_map_false isPointRecord (fun _ => [Item.str "5 "]) _ (fun _ => rfl)]
    simp [isPointRecord]
  · simp only [demo_ROBOT_Viper_SPH.meshVTK, List.countP_append]
    rw [countP_map_false (isCellRecord 3) (fun v => pointLine v) _ (fun _ => rfl),
      countP_map_true (isCellRecord 3) (fun f => demo_ROBOT_Viper_SPH.triangleLine f) _
        (fun f => isCellRecord_triangleLine f),
      countP_map_false (isCellRecord 3) (fun _ => [Item.str "5 "]) _
        (fun _ => h3 _ (by decide) _)]
    simp [List.countP_cons, h3]
  · simp only [demo_ROBOT_Viper_SPH.meshVTK, List.filter_append]
    rw [filter_map_false (isCellRecord 3) (fun v => pointLine v) _ (fun _ => rfl),
      filter_map_true (isCellRecord 3) (fun f => demo_ROBOT_Viper_SPH.triangleLine f) _
        (fun f => isCellRecord_triangleLine f),
      filter_map_false (isCellRecord 3) (fun _ => [Item.str "5 "]) _
        (fun _ => h3 _ (by decide) _)]
    simp only [List.filter_cons, h3, List.filter_nil, List.nil_append, List.append_nil,
      ne_eq, String.reduceEq, not_false_eq_true, Bool.false_eq_true, if_false, List.map_map]
    have hc : ∀ f : ChVector Int,
        ((fun l : Line D => 1 + l.countP Item.isInt) ∘
          (fun f => demo_ROBOT_Viper_SPH.triangleLine f)) f = 4 := by
      intro f
      simp [demo_ROBOT_Viper_SPH.triangleLine, Item.isInt, List.countP_cons]
    rw [show ((fun l : Line D => 1 + l.countP Item.isInt) ∘
          (fun f => demo_ROBOT_Viper_SPH.triangleLine f)) = (fun _ => 4) from funext hc]
    exact sum_map_const_nat 4 _
  · simp only [demo_ROBOT_Viper_SPH.meshVTK, List.countP_append]
    rw [countP_map_false (isTextLine "5 ") (fun v => pointLine v) _ (fun _ => rfl),
      countP_map_false (isTextLine "5 ") (fun f => demo_ROBOT_Viper_SPH.triangleLine f) _
        (fun _ => rfl),
      countP_map_true (isTextLine "5 ") (fun _ => [Item.str "5 "]) _ (fun _ => by simp [isTextLine])]
    simp [isTextLine, List.countP_cons]

theorem saveMesh_vtk (env : demo_ROBOT_Viper_SPH.Environment D) (stem : String)
    (mmesh : demo_ROBOT_Viper_SPH.ChTriangleMeshConnected D) :
    demo_ROBOT_Viper_SPH.saveMesh env stem mmesh
      = { name := stem ++ ".vtk", app := false, lines := demo_ROBOT_Viper_SPH.meshVTK mmesh } :=
  rfl

theorem range_one : List.range 1 = [0] := rfl

theorem range_four : List.range 4 = [0, 1, 2, 3] := rfl

/-- Every episode of the mesh-saving loops saves one mesh as VTK. -/
theorem saveMeshes_mem (env : demo_ROBOT_Viper_SPH.Environment D)
    (rover : demo_ROBOT_Viper_SPH.Viper D) (frame_number : Int) (w : FileWrite D)
    (hw : w ∈ demo_ROBOT_Viper_SPH.saveMeshes env rover frame_number) :
    ∃ stem mmesh, w = demo_ROBOT_Viper_SPH.saveMesh env stem mmesh := by
  simp only [demo_ROBOT_Viper_SPH.saveMeshes, range_one, range_four, List.map_cons,
    List.map_nil, List.mem_append, List.mem_cons, List.mem_singleton, List.not_mem_nil,
    or_false] at hw
  rcases hw with (((h | h) | h) | h) | h
  · exact ⟨_, _, h⟩
  all_goals
    rcases h with h | h | h | h <;> exact ⟨_, _, h⟩

theorem saveMeshes_length (env : demo_ROBOT_Viper_SPH.Environment D)
    (rover : demo_ROBOT_Viper_SPH.Viper D) (frame_number : Int) :
    (demo_ROBOT_Viper_SPH.saveMeshes env rover frame_number).length = 17 := by
  simp [demo_ROBOT_Viper_SPH.saveMeshes]

/-- Relation "the file log was only extended and the frame number kept". -/
theorem saveObstacle_extends [Neg D] (env : demo_ROBOT_Viper_SPH.Environment D)
    (bodylist : List (ChBody D)) (i : Nat) (s : demo_ROBOT_Viper_SPH.State D) :
    (demo_ROBOT_Viper_SPH.saveObstacle env bodylist i s).state.frame_number = s.frame_number ∧
    ∃ rest, (demo_ROBOT_Viper_SPH.saveObstacle env bodylist i s).state.files = s.files ++ rest := by
  unfold demo_ROBOT_Viper_SPH.saveObstacle
  split
  · exact ⟨rfl, [], by simp [Outcome.stop]⟩
  · exact ⟨rfl, _, rfl⟩

theorem saveBodyCsv_extends [LinearOrder D] [Zero D] (env : demo_ROBOT_Viper_SPH.Environment D)
    (bodylist : List (ChBody D)) (ChTime : D) (i : Nat) (s : demo_ROBOT_Viper_SPH.State D) :
    (demo_ROBOT_Viper_SPH.saveBodyCsv env bodylist ChTime i s).state.frame_number
      = s.frame_number ∧
    ∃ rest, (demo_ROBOT_Viper_SPH.saveBodyCsv env bodylist ChTime i s).state.files
      = s.files ++ rest := by
  unfold demo_ROBOT_Viper_SPH.saveBodyCsv
  split
  · exact ⟨rfl, [], by simp [Outcome.stop]⟩
  · exact ⟨rfl, _, rfl⟩

theorem extends_trans (a b c : demo_ROBOT_Viper_SPH.State D)
    (h1 : b.frame_number = a.frame_number ∧ ∃ rest, b.files = a.files ++ rest)
    (h2 : c.frame_number = b.frame_number ∧ ∃ rest, c.files = b.files ++ rest) :
    c.frame_number = a.frame_number ∧ ∃ rest, c.files = a.files ++ rest := by
  obtain ⟨hf1, r1, hr1⟩ := h1
  obtain ⟨hf2, r2, hr2⟩ := h2
  exact ⟨hf2.trans hf1, r1 ++ r2, by rw [hr2, hr1, List.append_assoc]⟩

/-- A call of `SaveParaViewFiles` that is not stopped by the overflow of the
frame number increments the frame number and first adds the mesh episodes of
the new frame number to the log. -/
theorem SaveParaViewFiles_meshes_first [LinearOrder D] [Zero D] [Neg D]
    (env : demo_ROBOT_Viper_SPH.Environment D) (rover : demo_ROBOT_Viper_SPH.Viper D)
    (bodylist : List (ChBody D)) (ChTime : D) (s : demo_ROBOT_Viper_SPH.State D)
    (hs : s.frame_number ≠ INT_MAX) :
    (demo_ROBOT_Viper_SPH.SaveParaViewFiles env rover bodylist ChTime s).state.frame_number
      = s.frame_number + 1 ∧
    ∃ rest, (demo_ROBOT_Viper_SPH.SaveParaViewFiles env rover bodylist ChTime s).state.files
      = s.files ++ demo_ROBOT_Viper_SPH.saveMeshes env rover (s.frame_number + 1) ++ rest := by
  unfold demo_ROBOT_Viper_SPH.SaveParaViewFiles
  simp only [hs, if_false]
  have h1 := forLoop_rel (demo_ROBOT_Viper_SPH.saveObstacle env bodylist)
    (fun a b => b.frame_number = a.frame_number ∧ ∃ rest, b.files = a.files ++ rest)
    (fun s => ⟨rfl, [], by simp⟩) extends_trans (saveObstacle_extends env bodylist) 2 0
    { frame_number := s.frame_number + 1,
      files := s.files ++ demo_ROBOT_Viper_SPH.saveMeshes env rover (s.frame_number + 1) }
  split
  · next f s2 hloop =>
    rw [hloop] at h1
    obtain ⟨hf, rest, hrest⟩ := h1
    exact ⟨hf, rest, hrest⟩
  · next s2 hloop =>
    rw [hloop] at h1
    have h2 := forLoop_rel (demo_ROBOT_Viper_SPH.saveBodyCsv env bodylist ChTime)
      (fun a b => b.frame_number = a.frame_number ∧ ∃ rest, b.files = a.files ++ rest)
      (fun s => ⟨rfl, [], by simp⟩) extends_trans (saveBodyCsv_extends env bodylist ChTime)
      (bodylist.length - 1) 1 s2
    obtain ⟨hf, rest, hrest⟩ := extends_trans _ _ _ h1 h2
    exact ⟨hf, rest, hrest⟩

/-- The 17 mesh files of `SaveParaViewFiles`, each with its name and the mesh
it is written from: the mesh loaded from the `.obj` file of the part and
placed in the reference frame of the body of the part. -/
theorem saveMeshes_parts (env : demo_ROBOT_Viper_SPH.Environment D)
    (rover : demo_ROBOT_Viper_SPH.Viper D) (frame_number : Int) :
    demo_ROBOT_Viper_SPH.saveMeshes env rover frame_number
      = [{ name := env.out_dir ++ "/rover" ++ "/body_" ++ toString frame_number ++ ".vtk",
           app := false,
           lines := demo_ROBOT_Viper_SPH.meshVTK
            (env.mesh (env.GetChronoDataFile "robot/viper/obj/viper_chassis.obj")
              rover.Chassis.frame_REF_to_abs.pos rover.Chassis.frame_REF_to_abs.rot) }]
        ++ (List.range 4).map (fun i =>
            { name := env.out_dir ++ "/rover" ++ "/wheel_" ++ toString (i + 1) ++ "_"
                ++ toString frame_number ++ ".vtk",
              app := false,
              lines := demo_ROBOT_Viper_SPH.meshVTK
                (env.mesh (env.GetChronoDataFile "robot/viper/obj/viper_wheel.obj")
                  (rover.Wheel (demo_ROBOT_Viper_SPH.wheelID i)).frame_REF_to_abs.pos
                  (if i = 0 ∨ i = 2 then
                    env.Cross_AngZ_PI
                      (rover.Wheel (demo_ROBOT_Viper_SPH.wheelID i)).frame_REF_to_abs.rot
                  else (rover.Wheel (demo_ROBOT_Viper_SPH.wheelID i)).frame_REF_to_abs.rot)) })
        ++ (List.range 4).map (fun i =>
            { name := env.out_dir ++ "/rover" ++ "/steerRod_" ++ toString (i + 1) ++ "_"
                ++ toString frame_number ++ ".vtk",
              app := false,
              lines := demo_ROBOT_Viper_SPH.meshVTK
                (env.mesh
                  (env.GetChronoDataFile
                    (if i = 1 ∨ i = 3 then "robot/viper/obj/viper_R_steer.obj"
                     else "robot/viper/obj/viper_L_steer.obj"))
                  (rover.Upright (demo_ROBOT_Viper_SPH.wheelID i)).frame_REF_to_abs.pos
                  (rover.Upright (demo_ROBOT_Viper_SPH.wheelID i)).frame_REF_to_abs.rot) })
        ++ (List.range 4).map (fun i =>
            { name := env.out_dir ++ "/rover" ++ "/lowerRod_" ++ toString (i + 1) ++ "_"
                ++ toString frame_number ++ ".vtk",
              app := false,
              lines := demo_ROBOT_Viper_SPH.meshVTK
                (env.mesh
                  (env.GetChronoDataFile
                    (if i = 1 ∨ i = 3 then "robot/viper/obj/viper_R_bt_sus.obj"
                     else "robot/viper/obj/viper_L_bt_sus.obj"))
                  (rover.LowerArm (demo_ROBOT_Viper_SPH.wheelID i)).frame_REF_to_abs.pos
                  (rover.LowerArm (demo_ROBOT_Viper_SPH.wheelID i)).frame_REF_to_abs.rot) })
        ++ (List.range 4).map (fun i =>
            { name := env.out_dir ++ "/rover" ++ "/upperRod_" ++ toString (i + 1) ++ "_"
                ++ toString frame_number ++ ".vtk",
              app := false,
              lines := demo_ROBOT_Viper_SPH.meshVTK
                (env.mesh
                  (env.GetChronoDataFile
                    (if i = 1 ∨ i = 3 then "robot/viper/obj/viper_R_up_sus.obj"
                     else "robot/viper/obj/viper_L_up_sus.obj"))
                  (rover.UpperArm (demo_ROBOT_Viper_SPH.wheelID i)).frame_REF_to_abs.pos
                  (rover.UpperArm (demo_ROBOT_Viper_SPH.wheelID i)).frame_REF_to_abs.rot) }) := by
  simp only [demo_ROBOT_Viper_SPH.saveMeshes, range_one, range_four, List.map_cons, List.map_nil]
  rfl

/-- C5. A call of `SaveParaViewFiles` (frame number not at `INT_MAX`) adds to
the file log, before anything else, the 17 mesh files of the chassis, the
wheels, the steering rods, the lower rods and the upper rods, each written
from the mesh of its part: the mesh loaded from the `.obj` file of the part
and placed in the reference frame of the body of the part.  For every
triangle mesh with `nv` vertices and `nf` faces, the file written from it
consists of four title lines, `POINTS nv float`, the `nv` coordinate rows in
vertex order, `CELLS nf 4*nf`, the `nf` rows `3 a b c` in face order,
`CELL_TYPES nf`, and `nf` rows `5 `; it has exactly `nv` point records and
`nf` cell records, the cell records hold `4*nf` integers in all, and exactly
`nf` lines are `5 `. -/
theorem SaveParaViewFiles_mesh_files [LinearOrder D] [Zero D] [Neg D]
    (env : demo_ROBOT_Viper_SPH.Environment D) (rover : demo_ROBOT_Viper_SPH.Viper D)
    (bodylist : List (ChBody D)) (ChTime : D) (s : demo_ROBOT_Viper_SPH.State D)
    (hs : s.frame_number ≠ INT_MAX) :
    (∃ rest, (demo_ROBOT_Viper_SPH.SaveParaViewFiles env rover bodylist ChTime s).state.files
      = s.files ++ demo_ROBOT_Viper_SPH.saveMeshes env rover (s.frame_number + 1) ++ rest) ∧
    (demo_ROBOT_Viper_SPH.saveMeshes env rover (s.frame_number + 1)).length = 17 ∧
    demo_ROBOT_Viper_SPH.saveMeshes env rover (s.frame_number + 1)
      = [{ name := env.out_dir ++ "/rover" ++ "/body_" ++ toString (s.frame_number + 1) ++ ".vtk",
           app := false,
           lines := demo_ROBOT_Viper_SPH.meshVTK
            (env.mesh (env.GetChronoDataFile "robot/viper/obj/viper_chassis.obj")
              rover.Chassis.frame_REF_to_abs.pos rover.Chassis.frame_REF_to_abs.rot) }]
        ++ (List.range 4).map (fun i =>
            { name := env.out_dir ++ "/rover" ++ "/wheel_" ++ toString (i + 1) ++ "_"
                ++ toString (s.frame_number + 1) ++ ".vtk",
              app := false,
              lines := demo_ROBOT_Viper_SPH.meshVTK
                (env.mesh (env.GetChronoDataFile "robot/viper/obj/viper_wheel.obj")
                  (rover.Wheel (demo_ROBOT_Viper_SPH.wheelID i)).frame_REF_to_abs.pos
                  (if i = 0 ∨ i = 2 then
                    env.Cross_AngZ_PI
                      (rover.Wheel (demo_ROBOT_Viper_SPH.wheelID i)).frame_REF_to_abs.rot
                  else (rover.Wheel (demo_ROBOT_Viper_SPH.wheelID i)).frame_REF_to_abs.rot)) })
        ++ (List.range 4).map (fun i =>
            { name := env.out_dir ++ "/rover" ++ "/steerRod_" ++ toString (i + 1) ++ "_"
                ++ toString (s.frame_number + 1) ++ ".vtk",
              app := false,
              lines := demo_ROBOT_Viper_SPH.meshVTK
                (env.mesh
                  (env.GetChronoDataFile
                    (if i = 1 ∨ i = 3 then "robot/viper/obj/viper_R_steer.obj"
                     else "robot/viper/obj/viper_L_steer.obj"))
                  (rover.Upright (demo_ROBOT_Viper_SPH.wheelID i)).frame_REF_to_abs.pos
                  (rover.Upright (demo_ROBOT_Viper_SPH.wheelID i)).frame_REF_to_abs.rot) })
        ++ (List.range 4).map (fun i =>
            { name := env.out_dir ++ "/rover" ++ "/lowerRod_" ++ toString (i + 1) ++ "_"
                ++ toString (s.frame_number + 1) ++ ".vtk",
              app := false,
              lines := demo_ROBOT_Viper_SPH.meshVTK
                (env.mesh
                  (env.GetChronoDataFile
                    (if i = 1 ∨ i = 3 then "robot/viper/obj/viper_R_bt_sus.obj"
                     else "robot/viper/obj/viper_L_bt_sus.obj"))
                  (rover.LowerArm (demo_ROBOT_Viper_SPH.wheelID i)).frame_REF_to_abs.pos
                  (rover.LowerArm (demo_ROBOT_Viper_SPH.wheelID i)).frame_REF_to_abs.rot) })
        ++ (List.range 4).map (fun i =>
            { name := env.out_dir ++ "/rover" ++ "/upperRod_" ++ toString (i + 1) ++ "_"
                ++ toString (s.frame_number + 1) ++ ".vtk",
              app := false,
              lines := demo_ROBOT_Viper_SPH.meshVTK
                (env.mesh
                  (env.GetChronoDataFile
                    (if i = 1 ∨ i = 3 then "robot/viper/obj/viper_R_up_sus.obj"
                     else "robot/viper/obj/viper_L_up_sus.obj"))
                  (rover.UpperArm (demo_ROBOT_Viper_SPH.wheelID i)).frame_REF_to_abs.pos
                  (rover.UpperArm (demo_ROBOT_Viper_SPH.wheelID i)).frame_REF_to_abs.rot) }) ∧
    ∀ mmesh : demo_ROBOT_Viper_SPH.ChTriangleMeshConnected D,
      demo_ROBOT_Viper_SPH.meshVTK mmesh
        = [[Item.str "# vtk DataFile Version 2.0"], [Item.str "VTK from simulation"],
            [Item.str "ASCII"], [Item.str "DATASET UNSTRUCTURED_GRID"]]
          ++ [[Item.str "POINTS ", Item.int mmesh.CoordsVertices.length, Item.str " float"]]
          ++ mmesh.CoordsVertices.map (fun v =>
              [Item.real v.x, Item.str " ", Item.real v.y, Item.str " ", Item.real v.z])
          ++ [[Item.str "CELLS ", Item.int mmesh.IndicesVertexes.length, Item.str " ",
                Item.int (4 * mmesh.IndicesVertexes.length)]]
          ++ mmesh.IndicesVertexes.map (fun f =>
              [Item.str "3 ", Item.int f.x, Item.str " ", Item.int f.y, Item.str " ",
                Item.int f.z])
          ++ [[Item.str "CELL_TYPES ", Item.int mmesh.IndicesVertexes.length]]
          ++ List.replicate mmesh.IndicesVertexes.length [Item.str "5 "] ∧
      (demo_ROBOT_Viper_SPH.meshVTK mmesh).countP isPointRecord = mmesh.CoordsVertices.length ∧
      (demo_ROBOT_Viper_SPH.meshVTK mmesh).countP (isCellRecord 3)
        = mmesh.IndicesVertexes.length ∧
      (((demo_ROBOT_Viper_SPH.meshVTK mmesh).filter (isCellRecord 3)).map
          (fun l => 1 + l.countP Item.isInt)).sum = 4 * mmesh.IndicesVertexes.length ∧
      (demo_ROBOT_Viper_SPH.meshVTK mmesh).countP (isTextLine "5 ")
        = mmesh.IndicesVertexes.length := by
  refine ⟨(SaveParaViewFiles_meshes_first env rover bodylist ChTime s hs).2,
    saveMeshes_length env rover _, saveMeshes_parts env rover _, ?_⟩
  intro mmesh
  exact meshVTK_shape mmesh

/-! ### The complete result of `SaveParaViewFiles` -/

/-- The CSV episode written for body `i` of the body list. -/
theorem saveBodyCsv_loop [LinearOrder D] [Zero D] (env : demo_ROBOT_Viper_SPH.Environment D)
    (bodylist : List (ChBody D)) (ChTime : D) (count : Nat) :
    ∀ (start : Nat) (s : demo_ROBOT_Viper_SPH.State D), start + count ≤ bodylist.length →
      forLoop (demo_ROBOT_Viper_SPH.saveBodyCsv env bodylist ChTime) count start s
        = Outcome.ok { s with
            files := s.files ++ (List.range' start count).filterMap (fun i =>
              bodylist[i]?.map (fun body =>
                csvEpisode (demo_ROBOT_Viper_SPH.body_pos_rot_vel_filename env.out_dir i) ChTime
                  demo_ROBOT_Viper_SPH.body_pos_rot_vel_header
                  (demo_ROBOT_Viper_SPH.body_pos_rot_vel_row ChTime body.frame_REF_to_abs.pos
                    body.frame_REF_to_abs.rot body.pos_dt))) } := by
  induction count with
  | zero => intro start s _; simp [forLoop]
  | succ n ih =>
    intro start s hle
    have hlt : start < bodylist.length := by omega
    have hget : bodylist[start]? = some bodylist[start] := List.getElem?_eq_getElem hlt
    unfold forLoop
    simp only [demo_ROBOT_Viper_SPH.saveBodyCsv, hget, Outcome.ok]
    rw [ih (start + 1) _ (by omega)]
    simp [Outcome.ok, List.range'_succ, List.filterMap_cons, hget]

/-- The complete result of a call of `SaveParaViewFiles` on a system that has
the bodies 18 and 19 (the obstacles): the frame number is incremented and the
log receives the 17 mesh files, the two obstacle files and one CSV episode
for each body but the first. -/
theorem SaveParaViewFiles_ok [LinearOrder D] [Zero D] [Neg D]
    (env : demo_ROBOT_Viper_SPH.Environment D) (rover : demo_ROBOT_Viper_SPH.Viper D)
    (bodylist : List (ChBody D)) (ChTime : D) (s : demo_ROBOT_Viper_SPH.State D)
    (hs : s.frame_number ≠ INT_MAX) (B1 B2 : ChBody D)
    (h18 : bodylist[18]? = some B1) (h19 : bodylist[19]? = some B2) :
    demo_ROBOT_Viper_SPH.SaveParaViewFiles env rover bodylist ChTime s
      = Outcome.ok
          { frame_number := s.frame_number + 1
            files := s.files ++ demo_ROBOT_Viper_SPH.saveMeshes env rover (s.frame_number + 1)
              ++ [{ name := env.out_dir ++ "/rover" ++ "/obstacle_" ++ toString 1 ++ "_"
                      ++ toString (s.frame_number + 1) ++ ".vtk"
                    app := false
                    lines := demo_ROBOT_Viper_SPH.obstacleVTK env B1.pos B1.rot },
                  { name := env.out_dir ++ "/rover" ++ "/obstacle_" ++ toString 2 ++ "_"
                      ++ toString (s.frame_number + 1) ++ ".vtk"
                    app := false
                    lines := demo_ROBOT_Viper_SPH.obstacleVTK env B2.pos B2.rot }]
              ++ (List.range' 1 (bodylist.length - 1)).filterMap (fun i =>
                  bodylist[i]?.map (fun body =>
                    csvEpisode (demo_ROBOT_Viper_SPH.body_pos_rot_vel_filename env.out_dir i)
                      ChTime demo_ROBOT_Viper_SPH.body_pos_rot_vel_header
                      (demo_ROBOT_Viper_SPH.body_pos_rot_vel_row ChTime
                        body.frame_REF_to_abs.pos body.frame_REF_to_abs.rot body.pos_dt))) } := by
  have hlen : 19 < bodylist.length := by
    by_contra hcon
    rw [List.getElem?_eq_none (by omega)] at h19
    exact Option.noConfusion h19
  unfold demo_ROBOT_Viper_SPH.SaveParaViewFiles
  simp only [hs, if_false]
  have hloop : forLoop (demo_ROBOT_Viper_SPH.saveObstacle env bodylist) 2 0
      { frame_number := s.frame_number + 1,
        files := s.files ++ demo_ROBOT_Viper_SPH.saveMeshes env rover (s.frame_number + 1) }
      = Outcome.ok
          { frame_number := s.frame_number + 1
            files := s.files ++ demo_ROBOT_Viper_SPH.saveMeshes env rover (s.frame_number + 1)
              ++ [{ name := env.out_dir ++ "/rover" ++ "/obstacle_" ++ toString 1 ++ "_"
                      ++ toString (s.frame_number + 1) ++ ".vtk"
                    app := false
                    lines := demo_ROBOT_Viper_SPH.obstacleVTK env B1.pos B1.rot },
                  { name := env.out_dir ++ "/rover" ++ "/obstacle_" ++ toString 2 ++ "_"
                      ++ toString (s.frame_number + 1) ++ ".vtk"
                    app := false
                    lines := demo_ROBOT_Viper_SPH.obstacleVTK env B2.pos B2.rot }] } := by
    simp [forLoop, demo_ROBOT_Viper_SPH.saveObstacle, h18, h19, Outcome.ok]
  rw [hloop]
  simp only [Outcome.ok]
  rw [saveBodyCsv_loop env bodylist ChTime (bodylist.length - 1) 1 _ (by omega)]
  rfl

/-! ### Sections of the VTK files -/

theorem filterMap_map_none {α β γ : Type} (g : β → Option γ) (f : α → β) (l : List α)
    (h : ∀ a, g (f a) = none) : (l.map f).filterMap g = [] := by
  induction l with
  | nil => rfl
  | cons a as ih => simp [List.filterMap_cons, h, ih]

theorem sectionKeywords_append (a b : List (Line D)) :
    sectionKeywords (a ++ b) = sectionKeywords a ++ sectionKeywords b := by
  simp [sectionKeywords, List.filterMap_append]

theorem sectionKeywords_map_none {α : Type} (f : α → Line D) (l : List α)
    (h : ∀ a, sectionOf (f a) = none) : sectionKeywords (l.map f) = [] :=
  filterMap_map_none sectionOf f l h

theorem sectionKeywords_cylinderPoints (ops : demo_FSI_CylinderDrop.DoubleOps D)
    (radius length : D) (frame : ChFrame D) (res : Nat) :
    sectionKeywords (demo_FSI_CylinderDrop.cylinderPoints ops radius length frame res) = [] := by
  unfold demo_FSI_CylinderDrop.cylinderPoints
  rw [sectionKeywords_append, sectionKeywords_map_none, sectionKeywords_map_none]
  · rfl
  · intro a; rfl
  · intro a; rfl

theorem sectionKeywords_cylinderCells (res : Nat) :
    sectionKeywords (demo_FSI_CylinderDrop.cylinderCells res : List (Line D)) = [] := by
  have hq : ∀ a b c d : Int,
      sectionKeywords ([demo_FSI_CylinderDrop.quadLine a b c d] : List (Line D)) = [] := by
    intro a b c d; rfl
  unfold demo_FSI_CylinderDrop.cylinderCells
  simp only [sectionKeywords_append, hq, List.append_nil]
  rw [sectionKeywords_map_none, sectionKeywords_map_none, sectionKeywords_map_none,
    sectionKeywords_map_none, sectionKeywords_map_none]
  · rfl
  all_goals intro a; rfl

theorem sectionKeywords_cylinderVTK (ops : demo_FSI_CylinderDrop.DoubleOps D)
    (radius length : D) (frame : ChFrame D) (res : Nat) :
    sectionKeywords (demo_FSI_CylinderDrop.cylinderVTK ops radius length frame res)
      = ["POINTS ", "CELLS ", "CELL_TYPES "] := by
  unfold demo_FSI_CylinderDrop.cylinderVTK
  simp only [sectionKeywords_append, sectionKeywords_cylinderPoints,
    sectionKeywords_cylinderCells]
  rw [sectionKeywords_map_none (fun _ => [Item.str "9"]) _ (fun _ => rfl)]
  simp [sectionKeywords, List.filterMap_cons, sectionOf]

theorem sectionKeywords_meshVTK (mmesh : demo_ROBOT_Viper_SPH.ChTriangleMeshConnected D) :
    sectionKeywords (demo_ROBOT_Viper_SPH.meshVTK mmesh)
      = ["POINTS ", "CELLS ", "CELL_TYPES "] := by
  simp only [sectionKeywords, demo_ROBOT_Viper_SPH.meshVTK, List.filterMap_append]
  rw [filterMap_map_none sectionOf (fun v => pointLine v) _ (fun _ => rfl),
    filterMap_map_none sectionOf (fun f => demo_ROBOT_Viper_SPH.triangleLine f) _ (fun _ => rfl),
    filterMap_map_none sectionOf (fun _ => [Item.str "5 "]) _ (fun _ => rfl)]
  simp [List.filterMap_cons, sectionOf]

theorem sectionKeywords_obstacleVTK [Neg D] (env : demo_ROBOT_Viper_SPH.Environment D)
    (center : ChVector D) (Rotation : ChQuaternion D) :
    sectionKeywords (demo_ROBOT_Viper_SPH.obstacleVTK env center Rotation)
      = ["POINTS ", "POLYGONS "] := by
  simp [sectionKeywords, demo_ROBOT_Viper_SPH.obstacleVTK, List.filterMap_cons, sectionOf,
    pointLine]

/-- C6 as stated fails: in a run of `SaveParaViewFiles` on a system of twenty
bodies, the first obstacle file of frame 0 has a `POINTS` and a `POLYGONS`
section but no `CELL_TYPES` section. -/
theorem obstacle_file_without_CELL_TYPES :
    ∃ w ∈ (demo_ROBOT_Viper_SPH.SaveParaViewFiles Example.environment Example.rover
        Example.bodylist 0 (demo_ROBOT_Viper_SPH.State.init Int)).state.files,
      w.name = "out/FSI_Viper//rover/obstacle_1_0.vtk" ∧
      sectionKeywords w.lines = ["POINTS ", "POLYGONS "] ∧
      ¬ HasPointsCellsTypes w.lines := by
  rw [SaveParaViewFiles_ok Example.environment Example.rover Example.bodylist 0
    (demo_ROBOT_Viper_SPH.State.init Int) (by decide) Example.body Example.body rfl rfl]
  refine ⟨{ name := Example.environment.out_dir ++ "/rover" ++ "/obstacle_" ++ toString 1 ++ "_"
              ++ toString ((demo_ROBOT_Viper_SPH.State.init Int).frame_number + 1) ++ ".vtk"
            app := false
            lines := demo_ROBOT_Viper_SPH.obstacleVTK Example.environment Example.body.pos
              Example.body.rot }, ?_, ?_, ?_, ?_⟩
  · simp [Outcome.ok]
  · decide
  · exact sectionKeywords_obstacleVTK _ _ _
  · intro h
    have := h.2
    rw [sectionKeywords_obstacleVTK] at this
    simp at this

/-- C6, amended. The file written by `WriteCylinderVTK` and each of the 17
mesh files written by `SaveParaViewFiles` (chassis, wheels, rods) have exactly
the sections `POINTS`, `CELLS`, `CELL_TYPES`, in that order.  The two obstacle
files written by a complete call of `SaveParaViewFiles` have exactly the
sections `POINTS` and `POLYGONS`, in that order, and no `CELL_TYPES` section. -/
theorem vtk_sections [LinearOrder D] [Zero D] [Neg D] :
    (∀ (ops : demo_FSI_CylinderDrop.DoubleOps D) (filename : String) (radius length : D)
        (frame : ChFrame D) (res : Nat),
      sectionKeywords
          (demo_FSI_CylinderDrop.WriteCylinderVTK ops filename radius length frame res).lines
        = ["POINTS ", "CELLS ", "CELL_TYPES "] ∧
      HasPointsCellsTypes
          (demo_FSI_CylinderDrop.WriteCylinderVTK ops filename radius length frame res).lines) ∧
    (∀ (env : demo_ROBOT_Viper_SPH.Environment D) (rover : demo_ROBOT_Viper_SPH.Viper D)
        (frame_number : Int),
      ∀ w ∈ demo_ROBOT_Viper_SPH.saveMeshes env rover frame_number,
        sectionKeywords w.lines = ["POINTS ", "CELLS ", "CELL_TYPES "] ∧
        HasPointsCellsTypes w.lines) ∧
    (∀ (env : demo_ROBOT_Viper_SPH.Environment D) (rover : demo_ROBOT_Viper_SPH.Viper D)
        (bodylist : List (ChBody D)) (ChTime : D) (s : demo_ROBOT_Viper_SPH.State D)
        (B1 B2 : ChBody D),
      s.frame_number ≠ INT_MAX → bodylist[18]? = some B1 → bodylist[19]? = some B2 →
      ∃ o1 o2 csvs,
        (demo_ROBOT_Viper_SPH.SaveParaViewFiles env rover bodylist ChTime s).state.files
          = s.files ++ demo_ROBOT_Viper_SPH.saveMeshes env rover (s.frame_number + 1)
            ++ [o1, o2] ++ csvs ∧
        o1.lines = demo_ROBOT_Viper_SPH.obstacleVTK env B1.pos B1.rot ∧
        o2.lines = demo_ROBOT_Viper_SPH.obstacleVTK env B2.pos B2.rot ∧
        sectionKeywords o1.lines = ["POINTS ", "POLYGONS "] ∧
        sectionKeywords o2.lines = ["POINTS ", "POLYGONS "] ∧
        (∀ c ∈ csvs, sectionKeywords c.lines = [])) := by
  have hyes : ∀ lines : List (Line D),
      sectionKeywords lines = ["POINTS ", "CELLS ", "CELL_TYPES "] →
      HasPointsCellsTypes lines := by
    intro lines h
    unfold HasPointsCellsTypes
    rw [h]
    refine ⟨Or.inl ?_, by simp⟩
    exact List.Sublist.cons₂ _ (List.Sublist.cons₂ _ (List.nil_sublist _))
  refine ⟨?_, ?_, ?_⟩
  · intro ops filename radius length frame res
    have h := sectionKeywords_cylinderVTK ops radius length frame res
    exact ⟨h, hyes _ h⟩
  · intro env rover frame_number w hw
    obtain ⟨stem, mmesh, rfl⟩ := saveMeshes_mem env rover _ w hw
    rw [saveMesh_vtk]
    exact ⟨sectionKeywords_meshVTK mmesh, hyes _ (sectionKeywords_meshVTK mmesh)⟩
  · intro env rover bodylist ChTime s B1 B2 hs h18 h19
    rw [SaveParaViewFiles_ok env rover bodylist ChTime s hs B1 B2 h18 h19]
    refine ⟨_, _, _, rfl, rfl, rfl, sectionKeywords_obstacleVTK _ _ _,
      sectionKeywords_obstacleVTK _ _ _, ?_⟩
    intro c hc
    simp only [List.mem_filterMap, Option.map_eq_some'] at hc
    obtain ⟨i, _, body, _, rfl⟩ := hc
    unfold csvEpisode
    split <;>
      simp [sectionKeywords, List.filterMap_cons, sectionOf,
        demo_ROBOT_Viper_SPH.body_pos_rot_vel_header,
        demo_ROBOT_Viper_SPH.body_pos_rot_vel_row, demo_ROBOT_Viper_SPH.delim]

end vtk


/-! ## Main programs -/

section mains

variable {D : Type}

theorem range_succ_map_shift {β : Type} (f : Int → β) (c : Int) (n : Nat) :
    f c :: (List.range n).map (fun j : Nat => f (c + 1 + j))
      = (List.range (n + 1)).map (fun j : Nat => f (c + j)) := by
  rw [List.range_succ_eq_map]
  simp only [List.map_cons, List.map_map, Nat.cast_zero, add_zero]
  congr 1
  apply List.map_congr_left
  intro j _
  simp only [Function.comp, Nat.cast_succ]
  congr 1
  ring

/-- One iteration of the loop of the cylinder-drop demo reads no parameter
file, creates no directory, and writes either no per-frame file (the counter
is kept) or the file numbered by the counter (the counter is incremented). -/
theorem cylinder_loopBody_trace [Add D] (env : MainEnv D) (out_dir : String)
    (dT : D) (output_steps render_steps : Nat) (st : demo_FSI_CylinderDrop.LoopState D) :
    (demo_FSI_CylinderDrop.loopBody env out_dir dT output_steps render_steps st).1.filter
        Event.isRead = [] ∧
    (demo_FSI_CylinderDrop.loopBody env out_dir dT output_steps render_steps st).1.filter
        Event.isCreate = [] ∧
    (((demo_FSI_CylinderDrop.loopBody env out_dir dT output_steps render_steps st).1.filterMap
          Event.frameFile = [] ∧
        ∀ st1, (demo_FSI_CylinderDrop.loopBody env out_dir dT output_steps render_steps st).2
          = Sum.inr st1 → st1.counter = st.counter) ∨
      ((demo_FSI_CylinderDrop.loopBody env out_dir dT output_steps render_steps st).1.filterMap
          Event.frameFile = [out_dir ++ "/vtk/cylinder." ++ toString st.counter ++ ".vtk"] ∧
        ∀ st1, (demo_FSI_CylinderDrop.loopBody env out_dir dT output_steps render_steps st).2
          = Sum.inr st1 → st1.counter = st.counter + 1)) := by
  unfold demo_FSI_CylinderDrop.loopBody
  simp only []
  split_ifs <;>
    simp [List.filter_cons, List.filterMap_cons, Event.isRead, Event.isCreate, Event.frameFile]

/-- The per-frame files written in the loop of the cylinder-drop demo are
numbered consecutively from the current value of `counter`; the loop reads no
parameter file and creates no directory. -/
theorem cylinder_mainLoop_trace [LinearOrder D] [Add D] (env : MainEnv D) (out_dir : String)
    (dT : D) (output_steps render_steps : Nat) (fuel : Nat) :
    ∀ st : demo_FSI_CylinderDrop.LoopState D,
      (∃ n : Nat,
        (demo_FSI_CylinderDrop.mainLoop env out_dir dT output_steps render_steps fuel
            st).trace.filterMap Event.frameFile
          = (List.range n).map (fun j : Nat =>
              out_dir ++ "/vtk/cylinder." ++ toString (st.counter + j) ++ ".vtk")) ∧
      (demo_FSI_CylinderDrop.mainLoop env out_dir dT output_steps render_steps fuel
          st).trace.filter Event.isRead = [] ∧
      (demo_FSI_CylinderDrop.mainLoop env out_dir dT output_steps render_steps fuel
          st).trace.filter Event.isCreate = [] := by
  induction fuel with
  | zero =>
    intro st
    exact ⟨⟨0, rfl⟩, rfl, rfl⟩
  | succ f ih =>
    intro st
    unfold demo_FSI_CylinderDrop.mainLoop
    by_cases ht : st.time < env.t_end
    swap
    · simp only [ht, if_false]
      exact ⟨⟨0, rfl⟩, rfl, rfl⟩
    simp only [ht, if_true]
    obtain ⟨hread, hcreate, hframes⟩ :=
      cylinder_loopBody_trace env out_dir dT output_steps render_steps st
    cases hbody : demo_FSI_CylinderDrop.loopBody env out_dir dT output_steps render_steps st with
    | mk t next =>
      rw [hbody] at hread hcreate hframes
      cases next with
      | inl status =>
        simp only [hread, hcreate, and_true]
        rcases hframes with ⟨h0, _⟩ | ⟨h1, _⟩
        · exact ⟨0, h0⟩
        · refine ⟨1, ?_⟩
          rw [h1]
          simp [List.range_succ]
      | inr st1 =>
        obtain ⟨⟨n, hn⟩, hr1, hc1⟩ := ih st1
        simp only [List.filter_append, List.filterMap_append, hread, hcreate, hr1, hc1,
          List.append_nil, and_true, hn]
        rcases hframes with ⟨h0, hc⟩ | ⟨h1, hc⟩
        · refine ⟨n, ?_⟩
          rw [h0, hc st1 rfl]
          rfl
        · refine ⟨n + 1, ?_⟩
          rw [h1, hc st1 rfl]
          exact range_succ_map_shift
            (fun c : Int => out_dir ++ "/vtk/cylinder." ++ toString c ++ ".vtk") st.counter n

/-- One iteration of the loop of the toroidal-tire demo reads no parameter
file, creates no directory, and writes either no per-frame file (the counter
is kept) or the file numbered by the counter (the counter is incremented). -/
theorem tire_loopBody_trace [Add D] (env : MainEnv D) (out_dir : String)
    (dT : D) (output_steps render_steps : Nat) (st : demo_FSI_Flexible_Toroidal_Tire.LoopState D) :
    (demo_FSI_Flexible_Toroidal_Tire.loopBody env out_dir dT output_steps render_steps st).1.filter
        Event.isRead = [] ∧
    (demo_FSI_Flexible_Toroidal_Tire.loopBody env out_dir dT output_steps render_steps st).1.filter
        Event.isCreate = [] ∧
    (((demo_FSI_Flexible_Toroidal_Tire.loopBody env out_dir dT output_steps render_steps st).1.filterMap
          Event.frameFile = [] ∧
        ∀ st1, (demo_FSI_Flexible_Toroidal_Tire.loopBody env out_dir dT output_steps render_steps st).2
          = Sum.inr st1 → st1.counter = st.counter) ∨
      ((demo_FSI_Flexible_Toroidal_Tire.loopBody env out_dir dT output_steps render_steps st).1.filterMap
          Event.frameFile = [out_dir ++ "/vtk/flex_body." ++ toString st.counter ++ ".vtk"] ∧
        ∀ st1, (demo_FSI_Flexible_Toroidal_Tire.loopBody env out_dir dT output_steps render_steps st).2
          = Sum.inr st1 → st1.counter = st.counter + 1)) := by
  unfold demo_FSI_Flexible_Toroidal_Tire.loopBody
  simp only []
  split_ifs <;>
    simp [List.filter_cons, List.filterMap_cons, Event.isRead, Event.isCreate, Event.frameFile]

/-- The per-frame files written in the loop of the toroidal-tire demo are
numbered consecutively from the current value of `counter`; the loop reads no
parameter file and creates no directory. -/
theorem tire_mainLoop_trace [LinearOrder D] [Add D] (env : MainEnv D) (out_dir : String)
    (dT : D) (output_steps render_steps : Nat) (fuel : Nat) :
    ∀ st : demo_FSI_Flexible_Toroidal_Tire.LoopState D,
      (∃ n : Nat,
        (demo_FSI_Flexible_Toroidal_Tire.mainLoop env out_dir dT output_steps render_steps fuel
            st).trace.filterMap Event.frameFile
          = (List.range n).map (fun j : Nat =>
              out_dir ++ "/vtk/flex_body." ++ toString (st.counter + j) ++ ".vtk")) ∧
      (demo_FSI_Flexible_Toroidal_Tire.mainLoop env out_dir dT output_steps render_steps fuel
          st).trace.filter Event.isRead = [] ∧
      (demo_FSI_Flexible_Toroidal_Tire.mainLoop env out_dir dT output_steps render_steps fuel
          st).trace.filter Event.isCreate = [] := by
  induction fuel with
  | zero =>
    intro st
    exact ⟨⟨0, rfl⟩, rfl, rfl⟩
  | succ f ih =>
    intro st
    unfold demo_FSI_Flexible_Toroidal_Tire.mainLoop
    by_cases ht : st.time < env.t_end
    swap
    · simp only [ht, if_false]
      exact ⟨⟨0, rfl⟩, rfl, rfl⟩
    simp only [ht, if_true]
    obtain ⟨hread, hcreate, hframes⟩ :=
      tire_loopBody_trace env out_dir dT output_steps render_steps st
    cases hbody : demo_FSI_Flexible_Toroidal_Tire.loopBody env out_dir dT output_steps render_steps st with
    | mk t next =>
      rw [hbody] at hread hcreate hframes
      cases next with
      | inl status =>
        simp only [hread, hcreate, and_true]
        rcases hframes with ⟨h0, _⟩ | ⟨h1, _⟩
        · exact ⟨0, h0⟩
        · refine ⟨1, ?_⟩
          rw [h1]
          simp [List.range_succ]
      | inr st1 =>
        obtain ⟨⟨n, hn⟩, hr1, hc1⟩ := ih st1
        simp only [List.filter_append, List.filterMap_append, hread, hcreate, hr1, hc1,
          List.append_nil, and_true, hn]
        rcases hframes with ⟨h0, hc⟩ | ⟨h1, hc⟩
        · refine ⟨n, ?_⟩
          rw [h0, hc st1 rfl]
          rfl
        · refine ⟨n + 1, ?_⟩
          rw [h1, hc st1 rfl]
          exact range_succ_map_shift
            (fun c : Int => out_dir ++ "/vtk/flex_body." ++ toString c ++ ".vtk") st.counter n

/-- One iteration of the loop of the Viper demo reads no parameter file and
creates no directory. -/
theorem viper_loopBody_trace [Add D] (env : MainEnv D) (out_dir : String)
    (output_steps render_steps : Nat) (st : demo_ROBOT_Viper_SPH.LoopState D) :
    (demo_ROBOT_Viper_SPH.loopBody env out_dir output_steps render_steps st).1.filter
        Event.isRead = [] ∧
    (demo_ROBOT_Viper_SPH.loopBody env out_dir output_steps render_steps st).1.filter
        Event.isCreate = [] := by
  unfold demo_ROBOT_Viper_SPH.loopBody
  simp only []
  split_ifs <;>
    simp [List.filter_cons, Event.isRead, Event.isCreate, demo_ROBOT_Viper_SPH.mainEnd,
      demo_ROBOT_Viper_SPH.output]

/-- The loop of the Viper demo reads no parameter file and creates no
directory. -/
theorem viper_mainLoop_trace [LinearOrder D] [Add D] (env : MainEnv D) (out_dir : String)
    (output_steps render_steps : Nat) (fuel : Nat) :
    ∀ st : demo_ROBOT_Viper_SPH.LoopState D,
      (demo_ROBOT_Viper_SPH.mainLoop env out_dir output_steps render_steps fuel
          st).trace.filter Event.isRead = [] ∧
      (demo_ROBOT_Viper_SPH.mainLoop env out_dir output_steps render_steps fuel
          st).trace.filter Event.isCreate = [] := by
  induction fuel with
  | zero =>
    intro st
    exact ⟨rfl, rfl⟩
  | succ f ih =>
    intro st
    unfold demo_ROBOT_Viper_SPH.mainLoop
    by_cases ht : st.time < env.t_end
    swap
    · simp only [ht, if_false]
      exact ⟨rfl, rfl⟩
    simp only [ht, if_true]
    obtain ⟨hread, hcreate⟩ := viper_loopBody_trace env out_dir output_steps render_steps st
    cases hbody : demo_ROBOT_Viper_SPH.loopBody env out_dir output_steps render_steps st with
    | mk t next =>
      rw [hbody] at hread hcreate
      cases next with
      | inl status => exact ⟨hread, hcreate⟩
      | inr st1 =>
        obtain ⟨hr1, hc1⟩ := ih st1
        simp only [List.filter_append, hread, hcreate, hr1, hc1, List.append_nil, and_true]

theorem cylinder_mainFromRead_trace [LinearOrder D] [Add D] [Zero D] (env : MainEnv D)
    (out_dir : String) (t : List (Event D)) (inputJson : String) (fuel : Nat) :
    (demo_FSI_CylinderDrop.mainFromRead env out_dir t inputJson fuel).trace.filter Event.isRead
      = t.filter Event.isRead ++ [Event.ReadParametersFromFile inputJson] ∧
    (demo_FSI_CylinderDrop.mainFromRead env out_dir t inputJson fuel).trace.filter Event.isCreate
      = t.filter Event.isCreate ∧
    ∃ rest, (demo_FSI_CylinderDrop.mainFromRead env out_dir t inputJson fuel).trace
      = t ++ Event.ReadParametersFromFile inputJson :: rest := by
  obtain ⟨hr, hc⟩ : (demo_FSI_CylinderDrop.mainLoop env out_dir (env.GetStepSize inputJson) (env.steps env.out_fps (env.GetStepSize inputJson))
        (env.steps env.render_fps (env.GetStepSize inputJson)) fuel
        { time := 0, current_step := 0, counter := 0, iteration := 0 }).trace.filter Event.isRead = [] ∧
      (demo_FSI_CylinderDrop.mainLoop env out_dir (env.GetStepSize inputJson) (env.steps env.out_fps (env.GetStepSize inputJson))
        (env.steps env.render_fps (env.GetStepSize inputJson)) fuel
        { time := 0, current_step := 0, counter := 0, iteration := 0 }).trace.filter Event.isCreate = [] := by
    have := cylinder_mainLoop_trace env out_dir (env.GetStepSize inputJson) (env.steps env.out_fps (env.GetStepSize inputJson))
        (env.steps env.render_fps (env.GetStepSize inputJson)) fuel
      { time := 0, current_step := 0, counter := 0, iteration := 0 }
    exact ⟨this.2.1, this.2.2⟩
  refine ⟨?_, ?_, ?_⟩
  · simp only [demo_FSI_CylinderDrop.mainFromRead, List.filter_append, hr]
    simp [List.filter_cons, Event.isRead]
  · simp only [demo_FSI_CylinderDrop.mainFromRead, List.filter_append, hc]
    simp [List.filter_cons, Event.isCreate]
  · simp only [demo_FSI_CylinderDrop.mainFromRead, List.append_assoc, List.cons_append]
    exact ⟨_, rfl⟩

theorem tire_mainFromRead_trace [LinearOrder D] [Add D] [Zero D] (env : MainEnv D)
    (out_dir : String) (t : List (Event D)) (inputJson : String) (fuel : Nat) :
    (demo_FSI_Flexible_Toroidal_Tire.mainFromRead env out_dir t inputJson fuel).trace.filter Event.isRead
      = t.filter Event.isRead ++ [Event.ReadParametersFromFile inputJson] ∧
    (demo_FSI_Flexible_Toroidal_Tire.mainFromRead env out_dir t inputJson fuel).trace.filter Event.isCreate
      = t.filter Event.isCreate ∧
    ∃ rest, (demo_FSI_Flexible_Toroidal_Tire.mainFromRead env out_dir t inputJson fuel).trace
      = t ++ Event.ReadParametersFromFile inputJson :: rest := by
  obtain ⟨hr, hc⟩ : (demo_FSI_Flexible_Toroidal_Tire.mainLoop env out_dir (env.GetStepSize inputJson) (env.steps env.out_fps (env.GetStepSize inputJson))
        (env.steps env.render_fps (env.GetStepSize inputJson)) fuel
        { time := 0, current_step := 0, counter := 0, iteration := 0 }).trace.filter Event.isRead = [] ∧
      (demo_FSI_Flexible_Toroidal_Tire.mainLoop env out_dir (env.GetStepSize inputJson) (env.steps env.out_fps (env.GetStepSize inputJson))
        (env.steps env.render_fps (env.GetStepSize inputJson)) fuel
        { time := 0, current_step := 0, counter := 0, iteration := 0 }).trace.filter Event.isCreate = [] := by
    have := tire_mainLoop_trace env out_dir (env.GetStepSize inputJson) (env.steps env.out_fps (env.GetStepSize inputJson))
        (env.steps env.render_fps (env.GetStepSize inputJson)) fuel
      { time := 0, current_step := 0, counter := 0, iteration := 0 }
    exact ⟨this.2.1, this.2.2⟩
  refine ⟨?_, ?_, ?_⟩
  · simp only [demo_FSI_Flexible_Toroidal_Tire.mainFromRead, List.filter_append, hr]
    simp [List.filter_cons, Event.isRead]
  · simp only [demo_FSI_Flexible_Toroidal_Tire.mainFromRead, List.filter_append, hc]
    simp [List.filter_cons, Event.isCreate]
  · simp only [demo_FSI_Flexible_Toroidal_Tire.mainFromRead, List.append_assoc, List.cons_append]
    exact ⟨_, rfl⟩

theorem viper_mainFromRead_trace [LinearOrder D] [Add D] [Zero D] (env : MainEnv D)
    (out_dir : String) (t : List (Event D)) (inputJson : String) (fuel : Nat) :
    (demo_ROBOT_Viper_SPH.mainFromRead env out_dir t inputJson fuel).trace.filter Event.isRead
      = t.filter Event.isRead ++ [Event.ReadParametersFromFile inputJson] ∧
    (demo_ROBOT_Viper_SPH.mainFromRead env out_dir t inputJson fuel).trace.filter Event.isCreate
      = t.filter Event.isCreate ∧
    ∃ rest, (demo_ROBOT_Viper_SPH.mainFromRead env out_dir t inputJson fuel).trace
      = t ++ Event.ReadParametersFromFile inputJson :: rest := by
  obtain ⟨hr, hc⟩ : (demo_ROBOT_Viper_SPH.mainLoop env out_dir (env.steps env.out_fps env.dT)
        (env.steps env.render_fps env.dT) fuel
        { time := 0, current_step := 0, iteration := 0 }).trace.filter Event.isRead = [] ∧
      (demo_ROBOT_Viper_SPH.mainLoop env out_dir (env.steps env.out_fps env.dT)
        (env.steps env.render_fps env.dT) fuel
        { time := 0, current_step := 0, iteration := 0 }).trace.filter Event.isCreate = [] := by
    have := viper_mainLoop_trace env out_dir (env.steps env.out_fps env.dT)
        (env.steps env.render_fps env.dT) fuel
      { time := 0, current_step := 0, iteration := 0 }
    exact ⟨this.1, this.2⟩
  refine ⟨?_, ?_, ?_⟩
  · simp only [demo_ROBOT_Viper_SPH.mainFromRead, List.filter_append, hr]
    simp [List.filter_cons, Event.isRead, demo_ROBOT_Viper_SPH.output]
  · simp only [demo_ROBOT_Viper_SPH.mainFromRead, List.filter_append, hc]
    simp [List.filter_cons, Event.isCreate, demo_ROBOT_Viper_SPH.output]
  · simp only [demo_ROBOT_Viper_SPH.mainFromRead, List.append_assoc, List.cons_append]
    exact ⟨_, rfl⟩

/-- The run of `main` once the three directories were created. -/
theorem cylinder_main_of_dirs [LinearOrder D] [Add D] [Zero D] (env : MainEnv D)
    (hdirs : DirectoriesCreated env (env.GetChronoOutputPath ++ "FSI_Cylinder_Drop/") "/vtk")
    (argv : List String) (fuel : Nat) :
    demo_FSI_CylinderDrop.main env argv fuel =
      if argv.length = 1 then
        demo_FSI_CylinderDrop.mainFromRead env (env.GetChronoOutputPath ++ "FSI_Cylinder_Drop/")
          ([Event.create_directory (env.GetChronoOutputPath ++ "FSI_Cylinder_Drop/"),
            Event.create_directory (env.GetChronoOutputPath ++ "FSI_Cylinder_Drop/" ++ "/particles"),
            Event.create_directory (env.GetChronoOutputPath ++ "FSI_Cylinder_Drop/" ++ "/vtk"),
            Event.engine "ChSystemSMC sysMBS", Event.engine "ChSystemFsi sysFSI(sysMBS)"]
            ++ [Event.cout "Use the default JSON file"])
          (env.GetChronoDataFile "fsi/input_json/demo_FSI_CylinderDrop_Explicit.json") fuel
      else if argv.length = 2 then
        demo_FSI_CylinderDrop.mainFromRead env (env.GetChronoOutputPath ++ "FSI_Cylinder_Drop/")
          ([Event.create_directory (env.GetChronoOutputPath ++ "FSI_Cylinder_Drop/"),
            Event.create_directory (env.GetChronoOutputPath ++ "FSI_Cylinder_Drop/" ++ "/particles"),
            Event.create_directory (env.GetChronoOutputPath ++ "FSI_Cylinder_Drop/" ++ "/vtk"),
            Event.engine "ChSystemSMC sysMBS", Event.engine "ChSystemFsi sysFSI(sysMBS)"]
            ++ [Event.cout "Use the specified JSON file"])
          (argv.getD 1 "") fuel
      else
        ⟨[Event.create_directory (env.GetChronoOutputPath ++ "FSI_Cylinder_Drop/"),
            Event.create_directory (env.GetChronoOutputPath ++ "FSI_Cylinder_Drop/" ++ "/particles"),
            Event.create_directory (env.GetChronoOutputPath ++ "FSI_Cylinder_Drop/" ++ "/vtk"),
            Event.engine "ChSystemSMC sysMBS", Event.engine "ChSystemFsi sysFSI(sysMBS)"]
          ++ [Event.cout "usage: ./demo_FSI_CylinderDrop <json_file>"], Status.returned 1⟩ := by
  obtain ⟨h1, h2, h3⟩ := hdirs
  unfold demo_FSI_CylinderDrop.main
  rw [if_neg (by simp [h1]), if_neg (by simp [h2]), if_neg (by simp [h3])]

theorem cylinder_main_arguments [LinearOrder D] [Add D] [Zero D] (env : MainEnv D)
    (hdirs : DirectoriesCreated env (env.GetChronoOutputPath ++ "FSI_Cylinder_Drop/") "/vtk") :
    ScenarioFromArguments (demo_FSI_CylinderDrop.main env)
      (env.GetChronoDataFile "fsi/input_json/demo_FSI_CylinderDrop_Explicit.json")
      "usage: ./demo_FSI_CylinderDrop <json_file>" := by
  intro argv fuel
  rw [cylinder_main_of_dirs env hdirs argv fuel]
  refine ⟨?_, ?_, ?_⟩
  · intro a0 hargv
    subst hargv
    simp only [List.length_singleton, if_true, ne_eq, not_true_eq_false, if_false,
      OfNat.one_ne_ofNat]
    rw [(cylinder_mainFromRead_trace env _ _ _ fuel).1]
    simp [List.filter_cons, Event.isRead]
  · intro a0 a1 hargv
    subst hargv
    have e1 : ([a0, a1] : List String).length = 2 := rfl
    simp only [e1, if_true, if_false, OfNat.ofNat_ne_one]
    rw [(cylinder_mainFromRead_trace env _ _ _ fuel).1]
    simp [List.filter_cons, Event.isRead]
  · intro hlen
    have hne1 : argv.length ≠ 1 := by omega
    have hne2 : argv.length ≠ 2 := by omega
    simp [hne1, hne2, List.filter_cons, Event.isRead, Event.isStep]

/-- The run of `main` once the three directories were created. -/
theorem tire_main_of_dirs [LinearOrder D] [Add D] [Zero D] (env : MainEnv D)
    (hdirs : DirectoriesCreated env (env.GetChronoOutputPath ++ "FSI_Flexible_Toroidal_Tire/") "/vtk")
    (argv : List String) (fuel : Nat) :
    demo_FSI_Flexible_Toroidal_Tire.main env argv fuel =
      if argv.length = 1 then
        demo_FSI_Flexible_Toroidal_Tire.mainFromRead env (env.GetChronoOutputPath ++ "FSI_Flexible_Toroidal_Tire/")
          ([Event.create_directory (env.GetChronoOutputPath ++ "FSI_Flexible_Toroidal_Tire/"),
            Event.create_directory (env.GetChronoOutputPath ++ "FSI_Flexible_Toroidal_Tire/" ++ "/particles"),
            Event.create_directory (env.GetChronoOutputPath ++ "FSI_Flexible_Toroidal_Tire/" ++ "/vtk"),
            Event.engine "ChSystemSMC sysMBS", Event.engine "ChSystemFsi sysFSI(sysMBS)"]
            ++ [Event.cout "Use the default JSON file"])
          (env.GetChronoDataFile "fsi/input_json/demo_FSI_Flexible_Elements_Explicit.json") fuel
      else if argv.length = 2 then
        demo_FSI_Flexible_Toroidal_Tire.mainFromRead env (env.GetChronoOutputPath ++ "FSI_Flexible_Toroidal_Tire/")
          ([Event.create_directory (env.GetChronoOutputPath ++ "FSI_Flexible_Toroidal_Tire/"),
            Event.create_directory (env.GetChronoOutputPath ++ "FSI_Flexible_Toroidal_Tire/" ++ "/particles"),
            Event.create_directory (env.GetChronoOutputPath ++ "FSI_Flexible_Toroidal_Tire/" ++ "/vtk"),
            Event.engine "ChSystemSMC sysMBS", Event.engine "ChSystemFsi sysFSI(sysMBS)"]
            ++ [Event.cout "Use the specified JSON file"])
          (argv.getD 1 "") fuel
      else
        ⟨[Event.create_directory (env.GetChronoOutputPath ++ "FSI_Flexible_Toroidal_Tire/"),
            Event.create_directory (env.GetChronoOutputPath ++ "FSI_Flexible_Toroidal_Tire/" ++ "/particles"),
            Event.create_directory (env.GetChronoOutputPath ++ "FSI_Flexible_Toroidal_Tire/" ++ "/vtk"),
            Event.engine "ChSystemSMC sysMBS", Event.engine "ChSystemFsi sysFSI(sysMBS)"]
          ++ [Event.cout "usage: ./demo_FSI_Flexible_Elements <json_file>"], Status.returned 1⟩ := by
  obtain ⟨h1, h2, h3⟩ := hdirs
  unfold demo_FSI_Flexible_Toroidal_Tire.main
  rw [if_neg (by simp [h1]), if_neg (by simp [h2]), if_neg (by simp [h3])]

theorem tire_main_arguments [LinearOrder D] [Add D] [Zero D] (env : MainEnv D)
    (hdirs : DirectoriesCreated env (env.GetChronoOutputPath ++ "FSI_Flexible_Toroidal_Tire/") "/vtk") :
    ScenarioFromArguments (demo_FSI_Flexible_Toroidal_Tire.main env)
      (env.GetChronoDataFile "fsi/input_json/demo_FSI_Flexible_Elements_Explicit.json")
      "usage: ./demo_FSI_Flexible_Elements <json_file>" := by
  intro argv fuel
  rw [tire_main_of_dirs env hdirs argv fuel]
  refine ⟨?_, ?_, ?_⟩
  · intro a0 hargv
    subst hargv
    simp only [List.length_singleton, if_true, ne_eq, not_true_eq_false, if_false,
      OfNat.one_ne_ofNat]
    rw [(tire_mainFromRead_trace env _ _ _ fuel).1]
    simp [List.filter_cons, Event.isRead]
  · intro a0 a1 hargv
    subst hargv
    have e1 : ([a0, a1] : List String).length = 2 := rfl
    simp only [e1, if_true, if_false, OfNat.ofNat_ne_one]
    rw [(tire_mainFromRead_trace env _ _ _ fuel).1]
    simp [List.filter_cons, Event.isRead]
  · intro hlen
    have hne1 : argv.length ≠ 1 := by omega
    have hne2 : argv.length ≠ 2 := by omega
    simp [hne1, hne2, List.filter_cons, Event.isRead, Event.isStep]

/-- The run of `main` once the three directories were created. -/
theorem viper_main_of_dirs [LinearOrder D] [Add D] [Zero D] (env : MainEnv D)
    (hdirs : DirectoriesCreated env (env.GetChronoOutputPath ++ "FSI_Viper/") "/rover")
    (argv : List String) (fuel : Nat) :
    demo_ROBOT_Viper_SPH.main env argv fuel =
      if argv.length = 2 then
        demo_ROBOT_Viper_SPH.mainFromRead env (env.GetChronoOutputPath ++ "FSI_Viper/")
          [Event.create_directory (env.GetChronoOutputPath ++ "FSI_Viper/"),
            Event.create_directory (env.GetChronoOutputPath ++ "FSI_Viper/" ++ "/particles"),
            Event.create_directory (env.GetChronoOutputPath ++ "FSI_Viper/" ++ "/rover"),
            Event.engine "ChSystemNSC sysMBS", Event.engine "ChSystemFsi sysFSI(sysMBS)",
            Event.engine "sysMBS.Set_G_acc", Event.engine "sysFSI.Set_G_acc"]
          (argv.getD 1 "") fuel
      else if argv.length ≠ 1 then
        ⟨[Event.create_directory (env.GetChronoOutputPath ++ "FSI_Viper/"),
            Event.create_directory (env.GetChronoOutputPath ++ "FSI_Viper/" ++ "/particles"),
            Event.create_directory (env.GetChronoOutputPath ++ "FSI_Viper/" ++ "/rover"),
            Event.engine "ChSystemNSC sysMBS", Event.engine "ChSystemFsi sysFSI(sysMBS)",
            Event.engine "sysMBS.Set_G_acc", Event.engine "sysFSI.Set_G_acc"]
          ++ [Event.cout "usage: ./demo_ROBOT_Viper_SPH <json_file>"], Status.returned 1⟩
      else
        demo_ROBOT_Viper_SPH.mainFromRead env (env.GetChronoOutputPath ++ "FSI_Viper/")
          [Event.create_directory (env.GetChronoOutputPath ++ "FSI_Viper/"),
            Event.create_directory (env.GetChronoOutputPath ++ "FSI_Viper/" ++ "/particles"),
            Event.create_directory (env.GetChronoOutputPath ++ "FSI_Viper/" ++ "/rover"),
            Event.engine "ChSystemNSC sysMBS", Event.engine "ChSystemFsi sysFSI(sysMBS)",
            Event.engine "sysMBS.Set_G_acc", Event.engine "sysFSI.Set_G_acc"]
          (env.GetChronoDataFile "fsi/input_json/demo_FSI_Viper_granular_NSC.json") fuel := by
  obtain ⟨h1, h2, h3⟩ := hdirs
  unfold demo_ROBOT_Viper_SPH.main
  rw [if_neg (by simp [h1]), if_neg (by simp [h2]), if_neg (by simp [h3])]

theorem viper_main_arguments [LinearOrder D] [Add D] [Zero D] (env : MainEnv D)
    (hdirs : DirectoriesCreated env (env.GetChronoOutputPath ++ "FSI_Viper/") "/rover") :
    ScenarioFromArguments (demo_ROBOT_Viper_SPH.main env)
      (env.GetChronoDataFile "fsi/input_json/demo_FSI_Viper_granular_NSC.json")
      "usage: ./demo_ROBOT_Viper_SPH <json_file>" := by
  intro argv fuel
  rw [viper_main_of_dirs env hdirs argv fuel]
  refine ⟨?_, ?_, ?_⟩
  · intro a0 hargv
    subst hargv
    simp only [List.length_singleton, if_true, ne_eq, not_true_eq_false, if_false,
      OfNat.one_ne_ofNat]
    rw [(viper_mainFromRead_trace env _ _ _ fuel).1]
    simp [List.filter_cons, Event.isRead]
  · intro a0 a1 hargv
    subst hargv
    have e1 : ([a0, a1] : List String).length = 2 := rfl
    simp only [e1, if_true, if_false, OfNat.ofNat_ne_one]
    rw [(viper_mainFromRead_trace env _ _ _ fuel).1]
    simp [List.filter_cons, Event.isRead]
  · intro hlen
    have hne1 : argv.length ≠ 1 := by omega
    have hne2 : argv.length ≠ 2 := by omega
    simp [hne1, hne2, List.filter_cons, Event.isRead, Event.isStep]

theorem cylinder_main_directories [LinearOrder D] [Add D] [Zero D] (env : MainEnv D) :
    DirectoriesFirst env (demo_FSI_CylinderDrop.main env) (env.GetChronoOutputPath ++ "FSI_Cylinder_Drop/") "/vtk"
      (Event.engine "ChSystemSMC sysMBS") := by
  intro argv fuel
  refine ⟨?_, ?_, ?_, ?_⟩
  · intro h1
    unfold demo_FSI_CylinderDrop.main
    rw [if_pos h1]
  · intro h1 h2
    unfold demo_FSI_CylinderDrop.main
    rw [if_neg (by simp [h1]), if_pos h2]
  · intro h1 h2 h3
    unfold demo_FSI_CylinderDrop.main
    rw [if_neg (by simp [h1]), if_neg (by simp [h2]), if_pos h3]
  · intro hdirs
    rw [cylinder_main_of_dirs env hdirs argv fuel]
    by_cases ha1 : argv.length = 1
    · simp only [ha1, if_true]
      obtain ⟨_, hc, rest, hrest⟩ := cylinder_mainFromRead_trace env
        (env.GetChronoOutputPath ++ "FSI_Cylinder_Drop/")
        ([Event.create_directory (env.GetChronoOutputPath ++ "FSI_Cylinder_Drop/"),
          Event.create_directory (env.GetChronoOutputPath ++ "FSI_Cylinder_Drop/" ++ "/particles"),
          Event.create_directory (env.GetChronoOutputPath ++ "FSI_Cylinder_Drop/" ++ "/vtk"),
          Event.engine "ChSystemSMC sysMBS", Event.engine "ChSystemFsi sysFSI(sysMBS)"]
          ++ [Event.cout "Use the default JSON file"])
        (env.GetChronoDataFile "fsi/input_json/demo_FSI_CylinderDrop_Explicit.json") fuel
      refine ⟨⟨_, by rw [hrest]; rfl⟩, ?_⟩
      rw [hc]
      simp [List.filter_cons, Event.isCreate]
    by_cases ha2 : argv.length = 2
    · simp only [ha2, if_true, if_false, OfNat.ofNat_ne_one]
      obtain ⟨_, hc, rest, hrest⟩ := cylinder_mainFromRead_trace env
        (env.GetChronoOutputPath ++ "FSI_Cylinder_Drop/")
        ([Event.create_directory (env.GetChronoOutputPath ++ "FSI_Cylinder_Drop/"),
          Event.create_directory (env.GetChronoOutputPath ++ "FSI_Cylinder_Drop/" ++ "/particles"),
          Event.create_directory (env.GetChronoOutputPath ++ "FSI_Cylinder_Drop/" ++ "/vtk"),
          Event.engine "ChSystemSMC sysMBS", Event.engine "ChSystemFsi sysFSI(sysMBS)"]
          ++ [Event.cout "Use the specified JSON file"])
        (argv.getD 1 "") fuel
      refine ⟨⟨_, by rw [hrest]; rfl⟩, ?_⟩
      rw [hc]
      simp [List.filter_cons, Event.isCreate]
    · simp only [ha1, ha2, if_false]
      exact ⟨⟨_, rfl⟩, by simp [List.filter_cons, Event.isCreate]⟩

theorem tire_main_directories [LinearOrder D] [Add D] [Zero D] (env : MainEnv D) :
    DirectoriesFirst env (demo_FSI_Flexible_Toroidal_Tire.main env) (env.GetChronoOutputPath ++ "FSI_Flexible_Toroidal_Tire/") "/vtk"
      (Event.engine "ChSystemSMC sysMBS") := by
  intro argv fuel
  refine ⟨?_, ?_, ?_, ?_⟩
  · intro h1
    unfold demo_FSI_Flexible_Toroidal_Tire.main
    rw [if_pos h1]
  · intro h1 h2
    unfold demo_FSI_Flexible_Toroidal_Tire.main
    rw [if_neg (by simp [h1]), if_pos h2]
  · intro h1 h2 h3
    unfold demo_FSI_Flexible_Toroidal_Tire.main
    rw [if_neg (by simp [h1]), if_neg (by simp [h2]), if_pos h3]
  · intro hdirs
    rw [tire_main_of_dirs env hdirs argv fuel]
    by_cases ha1 : argv.length = 1
    · simp only [ha1, if_true]
      obtain ⟨_, hc, rest, hrest⟩ := tire_mainFromRead_trace env
        (env.GetChronoOutputPath ++ "FSI_Flexible_Toroidal_Tire/")
        ([Event.create_directory (env.GetChronoOutputPath ++ "FSI_Flexible_Toroidal_Tire/"),
          Event.create_directory (env.GetChronoOutputPath ++ "FSI_Flexible_Toroidal_Tire/" ++ "/particles"),
          Event.create_directory (env.GetChronoOutputPath ++ "FSI_Flexible_Toroidal_Tire/" ++ "/vtk"),
          Event.engine "ChSystemSMC sysMBS", Event.engine "ChSystemFsi sysFSI(sysMBS)"]
          ++ [Event.cout "Use the default JSON file"])
        (env.GetChronoDataFile "fsi/input_json/demo_FSI_Flexible_Elements_Explicit.json") fuel
      refine ⟨⟨_, by rw [hrest]; rfl⟩, ?_⟩
      rw [hc]
      simp [List.filter_cons, Event.isCreate]
    by_cases ha2 : argv.length = 2
    · simp only [ha2, if_true, if_false, OfNat.ofNat_ne_one]
      obtain ⟨_, hc, rest, hrest⟩ := tire_mainFromRead_trace env
        (env.GetChronoOutputPath ++ "FSI_Flexible_Toroidal_Tire/")
        ([Event.create_directory (env.GetChronoOutputPath ++ "FSI_Flexible_Toroidal_Tire/"),
          Event.create_directory (env.GetChronoOutputPath ++ "FSI_Flexible_Toroidal_Tire/" ++ "/particles"),
          Event.create_directory (env.GetChronoOutputPath ++ "FSI_Flexible_Toroidal_Tire/" ++ "/vtk"),
          Event.engine "ChSystemSMC sysMBS", Event.engine "ChSystemFsi sysFSI(sysMBS)"]
          ++ [Event.cout "Use the specified JSON file"])
        (argv.getD 1 "") fuel
      refine ⟨⟨_, by rw [hrest]; rfl⟩, ?_⟩
      rw [hc]
      simp [List.filter_cons, Event.isCreate]
    · simp only [ha1, ha2, if_false]
      exact ⟨⟨_, rfl⟩, by simp [List.filter_cons, Event.isCreate]⟩

theorem viper_main_directories [LinearOrder D] [Add D] [Zero D] (env : MainEnv D) :
    DirectoriesFirst env (demo_ROBOT_Viper_SPH.main env) (env.GetChronoOutputPath ++ "FSI_Viper/") "/rover"
      (Event.engine "ChSystemNSC sysMBS") := by
  intro argv fuel
  refine ⟨?_, ?_, ?_, ?_⟩
  · intro h1
    unfold demo_ROBOT_Viper_SPH.main
    rw [if_pos h1]
  · intro h1 h2
    unfold demo_ROBOT_Viper_SPH.main
    rw [if_neg (by simp [h1]), if_pos h2]
  · intro h1 h2 h3
    unfold demo_ROBOT_Viper_SPH.main
    rw [if_neg (by simp [h1]), if_neg (by simp [h2]), if_pos h3]
  · intro hdirs
    rw [viper_main_of_dirs env hdirs argv fuel]
    by_cases ha2 : argv.length = 2
    · simp only [ha2, if_true]
      obtain ⟨_, hc, rest, hrest⟩ := viper_mainFromRead_trace env
        (env.GetChronoOutputPath ++ "FSI_Viper/")
        [Event.create_directory (env.GetChronoOutputPath ++ "FSI_Viper/"),
          Event.create_directory (env.GetChronoOutputPath ++ "FSI_Viper/" ++ "/particles"),
          Event.create_directory (env.GetChronoOutputPath ++ "FSI_Viper/" ++ "/rover"),
          Event.engine "ChSystemNSC sysMBS", Event.engine "ChSystemFsi sysFSI(sysMBS)",
          Event.engine "sysMBS.Set_G_acc", Event.engine "sysFSI.Set_G_acc"]
        (argv.getD 1 "") fuel
      refine ⟨⟨_, by rw [hrest]; rfl⟩, ?_⟩
      rw [hc]
      simp [List.filter_cons, Event.isCreate]
    by_cases ha1 : argv.length = 1
    · simp only [ha1, if_false, OfNat.one_ne_ofNat, ne_eq, not_true_eq_false]
      obtain ⟨_, hc, rest, hrest⟩ := viper_mainFromRead_trace env
        (env.GetChronoOutputPath ++ "FSI_Viper/")
        [Event.create_directory (env.GetChronoOutputPath ++ "FSI_Viper/"),
          Event.create_directory (env.GetChronoOutputPath ++ "FSI_Viper/" ++ "/particles"),
          Event.create_directory (env.GetChronoOutputPath ++ "FSI_Viper/" ++ "/rover"),
          Event.engine "ChSystemNSC sysMBS", Event.engine "ChSystemFsi sysFSI(sysMBS)",
          Event.engine "sysMBS.Set_G_acc", Event.engine "sysFSI.Set_G_acc"]
        (env.GetChronoDataFile "fsi/input_json/demo_FSI_Viper_granular_NSC.json") fuel
      refine ⟨⟨_, by rw [hrest]; rfl⟩, ?_⟩
      rw [hc]
      simp [List.filter_cons, Event.isCreate]
    · simp only [ha1, ha2, if_false, ne_eq, not_false_eq_true, if_true]
      exact ⟨⟨_, rfl⟩, by simp [List.filter_cons, Event.isCreate]⟩

/-- C9. In each of the three demo programs, once the three output directories
were created: with `argc = 1` the parameter file read is the built-in default
JSON file, with `argc = 2` it is `argv[1]`, and with `argc > 2` the program
prints its usage message as its last event and returns 1, without reading a
parameter file and without a simulation step. -/
theorem main_scenario_from_arguments [LinearOrder D] [Add D] [Zero D] (env : MainEnv D) :
    (DirectoriesCreated env (env.GetChronoOutputPath ++ "FSI_Cylinder_Drop/") "/vtk" →
      ScenarioFromArguments (demo_FSI_CylinderDrop.main env)
        (env.GetChronoDataFile "fsi/input_json/demo_FSI_CylinderDrop_Explicit.json")
        "usage: ./demo_FSI_CylinderDrop <json_file>") ∧
    (DirectoriesCreated env (env.GetChronoOutputPath ++ "FSI_Flexible_Toroidal_Tire/") "/vtk" →
      ScenarioFromArguments (demo_FSI_Flexible_Toroidal_Tire.main env)
        (env.GetChronoDataFile "fsi/input_json/demo_FSI_Flexible_Elements_Explicit.json")
        "usage: ./demo_FSI_Flexible_Elements <json_file>") ∧
    (DirectoriesCreated env (env.GetChronoOutputPath ++ "FSI_Viper/") "/rover" →
      ScenarioFromArguments (demo_ROBOT_Viper_SPH.main env)
        (env.GetChronoDataFile "fsi/input_json/demo_FSI_Viper_granular_NSC.json")
        "usage: ./demo_ROBOT_Viper_SPH <json_file>") :=
  ⟨cylinder_main_arguments env, tire_main_arguments env, viper_main_arguments env⟩

/-- C10. In each of the three demo programs the root output directory, then
`particles`, then `vtk` (for the Viper demo `rover`) are created, in that
order and before anything else.  The first creation that reports failure is
followed only by the error message and `return 1`: no later directory is
created, no parameter file is read and no simulation step is made.  When all
three succeed the program does not return there: it goes on to construct the
multibody system, and it creates no further directory. -/
theorem main_directories_first [LinearOrder D] [Add D] [Zero D] (env : MainEnv D) :
    DirectoriesFirst env (demo_FSI_CylinderDrop.main env)
      (env.GetChronoOutputPath ++ "FSI_Cylinder_Drop/") "/vtk"
      (Event.engine "ChSystemSMC sysMBS") ∧
    DirectoriesFirst env (demo_FSI_Flexible_Toroidal_Tire.main env)
      (env.GetChronoOutputPath ++ "FSI_Flexible_Toroidal_Tire/") "/vtk"
      (Event.engine "ChSystemSMC sysMBS") ∧
    DirectoriesFirst env (demo_ROBOT_Viper_SPH.main env)
      (env.GetChronoOutputPath ++ "FSI_Viper/") "/rover"
      (Event.engine "ChSystemNSC sysMBS") :=
  ⟨cylinder_main_directories env, tire_main_directories env, viper_main_directories env⟩

/-! ### Directories that exist already -/

theorem stopsAtDirectory_of_directoriesFirst (env : MainEnv D) (run : List String → Nat → Run D)
    (out_dir sub : String) (next : Event D) (h : DirectoriesFirst env run out_dir sub next)
    (argv : List String) (fuel : Nat)
    (hfail : env.create_directory out_dir = false ∨
      env.create_directory (out_dir ++ "/particles") = false ∨
      env.create_directory (out_dir ++ sub) = false) :
    StopsAtDirectory (run argv fuel) := by
  obtain ⟨h1, h2, h3, _⟩ := h argv fuel
  by_cases c1 : env.create_directory out_dir = false
  · rw [h1 c1]
    exact ⟨rfl, ⟨_, rfl⟩, rfl, rfl⟩
  have c1 : env.create_directory out_dir = true := by simpa using c1
  by_cases c2 : env.create_directory (out_dir ++ "/particles") = false
  · rw [h2 c1 c2]
    exact ⟨rfl, ⟨_, rfl⟩, rfl, rfl⟩
  have c2 : env.create_directory (out_dir ++ "/particles") = true := by simpa using c2
  have c3 : env.create_directory (out_dir ++ sub) = false := by
    rcases hfail with h | h | h
    · rw [h] at c1
      exact absurd c1 (by decide)
    · rw [h] at c2
      exact absurd c2 (by decide)
    · exact h
  rw [h3 c1 c2 c3]
  exact ⟨rfl, ⟨_, rfl⟩, rfl, rfl⟩

/-- C11 as stated fails: with the output directories in place from an
earlier run, so that `filesystem::create_directory` reports failure, the
cylinder-drop demo and the Viper demo print the error message and return 1
right after the first creation. -/
theorem rerun_existing_directory_returns_1 :
    demo_FSI_CylinderDrop.main Example.rerunEnv ["demo_FSI_CylinderDrop"] 100
      = ⟨[Event.create_directory "out/FSI_Cylinder_Drop/",
          Event.cerr "Error creating directory out/FSI_Cylinder_Drop/"], Status.returned 1⟩ ∧
    demo_ROBOT_Viper_SPH.main Example.rerunEnv ["demo_ROBOT_Viper_SPH"] 100
      = ⟨[Event.create_directory "out/FSI_Viper/",
          Event.cerr "Error creating directory out/FSI_Viper/"], Status.returned 1⟩ := by
  constructor
  · rw [(cylinder_main_directories Example.rerunEnv ["demo_FSI_CylinderDrop"] 100).1 rfl]
    rfl
  · rw [(viper_main_directories Example.rerunEnv ["demo_ROBOT_Viper_SPH"] 100).1 rfl]
    rfl

/-- C11, amended.  In each of the three demo programs a directory creation
that reports failure, whatever the reason (the program sees only the Boolean
result of `filesystem::create_directory`, so this includes a directory that
exists already), ends the run: the error message is printed, `main` returns
1, no parameter file is read and no simulation step is made. -/
theorem main_directory_failure_is_fatal [LinearOrder D] [Add D] [Zero D] (env : MainEnv D)
    (argv : List String) (fuel : Nat) :
    ((env.create_directory (env.GetChronoOutputPath ++ "FSI_Cylinder_Drop/") = false ∨
        env.create_directory (env.GetChronoOutputPath ++ "FSI_Cylinder_Drop/" ++ "/particles")
          = false ∨
        env.create_directory (env.GetChronoOutputPath ++ "FSI_Cylinder_Drop/" ++ "/vtk")
          = false) →
      StopsAtDirectory (demo_FSI_CylinderDrop.main env argv fuel)) ∧
    ((env.create_directory (env.GetChronoOutputPath ++ "FSI_Flexible_Toroidal_Tire/") = false ∨
        env.create_directory
          (env.GetChronoOutputPath ++ "FSI_Flexible_Toroidal_Tire/" ++ "/particles") = false ∨
        env.create_directory (env.GetChronoOutputPath ++ "FSI_Flexible_Toroidal_Tire/" ++ "/vtk")
          = false) →
      StopsAtDirectory (demo_FSI_Flexible_Toroidal_Tire.main env argv fuel)) ∧
    ((env.create_directory (env.GetChronoOutputPath ++ "FSI_Viper/") = false ∨
        env.create_directory (env.GetChronoOutputPath ++ "FSI_Viper/" ++ "/particles") = false ∨
        env.create_directory (env.GetChronoOutputPath ++ "FSI_Viper/" ++ "/rover") = false) →
      StopsAtDirectory (demo_ROBOT_Viper_SPH.main env argv fuel)) :=
  ⟨stopsAtDirectory_of_directoriesFirst env _ _ _ _ (cylinder_main_directories env) argv fuel,
    stopsAtDirectory_of_directoriesFirst env _ _ _ _ (tire_main_directories env) argv fuel,
    stopsAtDirectory_of_directoriesFirst env _ _ _ _ (viper_main_directories env) argv fuel⟩

/-! ### Order of output and step in the simulation loops -/

theorem iterationsOf_steps {σ : Type} (cond : σ → Bool)
    (body : σ → List (Event D) × (Status ⊕ σ)) (hb : StepLast body) (fuel : Nat) :
    ∀ (st : σ) (n : Nat), n < (iterationsOf cond body fuel st).length →
      (((iterationsOf cond body fuel st).take n).flatten).countP Event.isStep = n := by
  induction fuel with
  | zero =>
    intro st n hn
    simp [iterationsOf] at hn
  | succ f ih =>
    intro st n hn
    unfold iterationsOf at hn ⊢
    by_cases hc : cond st = true
    swap
    · simp [hc] at hn
    simp only [hc, if_true] at hn ⊢
    cases hbody : body st with
    | mk t next =>
      rw [hbody] at hn
      cases next with
      | inl status =>
        simp only [List.length_singleton, Nat.lt_one_iff] at hn
        subst hn
        simp
      | inr st1 =>
        cases n with
        | zero => simp
        | succ m =>
          simp only [List.length_cons, Nat.add_lt_add_iff_right] at hn
          simp only [List.take_succ_cons, List.flatten_cons, List.countP_append, ih st1 m hn]
          rcases hb st with ⟨pre, hpre, h0⟩ | ⟨_, status, hst⟩
          · rw [hbody] at hpre
            simp only at hpre
            rw [hpre, List.countP_append, h0]
            simp [Event.isStep]
            omega
          · rw [hbody] at hst
            simp at hst

theorem iterationsOf_mem {σ E : Type} (cond : σ → Bool) (body : σ → List E × (Status ⊕ σ))
    (fuel : Nat) : ∀ (st : σ) (evs : List E), evs ∈ iterationsOf cond body fuel st →
      ∃ st1, evs = (body st1).1 := by
  induction fuel with
  | zero =>
    intro st evs h
    simp [iterationsOf] at h
  | succ f ih =>
    intro st evs h
    unfold iterationsOf at h
    by_cases hc : cond st = true
    swap
    · simp [hc] at h
    simp only [hc, if_true] at h
    cases hbody : body st with
    | mk t next =>
      rw [hbody] at h
      cases next with
      | inl status =>
        simp only [List.mem_singleton] at h
        exact ⟨st, by rw [hbody, h]⟩
      | inr st1 =>
        simp only [List.mem_cons] at h
        rcases h with h | h
        · exact ⟨st, by rw [hbody, h]⟩
        · exact ih st1 evs h

theorem no_step_before_output (t pre s pre1 post : List (Event D)) (e : Event D)
    (ht : t = pre ++ s) (hpre : pre.countP Event.isStep = 0) (hs : s.countP Event.isOutput = 0)
    (hd : t = pre1 ++ e :: post) (he : e.isOutput = true) :
    pre1.countP Event.isStep = 0 := by
  rw [ht] at hd
  rcases List.append_eq_append_iff.mp hd with ⟨a, _, h2⟩ | ⟨c, h1, _⟩
  · rw [h2] at hs
    simp [List.countP_append, List.countP_cons, he] at hs
  · rw [h1] at hpre
    simp only [List.countP_append] at hpre
    omega

theorem iterationsOf_outputAfterSteps {σ : Type} (cond : σ → Bool)
    (body : σ → List (Event D) × (Status ⊕ σ)) (hb : StepLast body) (fuel : Nat) (st : σ) :
    OutputAfterSteps 0 (iterationsOf cond body fuel st) := by
  intro n evs hn pre e post hd he
  have hlt : n < (iterationsOf cond body fuel st).length := by
    rcases Nat.lt_or_ge n (iterationsOf cond body fuel st).length with h | h
    · exact h
    · rw [List.getElem?_eq_none h] at hn
      exact absurd hn (by simp)
  have hmem : evs ∈ iterationsOf cond body fuel st := by
    rw [List.getElem?_eq_getElem hlt] at hn
    cases hn
    exact List.getElem_mem hlt
  obtain ⟨st1, hst1⟩ := iterationsOf_mem cond body fuel st evs hmem
  rw [List.countP_append, iterationsOf_steps cond body hb fuel st n hlt]
  have : pre.countP Event.isStep = 0 := by
    rcases hb st1 with ⟨p, hp, h0⟩ | ⟨h0, _⟩
    · exact no_step_before_output evs p [Event.DoStepDynamics_FSI] pre post e
        (by rw [hst1, hp]) h0 (by simp [Event.isOutput]) hd he
    · exact no_step_before_output evs evs [] pre post e (by simp) (by rw [hst1]; exact h0)
        rfl hd he
  omega

/-! ### Each demo makes its output before its step -/

theorem cylinder_loopBody_stepLast [Add D] (env : MainEnv D) (out_dir : String)
    (dT : D) (output_steps render_steps : Nat) :
    StepLast (demo_FSI_CylinderDrop.loopBody env out_dir dT output_steps render_steps) := by
  intro st
  unfold demo_FSI_CylinderDrop.loopBody
  simp only []
  split_ifs <;>
    first
    | (left
       refine ⟨_, rfl, ?_⟩
       simp [List.countP_cons, Event.isStep])
    | (right
       refine ⟨?_, _, rfl⟩
       simp [List.countP_cons, Event.isStep])

theorem cylinder_mainLoop_iterations [LinearOrder D] [Add D] (env : MainEnv D) (out_dir : String)
    (dT : D) (output_steps render_steps : Nat) (fuel : Nat) :
    ∀ st : demo_FSI_CylinderDrop.LoopState D,
      ∃ tail, (demo_FSI_CylinderDrop.mainLoop env out_dir dT output_steps render_steps fuel st).trace
          = (iterationsOf (fun s => decide (s.time < env.t_end))
              (demo_FSI_CylinderDrop.loopBody env out_dir dT output_steps render_steps) fuel st).flatten
            ++ tail ∧
        tail.countP Event.isStep = 0 ∧ tail.countP Event.isOutput = 0 := by
  induction fuel with
  | zero =>
    intro st
    exact ⟨[], rfl, rfl, rfl⟩
  | succ f ih =>
    intro st
    unfold demo_FSI_CylinderDrop.mainLoop iterationsOf
    by_cases ht : st.time < env.t_end
    swap
    · simp only [ht, if_false, decide_False, Bool.false_eq_true]
      exact ⟨_, rfl, by simp [List.countP_cons, Event.isStep],
        by simp [List.countP_cons, Event.isOutput]⟩
    simp only [ht, if_true, decide_True]
    cases hbody : demo_FSI_CylinderDrop.loopBody env out_dir dT output_steps render_steps st with
    | mk t next =>
      cases next with
      | inl status => exact ⟨[], by simp, rfl, rfl⟩
      | inr st1 =>
        obtain ⟨tail, h1, h2, h3⟩ := ih st1
        refine ⟨tail, ?_, h2, h3⟩
        simp only [h1, List.flatten_cons, List.append_assoc]

theorem tire_loopBody_stepLast [Add D] (env : MainEnv D) (out_dir : String)
    (dT : D) (output_steps render_steps : Nat) :
    StepLast (demo_FSI_Flexible_Toroidal_Tire.loopBody env out_dir dT output_steps render_steps) := by
  intro st
  unfold demo_FSI_Flexible_Toroidal_Tire.loopBody
  simp only []
  split_ifs <;>
    first
    | (left
       refine ⟨_, rfl, ?_⟩
       simp [List.countP_cons, Event.isStep])
    | (right
       refine ⟨?_, _, rfl⟩
       simp [List.countP_cons, Event.isStep])

theorem tire_mainLoop_iterations [LinearOrder D] [Add D] (env : MainEnv D) (out_dir : String)
    (dT : D) (output_steps render_steps : Nat) (fuel : Nat) :
    ∀ st : demo_FSI_Flexible_Toroidal_Tire.LoopState D,
      ∃ tail, (demo_FSI_Flexible_Toroidal_Tire.mainLoop env out_dir dT output_steps render_steps fuel st).trace
          = (iterationsOf (fun s => decide (s.time < env.t_end))
              (demo_FSI_Flexible_Toroidal_Tire.loopBody env out_dir dT output_steps render_steps) fuel st).flatten
            ++ tail ∧
        tail.countP Event.isStep = 0 ∧ tail.countP Event.isOutput = 0 := by
  induction fuel with
  | zero =>
    intro st
    exact ⟨[], rfl, rfl, rfl⟩
  | succ f ih =>
    intro st
    unfold demo_FSI_Flexible_Toroidal_Tire.mainLoop iterationsOf
    by_cases ht : st.time < env.t_end
    swap
    · simp only [ht, if_false, decide_False, Bool.false_eq_true]
      exact ⟨_, rfl, by simp [List.countP_cons, Event.isStep],
        by simp [List.countP_cons, Event.isOutput]⟩
    simp only [ht, if_true, decide_True]
    cases hbody : demo_FSI_Flexible_Toroidal_Tire.loopBody env out_dir dT output_steps render_steps st with
    | mk t next =>
      cases next with
      | inl status => exact ⟨[], by simp, rfl, rfl⟩
      | inr st1 =>
        obtain ⟨tail, h1, h2, h3⟩ := ih st1
        refine ⟨tail, ?_, h2, h3⟩
        simp only [h1, List.flatten_cons, List.append_assoc]

theorem viper_loopBody_stepLast [Add D] (env : MainEnv D) (out_dir : String)
    (output_steps render_steps : Nat) :
    StepLast (demo_ROBOT_Viper_SPH.loopBody env out_dir output_steps render_steps) := by
  intro st
  unfold demo_ROBOT_Viper_SPH.loopBody
  simp only []
  split_ifs <;>
    first
    | (left
       refine ⟨_, rfl, ?_⟩
       simp [List.countP_cons, Event.isStep])
    | (right
       refine ⟨?_, _, rfl⟩
       simp [List.countP_cons, Event.isStep, demo_ROBOT_Viper_SPH.mainEnd])

theorem viper_mainLoop_iterations [LinearOrder D] [Add D] (env : MainEnv D) (out_dir : String)
    (output_steps render_steps : Nat) (fuel : Nat) :
    ∀ st : demo_ROBOT_Viper_SPH.LoopState D,
      ∃ tail, (demo_ROBOT_Viper_SPH.mainLoop env out_dir output_steps render_steps fuel st).trace
          = (iterationsOf (fun s => decide (s.time < env.t_end))
              (demo_ROBOT_Viper_SPH.loopBody env out_dir output_steps render_steps) fuel st).flatten
            ++ tail ∧
        tail.countP Event.isStep = 0 ∧ tail.countP Event.isOutput = 0 := by
  induction fuel with
  | zero =>
    intro st
    exact ⟨[], rfl, rfl, rfl⟩
  | succ f ih =>
    intro st
    unfold demo_ROBOT_Viper_SPH.mainLoop iterationsOf
    by_cases ht : st.time < env.t_end
    swap
    · simp only [ht, if_false, decide_False, Bool.false_eq_true]
      exact ⟨_, rfl, by simp [List.countP_cons, Event.isStep, demo_ROBOT_Viper_SPH.mainEnd],
        by simp [List.countP_cons, Event.isOutput, demo_ROBOT_Viper_SPH.mainEnd]⟩
    simp only [ht, if_true, decide_True]
    cases hbody : demo_ROBOT_Viper_SPH.loopBody env out_dir output_steps render_steps st with
    | mk t next =>
      cases next with
      | inl status => exact ⟨[], by simp, rfl, rfl⟩
      | inr st1 =>
        obtain ⟨tail, h1, h2, h3⟩ := ih st1
        refine ⟨tail, ?_, h2, h3⟩
        simp only [h1, List.flatten_cons, List.append_assoc]

/-- C13 as stated fails: in the run of the cylinder-drop demo in the
example environment the first iteration writes the particle files when no
simulation step was made yet: the output of iteration 0 does not come after
one step. -/
theorem first_output_before_first_step :
    ¬ OutputAfterSteps 1
        (iterationsOf (fun s => decide (s.time < Example.mainEnv.t_end))
          (demo_FSI_CylinderDrop.loopBody Example.mainEnv "out/FSI_Cylinder_Drop/" 1 2 1) 10
          ⟨0, 0, 0, 0⟩) ∧
    ∃ pre post,
      (demo_FSI_CylinderDrop.main Example.mainEnv ["demo_FSI_CylinderDrop"] 10).trace
        = pre ++ Event.PrintParticleToFile "out/FSI_Cylinder_Drop//particles" :: post ∧
      pre.countP Event.isStep = 0 := by
  constructor
  · intro h
    have h0 := h 0
      [Event.cout "step: ", Event.cout "   box: ", Event.cout "   cyl: ",
        Event.cout "-------- Output",
        Event.PrintParticleToFile "out/FSI_Cylinder_Drop//particles",
        Event.WriteCylinderVTK "out/FSI_Cylinder_Drop//vtk/cylinder.0.vtk" 100,
        Event.Render true, Event.DoStepDynamics_FSI]
      (by decide)
      [Event.cout "step: ", Event.cout "   box: ", Event.cout "   cyl: ",
        Event.cout "-------- Output"]
      (Event.PrintParticleToFile "out/FSI_Cylinder_Drop//particles")
      [Event.WriteCylinderVTK "out/FSI_Cylinder_Drop//vtk/cylinder.0.vtk" 100,
        Event.Render true, Event.DoStepDynamics_FSI]
      rfl rfl
    revert h0
    decide
  · exact ⟨(demo_FSI_CylinderDrop.main Example.mainEnv ["demo_FSI_CylinderDrop"] 10).trace.take 19,
      (demo_FSI_CylinderDrop.main Example.mainEnv ["demo_FSI_CylinderDrop"] 10).trace.drop 20,
      by decide, by decide⟩

/-- C13, amended.  In each of the three demo programs every iteration of the
simulation loop makes its conditional file output first and advances the
coupled state by one step (`DoStepDynamics_FSI`) last: counted from the entry
of the loop, iteration `n` starts after exactly `n` steps and each of its
outputs comes after exactly `n` steps, so it records the state after `n`
steps (the first output records the initial state).  The events of the loop
are those of its iterations, followed only by events that are neither a step
nor an output. -/
theorem loop_output_before_step [LinearOrder D] [Add D] (env : MainEnv D) (out_dir : String)
    (dT : D) (output_steps render_steps fuel : Nat) :
    (∀ st : demo_FSI_CylinderDrop.LoopState D,
      OutputBeforeStep
        (iterationsOf (fun s => decide (s.time < env.t_end))
          (demo_FSI_CylinderDrop.loopBody env out_dir dT output_steps render_steps) fuel st)
        (demo_FSI_CylinderDrop.mainLoop env out_dir dT output_steps render_steps fuel
          st).trace) ∧
    (∀ st : demo_FSI_Flexible_Toroidal_Tire.LoopState D,
      OutputBeforeStep
        (iterationsOf (fun s => decide (s.time < env.t_end))
          (demo_FSI_Flexible_Toroidal_Tire.loopBody env out_dir dT output_steps render_steps)
          fuel st)
        (demo_FSI_Flexible_Toroidal_Tire.mainLoop env out_dir dT output_steps render_steps fuel
          st).trace) ∧
    (∀ st : demo_ROBOT_Viper_SPH.LoopState D,
      OutputBeforeStep
        (iterationsOf (fun s => decide (s.time < env.t_end))
          (demo_ROBOT_Viper_SPH.loopBody env out_dir output_steps render_steps) fuel st)
        (demo_ROBOT_Viper_SPH.mainLoop env out_dir output_steps render_steps fuel st).trace) :=
  ⟨fun st =>
      ⟨iterationsOf_outputAfterSteps _ _
          (cylinder_loopBody_stepLast env out_dir dT output_steps render_steps) fuel st,
        iterationsOf_steps _ _
          (cylinder_loopBody_stepLast env out_dir dT output_steps render_steps) fuel st,
        cylinder_mainLoop_iterations env out_dir dT output_steps render_steps fuel st⟩,
    fun st =>
      ⟨iterationsOf_outputAfterSteps _ _
          (tire_loopBody_stepLast env out_dir dT output_steps render_steps) fuel st,
        iterationsOf_steps _ _
          (tire_loopBody_stepLast env out_dir dT output_steps render_steps) fuel st,
        tire_mainLoop_iterations env out_dir dT output_steps render_steps fuel st⟩,
    fun st =>
      ⟨iterationsOf_outputAfterSteps _ _
          (viper_loopBody_stepLast env out_dir output_steps render_steps) fuel st,
        iterationsOf_steps _ _
          (viper_loopBody_stepLast env out_dir output_steps render_steps) fuel st,
        viper_mainLoop_iterations env out_dir output_steps render_steps fuel st⟩⟩

/-! ### Numbering of the output frames -/

theorem SaveParaViewFiles_ok_inv [LinearOrder D] [Zero D] [Neg D]
    (env : demo_ROBOT_Viper_SPH.Environment D) (rover : demo_ROBOT_Viper_SPH.Viper D)
    (bodylist : List (ChBody D)) (ChTime : D) (s s1 : demo_ROBOT_Viper_SPH.State D)
    (h : demo_ROBOT_Viper_SPH.SaveParaViewFiles env rover bodylist ChTime s = ⟨none, s1⟩) :
    s.frame_number ≠ INT_MAX ∧ ∃ B1 B2, bodylist[18]? = some B1 ∧ bodylist[19]? = some B2 := by
  have hs : s.frame_number ≠ INT_MAX := by
    intro hs
    simp [demo_ROBOT_Viper_SPH.SaveParaViewFiles, hs, Outcome.stop] at h
  refine ⟨hs, ?_⟩
  unfold demo_ROBOT_Viper_SPH.SaveParaViewFiles at h
  simp only [hs, if_false] at h
  cases h18 : bodylist[18]? with
  | none =>
    simp [forLoop, demo_ROBOT_Viper_SPH.saveObstacle, h18, Outcome.stop] at h
  | some B1 =>
    cases h19 : bodylist[19]? with
    | none =>
      simp [forLoop, demo_ROBOT_Viper_SPH.saveObstacle, h18, h19, Outcome.stop, Outcome.ok] at h
    | some B2 => exact ⟨B1, B2, rfl, rfl⟩

/-- After `calls.length` completed calls the frame number has grown by
`calls.length`. -/
theorem SaveParaViewFiles_calls_frame_number [LinearOrder D] [Zero D] [Neg D]
    (env : demo_ROBOT_Viper_SPH.Environment D) (calls : List (demo_ROBOT_Viper_SPH.Call D)) :
    ∀ s0 s : demo_ROBOT_Viper_SPH.State D,
      demo_ROBOT_Viper_SPH.SaveParaViewFiles_calls env calls s0 = ⟨none, s⟩ →
      s.frame_number = s0.frame_number + calls.length := by
  induction calls with
  | nil =>
    intro s0 s h
    simp [demo_ROBOT_Viper_SPH.SaveParaViewFiles_calls, Outcome.ok] at h
    simp [h]
  | cons c cs ih =>
    intro s0 s h
    unfold demo_ROBOT_Viper_SPH.SaveParaViewFiles_calls at h
    cases hcall : demo_ROBOT_Viper_SPH.SaveParaViewFiles env c.rover c.bodylist c.ChTime s0 with
    | mk flt s1 =>
      rw [hcall] at h
      cases flt with
      | some f => simp at h
      | none =>
        simp only [] at h
        have hs := (SaveParaViewFiles_ok_inv env _ _ _ s0 s1 hcall).1
        have h1 := (SaveParaViewFiles_meshes_first env c.rover c.bodylist c.ChTime s0 hs).1
        rw [hcall] at h1
        simp only [] at h1
        rw [ih s1 s h, h1, List.length_cons]
        push_cast
        ring

theorem saveMeshes_names (env : demo_ROBOT_Viper_SPH.Environment D)
    (rover : demo_ROBOT_Viper_SPH.Viper D) (k : Nat) :
    ((demo_ROBOT_Viper_SPH.saveMeshes env rover (k : Int)).map FileWrite.name)
      = (demo_ROBOT_Viper_SPH.frameFileNames (env.out_dir ++ "/rover") k).take 17 := by
  rfl

/-- The per-frame files of a run of the cylinder demo are numbered 0, 1, 2, ...
in the order in which they are written. -/
theorem cylinder_main_frames [LinearOrder D] [Add D] [Zero D] (env : MainEnv D)
    (argv : List String) (fuel : Nat) :
    ∃ n : Nat, (demo_FSI_CylinderDrop.main env argv fuel).trace.filterMap Event.frameFile
      = (List.range n).map (fun k : Nat =>
          env.GetChronoOutputPath ++ "FSI_Cylinder_Drop/" ++ "/vtk/cylinder." ++ toString k ++ ".vtk") := by
  have hloop : ∀ (t : List (Event D)) (inputJson : String), t.filterMap Event.frameFile = [] →
      ∃ n : Nat, (demo_FSI_CylinderDrop.mainFromRead env (env.GetChronoOutputPath ++ "FSI_Cylinder_Drop/") t inputJson
          fuel).trace.filterMap Event.frameFile
        = (List.range n).map (fun k : Nat =>
            env.GetChronoOutputPath ++ "FSI_Cylinder_Drop/" ++ "/vtk/cylinder." ++ toString k ++ ".vtk") := by
    intro t inputJson ht
    obtain ⟨⟨n, hn⟩, _, _⟩ := cylinder_mainLoop_trace env (env.GetChronoOutputPath ++ "FSI_Cylinder_Drop/")
      (env.GetStepSize inputJson) (env.steps env.out_fps (env.GetStepSize inputJson))
      (env.steps env.render_fps (env.GetStepSize inputJson)) fuel
      { time := 0, current_step := 0, counter := 0, iteration := 0 }
    refine ⟨n, ?_⟩
    simp only [demo_FSI_CylinderDrop.mainFromRead, List.filterMap_append, ht, hn, List.nil_append]
    simp [List.filterMap_cons, Event.frameFile, toString_int_natCast]
  unfold demo_FSI_CylinderDrop.main
  simp only []
  split_ifs
  · exact ⟨0, rfl⟩
  · exact ⟨0, rfl⟩
  · exact ⟨0, rfl⟩
  · exact hloop _ _ rfl
  · exact hloop _ _ rfl
  · exact ⟨0, rfl⟩

/-- The per-frame files of a run of the tire demo are numbered 0, 1, 2, ...
in the order in which they are written. -/
theorem tire_main_frames [LinearOrder D] [Add D] [Zero D] (env : MainEnv D)
    (argv : List String) (fuel : Nat) :
    ∃ n : Nat, (demo_FSI_Flexible_Toroidal_Tire.main env argv fuel).trace.filterMap Event.frameFile
      = (List.range n).map (fun k : Nat =>
          env.GetChronoOutputPath ++ "FSI_Flexible_Toroidal_Tire/" ++ "/vtk/flex_body." ++ toString k ++ ".vtk") := by
  have hloop : ∀ (t : List (Event D)) (inputJson : String), t.filterMap Event.frameFile = [] →
      ∃ n : Nat, (demo_FSI_Flexible_Toroidal_Tire.mainFromRead env (env.GetChronoOutputPath ++ "FSI_Flexible_Toroidal_Tire/") t inputJson
          fuel).trace.filterMap Event.frameFile
        = (List.range n).map (fun k : Nat =>
            env.GetChronoOutputPath ++ "FSI_Flexible_Toroidal_Tire/" ++ "/vtk/flex_body." ++ toString k ++ ".vtk") := by
    intro t inputJson ht
    obtain ⟨⟨n, hn⟩, _, _⟩ := tire_mainLoop_trace env (env.GetChronoOutputPath ++ "FSI_Flexible_Toroidal_Tire/")
      (env.GetStepSize inputJson) (env.steps env.out_fps (env.GetStepSize inputJson))
      (env.steps env.render_fps (env.GetStepSize inputJson)) fuel
      { time := 0, current_step := 0, counter := 0, iteration := 0 }
    refine ⟨n, ?_⟩
    simp only [demo_FSI_Flexible_Toroidal_Tire.mainFromRead, List.filterMap_append, ht, hn, List.nil_append]
    simp [List.filterMap_cons, Event.frameFile, toString_int_natCast]
  unfold demo_FSI_Flexible_Toroidal_Tire.main
  simp only []
  split_ifs
  · exact ⟨0, rfl⟩
  · exact ⟨0, rfl⟩
  · exact ⟨0, rfl⟩
  · exact hloop _ _ rfl
  · exact hloop _ _ rfl
  · exact ⟨0, rfl⟩

/-- The VTK files of the call of `SaveParaViewFiles` that follows
`calls.length` completed calls are those of frame `calls.length`: the 17 mesh
files are written first, whether or not the call completes; a call that
completes then writes the two obstacle files and CSV files. -/
theorem viper_frame_files [LinearOrder D] [Zero D] [Neg D]
    (env : demo_ROBOT_Viper_SPH.Environment D) (calls : List (demo_ROBOT_Viper_SPH.Call D))
    (s : demo_ROBOT_Viper_SPH.State D) (c : demo_ROBOT_Viper_SPH.Call D)
    (hcalls : demo_ROBOT_Viper_SPH.SaveParaViewFiles_calls env calls
      (demo_ROBOT_Viper_SPH.State.init D) = ⟨none, s⟩)
    (hk : calls.length < 2147483648) :
    ∃ M rest,
      (demo_ROBOT_Viper_SPH.SaveParaViewFiles env c.rover c.bodylist c.ChTime s).state.files
        = s.files ++ M ++ rest ∧
      M.map FileWrite.name
        = (demo_ROBOT_Viper_SPH.frameFileNames (env.out_dir ++ "/rover") calls.length).take 17 ∧
      ((demo_ROBOT_Viper_SPH.SaveParaViewFiles env c.rover c.bodylist c.ChTime s).fault = none →
        ∃ O csvs, rest = O ++ csvs ∧
          O.map FileWrite.name
            = (demo_ROBOT_Viper_SPH.frameFileNames (env.out_dir ++ "/rover")
                calls.length).drop 17 ∧
          ∀ w ∈ csvs, ∃ i,
            w.name = demo_ROBOT_Viper_SPH.body_pos_rot_vel_filename env.out_dir i) := by
  have hk1 : s.frame_number + 1 = (calls.length : Int) := by
    rw [SaveParaViewFiles_calls_frame_number env calls _ s hcalls]
    simp [demo_ROBOT_Viper_SPH.State.init]
  have hs : s.frame_number ≠ INT_MAX := by
    intro h
    rw [h] at hk1
    unfold INT_MAX at hk1
    omega
  obtain ⟨_, rest, hrest⟩ := SaveParaViewFiles_meshes_first env c.rover c.bodylist c.ChTime s hs
  rw [hk1] at hrest
  refine ⟨_, rest, hrest, saveMeshes_names env c.rover calls.length, ?_⟩
  intro hfault
  have hcall : demo_ROBOT_Viper_SPH.SaveParaViewFiles env c.rover c.bodylist c.ChTime s
      = ⟨none, (demo_ROBOT_Viper_SPH.SaveParaViewFiles env c.rover c.bodylist
          c.ChTime s).state⟩ := by
    rw [← hfault]
  obtain ⟨_, B1, B2, h18, h19⟩ := SaveParaViewFiles_ok_inv env _ _ _ s _ hcall
  rw [SaveParaViewFiles_ok env c.rover c.bodylist c.ChTime s hs B1 B2 h18 h19, hk1] at hrest
  simp only [Outcome.ok, List.append_assoc] at hrest
  have hrest2 := List.append_cancel_left (List.append_cancel_left hrest)
  refine ⟨_, _, hrest2.symm, rfl, ?_⟩
  intro w hw
  simp only [List.mem_filterMap, Option.map_eq_some'] at hw
  obtain ⟨i, _, body, _, rfl⟩ := hw
  exact ⟨i, csvEpisode_name _ _ _ _⟩

/-- Two frames of the Viper demo give different names to the file of the same
kind. -/
theorem frameFileNames_injective (rover_dir : String) (a b : Nat) (p : String × String)
    (hp : p ∈ (demo_ROBOT_Viper_SPH.frameFileNames rover_dir a).zip
      (demo_ROBOT_Viper_SPH.frameFileNames rover_dir b))
    (heq : p.1 = p.2) : a = b := by
  simp only [demo_ROBOT_Viper_SPH.frameFileNames, List.zip_cons_cons, List.zip_nil_right,
    List.mem_cons, List.not_mem_nil, or_false] at hp
  rcases hp with h | h | h | h | h | h | h | h | h | h | h | h | h | h | h | h | h | h | h <;>
    · subst h
      exact numbered_name_injective _ _ _ _ heq

/-- C7. The per-frame VTK files of a run are numbered from 0 in the order in
which they are written: the files of the cylinder-drop demo are
`cylinder.0.vtk`, `cylinder.1.vtk`, ..., those of the toroidal-tire demo
`flex_body.0.vtk`, `flex_body.1.vtk`, ..., and the call of `SaveParaViewFiles`
that follows `k` completed calls (`k` below `2^31`, the range of the `int`
frame number) first writes `body_k.vtk`, `wheel_j_k.vtk`, `steerRod_j_k.vtk`,
`lowerRod_j_k.vtk`, `upperRod_j_k.vtk` (`j` from 1 to 4) and, when it
completes, then `obstacle_j_k.vtk` (`j` from 1 to 2) and CSV files.  Different
frame numbers give different names to the file of the same kind. -/
theorem frame_files_numbered [LinearOrder D] [Add D] [Zero D] [Neg D] :
    (∀ (env : MainEnv D) (argv : List String) (fuel : Nat),
      ∃ n : Nat, (demo_FSI_CylinderDrop.main env argv fuel).trace.filterMap Event.frameFile
        = (List.range n).map (fun k : Nat =>
            env.GetChronoOutputPath ++ "FSI_Cylinder_Drop/" ++ "/vtk/cylinder." ++ toString k
              ++ ".vtk")) ∧
    (∀ (env : MainEnv D) (argv : List String) (fuel : Nat),
      ∃ n : Nat,
        (demo_FSI_Flexible_Toroidal_Tire.main env argv fuel).trace.filterMap Event.frameFile
        = (List.range n).map (fun k : Nat =>
            env.GetChronoOutputPath ++ "FSI_Flexible_Toroidal_Tire/" ++ "/vtk/flex_body."
              ++ toString k ++ ".vtk")) ∧
    (∀ (env : demo_ROBOT_Viper_SPH.Environment D) (calls : List (demo_ROBOT_Viper_SPH.Call D))
        (s : demo_ROBOT_Viper_SPH.State D) (c : demo_ROBOT_Viper_SPH.Call D),
      demo_ROBOT_Viper_SPH.SaveParaViewFiles_calls env calls (demo_ROBOT_Viper_SPH.State.init D)
        = ⟨none, s⟩ →
      calls.length < 2147483648 →
      ∃ M rest,
        (demo_ROBOT_Viper_SPH.SaveParaViewFiles env c.rover c.bodylist c.ChTime s).state.files
          = s.files ++ M ++ rest ∧
        M.map FileWrite.name
          = (demo_ROBOT_Viper_SPH.frameFileNames (env.out_dir ++ "/rover")
              calls.length).take 17 ∧
        ((demo_ROBOT_Viper_SPH.SaveParaViewFiles env c.rover c.bodylist c.ChTime s).fault = none →
          ∃ O csvs, rest = O ++ csvs ∧
            O.map FileWrite.name
              = (demo_ROBOT_Viper_SPH.frameFileNames (env.out_dir ++ "/rover")
                  calls.length).drop 17 ∧
            ∀ w ∈ csvs, ∃ i,
              w.name = demo_ROBOT_Viper_SPH.body_pos_rot_vel_filename env.out_dir i)) ∧
    (∀ (out_dir : String) (a b : Nat),
      (out_dir ++ "/vtk/cylinder." ++ toString a ++ ".vtk"
          = out_dir ++ "/vtk/cylinder." ++ toString b ++ ".vtk" → a = b) ∧
      (out_dir ++ "/vtk/flex_body." ++ toString a ++ ".vtk"
          = out_dir ++ "/vtk/flex_body." ++ toString b ++ ".vtk" → a = b) ∧
      (∀ p ∈ (demo_ROBOT_Viper_SPH.frameFileNames out_dir a).zip
          (demo_ROBOT_Viper_SPH.frameFileNames out_dir b), p.1 = p.2 → a = b)) :=
  ⟨cylinder_main_frames, tire_main_frames, viper_frame_files,
    fun out_dir a b => ⟨numbered_name_injective _ _ a b, numbered_name_injective _ _ a b,
      frameFileNames_injective out_dir a b⟩⟩

end mains

/-! ## Connectivity tables of the FSI interface -/

section connectivity

variable {D R3 R4 : Type}

/-- A loop whose body, below `stop`, completes and carries the invariant from
`i` to `i + 1`, completes and carries it to the end. -/
theorem forLoop_inv {σ : Type} (body : Nat → σ → Outcome σ) (Inv : Nat → σ → Prop) (stop : Nat)
    (hstep : ∀ i s, i < stop → Inv i s →
      (body i s).fault = none ∧ Inv (i + 1) (body i s).state) :
    ∀ count start s, start + count ≤ stop → Inv start s →
      (forLoop body count start s).fault = none ∧
      Inv (start + count) (forLoop body count start s).state := by
  intro count
  induction count with
  | zero =>
    intro start s _ h
    exact ⟨rfl, h⟩
  | succ n ih =>
    intro start s hle h
    unfold forLoop
    obtain ⟨h1, h2⟩ := hstep start s (by omega) h
    cases hbody : body start s with
    | mk flt s1 =>
      rw [hbody] at h1 h2
      simp only at h1 h2
      subst h1
      have := ih (start + 1) s1 (by omega) h2
      rw [show start + (n + 1) = start + 1 + n by omega]
      exact this

theorem shellEntry_of_length (e : List Int) (h : 4 ≤ e.length) :
    ∃ a b c d rest, e = a :: b :: c :: d :: rest ∧
      ChFsiInterface.shellEntry e = some ⟨a, b, c, d⟩ := by
  match e, h with
  | a :: b :: c :: d :: rest, _ =>
    exact ⟨a, b, c, d, rest, rfl, by simp [ChFsiInterface.shellEntry]⟩

theorem cableEntry_of_length (e : List Int) (h : 2 ≤ e.length) :
    ∃ a b rest, e = a :: b :: rest ∧ ChFsiInterface.cableEntry e = some ⟨a, b⟩ := by
  match e, h with
  | a :: b :: rest, _ => exact ⟨a, b, rest, rfl, by simp [ChFsiInterface.cableEntry]⟩

theorem ResizeChronoShellsData_body_fault (v : List (List Int)) (i : Nat)
    (s : ChFsiInterface D R3 R4) (f : Fault)
    (h : (ChFsiInterface.ResizeChronoShellsData_body v i s).fault = some f) :
    f = Fault.out_of_range := by
  unfold ChFsiInterface.ResizeChronoShellsData_body at h
  split at h
  · simp [Outcome.stop] at h; exact h.symm
  · split at h
    · simp [Outcome.stop] at h; exact h.symm
    · split at h
      · simp [Outcome.stop] at h; exact h.symm
      · simp [Outcome.ok] at h

theorem ResizeChronoCablesData_body_fault (v : List (List Int)) (i : Nat)
    (s : ChFsiInterface D R3 R4) (f : Fault)
    (h : (ChFsiInterface.ResizeChronoCablesData_body v i s).fault = some f) :
    f = Fault.out_of_range := by
  unfold ChFsiInterface.ResizeChronoCablesData_body at h
  split at h
  · simp [Outcome.stop] at h; exact h.symm
  · split at h
    · simp [Outcome.stop] at h; exact h.symm
    · split at h
      · simp [Outcome.stop] at h; exact h.symm
      · simp [Outcome.ok] at h

/-- The loop of `ResizeChronoShellsData` over a table of `v.length` entries,
when every entry of `v` has four indices: it completes, and the table holds
the quadruples of `v` in order. -/
theorem ResizeChronoShellsData_loop (v : List (List Int)) (hv : ∀ e ∈ v, 4 ≤ e.length)
    (s : ChFsiInterface D R3 R4) (hlen : s.ShellElementsNodesH.length = v.length) :
    (forLoop (ChFsiInterface.ResizeChronoShellsData_body v) v.length 0 s).fault = none ∧
    (forLoop (ChFsiInterface.ResizeChronoShellsData_body v) v.length 0
        s).state.ShellElementsNodesH.map some = v.map ChFsiInterface.shellEntry := by
  have key := forLoop_inv (ChFsiInterface.ResizeChronoShellsData_body v)
    (fun i (t : ChFsiInterface D R3 R4) => t.ShellElementsNodesH.length = v.length ∧
      ∀ j, j < i → ∀ e, v[j]? = some e → t.ShellElementsNodesH[j]? = ChFsiInterface.shellEntry e)
    v.length
    (by
      intro i t hi ⟨hl, hprev⟩
      obtain ⟨a, b, c, d, rest, he, hq⟩ := shellEntry_of_length (v[i]) (hv _ (List.getElem_mem hi))
      have hvi : v[i]? = some v[i] := List.getElem?_eq_getElem hi
      have hlt : i < t.ShellElementsNodesH.length := by omega
      have hassign : ∀ x, ChFsiInterface.assignAt t.ShellElementsNodesH i x
          = some (t.ShellElementsNodesH.set i x) := by
        intro x
        simp [ChFsiInterface.assignAt, hlt]
      simp only [ChFsiInterface.ResizeChronoShellsData_body, hvi, hq, hassign, Outcome.ok,
        List.length_set, hl, true_and]
      intro j hj e hje
      by_cases hji : j = i
      · subst hji
        rw [hvi] at hje
        cases hje
        rw [List.getElem?_set_self hlt, hq]
      · rw [List.getElem?_set_ne (Ne.symm hji)]
        exact hprev j (by omega) e hje)
    v.length 0 s (by omega) ⟨hlen, by intro j hj; omega⟩
  rw [Nat.zero_add] at key
  obtain ⟨h1, h2, h3⟩ := key
  refine ⟨h1, ?_⟩
  apply List.ext_getElem?
  intro j
  rw [List.getElem?_map, List.getElem?_map]
  by_cases hj : j < v.length
  · rw [List.getElem?_eq_getElem hj, Option.map_some']
    rw [h3 j hj v[j] (List.getElem?_eq_getElem hj)]
    obtain ⟨a, b, c, d, rest, _, hq⟩ := shellEntry_of_length (v[j]) (hv _ (List.getElem_mem hj))
    rw [hq]
    rfl
  · rw [List.getElem?_eq_none (by omega), List.getElem?_eq_none (by omega)]
    rfl

/-- The loop of `ResizeChronoCablesData` over a table of `v.length` entries,
when every entry of `v` has two indices: it completes, and the table holds the
pairs of `v` in order. -/
theorem ResizeChronoCablesData_loop (v : List (List Int)) (hv : ∀ e ∈ v, 2 ≤ e.length)
    (s : ChFsiInterface D R3 R4) (hlen : s.CableElementsNodesH.length = v.length) :
    (forLoop (ChFsiInterface.ResizeChronoCablesData_body v) v.length 0 s).fault = none ∧
    (forLoop (ChFsiInterface.ResizeChronoCablesData_body v) v.length 0
        s).state.CableElementsNodesH.map some = v.map ChFsiInterface.cableEntry := by
  have key := forLoop_inv (ChFsiInterface.ResizeChronoCablesData_body v)
    (fun i (t : ChFsiInterface D R3 R4) => t.CableElementsNodesH.length = v.length ∧
      ∀ j, j < i → ∀ e, v[j]? = some e → t.CableElementsNodesH[j]? = ChFsiInterface.cableEntry e)
    v.length
    (by
      intro i t hi ⟨hl, hprev⟩
      obtain ⟨a, b, rest, he, hq⟩ := cableEntry_of_length (v[i]) (hv _ (List.getElem_mem hi))
      have hvi : v[i]? = some v[i] := List.getElem?_eq_getElem hi
      have hlt : i < t.CableElementsNodesH.length := by omega
      have hassign : ∀ x, ChFsiInterface.assignAt t.CableElementsNodesH i x
          = some (t.CableElementsNodesH.set i x) := by
        intro x
        simp [ChFsiInterface.assignAt, hlt]
      simp only [ChFsiInterface.ResizeChronoCablesData_body, hvi, hq, hassign, Outcome.ok,
        List.length_set, hl, true_and]
      intro j hj e hje
      by_cases hji : j = i
      · subst hji
        rw [hvi] at hje
        cases hje
        rw [List.getElem?_set_self hlt, hq]
      · rw [List.getElem?_set_ne (Ne.symm hji)]
        exact hprev j (by omega) e hje)
    v.length 0 s (by omega) ⟨hlen, by intro j hj; omega⟩
  rw [Nat.zero_add] at key
  obtain ⟨h1, h2, h3⟩ := key
  refine ⟨h1, ?_⟩
  apply List.ext_getElem?
  intro j
  rw [List.getElem?_map, List.getElem?_map]
  by_cases hj : j < v.length
  · rw [List.getElem?_eq_getElem hj, Option.map_some']
    rw [h3 j hj v[j] (List.getElem?_eq_getElem hj)]
    obtain ⟨a, b, rest, _, hq⟩ := cableEntry_of_length (v[j]) (hv _ (List.getElem_mem hj))
    rw [hq]
    rfl
  · rw [List.getElem?_eq_none (by omega), List.getElem?_eq_none (by omega)]
    rfl

theorem length_resizeList {α : Type} (d : α) (n : Nat) (l : List α) :
    (resizeList d n l).length = n := by
  simp only [resizeList, List.length_append, List.length_take, List.length_replicate]
  omega

theorem map_some_getElem? {α : Type} (l : List α) (m : List (Option α)) (i : Nat) (a : α)
    (h : l.map some = m) (hi : m[i]? = some (some a)) : l[i]? = some a := by
  subst h
  rw [List.getElem?_map] at hi
  cases hl : l[i]? with
  | none => rw [hl] at hi; simp at hi
  | some b =>
    rw [hl] at hi
    simp only [Option.map_some', Option.some.injEq] at hi
    rw [hi]

/-- C18. `ResizeChronoShellsData(v)` throws its `runtime_error` exactly when
the number of entries of `v` differs from the number of shell elements of the
FSI mesh, and then the state, with the stored connectivity table, is as
before; when the numbers agree no `runtime_error` is raised, and if moreover
every entry of `v` has at least 4 node indices the call completes, the stored
table has as many entries as `v`, and its entry `i` is
`(v[i][0], v[i][1], v[i][2], v[i][3])`.  The same holds of
`ResizeChronoCablesData(v)` with the cable elements, 2 node indices and the
pairs `(v[i][0], v[i][1])`. -/
theorem Resize_connectivity_tables (v : List (List Int)) (s : ChFsiInterface D R3 R4) :
    (((ChFsiInterface.ResizeChronoShellsData v s).fault
          = some (Fault.runtime_error ChFsiInterface.what_ResizeChronoShellsData)
        ↔ v.length
          ≠ s.fsi_elements.countP (fun e => decide (e = ChElement.ChElementShellANCF_3423))) ∧
      (v.length ≠ s.fsi_elements.countP (fun e => decide (e = ChElement.ChElementShellANCF_3423))
        → (ChFsiInterface.ResizeChronoShellsData v s).state = s) ∧
      (v.length = s.fsi_elements.countP (fun e => decide (e = ChElement.ChElementShellANCF_3423))
        → (∀ w, (ChFsiInterface.ResizeChronoShellsData v s).fault
              ≠ some (Fault.runtime_error w)) ∧
          ((∀ e ∈ v, 4 ≤ e.length) →
            (ChFsiInterface.ResizeChronoShellsData v s).fault = none ∧
            (ChFsiInterface.ResizeChronoShellsData v s).state.ShellElementsNodesH.length
              = v.length ∧
            ∀ (i : Nat) (a b c d : Int) (rest : List Int),
              v[i]? = some (a :: b :: c :: d :: rest) →
              (ChFsiInterface.ResizeChronoShellsData v s).state.ShellElementsNodesH[i]?
                = some (int4.mk a b c d)))) ∧
    (((ChFsiInterface.ResizeChronoCablesData v s).fault
          = some (Fault.runtime_error ChFsiInterface.what_ResizeChronoCablesData)
        ↔ v.length
          ≠ s.fsi_elements.countP (fun e => decide (e = ChElement.ChElementCableANCF))) ∧
      (v.length ≠ s.fsi_elements.countP (fun e => decide (e = ChElement.ChElementCableANCF))
        → (ChFsiInterface.ResizeChronoCablesData v s).state = s) ∧
      (v.length = s.fsi_elements.countP (fun e => decide (e = ChElement.ChElementCableANCF))
        → (∀ w, (ChFsiInterface.ResizeChronoCablesData v s).fault
              ≠ some (Fault.runtime_error w)) ∧
          ((∀ e ∈ v, 2 ≤ e.length) →
            (ChFsiInterface.ResizeChronoCablesData v s).fault = none ∧
            (ChFsiInterface.ResizeChronoCablesData v s).state.CableElementsNodesH.length
              = v.length ∧
            ∀ (i : Nat) (a b : Int) (rest : List Int), v[i]? = some (a :: b :: rest) →
              (ChFsiInterface.ResizeChronoCablesData v s).state.CableElementsNodesH[i]?
                = some (int2.mk a b)))) := by
  constructor
  · by_cases hsz : v.length
        = s.fsi_elements.countP (fun e => decide (e = ChElement.ChElementShellANCF_3423))
    · have hrun : ChFsiInterface.ResizeChronoShellsData v s
          = forLoop (ChFsiInterface.ResizeChronoShellsData_body v) v.length 0
              { s with ShellElementsNodesH := resizeList default v.length s.ShellElementsNodesH } := by
        unfold ChFsiInterface.ResizeChronoShellsData
        simp only [← hsz, ne_eq, not_true_eq_false, if_false]
      have hno : ∀ w, (ChFsiInterface.ResizeChronoShellsData v s).fault
          ≠ some (Fault.runtime_error w) := by
        intro w hw
        rw [hrun] at hw
        have := forLoop_fault_of_body (ChFsiInterface.ResizeChronoShellsData_body v)
          (fun f => f = Fault.out_of_range)
          (fun i t f h => ResizeChronoShellsData_body_fault v i t f h) _ _ _ _ hw
        cases this
      refine ⟨⟨fun h => absurd h (hno _), fun h => absurd hsz h⟩, fun h => absurd hsz h,
        fun _ => ⟨hno, ?_⟩⟩
      intro hv
      obtain ⟨h1, h2⟩ := ResizeChronoShellsData_loop v hv
        { s with ShellElementsNodesH := resizeList default v.length s.ShellElementsNodesH }
        (length_resizeList _ _ _)
      rw [hrun]
      refine ⟨h1, ?_, ?_⟩
      · have := congrArg List.length h2
        simpa using this
      · intro i a b c d rest hi
        refine map_some_getElem? _ _ i _ h2 ?_
        rw [List.getElem?_map, hi]
        simp [ChFsiInterface.shellEntry]
    · have hrun : ChFsiInterface.ResizeChronoShellsData v s
          = Outcome.stop (Fault.runtime_error ChFsiInterface.what_ResizeChronoShellsData) s := by
        unfold ChFsiInterface.ResizeChronoShellsData
        simp only [ne_eq, hsz, not_false_eq_true, if_true]
      rw [hrun]
      exact ⟨⟨fun _ => hsz, fun _ => rfl⟩, fun _ => rfl, fun h => absurd h hsz⟩
  · by_cases hsz : v.length
        = s.fsi_elements.countP (fun e => decide (e = ChElement.ChElementCableANCF))
    · have hrun : ChFsiInterface.ResizeChronoCablesData v s
          = forLoop (ChFsiInterface.ResizeChronoCablesData_body v) v.length 0
              { s with CableElementsNodesH := resizeList default v.length s.CableElementsNodesH } := by
        unfold ChFsiInterface.ResizeChronoCablesData
        simp only [← hsz, ne_eq, not_true_eq_false, if_false]
      have hno : ∀ w, (ChFsiInterface.ResizeChronoCablesData v s).fault
          ≠ some (Fault.runtime_error w) := by
        intro w hw
        rw [hrun] at hw
        have := forLoop_fault_of_body (ChFsiInterface.ResizeChronoCablesData_body v)
          (fun f => f = Fault.out_of_range)
          (fun i t f h => ResizeChronoCablesData_body_fault v i t f h) _ _ _ _ hw
        cases this
      refine ⟨⟨fun h => absurd h (hno _), fun h => absurd hsz h⟩, fun h => absurd hsz h,
        fun _ => ⟨hno, ?_⟩⟩
      intro hv
      obtain ⟨h1, h2⟩ := ResizeChronoCablesData_loop v hv
        { s with CableElementsNodesH := resizeList default v.length s.CableElementsNodesH }
        (length_resizeList _ _ _)
      rw [hrun]
      refine ⟨h1, ?_, ?_⟩
      · have := congrArg List.length h2
        simpa using this
      · intro i a b rest hi
        refine map_some_getElem? _ _ i _ h2 ?_
        rw [List.getElem?_map, hi]
        simp [ChFsiInterface.cableEntry]
    · have hrun : ChFsiInterface.ResizeChronoCablesData v s
          = Outcome.stop (Fault.runtime_error ChFsiInterface.what_ResizeChronoCablesData) s := by
        unfold ChFsiInterface.ResizeChronoCablesData
        simp only [ne_eq, hsz, not_false_eq_true, if_true]
      rw [hrun]
      exact ⟨⟨fun _ => hsz, fun _ => rfl⟩, fun _ => rfl, fun h => absurd h hsz⟩

/-- On the example mesh (two shells, one cable) a list of two quadruples is
stored as the shell table, a list of one pair replaces the cable table, and a
list of one entry is refused as shell connectivity. -/
theorem connectivity_tables_example :
    (ChFsiInterface.ResizeChronoShellsData [[1, 2, 3, 4], [5, 6, 7, 8]]
        Example.meshInterface).state.ShellElementsNodesH = [⟨1, 2, 3, 4⟩, ⟨5, 6, 7, 8⟩] ∧
    (ChFsiInterface.ResizeChronoCablesData [[3, 4, 5]]
        Example.meshInterface).state.CableElementsNodesH = [⟨3, 4⟩] ∧
    (ChFsiInterface.ResizeChronoShellsData [[1, 2, 3, 4]] Example.meshInterface).fault
      = some (Fault.runtime_error ChFsiInterface.what_ResizeChronoShellsData) := by
  decide

end connectivity

/-! ## Fluid forces on the rigid bodies -/

section accumulators

variable {D R3 R4 : Type}

end accumulators

/-! ## The single-wheel rig node -/

section rig

variable {D : Type}

/-! ### Rounding to the nearest `double` -/

theorem binary64_log_two_eq (q : ℚ) (k : ℤ) (hlo : (2 : ℚ) ^ k ≤ q) (hhi : q < (2 : ℚ) ^ (k + 1)) :
    Int.log 2 q = k := by
  have hpos : 0 < q := lt_of_lt_of_le (by positivity) hlo
  apply le_antisymm
  · have := (Int.lt_zpow_iff_log_lt (by norm_num : 1 < 2) hpos).mp
      (show q < ((2 : ℕ) : ℚ) ^ (k + 1) by exact_mod_cast hhi)
    omega
  · exact (Int.zpow_le_iff_le_log (by norm_num : 1 < 2) hpos).mp
      (show ((2 : ℕ) : ℚ) ^ k ≤ q by exact_mod_cast hlo)

/-- The `double` nearest to `q`, given the exponent of `q` and the nearest
integer of the scaled value. -/
theorem binary64_round_eq (q : ℚ) (e n : ℤ) (hlo : (2 : ℚ) ^ (e + 52) ≤ |q|)
    (hhi : |q| < (2 : ℚ) ^ (e + 52 + 1)) (hn : binary64.roundTiesToEven (q / 2 ^ e) = n) :
    binary64.round q = n * 2 ^ e := by
  have hq : q ≠ 0 := by
    intro h
    rw [h, abs_zero] at hlo
    exact absurd hlo (not_le.mpr (by positivity))
  have hlog := binary64_log_two_eq |q| (e + 52) hlo hhi
  unfold binary64.round
  rw [if_neg hq, hlog, show e + 52 - 52 = e by ring, hn]

theorem binary64_round_eq_pos (q : ℚ) (e n : ℤ) (hq : 0 < q) (hlo : (2 : ℚ) ^ (e + 52) ≤ q)
    (hhi : q < (2 : ℚ) ^ (e + 52 + 1)) (hn : binary64.roundTiesToEven (q / 2 ^ e) = n) :
    binary64.round q = n * 2 ^ e :=
  binary64_round_eq q e n (by rw [abs_of_pos hq]; exact hlo) (by rw [abs_of_pos hq]; exact hhi) hn

theorem binary64_round_eq_neg (q : ℚ) (e n : ℤ) (hq : q < 0) (hlo : (2 : ℚ) ^ (e + 52) ≤ -q)
    (hhi : -q < (2 : ℚ) ^ (e + 52 + 1)) (hn : binary64.roundTiesToEven (q / 2 ^ e) = n) :
    binary64.round q = n * 2 ^ e :=
  binary64_round_eq q e n (by rw [abs_of_neg hq]; exact hlo) (by rw [abs_of_neg hq]; exact hhi) hn

theorem binary64_roundTiesToEven_of_lt (q : ℚ) (f : ℤ) (h1 : (f : ℚ) ≤ q) (h2 : q - f < 1 / 2) :
    binary64.roundTiesToEven q = f := by
  have hf : ⌊q⌋ = f := Int.floor_eq_iff.mpr ⟨h1, by linarith⟩
  unfold binary64.roundTiesToEven
  rw [hf, if_pos h2]

theorem binary64_roundTiesToEven_of_gt (q : ℚ) (f : ℤ) (h1 : 1 / 2 < q - f) (h2 : q < f + 1) :
    binary64.roundTiesToEven q = f + 1 := by
  have hf : ⌊q⌋ = f := Int.floor_eq_iff.mpr ⟨by linarith, h2⟩
  unfold binary64.roundTiesToEven
  rw [hf, if_neg (by linarith), if_pos h1]

theorem binary64_roundTiesToEven_of_half (q : ℚ) (f : ℤ) (h : q - f = 1 / 2) :
    binary64.roundTiesToEven q = if f % 2 = 0 then f else f + 1 := by
  have hf : ⌊q⌋ = f := Int.floor_eq_iff.mpr ⟨by linarith, by linarith⟩
  unfold binary64.roundTiesToEven
  rw [hf, if_neg (by rw [h]; exact lt_irrefl _), if_neg (by rw [h]; exact lt_irrefl _)]

theorem binary64_round_two : binary64.round (2 : ℚ) = (2 : ℚ) := by
  rw [binary64_round_eq_pos (2 : ℚ) (-51) (4503599627370496) (by norm_num) (by norm_num) (by norm_num)
    (binary64_roundTiesToEven_of_lt _ (4503599627370496) (by norm_num) (by norm_num))]
  norm_num

theorem binary64_round_add_17a : binary64.round (41433116571808563 / 18014398509481984 : ℚ) = (2589569785738035 / 1125899906842624 : ℚ) := by
  rw [binary64_round_eq_pos (41433116571808563 / 18014398509481984 : ℚ) (-51) (5179139571476070) (by norm_num) (by norm_num) (by norm_num)
    (binary64_roundTiesToEven_of_lt _ (5179139571476070) (by norm_num) (by norm_num))]
  norm_num

theorem binary64_round_sub_17a : binary64.round (36028797018963965 / 18014398509481984 : ℚ) = (9007199254740991 / 4503599627370496 : ℚ) := by
  rw [binary64_round_eq_pos (36028797018963965 / 18014398509481984 : ℚ) (-52) (9007199254740991) (by norm_num) (by norm_num) (by norm_num)
    (binary64_roundTiesToEven_of_lt _ (9007199254740991) (by norm_num) (by norm_num))]
  norm_num

theorem binary64_round_div_17a : binary64.round (9007199254740991 / 9007199254740992 : ℚ) = (9007199254740991 / 9007199254740992 : ℚ) := by
  rw [binary64_round_eq_pos (9007199254740991 / 9007199254740992 : ℚ) (-53) (9007199254740991) (by norm_num) (by norm_num) (by norm_num)
    (binary64_roundTiesToEven_of_lt _ (9007199254740991) (by norm_num) (by norm_num))]
  norm_num

theorem binary64_round_neg_17a : binary64.round (-5404319552844595 / 18014398509481984 : ℚ) = (-5404319552844595 / 18014398509481984 : ℚ) := by
  rw [binary64_round_eq_neg (-5404319552844595 / 18014398509481984 : ℚ) (-54) (-5404319552844595) (by norm_num) (by norm_num) (by norm_num)
    (binary64_roundTiesToEven_of_lt _ (-5404319552844595) (by norm_num) (by norm_num))]
  norm_num

theorem binary64_round_sub_17b : binary64.round (9907919180215091 / 4503599627370496 : ℚ) = (2476979795053773 / 1125899906842624 : ℚ) := by
  rw [binary64_round_eq_pos (9907919180215091 / 4503599627370496 : ℚ) (-51) (4953959590107546) (by norm_num) (by norm_num) (by norm_num)
    ((binary64_roundTiesToEven_of_half _ (4953959590107545) (by norm_num)).trans (by norm_num))]
  norm_num

theorem binary64_round_div_17b : binary64.round (2476979795053773 / 2251799813685248 : ℚ) = (2476979795053773 / 2251799813685248 : ℚ) := by
  rw [binary64_round_eq_pos (2476979795053773 / 2251799813685248 : ℚ) (-52) (4953959590107546) (by norm_num) (by norm_num) (by norm_num)
    (binary64_roundTiesToEven_of_lt _ (4953959590107546) (by norm_num) (by norm_num))]
  norm_num

theorem binary64_round_add_17b : binary64.round (2476979795053773 / 1125899906842624 : ℚ) = (2476979795053773 / 1125899906842624 : ℚ) := by
  rw [binary64_round_eq_pos (2476979795053773 / 1125899906842624 : ℚ) (-51) (4953959590107546) (by norm_num) (by norm_num) (by norm_num)
    (binary64_roundTiesToEven_of_lt _ (4953959590107546) (by norm_num) (by norm_num))]
  norm_num

theorem binary64_round_sum_17b : binary64.round (13060438919374439 / 4503599627370496 : ℚ) = (1632554864921805 / 562949953421312 : ℚ) := by
  rw [binary64_round_eq_pos (13060438919374439 / 4503599627370496 : ℚ) (-51) (6530219459687220) (by norm_num) (by norm_num) (by norm_num)
    ((binary64_roundTiesToEven_of_half _ (6530219459687219) (by norm_num)).trans (by norm_num))]
  norm_num

/-- The nearest integer is not below the integer part. -/
theorem binary64_floor_le_roundTiesToEven (q : ℚ) : ⌊q⌋ ≤ binary64.roundTiesToEven q := by
  unfold binary64.roundTiesToEven
  split_ifs <;> omega

/-- Rounding to the nearest `double` does not go below a power of two that
the value reaches. -/
theorem binary64_round_ge_two_zpow (q : ℚ) (k : ℤ) (h : (2 : ℚ) ^ k ≤ q) :
    (2 : ℚ) ^ k ≤ binary64.round q := by
  have hpos : 0 < q := lt_of_lt_of_le (by positivity) h
  have habs : |q| = q := abs_of_pos hpos
  have hke : k ≤ Int.log 2 q :=
    (Int.zpow_le_iff_le_log (by norm_num : 1 < 2) hpos).mp
      (show ((2 : ℕ) : ℚ) ^ k ≤ q by exact_mod_cast h)
  have hlog : (2 : ℚ) ^ (Int.log 2 q) ≤ q := by
    have := Int.zpow_log_le_self (by norm_num : 1 < 2) hpos
    exact_mod_cast this
  unfold binary64.round
  rw [if_neg (ne_of_gt hpos), habs]
  have hp : (0 : ℚ) < 2 ^ (Int.log 2 q - 52) := by positivity
  have hx : ((2 ^ 52 : ℤ) : ℚ) ≤ q / 2 ^ (Int.log 2 q - 52) := by
    rw [le_div_iff₀ hp]
    have : ((2 ^ 52 : ℤ) : ℚ) * 2 ^ (Int.log 2 q - 52) = 2 ^ (Int.log 2 q) := by
      rw [zpow_sub₀ (by norm_num : (2 : ℚ) ≠ 0)]
      push_cast
      field_simp
      norm_num
      ring
    rw [this]
    exact hlog
  have hfl : (2 ^ 52 : ℤ) ≤ binary64.roundTiesToEven (q / 2 ^ (Int.log 2 q - 52)) :=
    le_trans (Int.le_floor.mpr hx) (binary64_floor_le_roundTiesToEven _)
  have hq : ((2 ^ 52 : ℤ) : ℚ) ≤ (binary64.roundTiesToEven (q / 2 ^ (Int.log 2 q - 52)) : ℚ) := by
    exact_mod_cast hfl
  calc (2 : ℚ) ^ k ≤ 2 ^ (Int.log 2 q) := zpow_le_zpow_right₀ (by norm_num) hke
    _ = ((2 ^ 52 : ℤ) : ℚ) * 2 ^ (Int.log 2 q - 52) := by
      rw [zpow_sub₀ (by norm_num : (2 : ℚ) ≠ 0)]
      push_cast
      field_simp
      norm_num
      ring
    _ ≤ _ := mul_le_mul_of_nonneg_right hq (le_of_lt hp)

/-- Rounding to the nearest `double` does not go below 1. -/
theorem binary64_one_le_round (q : ℚ) (h : 1 ≤ q) : 1 ≤ binary64.round q := by
  have := binary64_round_ge_two_zpow q 0 (by simpa using h)
  simpa using this

/-- With one tire node, tire data for one tire and a drawbar-pull rig attached,
`InitializeMBS` returns, with the total mass and the two bodies as computed in
the source. -/
theorem InitializeMBS_ok (ops : DoubleArith D) (s : ChVehicleCosimRigNode D)
    (info : ChVector D) (terrain_size : ChVector2 D) (terrain_height : D)
    (hnum : s.m_num_tire_nodes = 1) (hrig : s.m_DBP_rig = true) :
    (ChVehicleCosimRigNode.InitializeMBS ops [info] terrain_size terrain_height s).fault
      = none ∧
    (ChVehicleCosimRigNode.InitializeMBS ops [info] terrain_size terrain_height
        s).state.m_total_mass
      = (if ops.lt (ops.sub s.m_total_mass info.x) (ops.literal 2 0) = true then
          ops.add info.x (ops.literal 2 0)
        else s.m_total_mass) ∧
    ∃ c sp,
      (ChVehicleCosimRigNode.InitializeMBS ops [info] terrain_size terrain_height
          s).state.m_chassis = some c ∧
      (ChVehicleCosimRigNode.InitializeMBS ops [info] terrain_size terrain_height
          s).state.m_spindle = some sp ∧
      c.Mass
        = ops.div
            (ops.sub
              (if ops.lt (ops.sub s.m_total_mass info.x) (ops.literal 2 0) = true then
                ops.add info.x (ops.literal 2 0)
              else s.m_total_mass) info.x)
            (ops.literal 2 0) ∧
      sp.Mass = c.Mass := by
  unfold ChVehicleCosimRigNode.InitializeMBS
  rw [if_neg (by simp [hnum]), if_neg (by simp)]
  simp only [List.getElem?_cons_zero]
  rw [if_neg (by simp [hrig])]
  exact ⟨rfl, rfl, _, _, rfl, rfl, rfl, rfl⟩

/-- The operations of exact arithmetic are the operations of the field. -/
theorem DoubleArith_exact_two (F : Type) [LinearOrderedField F] :
    (DoubleArith.exact F).literal 2 0 = 2 := by
  simp [DoubleArith.exact]

theorem DoubleArith_exact_sub (F : Type) [LinearOrderedField F] (a b : F) :
    (DoubleArith.exact F).sub a b = a - b := rfl

theorem DoubleArith_exact_add (F : Type) [LinearOrderedField F] (a b : F) :
    (DoubleArith.exact F).add a b = a + b := rfl

theorem DoubleArith_exact_div (F : Type) [LinearOrderedField F] (a b : F) :
    (DoubleArith.exact F).div a b = a / b := rfl

theorem DoubleArith_exact_lt (F : Type) [LinearOrderedField F] (a b : F) :
    (DoubleArith.exact F).lt a b = true ↔ a < b := by
  simp [DoubleArith.exact]

/-- C16: the code at a newly constructed node.  The constructor sets the
total mass to 0, which is also what `GetSpindleLoad` returns then; it is not
the default 100 that the comment of `SetTotalMass` documents. -/
theorem constructor_total_mass_is_zero [LinearOrderedField D] (base : ChVehicleCosimMBSNode D) :
    (ChVehicleCosimRigNode.ChVehicleCosimRigNode base).m_total_mass = 0 ∧
    ChVehicleCosimRigNode.GetSpindleLoad 0 (ChVehicleCosimRigNode.ChVehicleCosimRigNode base)
      = 0 ∧
    (ChVehicleCosimRigNode.ChVehicleCosimRigNode base).m_total_mass ≠ 100 :=
  ⟨rfl, rfl, by
    show (0 : D) ≠ 100
    norm_num⟩

/-- C17, amended. For every total mass and every tire mass `m`, on a node with
one tire node and a drawbar-pull rig, `InitializeMBS` returns, and afterwards
the chassis and the spindle have the same mass, the value of
`(final total mass - m) / 2` as computed in `double`.  In exact arithmetic the
two body masses and `m` add up to the final total mass, and each body mass is
at least 1.  In `double` arithmetic each body mass is at least 1 when the
total mass is not overwritten, that is, when the computed difference of the
total mass and `m` is not less than 2. -/
theorem InitializeMBS_body_masses (ops : DoubleArith D) (s : ChVehicleCosimRigNode D)
    (info : ChVector D) (terrain_size : ChVector2 D) (terrain_height : D)
    (hnum : s.m_num_tire_nodes = 1) (hrig : s.m_DBP_rig = true) :
    (ChVehicleCosimRigNode.InitializeMBS ops [info] terrain_size terrain_height s).fault
      = none ∧
    (∃ c sp,
      (ChVehicleCosimRigNode.InitializeMBS ops [info] terrain_size terrain_height
          s).state.m_chassis = some c ∧
      (ChVehicleCosimRigNode.InitializeMBS ops [info] terrain_size terrain_height
          s).state.m_spindle = some sp ∧
      c.Mass
        = ops.div
            (ops.sub
              (ChVehicleCosimRigNode.InitializeMBS ops [info] terrain_size terrain_height
                s).state.m_total_mass info.x)
            (ops.literal 2 0) ∧
      sp.Mass = c.Mass) ∧
    (∀ (F : Type) [LinearOrderedField F] (s : ChVehicleCosimRigNode F) (info : ChVector F)
      (terrain_size : ChVector2 F) (terrain_height : F),
      s.m_num_tire_nodes = 1 → s.m_DBP_rig = true →
      ∃ c sp,
        (ChVehicleCosimRigNode.InitializeMBS (DoubleArith.exact F) [info] terrain_size
            terrain_height s).state.m_chassis = some c ∧
        (ChVehicleCosimRigNode.InitializeMBS (DoubleArith.exact F) [info] terrain_size
            terrain_height s).state.m_spindle = some sp ∧
        c.Mass
          = ((ChVehicleCosimRigNode.InitializeMBS (DoubleArith.exact F) [info] terrain_size
              terrain_height s).state.m_total_mass - info.x) / 2 ∧
        sp.Mass = c.Mass ∧
        c.Mass + sp.Mass + info.x
          = (ChVehicleCosimRigNode.InitializeMBS (DoubleArith.exact F) [info] terrain_size
              terrain_height s).state.m_total_mass ∧
        1 ≤ c.Mass ∧ 1 ≤ sp.Mass) ∧
    ∀ (s : ChVehicleCosimRigNode ℚ) (info : ChVector ℚ) (terrain_size : ChVector2 ℚ)
      (terrain_height : ℚ),
      s.m_num_tire_nodes = 1 → s.m_DBP_rig = true →
      binary64.arith.lt (binary64.arith.sub s.m_total_mass info.x) (binary64.arith.literal 2 0)
        = false →
      (ChVehicleCosimRigNode.InitializeMBS binary64.arith [info] terrain_size terrain_height
        s).state.m_total_mass = s.m_total_mass ∧
      ∃ c sp,
        (ChVehicleCosimRigNode.InitializeMBS binary64.arith [info] terrain_size
            terrain_height s).state.m_chassis = some c ∧
        (ChVehicleCosimRigNode.InitializeMBS binary64.arith [info] terrain_size
            terrain_height s).state.m_spindle = some sp ∧
        1 ≤ c.Mass ∧ 1 ≤ sp.Mass := by
  obtain ⟨h1, h2, c, sp, hc, hsp, hcm, hspm⟩ := InitializeMBS_ok ops s info terrain_size
    terrain_height hnum hrig
  refine ⟨h1, ⟨c, sp, hc, hsp, ?_, hspm⟩, ?_, ?_⟩
  · rw [h2, hcm]
  · intro F _ s info terrain_size terrain_height hnum hrig
    obtain ⟨_, g2, c, sp, gc, gsp, gcm, gspm⟩ := InitializeMBS_ok (DoubleArith.exact F) s info
      terrain_size terrain_height hnum hrig
    simp only [DoubleArith_exact_two, DoubleArith_exact_sub, DoubleArith_exact_add,
      DoubleArith_exact_div, DoubleArith_exact_lt] at g2 gcm
    have hc1 : 1 ≤ c.Mass := by
      rw [gcm]
      split_ifs with h
      · have : info.x + 2 - info.x = 2 := by ring
        rw [this]
        norm_num
      · have := not_lt.mp h
        linarith
    refine ⟨c, sp, gc, gsp, ?_, gspm, ?_, hc1, ?_⟩
    · rw [g2, gcm]
    · rw [g2, gspm, gcm]
      ring
    · rw [gspm]
      exact hc1
  · intro s info terrain_size terrain_height hnum hrig hkeep
    obtain ⟨_, g2, c, sp, gc, gsp, gcm, gspm⟩ := InitializeMBS_ok binary64.arith s info
      terrain_size terrain_height hnum hrig
    rw [if_neg (by rw [hkeep]; exact Bool.false_ne_true)] at g2 gcm
    have h2 : binary64.arith.literal 2 0 = 2 := by
      show binary64.round (((2 : ℤ) : ℚ) / 10 ^ 0) = 2
      norm_num
      exact binary64_round_two
    have hge : 2 ≤ binary64.arith.sub s.m_total_mass info.x := by
      have hlt : ∀ a b : ℚ, binary64.arith.lt a b = decide (a < b) := fun _ _ => rfl
      rw [h2, hlt, decide_eq_false_iff_not] at hkeep
      exact not_lt.mp hkeep
    have hc1 : 1 ≤ c.Mass := by
      rw [gcm, h2]
      show 1 ≤ binary64.round (binary64.arith.sub s.m_total_mass info.x / 2)
      apply binary64_one_le_round
      rw [le_div_iff₀ (by norm_num : (0 : ℚ) < 2)]
      linarith
    refine ⟨g2, c, sp, gc, gsp, hc1, ?_⟩
    rw [gspm]
    exact hc1

/-- C17 as stated fails: in `double` arithmetic, (1) on a newly constructed
node (total mass 0) with the tire mass `0.3` (the `double`
`5404319552844595 / 2^54`) the total mass becomes `2.3` and each body gets
the mass `0.9999999999999999`, which is less than 1; (2) with the total mass
`2.9` and the tire mass `0.7` the total mass stays `2.9` and each body gets
the mass `1.1`, and the two body masses and the tire mass add up to
`2.9000000000000004`, not to the total mass. -/
theorem body_mass_below_1_and_sum_off :
    (∃ c sp,
      (ChVehicleCosimRigNode.InitializeMBS binary64.arith
          [⟨5404319552844595 / 18014398509481984, 1 / 2, 1 / 4⟩] ⟨10, 2⟩ 0
          (ChVehicleCosimRigNode.ChVehicleCosimRigNode Example.mbsNode)).state.m_chassis
        = some c ∧
      (ChVehicleCosimRigNode.InitializeMBS binary64.arith
          [⟨5404319552844595 / 18014398509481984, 1 / 2, 1 / 4⟩] ⟨10, 2⟩ 0
          (ChVehicleCosimRigNode.ChVehicleCosimRigNode Example.mbsNode)).state.m_spindle
        = some sp ∧
      (ChVehicleCosimRigNode.InitializeMBS binary64.arith
          [⟨5404319552844595 / 18014398509481984, 1 / 2, 1 / 4⟩] ⟨10, 2⟩ 0
          (ChVehicleCosimRigNode.ChVehicleCosimRigNode Example.mbsNode)).state.m_total_mass
        = 2589569785738035 / 1125899906842624 ∧
      c.Mass = 9007199254740991 / 9007199254740992 ∧ sp.Mass = c.Mass ∧ c.Mass < 1) ∧
    (∃ c sp,
      (ChVehicleCosimRigNode.InitializeMBS binary64.arith
          [⟨3152519739159347 / 4503599627370496, 1 / 2, 1 / 4⟩] ⟨10, 2⟩ 0
          (ChVehicleCosimRigNode.SetTotalMass (6530219459687219 / 2251799813685248)
            (ChVehicleCosimRigNode.ChVehicleCosimRigNode Example.mbsNode))).state.m_chassis
        = some c ∧
      (ChVehicleCosimRigNode.InitializeMBS binary64.arith
          [⟨3152519739159347 / 4503599627370496, 1 / 2, 1 / 4⟩] ⟨10, 2⟩ 0
          (ChVehicleCosimRigNode.SetTotalMass (6530219459687219 / 2251799813685248)
            (ChVehicleCosimRigNode.ChVehicleCosimRigNode Example.mbsNode))).state.m_spindle
        = some sp ∧
      (ChVehicleCosimRigNode.InitializeMBS binary64.arith
          [⟨3152519739159347 / 4503599627370496, 1 / 2, 1 / 4⟩] ⟨10, 2⟩ 0
          (ChVehicleCosimRigNode.SetTotalMass (6530219459687219 / 2251799813685248)
            (ChVehicleCosimRigNode.ChVehicleCosimRigNode Example.mbsNode))).state.m_total_mass
        = 6530219459687219 / 2251799813685248 ∧
      c.Mass = 2476979795053773 / 2251799813685248 ∧ sp.Mass = c.Mass ∧
      binary64.arith.add (binary64.arith.add c.Mass sp.Mass)
          (3152519739159347 / 4503599627370496)
        = 1632554864921805 / 562949953421312 ∧
      (1632554864921805 / 562949953421312 : ℚ) ≠ 6530219459687219 / 2251799813685248 ∧
      c.Mass + sp.Mass + 3152519739159347 / 4503599627370496
        ≠ (6530219459687219 / 2251799813685248 : ℚ)) := by
  have hlit : binary64.arith.literal 2 0 = 2 := by
    simp only [binary64.arith]
    norm_num
    exact binary64_round_two
  constructor
  · obtain ⟨_, h2, c, sp, hc, hsp, hcm, hspm⟩ := InitializeMBS_ok binary64.arith
      (ChVehicleCosimRigNode.ChVehicleCosimRigNode Example.mbsNode)
      ⟨5404319552844595 / 18014398509481984, 1 / 2, 1 / 4⟩ ⟨10, 2⟩ 0 rfl rfl
    have hM : (ChVehicleCosimRigNode.ChVehicleCosimRigNode Example.mbsNode).m_total_mass
        = (0 : ℚ) := rfl
    have hsub : binary64.arith.sub 0 (5404319552844595 / 18014398509481984)
        = -5404319552844595 / 18014398509481984 := by
      simp only [binary64.arith]
      norm_num
      rw [← neg_div]
      exact binary64_round_neg_17a
    have hadd : binary64.arith.add (5404319552844595 / 18014398509481984) 2
        = 2589569785738035 / 1125899906842624 := by
      simp only [binary64.arith]
      norm_num
      exact binary64_round_add_17a
    have hsub2 : binary64.arith.sub (2589569785738035 / 1125899906842624)
        (5404319552844595 / 18014398509481984) = 9007199254740991 / 4503599627370496 := by
      simp only [binary64.arith]
      norm_num
      exact binary64_round_sub_17a
    have hdiv : binary64.arith.div (9007199254740991 / 4503599627370496) 2
        = 9007199254740991 / 9007199254740992 := by
      simp only [binary64.arith]
      norm_num
      exact binary64_round_div_17a
    have hlt : binary64.arith.lt (-5404319552844595 / 18014398509481984) 2 = true := by
      simp only [binary64.arith]
      norm_num
    simp only [hM, hlit, hsub, hlt, if_true, hadd, hsub2, hdiv] at h2 hcm
    refine ⟨c, sp, hc, hsp, h2, hcm, hspm, ?_⟩
    rw [hcm]
    norm_num
  · obtain ⟨_, h2, c, sp, hc, hsp, hcm, hspm⟩ := InitializeMBS_ok binary64.arith
      (ChVehicleCosimRigNode.SetTotalMass (6530219459687219 / 2251799813685248)
        (ChVehicleCosimRigNode.ChVehicleCosimRigNode Example.mbsNode))
      ⟨3152519739159347 / 4503599627370496, 1 / 2, 1 / 4⟩ ⟨10, 2⟩ 0 rfl rfl
    have hM : (ChVehicleCosimRigNode.SetTotalMass (6530219459687219 / 2251799813685248 : ℚ)
        (ChVehicleCosimRigNode.ChVehicleCosimRigNode Example.mbsNode)).m_total_mass
        = 6530219459687219 / 2251799813685248 := rfl
    have hsub : binary64.arith.sub (6530219459687219 / 2251799813685248)
        (3152519739159347 / 4503599627370496) = 2476979795053773 / 1125899906842624 := by
      simp only [binary64.arith]
      norm_num
      exact binary64_round_sub_17b
    have hlt : binary64.arith.lt (2476979795053773 / 1125899906842624) 2 = false := by
      simp only [binary64.arith]
      norm_num
    have hdiv : binary64.arith.div (2476979795053773 / 1125899906842624) 2
        = 2476979795053773 / 2251799813685248 := by
      simp only [binary64.arith]
      norm_num
      exact binary64_round_div_17b
    have hadd1 : binary64.arith.add (2476979795053773 / 2251799813685248)
        (2476979795053773 / 2251799813685248) = 2476979795053773 / 1125899906842624 := by
      simp only [binary64.arith]
      norm_num
      exact binary64_round_add_17b
    have hadd2 : binary64.arith.add (2476979795053773 / 1125899906842624)
        (3152519739159347 / 4503599627370496) = 1632554864921805 / 562949953421312 := by
      simp only [binary64.arith]
      norm_num
      exact binary64_round_sum_17b
    simp only [hM, hlit, hsub, hlt, Bool.false_eq_true, if_false, hdiv] at h2 hcm
    refine ⟨c, sp, hc, hsp, h2, hcm, hspm, ?_, by norm_num, ?_⟩
    · rw [hspm, hcm, hadd1, hadd2]
    · rw [hspm, hcm]
      norm_num

end rig

/-! ## The skid-steer vehicle -/

section skid

variable {D I P L : Type}

/-- With all four subsystems present `Synchronize` passes to the left
driveline the output torque of the left powertrain less 10, and to the right
driveline the output torque of the right powertrain. -/
theorem Synchronize_calls [Zero D] [Sub D] [OfNat D 10]
    (sub : Skid_steer_Vehicle.Subsystems D I P L) (time : D) (driver_inputs : I) (p pr : P)
    (l lr : L) :
    (Skid_steer_Vehicle.Synchronize sub time driver_inputs
        { m_powertrain := some p, m_driveline := some l, m_powertrain_r := some pr,
          m_driveline_r := some lr }).2
      = [Skid_steer_Vehicle.Call.m_powertrain_Synchronize time driver_inputs
           (sub.GetDriveshaftSpeed l),
         Skid_steer_Vehicle.Call.m_driveline_Synchronize time driver_inputs
           (sub.GetOutputTorque
             (sub.powertrain_Synchronize time driver_inputs (sub.GetDriveshaftSpeed l) p) - 10),
         Skid_steer_Vehicle.Call.GetLog "left side input torque is: "
           (sub.GetOutputTorque
             (sub.powertrain_Synchronize time driver_inputs (sub.GetDriveshaftSpeed l) p) - 10),
         Skid_steer_Vehicle.Call.m_powertrain_r_Synchronize time driver_inputs
           (sub.GetDriveshaftSpeed lr),
         Skid_steer_Vehicle.Call.m_driveline_r_Synchronize time driver_inputs
           (sub.GetOutputTorque
             (sub.powertrain_Synchronize time driver_inputs (sub.GetDriveshaftSpeed lr) pr)),
         Skid_steer_Vehicle.Call.GetLog "right side input torque is: "
           (sub.GetOutputTorque
             (sub.powertrain_Synchronize time driver_inputs (sub.GetDriveshaftSpeed lr) pr))] :=
  rfl

/-- C12: the code at two inputs.  With powertrains whose output torque is 100
on both sides the left driveline is passed the torque 90 and the right
driveline the torque 100; with no powertrain on either side the left
driveline is passed the torque -10 and the right driveline the torque 0. -/
theorem Synchronize_left_torque_is_10_less :
    (Skid_steer_Vehicle.Synchronize Example.subsystems 0 ()
        { m_powertrain := some 100, m_driveline := some (), m_powertrain_r := some 100,
          m_driveline_r := some () }).2
      = [Skid_steer_Vehicle.Call.m_powertrain_Synchronize 0 () 7,
         Skid_steer_Vehicle.Call.m_driveline_Synchronize 0 () 90,
         Skid_steer_Vehicle.Call.GetLog "left side input torque is: " 90,
         Skid_steer_Vehicle.Call.m_powertrain_r_Synchronize 0 () 7,
         Skid_steer_Vehicle.Call.m_driveline_r_Synchronize 0 () 100,
         Skid_steer_Vehicle.Call.GetLog "right side input torque is: " 100] ∧
    (Skid_steer_Vehicle.Synchronize Example.subsystems 0 ()
        { m_powertrain := none, m_driveline := some (), m_powertrain_r := none,
          m_driveline_r := some () }).2
      = [Skid_steer_Vehicle.Call.m_driveline_Synchronize 0 () (-10),
         Skid_steer_Vehicle.Call.GetLog "left side input torque is: " (-10),
         Skid_steer_Vehicle.Call.m_driveline_r_Synchronize 0 () 0,
         Skid_steer_Vehicle.Call.GetLog "right side input torque is: " 0] := by
  decide

end skid

/-! ## The rigid tire node -/

section tire

variable {D : Type}

theorem forLoop_append_rows {α : Type} (row : α → Line D) (v : List α) :
    ∀ (count start : Nat) (c : List (Line D)), start + count ≤ v.length →
      forLoop
          (fun i c =>
            match v[i]? with
            | none => Outcome.stop Fault.out_of_range c
            | some a => Outcome.ok (c ++ [row a]))
          count start c
        = Outcome.ok (c ++ ((v.drop start).take count).map row) := by
  intro count
  induction count with
  | zero =>
    intro start c _
    simp [forLoop]
  | succ n ih =>
    intro start c h
    have hlt : start < v.length := by omega
    unfold forLoop
    simp only [List.getElem?_eq_getElem hlt, Outcome.ok]
    have h1 := ih (start + 1) (c ++ [row v[start]]) (by omega)
    simp only [Outcome.ok] at h1
    rw [h1, List.drop_eq_getElem_cons hlt, List.take_succ_cons, List.map_cons,
      List.append_assoc]
    rfl

theorem writeRows_ok {α : Type} (row : α → Line D) (v : List α) (csv : List (Line D)) :
    ChVehicleCosimTireNodeRigid.writeRows row v v.length csv = Outcome.ok (csv ++ v.map row) := by
  unfold ChVehicleCosimTireNodeRigid.writeRows
  rw [forLoop_append_rows row v v.length 0 csv (by omega)]
  simp

/-- The frame record of a tire: the number of vertices, the positions, the
velocities, the number of triangles, and the connectivity triples. -/
theorem Write_frame_record (s : ChVehicleCosimTireNodeRigid D)
    (hpos : s.m_tire.MeshVertexStates.1.length = s.m_tire.NumVertices)
    (hvel : s.m_tire.MeshVertexStates.2.length = s.m_tire.NumVertices)
    (htri : s.m_tire.MeshConnectivity.length = s.m_tire.NumTriangles) (csv : List (Line D)) :
    ChVehicleCosimTireNodeRigid.WriteTireStateInformation s csv
      = Outcome.ok (csv ++ [ChVehicleCosimTireNodeRigid.countRow s.m_tire.NumVertices]
          ++ s.m_tire.MeshVertexStates.1.map ChVehicleCosimTireNodeRigid.vectorRow
          ++ s.m_tire.MeshVertexStates.2.map ChVehicleCosimTireNodeRigid.vectorRow) ∧
    ChVehicleCosimTireNodeRigid.WriteTireMeshInformation s csv
      = Outcome.ok (csv ++ [ChVehicleCosimTireNodeRigid.countRow s.m_tire.NumTriangles]
          ++ s.m_tire.MeshConnectivity.map ChVehicleCosimTireNodeRigid.triangleRow) := by
  constructor
  · unfold ChVehicleCosimTireNodeRigid.WriteTireStateInformation
    simp only []
    rw [← hpos, writeRows_ok]
    simp only [Outcome.ok]
    rw [hpos, ← hvel, writeRows_ok]
    rfl
  · unfold ChVehicleCosimTireNodeRigid.WriteTireMeshInformation
    simp only []
    rw [← htri, writeRows_ok]

theorem OnOutputData_of_record (OutputFilename : String → String → String → Int → Nat → String)
    (frame : Int) (s1 : ChVehicleCosimTireNodeRigid D) (record : List (Line D))
    (csv0 : List (Line D))
    (hcsv : ChVehicleCosimTireNodeRigid.WriteTireStateInformation s1 [] = Outcome.ok csv0)
    (hrec : ChVehicleCosimTireNodeRigid.WriteTireMeshInformation s1 csv0 = Outcome.ok record)
    (hframe : frame ≠ INT_MAX) :
    (ChVehicleCosimTireNodeRigid.OnOutputData_frame OutputFilename frame s1).fault = none ∧
    (ChVehicleCosimTireNodeRigid.OnOutputData_frame OutputFilename frame s1).state.files
      = s1.files ++
          [{ name := OutputFilename (s1.m_node_out_dir ++ "/simulation") "data" "dat" (frame + 1) 5,
             app := false, lines := record }] := by
  unfold ChVehicleCosimTireNodeRigid.OnOutputData_frame
  rw [hcsv]
  simp only [Outcome.ok]
  rw [hrec]
  simp only [Outcome.ok, hframe, if_false]
  split_ifs <;> exact ⟨rfl, rfl⟩

/-- The frame record of `OnOutputData` in terms of the rows `countRow`,
`vectorRow` and `triangleRow` of the writers. -/
theorem OnOutputData_writes_record
    (OutputFilename : String → String → String → Int → Nat → String) (frame : Int)
    (s : ChVehicleCosimTireNodeRigid D)
    (hpos : s.m_tire.MeshVertexStates.1.length = s.m_tire.NumVertices)
    (hvel : s.m_tire.MeshVertexStates.2.length = s.m_tire.NumVertices)
    (htri : s.m_tire.MeshConnectivity.length = s.m_tire.NumTriangles)
    (hframe : frame ≠ INT_MAX) :
    (ChVehicleCosimTireNodeRigid.OnOutputData OutputFilename frame s).fault = none ∧
    (ChVehicleCosimTireNodeRigid.OnOutputData OutputFilename frame s).state.files
      = s.files ++
          [{ name := OutputFilename (s.m_node_out_dir ++ "/simulation") "data" "dat" (frame + 1) 5,
             app := false,
             lines := [ChVehicleCosimTireNodeRigid.countRow s.m_tire.NumVertices]
               ++ s.m_tire.MeshVertexStates.1.map ChVehicleCosimTireNodeRigid.vectorRow
               ++ s.m_tire.MeshVertexStates.2.map ChVehicleCosimTireNodeRigid.vectorRow
               ++ [ChVehicleCosimTireNodeRigid.countRow s.m_tire.NumTriangles]
               ++ s.m_tire.MeshConnectivity.map ChVehicleCosimTireNodeRigid.triangleRow }] ∧
    ([ChVehicleCosimTireNodeRigid.countRow s.m_tire.NumVertices]
        ++ s.m_tire.MeshVertexStates.1.map ChVehicleCosimTireNodeRigid.vectorRow
        ++ s.m_tire.MeshVertexStates.2.map ChVehicleCosimTireNodeRigid.vectorRow
        ++ [ChVehicleCosimTireNodeRigid.countRow s.m_tire.NumTriangles]
        ++ s.m_tire.MeshConnectivity.map
            (ChVehicleCosimTireNodeRigid.triangleRow : ChVector Int → Line D)).length
      = 2 + 2 * s.m_tire.NumVertices + s.m_tire.NumTriangles ∧
    ChVehicleCosimTireNodeRigid.WriteTireStateInformation s []
      = Outcome.ok ([ChVehicleCosimTireNodeRigid.countRow s.m_tire.NumVertices]
          ++ s.m_tire.MeshVertexStates.1.map ChVehicleCosimTireNodeRigid.vectorRow
          ++ s.m_tire.MeshVertexStates.2.map ChVehicleCosimTireNodeRigid.vectorRow) ∧
    ∀ csv, ChVehicleCosimTireNodeRigid.WriteTireMeshInformation s csv
      = Outcome.ok (csv ++ [ChVehicleCosimTireNodeRigid.countRow s.m_tire.NumTriangles]
          ++ s.m_tire.MeshConnectivity.map ChVehicleCosimTireNodeRigid.triangleRow) := by
  have hlen : ([ChVehicleCosimTireNodeRigid.countRow s.m_tire.NumVertices]
        ++ s.m_tire.MeshVertexStates.1.map ChVehicleCosimTireNodeRigid.vectorRow
        ++ s.m_tire.MeshVertexStates.2.map ChVehicleCosimTireNodeRigid.vectorRow
        ++ [ChVehicleCosimTireNodeRigid.countRow s.m_tire.NumTriangles]
        ++ s.m_tire.MeshConnectivity.map
            (ChVehicleCosimTireNodeRigid.triangleRow : ChVector Int → Line D)).length
      = 2 + 2 * s.m_tire.NumVertices + s.m_tire.NumTriangles := by
    simp only [List.length_append, List.length_map, List.length_singleton, hpos, hvel, htri]
    omega
  have hs : ChVehicleCosimTireNodeRigid.WriteTireStateInformation s []
      = Outcome.ok ([ChVehicleCosimTireNodeRigid.countRow s.m_tire.NumVertices]
          ++ s.m_tire.MeshVertexStates.1.map ChVehicleCosimTireNodeRigid.vectorRow
          ++ s.m_tire.MeshVertexStates.2.map ChVehicleCosimTireNodeRigid.vectorRow) := by
    rw [(Write_frame_record s hpos hvel htri []).1]
    rfl
  have hrec : ∀ s1 : ChVehicleCosimTireNodeRigid D, s1.m_tire = s.m_tire →
      s1.files = s.files → s1.m_node_out_dir = s.m_node_out_dir →
      (ChVehicleCosimTireNodeRigid.OnOutputData_frame OutputFilename frame s1).fault = none ∧
      (ChVehicleCosimTireNodeRigid.OnOutputData_frame OutputFilename frame s1).state.files
        = s.files ++
          [{ name := OutputFilename (s.m_node_out_dir ++ "/simulation") "data" "dat" (frame + 1) 5,
             app := false,
             lines := [ChVehicleCosimTireNodeRigid.countRow s.m_tire.NumVertices]
               ++ s.m_tire.MeshVertexStates.1.map ChVehicleCosimTireNodeRigid.vectorRow
               ++ s.m_tire.MeshVertexStates.2.map ChVehicleCosimTireNodeRigid.vectorRow
               ++ [ChVehicleCosimTireNodeRigid.countRow s.m_tire.NumTriangles]
               ++ s.m_tire.MeshConnectivity.map ChVehicleCosimTireNodeRigid.triangleRow }] := by
    intro s1 h1 h2 h3
    have hpos1 : s1.m_tire.MeshVertexStates.1.length = s1.m_tire.NumVertices := by rw [h1, hpos]
    have hvel1 : s1.m_tire.MeshVertexStates.2.length = s1.m_tire.NumVertices := by rw [h1, hvel]
    have htri1 : s1.m_tire.MeshConnectivity.length = s1.m_tire.NumTriangles := by rw [h1, htri]
    have := OnOutputData_of_record OutputFilename frame s1 _ _
      (Write_frame_record s1 hpos1 hvel1 htri1 []).1
      (Write_frame_record s1 hpos1 hvel1 htri1 _).2 hframe
    rw [h1, h2, h3] at this
    simpa only [List.nil_append] using this
  refine ⟨?_, ?_, hlen, hs, fun csv => (Write_frame_record s hpos hvel htri csv).2⟩
  · unfold ChVehicleCosimTireNodeRigid.OnOutputData
    cases hout : s.m_outf with
    | none => exact (hrec s rfl rfl rfl).1
    | some lines =>
      exact (hrec
        { s with m_outf := some (lines ++ [ChVehicleCosimTireNodeRigid.resultsLine frame s.m_force]) }
        rfl rfl rfl).1
  · unfold ChVehicleCosimTireNodeRigid.OnOutputData
    cases hout : s.m_outf with
    | none => exact (hrec s rfl rfl rfl).2
    | some lines =>
      exact (hrec
        { s with m_outf := some (lines ++ [ChVehicleCosimTireNodeRigid.resultsLine frame s.m_force]) }
        rfl rfl rfl).2

theorem getElem?_append_five {α : Type} (la lb lc ld le : List α) :
    (∀ k, k < la.length → (la ++ lb ++ lc ++ ld ++ le)[k]? = la[k]?) ∧
    (∀ k, k < lb.length → (la ++ lb ++ lc ++ ld ++ le)[la.length + k]? = lb[k]?) ∧
    (∀ k, k < lc.length → (la ++ lb ++ lc ++ ld ++ le)[la.length + lb.length + k]? = lc[k]?) ∧
    (∀ k, k < ld.length →
      (la ++ lb ++ lc ++ ld ++ le)[la.length + lb.length + lc.length + k]? = ld[k]?) ∧
    (∀ k, (la ++ lb ++ lc ++ ld ++ le)[la.length + lb.length + lc.length + ld.length + k]? = le[k]?) := by
  refine ⟨?_, ?_, ?_, ?_, ?_⟩
  · intro k hk
    rw [List.append_assoc, List.append_assoc, List.append_assoc, List.getElem?_append_left hk]
  · intro k hk
    rw [List.append_assoc, List.append_assoc, List.append_assoc,
      List.getElem?_append_right (by omega), List.getElem?_append_left (by omega)]
    congr 1
    omega
  · intro k hk
    rw [List.append_assoc, List.append_assoc, List.append_assoc,
      List.getElem?_append_right (by omega), List.getElem?_append_right (by omega),
      List.getElem?_append_left (by omega)]
    congr 1
    omega
  · intro k hk
    rw [List.append_assoc, List.append_assoc, List.append_assoc,
      List.getElem?_append_right (by omega), List.getElem?_append_right (by omega),
      List.getElem?_append_right (by omega), List.getElem?_append_left (by omega)]
    congr 1
    omega
  · intro k
    rw [List.append_assoc, List.append_assoc, List.append_assoc,
      List.getElem?_append_right (by omega), List.getElem?_append_right (by omega),
      List.getElem?_append_right (by omega), List.getElem?_append_right (by omega)]
    congr 1
    omega

/-- C14. For a rigid tire with `nv` vertices and `nt` triangles whose
vertex-state arrays have length `nv` (and a frame number below `INT_MAX`),
`OnOutputData` completes and writes one new file whose rows are, in order: the
number `nv`, the `nv` vertex positions in index order, the `nv` vertex
velocities in index order, the number `nt`, and the `nt` connectivity triples
of the mesh in the order of the mesh; these are `2 + 2 * nv + nt` rows.  A
vector row holds the three components of the vector and a triple row the
three indices of the triple as stored in the mesh, each value followed by the
delimiter: row 0 holds `nv`, row `1 + k` the position of vertex `k`, row
`1 + nv + k` its velocity, row `1 + 2 * nv` holds `nt`, and row
`2 + 2 * nv + k` the indices of triangle `k`.  The first `1 + 2 * nv` rows
are those of `WriteTireStateInformation`, the others those of
`WriteTireMeshInformation`. -/
theorem OnOutputData_frame_record
    (OutputFilename : String → String → String → Int → Nat → String) (frame : Int)
    (s : ChVehicleCosimTireNodeRigid D)
    (hpos : s.m_tire.MeshVertexStates.1.length = s.m_tire.NumVertices)
    (hvel : s.m_tire.MeshVertexStates.2.length = s.m_tire.NumVertices)
    (htri : s.m_tire.MeshConnectivity.length = s.m_tire.NumTriangles)
    (hframe : frame ≠ INT_MAX) :
    (ChVehicleCosimTireNodeRigid.OnOutputData OutputFilename frame s).fault = none ∧
    (∃ lines : List (Line D),
      (ChVehicleCosimTireNodeRigid.OnOutputData OutputFilename frame s).state.files
        = s.files ++
          [{ name := OutputFilename (s.m_node_out_dir ++ "/simulation") "data" "dat" (frame + 1) 5,
             app := false, lines := lines }] ∧
      lines
        = [[Item.int s.m_tire.NumVertices, Item.str " "]]
          ++ s.m_tire.MeshVertexStates.1.map (fun v =>
              [Item.real v.x, Item.str " ", Item.real v.y, Item.str " ", Item.real v.z,
                Item.str " "])
          ++ s.m_tire.MeshVertexStates.2.map (fun v =>
              [Item.real v.x, Item.str " ", Item.real v.y, Item.str " ", Item.real v.z,
                Item.str " "])
          ++ [[Item.int s.m_tire.NumTriangles, Item.str " "]]
          ++ s.m_tire.MeshConnectivity.map (fun t =>
              [Item.int t.x, Item.str " ", Item.int t.y, Item.str " ", Item.int t.z,
                Item.str " "]) ∧
      lines.length = 2 + 2 * s.m_tire.NumVertices + s.m_tire.NumTriangles ∧
      (lines[0]?).map intsOf = some [(s.m_tire.NumVertices : Int)] ∧
      (∀ (k : Nat) (v : ChVector D), s.m_tire.MeshVertexStates.1[k]? = some v →
        (lines[1 + k]?).map realsOf = some [v.x, v.y, v.z]) ∧
      (∀ (k : Nat) (v : ChVector D), s.m_tire.MeshVertexStates.2[k]? = some v →
        (lines[1 + s.m_tire.NumVertices + k]?).map realsOf = some [v.x, v.y, v.z]) ∧
      (lines[1 + 2 * s.m_tire.NumVertices]?).map intsOf = some [(s.m_tire.NumTriangles : Int)] ∧
      (∀ (k : Nat) (t : ChVector Int), s.m_tire.MeshConnectivity[k]? = some t →
        (lines[2 + 2 * s.m_tire.NumVertices + k]?).map intsOf = some [t.x, t.y, t.z])) ∧
    ChVehicleCosimTireNodeRigid.WriteTireStateInformation s []
      = Outcome.ok ([[Item.int s.m_tire.NumVertices, Item.str " "]]
          ++ s.m_tire.MeshVertexStates.1.map (fun v =>
              [Item.real v.x, Item.str " ", Item.real v.y, Item.str " ", Item.real v.z,
                Item.str " "])
          ++ s.m_tire.MeshVertexStates.2.map (fun v =>
              [Item.real v.x, Item.str " ", Item.real v.y, Item.str " ", Item.real v.z,
                Item.str " "])) ∧
    ∀ csv, ChVehicleCosimTireNodeRigid.WriteTireMeshInformation s csv
      = Outcome.ok (csv ++ [[Item.int s.m_tire.NumTriangles, Item.str " "]]
          ++ s.m_tire.MeshConnectivity.map (fun t =>
              [Item.int t.x, Item.str " ", Item.int t.y, Item.str " ", Item.int t.z,
                Item.str " "])) := by
  obtain ⟨h1, h2, h3, h4, h5⟩ := OnOutputData_writes_record OutputFilename frame s hpos hvel htri
    hframe
  obtain ⟨g1, g2, g3, g4, g5⟩ := getElem?_append_five
    ([[Item.int s.m_tire.NumVertices, Item.str " "]] : List (Line D))
    (s.m_tire.MeshVertexStates.1.map (fun v =>
      [Item.real v.x, Item.str " ", Item.real v.y, Item.str " ", Item.real v.z, Item.str " "]))
    (s.m_tire.MeshVertexStates.2.map (fun v =>
      [Item.real v.x, Item.str " ", Item.real v.y, Item.str " ", Item.real v.z, Item.str " "]))
    ([[Item.int s.m_tire.NumTriangles, Item.str " "]] : List (Line D))
    (s.m_tire.MeshConnectivity.map (fun t =>
      [Item.int t.x, Item.str " ", Item.int t.y, Item.str " ", Item.int t.z, Item.str " "]))
  simp only [List.length_singleton, List.length_map, hpos, hvel, htri] at g1 g2 g3 g4 g5
  refine ⟨h1, ⟨[[Item.int s.m_tire.NumVertices, Item.str " "]]
      ++ s.m_tire.MeshVertexStates.1.map (fun v =>
          [Item.real v.x, Item.str " ", Item.real v.y, Item.str " ", Item.real v.z, Item.str " "])
      ++ s.m_tire.MeshVertexStates.2.map (fun v =>
          [Item.real v.x, Item.str " ", Item.real v.y, Item.str " ", Item.real v.z, Item.str " "])
      ++ [[Item.int s.m_tire.NumTriangles, Item.str " "]]
      ++ s.m_tire.MeshConnectivity.map (fun t =>
          [Item.int t.x, Item.str " ", Item.int t.y, Item.str " ", Item.int t.z, Item.str " "]),
    h2, rfl, h3, ?_, ?_, ?_, ?_, ?_⟩, h4, h5⟩
  · rw [g1 0 (by omega)]
    rfl
  · intro k v hk
    have hlt : k < s.m_tire.NumVertices := by
      by_contra hcon
      rw [List.getElem?_eq_none (by omega)] at hk
      cases hk
    rw [g2 k hlt, List.getElem?_map, hk]
    rfl
  · intro k v hk
    have hlt : k < s.m_tire.NumVertices := by
      by_contra hcon
      rw [List.getElem?_eq_none (by omega)] at hk
      cases hk
    rw [g3 k hlt, List.getElem?_map, hk]
    rfl
  · have := g4 0 (by omega)
    rw [show 1 + 2 * s.m_tire.NumVertices = 1 + s.m_tire.NumVertices + s.m_tire.NumVertices + 0
      by omega, this]
    rfl
  · intro k t hk
    rw [show 2 + 2 * s.m_tire.NumVertices + k
        = 1 + s.m_tire.NumVertices + s.m_tire.NumVertices + 1 + k by omega, g5 k,
      List.getElem?_map, hk]
    rfl

theorem sum_length_set_append (adj : List (List Nat)) (i : Nat) (a : List Nat) (ie : Nat)
    (h : adj[i]? = some a) :
    ((adj.set i (a ++ [ie])).map List.length).sum = (adj.map List.length).sum + 1 := by
  induction adj generalizing i with
  | nil => simp at h
  | cons x xs ih =>
    cases i with
    | zero =>
      simp only [List.getElem?_cons_zero, Option.some.injEq] at h
      subst h
      simp only [List.set_cons_zero, List.map_cons, List.sum_cons, List.length_append,
        List.length_singleton]
      omega
    | succ j =>
      simp only [List.getElem?_cons_succ] at h
      simp only [List.set_cons_succ, List.map_cons, List.sum_cons, ih j h]
      omega

/-- What `push_back` on the list of vertex `i` does to the adjacency lists. -/
theorem pushAt_spec (adj : List (List Nat)) (i : Int) (ie : Nat) (h0 : 0 ≤ i)
    (hlt : i < adj.length) :
    ∃ adj1, ChVehicleCosimTireNodeRigid.pushAt adj i ie = some adj1 ∧ adj1.length = adj.length ∧
      (adj1.map List.length).sum = (adj.map List.length).sum + 1 ∧
      ∀ (v : Nat) (a : List Nat), adj[v]? = some a →
        adj1[v]? = some (a ++ (if i = (v : Int) then [ie] else [])) := by
  have hn : i.toNat < adj.length := by omega
  have hget : adj[i.toNat]? = some adj[i.toNat] := List.getElem?_eq_getElem hn
  refine ⟨adj.set i.toNat (adj[i.toNat] ++ [ie]), ?_, ?_, ?_, ?_⟩
  · simp [ChVehicleCosimTireNodeRigid.pushAt, ChVehicleCosimTireNodeRigid.atInt, h0, hget]
  · simp
  · exact sum_length_set_append adj i.toNat _ ie hget
  · intro v a hv
    by_cases hiv : i = (v : Int)
    · have : i.toNat = v := by omega
      subst this
      rw [hget] at hv
      cases hv
      rw [List.getElem?_set_self hn, if_pos hiv]
    · have : i.toNat ≠ v := by omega
      rw [List.getElem?_set_ne this, hv]
      simp [hiv]

theorem incidentTriangles_succ (idx_verts : List (ChVector Int)) (v k : Nat) (t : ChVector Int)
    (h : idx_verts[k]? = some t) :
    ChVehicleCosimTireNodeRigid.incidentTriangles idx_verts v (k + 1)
      = ChVehicleCosimTireNodeRigid.incidentTriangles idx_verts v k
        ++ (if t.x = (v : Int) then [k] else []) ++ (if t.y = (v : Int) then [k] else [])
        ++ (if t.z = (v : Int) then [k] else []) := by
  unfold ChVehicleCosimTireNodeRigid.incidentTriangles
  rw [List.range_succ, List.flatMap_append]
  simp only [List.flatMap_cons, List.flatMap_nil, List.append_nil, h, ChVehicleCosimTireNodeRigid.cornerEntries,
    List.append_assoc]
  congr 1
  by_cases h1 : t.x = (v : Int) <;> by_cases h2 : t.y = (v : Int) <;>
    by_cases h3 : t.z = (v : Int) <;> simp [List.filter_cons, h1, h2, h3]

theorem mem_incidentTriangles (idx_verts : List (ChVector Int)) (v k ie : Nat) :
    ie ∈ ChVehicleCosimTireNodeRigid.incidentTriangles idx_verts v k ↔
      ie < k ∧ ∃ t, idx_verts[ie]? = some t ∧
        (t.x = (v : Int) ∨ t.y = (v : Int) ∨ t.z = (v : Int)) := by
  unfold ChVehicleCosimTireNodeRigid.incidentTriangles
  simp only [List.mem_flatMap, List.mem_range]
  constructor
  · rintro ⟨j, hj, hmem⟩
    cases ht : idx_verts[j]? with
    | none => rw [ht] at hmem; simp at hmem
    | some t =>
      rw [ht] at hmem
      simp only [ChVehicleCosimTireNodeRigid.cornerEntries, List.mem_map, List.mem_filter, List.mem_cons,
        List.mem_singleton, decide_eq_true_eq] at hmem
      obtain ⟨c, ⟨hc, hcv⟩, hje⟩ := hmem
      subst hje
      refine ⟨hj, t, ht, ?_⟩
      simp only [List.not_mem_nil, or_false] at hc
      rcases hc with h | h | h
      · left; rw [← h]; exact hcv
      · right; left; rw [← h]; exact hcv
      · right; right; rw [← h]; exact hcv
  · rintro ⟨hk, t, ht, hc⟩
    refine ⟨ie, hk, ?_⟩
    rw [ht]
    simp only [ChVehicleCosimTireNodeRigid.cornerEntries, List.mem_map, List.mem_filter, List.mem_cons,
      List.mem_singleton, decide_eq_true_eq, List.not_mem_nil, or_false]
    rcases hc with h | h | h
    · exact ⟨t.x, ⟨Or.inl rfl, h⟩, trivial⟩
    · exact ⟨t.y, ⟨Or.inr (Or.inl rfl), h⟩, trivial⟩
    · exact ⟨t.z, ⟨Or.inr (Or.inr rfl), h⟩, trivial⟩

theorem incidentTriangles_sorted (idx_verts : List (ChVector Int)) (v k : Nat) :
    (ChVehicleCosimTireNodeRigid.incidentTriangles idx_verts v k).Pairwise (fun a b => a ≤ b) := by
  induction k with
  | zero => simp [ChVehicleCosimTireNodeRigid.incidentTriangles]
  | succ n ih =>
    have hlt : ∀ a ∈ ChVehicleCosimTireNodeRigid.incidentTriangles idx_verts v n, a < n := fun a ha =>
      ((mem_incidentTriangles idx_verts v n a).mp ha).1
    cases ht : idx_verts[n]? with
    | none =>
      have : ChVehicleCosimTireNodeRigid.incidentTriangles idx_verts v (n + 1) = ChVehicleCosimTireNodeRigid.incidentTriangles idx_verts v n := by
        unfold ChVehicleCosimTireNodeRigid.incidentTriangles
        rw [List.range_succ, List.flatMap_append]
        simp [ht]
      rw [this]
      exact ih
    | some t =>
      rw [incidentTriangles_succ idx_verts v n t ht, List.append_assoc, List.append_assoc]
      rw [List.pairwise_append]
      refine ⟨ih, ?_, ?_⟩
      · by_cases h1 : t.x = (v : Int) <;> by_cases h2 : t.y = (v : Int) <;>
          by_cases h3 : t.z = (v : Int) <;> simp [h1, h2, h3]
      · intro a ha b hb
        have hb' : b = n := by
          by_cases h1 : t.x = (v : Int) <;> by_cases h2 : t.y = (v : Int) <;>
            by_cases h3 : t.z = (v : Int) <;> simp [h1, h2, h3] at hb <;> exact hb
        have := hlt a ha
        omega

theorem triangleAreaOf_some (area : ChVector D → ChVector D → ChVector D → D) (m : MeshData D)
    (hverts : m.nv ≤ m.verts.length)
    (hidx : ∀ t ∈ m.idx_verts, (0 ≤ t.x ∧ t.x < m.nv) ∧ (0 ≤ t.y ∧ t.y < m.nv) ∧
      (0 ≤ t.z ∧ t.z < m.nv))
    (k : Nat) (hk : k < m.idx_verts.length) :
    ∃ a, ChVehicleCosimTireNodeRigid.triangleAreaOf area m k = some a := by
  obtain ⟨⟨hx0, hx⟩, ⟨hy0, hy⟩, ⟨hz0, hz⟩⟩ := hidx _ (List.getElem_mem hk)
  have h1 : m.idx_verts[k].x.toNat < m.verts.length := by omega
  have h2 : m.idx_verts[k].y.toNat < m.verts.length := by omega
  have h3 : m.idx_verts[k].z.toNat < m.verts.length := by omega
  refine ⟨area m.verts[m.idx_verts[k].x.toNat] m.verts[m.idx_verts[k].y.toNat]
    m.verts[m.idx_verts[k].z.toNat], ?_⟩
  simp only [ChVehicleCosimTireNodeRigid.triangleAreaOf, List.getElem?_eq_getElem hk, ChVehicleCosimTireNodeRigid.atInt, hx0, hy0, hz0, if_true,
    List.getElem?_eq_getElem h1, List.getElem?_eq_getElem h2, List.getElem?_eq_getElem h3]

/-- The first loop of `InitializeTire`: it completes, every vertex gets the
list of its incident triangles, and `triArea` the areas of the triangles. -/
theorem InitializeTire_triangles (area : ChVector D → ChVector D → ChVector D → D)
    (m : MeshData D) (hconn : m.idx_verts.length = m.nt) (hverts : m.nv ≤ m.verts.length)
    (hidx : ∀ t ∈ m.idx_verts, (0 ≤ t.x ∧ t.x < m.nv) ∧ (0 ≤ t.y ∧ t.y < m.nv) ∧
      (0 ≤ t.z ∧ t.z < m.nv))
    (st : ChVehicleCosimTireNodeRigid.TriangleLoop D) (hadj : st.m_adjElements = List.replicate m.nv [])
    (htri : st.triArea.length = m.nt) :
    (forLoop (ChVehicleCosimTireNodeRigid.InitializeTire_triangle area m) m.nt 0 st).fault = none ∧
    (forLoop (ChVehicleCosimTireNodeRigid.InitializeTire_triangle area m) m.nt 0 st).state.m_adjElements.length = m.nv ∧
    (forLoop (ChVehicleCosimTireNodeRigid.InitializeTire_triangle area m) m.nt 0 st).state.triArea.length = m.nt ∧
    ((forLoop (ChVehicleCosimTireNodeRigid.InitializeTire_triangle area m) m.nt 0 st).state.m_adjElements.map
        List.length).sum = 3 * m.nt ∧
    (∀ v, v < m.nv →
      (forLoop (ChVehicleCosimTireNodeRigid.InitializeTire_triangle area m) m.nt 0 st).state.m_adjElements[v]?
        = some (ChVehicleCosimTireNodeRigid.incidentTriangles m.idx_verts v m.nt)) ∧
    (∀ j, j < m.nt → ∃ a, ChVehicleCosimTireNodeRigid.triangleAreaOf area m j = some a ∧
      (forLoop (ChVehicleCosimTireNodeRigid.InitializeTire_triangle area m) m.nt 0 st).state.triArea[j]? = some a) := by
  have key := forLoop_inv (ChVehicleCosimTireNodeRigid.InitializeTire_triangle area m)
    (fun k (u : ChVehicleCosimTireNodeRigid.TriangleLoop D) => u.m_adjElements.length = m.nv ∧ u.triArea.length = m.nt ∧
      (u.m_adjElements.map List.length).sum = 3 * k ∧
      (∀ v, v < m.nv → u.m_adjElements[v]? = some (ChVehicleCosimTireNodeRigid.incidentTriangles m.idx_verts v k)) ∧
      (∀ j, j < k → ∃ a, ChVehicleCosimTireNodeRigid.triangleAreaOf area m j = some a ∧ u.triArea[j]? = some a))
    m.nt
    (by
      intro k u hk ⟨hl, htl, hsum, hinc, har⟩
      have hk' : k < m.idx_verts.length := by omega
      obtain ⟨a, ha⟩ := triangleAreaOf_some area m hverts hidx k hk'
      obtain ⟨⟨hx0, hx⟩, ⟨hy0, hy⟩, ⟨hz0, hz⟩⟩ := hidx _ (List.getElem_mem hk')
      have hget : m.idx_verts[k]? = some m.idx_verts[k] := List.getElem?_eq_getElem hk'
      obtain ⟨adj1, hp1, hl1, hs1, hg1⟩ := pushAt_spec u.m_adjElements m.idx_verts[k].x k hx0
        (by omega)
      obtain ⟨adj2, hp2, hl2, hs2, hg2⟩ := pushAt_spec adj1 m.idx_verts[k].y k hy0 (by omega)
      obtain ⟨adj3, hp3, hl3, hs3, hg3⟩ := pushAt_spec adj2 m.idx_verts[k].z k hz0 (by omega)
      have hassign : ChFsiInterface.assignAt u.triArea k a = some (u.triArea.set k a) := by
        simp [ChFsiInterface.assignAt, htl, hk]
      simp only [ChVehicleCosimTireNodeRigid.InitializeTire_triangle, hget, ha, hassign, hp1, hp2, hp3, Outcome.ok,
        true_and]
      refine ⟨by omega, by simp [htl], by omega, ?_, ?_⟩
      · intro v hv
        rw [hg3 v _ (hg2 v _ (hg1 v _ (hinc v hv))),
          incidentTriangles_succ m.idx_verts v k _ hget]
      · intro j hj
        by_cases hjk : j = k
        · subst hjk
          exact ⟨a, ha, by rw [List.getElem?_set_self (by omega)]⟩
        · obtain ⟨b, hb1, hb2⟩ := har j (by omega)
          exact ⟨b, hb1, by rw [List.getElem?_set_ne (Ne.symm hjk), hb2]⟩)
    m.nt 0 st (by omega)
    ⟨by rw [hadj]; simp, htri, by rw [hadj]; simp,
      by
        intro v hv
        rw [hadj]
        simp [ChVehicleCosimTireNodeRigid.incidentTriangles, hv],
      by intro j hj; omega⟩
  rw [Nat.zero_add] at key
  exact ⟨key.1, key.2.1, key.2.2.1, key.2.2.2.1, key.2.2.2.2.1, key.2.2.2.2.2⟩

theorem sumAreas_spec [Add D] (triArea : List D) (f : Nat → Option D) :
    ∀ (adj : List Nat) (acc : D),
      (∀ ie ∈ adj, ∃ a, f ie = some a ∧ triArea[ie]? = some a) →
      ∃ areas : List D, adj.map f = areas.map some ∧
        ChVehicleCosimTireNodeRigid.sumAreas triArea adj acc = some (areas.foldl (fun acc a => acc + a) acc) := by
  intro adj
  induction adj with
  | nil =>
    intro acc _
    exact ⟨[], rfl, rfl⟩
  | cons ie rest ih =>
    intro acc h
    obtain ⟨a, ha1, ha2⟩ := h ie (List.mem_cons_self _ _)
    obtain ⟨areas, h1, h2⟩ := ih (acc + a) (fun x hx => h x (List.mem_cons_of_mem _ hx))
    refine ⟨a :: areas, ?_, ?_⟩
    · simp [ha1, h1]
    · simp only [ChVehicleCosimTireNodeRigid.sumAreas, ha2, h2, List.foldl_cons]

/-- The second loop of `InitializeTire`: it completes, keeps the adjacency
lists, and stores for every vertex the mean of the areas of the triangles in
its list. -/
theorem InitializeTire_vertices [Zero D] [Add D] [Div D] [NatCast D] (triArea : List D)
    (f : Nat → Option D) (nv : Nat) (s2 : ChVehicleCosimTireNodeRigid D)
    (hl : s2.m_adjElements.length = nv) (hva : s2.m_vertexArea.length = nv)
    (hadj : ∀ (v : Nat) (adj : List Nat), s2.m_adjElements[v]? = some adj →
      ∀ ie ∈ adj, ∃ a, f ie = some a ∧ triArea[ie]? = some a) :
    (forLoop (ChVehicleCosimTireNodeRigid.InitializeTire_vertex triArea) nv 0 s2).fault = none ∧
    (forLoop (ChVehicleCosimTireNodeRigid.InitializeTire_vertex triArea) nv 0 s2).state.m_adjElements
      = s2.m_adjElements ∧
    (forLoop (ChVehicleCosimTireNodeRigid.InitializeTire_vertex triArea) nv 0 s2).state.m_vertexArea.length = nv ∧
    ∀ j, j < nv → ∃ (adj : List Nat) (areas : List D), s2.m_adjElements[j]? = some adj ∧
      adj.map f = areas.map some ∧
      (forLoop (ChVehicleCosimTireNodeRigid.InitializeTire_vertex triArea) nv 0 s2).state.m_vertexArea[j]?
        = some (ChVehicleCosimTireNodeRigid.arithmeticMean areas) := by
  have key := forLoop_inv (ChVehicleCosimTireNodeRigid.InitializeTire_vertex triArea)
    (fun i (u : ChVehicleCosimTireNodeRigid D) => u.m_adjElements = s2.m_adjElements ∧
      u.m_vertexArea.length = nv ∧
      ∀ j, j < i → ∃ (adj : List Nat) (areas : List D), s2.m_adjElements[j]? = some adj ∧
        adj.map f = areas.map some ∧ u.m_vertexArea[j]? = some (ChVehicleCosimTireNodeRigid.arithmeticMean areas))
    nv
    (by
      intro i u hi ⟨hu, hul, hprev⟩
      have hi' : i < s2.m_adjElements.length := by omega
      have hget : s2.m_adjElements[i]? = some s2.m_adjElements[i] :=
        List.getElem?_eq_getElem hi'
      obtain ⟨areas, h1, h2⟩ := sumAreas_spec triArea f s2.m_adjElements[i] 0
        (hadj i _ hget)
      have hlen : s2.m_adjElements[i].length = areas.length := by
        have := congrArg List.length h1
        simpa using this
      have hassign : ∀ x, ChFsiInterface.assignAt u.m_vertexArea i x
          = some (u.m_vertexArea.set i x) := by
        intro x
        simp [ChFsiInterface.assignAt, hul, hi]
      simp only [ChVehicleCosimTireNodeRigid.InitializeTire_vertex, hu, hget, h2, hassign, Outcome.ok, true_and]
      refine ⟨by simp [hul], ?_⟩
      intro j hj
      by_cases hji : j = i
      · subst hji
        refine ⟨_, areas, hget, h1, ?_⟩
        rw [List.getElem?_set_self (by omega), hlen]
        rfl
      · obtain ⟨adj, ar, g1, g2, g3⟩ := hprev j (by omega)
        exact ⟨adj, ar, g1, g2, by rw [List.getElem?_set_ne (Ne.symm hji), g3]⟩)
    nv 0 s2 (by omega) ⟨rfl, hva, by intro j hj; omega⟩
  rw [Nat.zero_add] at key
  exact ⟨key.1, key.2.1, key.2.2.1, key.2.2.2⟩

/-- C20. For a newly constructed node (no adjacency lists yet) and a tire
mesh with `nv` vertices and `nt` triangles whose triangle vertex indices are
all at least 0 and below `nv`, `InitializeTire` completes and stores, for each
vertex `v`, the list of the indices of the triangles that have `v` as a
corner, in increasing order (a triangle is listed once for each of its corners
that is `v`); the lengths of these lists sum to `3 * nt`; and the
representative area stored for `v` is the arithmetic mean of the areas of the
triangles in its list: their sum, taken in the order of the list, divided by
their number. -/
theorem InitializeTire_adjacency_and_area [Zero D] [Add D] [Div D] [NatCast D]
    (area : ChVector D → ChVector D → ChVector D → D) (s : ChVehicleCosimTireNodeRigid D)
    (hfresh : s.m_adjElements = [])
    (hverts : s.m_tire.MeshVertices.length = s.m_tire.NumVertices)
    (hconn : s.m_tire.MeshConnectivity.length = s.m_tire.NumTriangles)
    (hidx : ∀ t ∈ s.m_tire.MeshConnectivity,
      (0 ≤ t.x ∧ t.x < (s.m_tire.NumVertices : Int)) ∧
      (0 ≤ t.y ∧ t.y < (s.m_tire.NumVertices : Int)) ∧
      (0 ≤ t.z ∧ t.z < (s.m_tire.NumVertices : Int))) :
    (ChVehicleCosimTireNodeRigid.InitializeTire area s).fault = none ∧
    (ChVehicleCosimTireNodeRigid.InitializeTire area s).state.m_adjElements.length
      = s.m_tire.NumVertices ∧
    (ChVehicleCosimTireNodeRigid.InitializeTire area s).state.m_vertexArea.length
      = s.m_tire.NumVertices ∧
    ((ChVehicleCosimTireNodeRigid.InitializeTire area s).state.m_adjElements.map
        List.length).sum = 3 * s.m_tire.NumTriangles ∧
    ∀ v, v < s.m_tire.NumVertices → ∃ (adj : List Nat) (areas : List D),
      (ChVehicleCosimTireNodeRigid.InitializeTire area s).state.m_adjElements[v]? = some adj ∧
      adj = ChVehicleCosimTireNodeRigid.incidentTriangles s.m_tire.MeshConnectivity v
          s.m_tire.NumTriangles ∧
      adj.Pairwise (fun a b => a ≤ b) ∧
      (∀ ie, ie ∈ adj ↔ ie < s.m_tire.NumTriangles ∧
        ∃ t, s.m_tire.MeshConnectivity[ie]? = some t ∧
          (t.x = (v : Int) ∨ t.y = (v : Int) ∨ t.z = (v : Int))) ∧
      adj.map (ChVehicleCosimTireNodeRigid.triangleAreaOf area
          (ChVehicleCosimTireNodeRigid.meshDataOf s.m_tire)) = areas.map some ∧
      (ChVehicleCosimTireNodeRigid.InitializeTire area s).state.m_vertexArea[v]?
        = some (ChVehicleCosimTireNodeRigid.arithmeticMean areas) := by
  obtain ⟨h1, h2, h3, h4, h5, h6⟩ := InitializeTire_triangles area
    (ChVehicleCosimTireNodeRigid.meshDataOf s.m_tire) hconn (le_of_eq hverts.symm) hidx
    { m_adjElements := resizeList [] s.m_tire.NumVertices s.m_adjElements,
      triArea := List.replicate s.m_tire.NumTriangles 0 }
    (by simp [hfresh, resizeList, ChVehicleCosimTireNodeRigid.meshDataOf])
    (by simp [ChVehicleCosimTireNodeRigid.meshDataOf])
  unfold ChVehicleCosimTireNodeRigid.InitializeTire
  simp only []
  simp only [ChVehicleCosimTireNodeRigid.meshDataOf] at h1 h2 h3 h4 h5 h6 ⊢
  generalize hloop : forLoop _ s.m_tire.NumTriangles 0
      ({ m_adjElements := resizeList [] s.m_tire.NumVertices s.m_adjElements,
         triArea := List.replicate s.m_tire.NumTriangles 0 } :
        ChVehicleCosimTireNodeRigid.TriangleLoop D) = r at h1 h2 h3 h4 h5 h6 ⊢
  cases r with
  | mk flt st =>
    simp only at h1 h2 h3 h4 h5 h6
    subst h1
    simp only []
    obtain ⟨g1, g2, g3, g4⟩ := InitializeTire_vertices st.triArea
      (ChVehicleCosimTireNodeRigid.triangleAreaOf area
        { nv := s.m_tire.NumVertices, nn := s.m_tire.NumNormals, nt := s.m_tire.NumTriangles,
          verts := s.m_tire.MeshVertices, norms := s.m_tire.MeshNormals,
          idx_verts := s.m_tire.MeshConnectivity, idx_norms := s.m_tire.MeshNormalIndices })
      s.m_tire.NumVertices
      { s with
        m_mesh_data :=
          { nv := s.m_tire.NumVertices, nn := s.m_tire.NumNormals, nt := s.m_tire.NumTriangles,
            verts := s.m_tire.MeshVertices, norms := s.m_tire.MeshNormals,
            idx_verts := s.m_tire.MeshConnectivity, idx_norms := s.m_tire.MeshNormalIndices },
        m_adjElements := st.m_adjElements,
        m_vertexArea := resizeList 0 s.m_tire.NumVertices s.m_vertexArea }
      h2 (length_resizeList _ _ _)
      (by
        intro v adj hv ie hie
        have hvlt : v < s.m_tire.NumVertices := by
          rcases Nat.lt_or_ge v st.m_adjElements.length with h | h
          · omega
          · simp only at hv
            rw [List.getElem?_eq_none h] at hv
            exact absurd hv (by simp)
        simp only at hv
        rw [h5 v hvlt] at hv
        cases hv
        exact h6 ie ((mem_incidentTriangles _ _ _ _).mp hie).1)
    refine ⟨g1, ?_, g3, ?_, ?_⟩
    · rw [g2]
      exact h2
    · rw [g2]
      exact h4
    · intro v hv
      obtain ⟨adj, areas, k1, k2, k3⟩ := g4 v hv
      simp only at k1
      rw [h5 v hv] at k1
      cases k1
      refine ⟨_, areas, ?_, rfl, incidentTriangles_sorted _ _ _, ?_, k2, k3⟩
      · rw [g2]
        exact h5 v hv
      · intro ie
        exact mem_incidentTriangles _ _ _ _

end tire

/-! ## Rows and headers of the CSV files -/

section csvrows

variable {D : Type}

theorem FSI_body_row_columns (time : D) (pos : ChVector D) (rot : ChQuaternion D)
    (vel mforce mtorque : ChVector D) :
    RowMatchesHeader "," ChFsiInterface.FSI_body_header
      (ChFsiInterface.FSI_body_row time pos rot vel mforce mtorque)
      [("Time", time), ("x", pos.x), ("y", pos.y), ("z", pos.z), ("q0", rot.e0), ("q1", rot.e1),
       ("q2", rot.e2), ("q3", rot.e3), ("Vx", vel.x), ("Vy", vel.y), ("Vz", vel.z),
       ("Fx", mforce.x), ("Fy", mforce.y), ("Fz", mforce.z), ("Tx", mtorque.x),
       ("Ty", mtorque.y), ("Tz", mtorque.z)] := by
  simp [RowMatchesHeader, ChFsiInterface.FSI_body_header, ChFsiInterface.FSI_body_row,
    ChFsiInterface.delim, splitFields, fieldsNamed]

theorem FSI_node_row_columns (time : D) (pos vel mforce : ChVector D) :
    RowMatchesHeader "," ChFsiInterface.FSI_node_header
      (ChFsiInterface.FSI_node_row time pos vel mforce)
      [("Time", time), ("x", pos.x), ("y", pos.y), ("z", pos.z), ("Vx", vel.x), ("Vy", vel.y),
       ("Vz", vel.z), ("Fx", mforce.x), ("Fy", mforce.y), ("Fz", mforce.z)] := by
  simp [RowMatchesHeader, ChFsiInterface.FSI_node_header, ChFsiInterface.FSI_node_row,
    ChFsiInterface.delim, splitFields, fieldsNamed]

theorem body_pos_rot_vel_row_columns (time : D) (pos : ChVector D) (rot : ChQuaternion D)
    (vel : ChVector D) :
    RowMatchesHeader "," demo_ROBOT_Viper_SPH.body_pos_rot_vel_header
      (demo_ROBOT_Viper_SPH.body_pos_rot_vel_row time pos rot vel)
      [("Time", time), ("x", pos.x), ("y", pos.y), ("z", pos.z), ("q0", rot.e0), ("q1", rot.e1),
       ("q2", rot.e2), ("q3", rot.e3), ("Vx", vel.x), ("Vy", vel.y), ("Vz", vel.z)] := by
  simp [RowMatchesHeader, demo_ROBOT_Viper_SPH.body_pos_rot_vel_header,
    demo_ROBOT_Viper_SPH.body_pos_rot_vel_row, demo_ROBOT_Viper_SPH.delim, splitFields,
    fieldsNamed]

/-- The iteration of `Add_Rigid_ForceTorques_To_ChSystem` for FSI body `i`,
when it completes with output enabled, writes the row of the time, of the
state of the body and of the fluid force and torque. -/
theorem Add_Rigid_ForceTorques_To_ChSystem_body_row {R3 R4 : Type} [LinearOrder D] [Zero D]
    (cv : ChUtilsTypeConvert D R3 R4) (acc : ChBodyAccumulators D) (i : Nat)
    (s s1 : ChFsiInterface D R3 R4)
    (hrun : ChFsiInterface.Add_Rigid_ForceTorques_To_ChSystem_body cv acc i s = ⟨none, s1⟩)
    (hout : s.output_fsi = true) :
    ∃ (r : Nat) (body : ChBody D) (F T : R3), s.fsi_bodies[i]? = some r ∧
      s1.bodylist[r]? = some body ∧ s.rigid_FSI_ForcesD[i]? = some F ∧
      s.rigid_FSI_TorquesD[i]? = some T ∧
      s1.files = s.files ++
        [csvEpisode (ChFsiInterface.FSI_body_filename s.outdir i) s.ChTime
          ChFsiInterface.FSI_body_header
          (ChFsiInterface.FSI_body_row s.ChTime body.pos body.rot body.pos_dt
            (cv.Real3ToChVector F) (cv.Real3ToChVector T))] := by
  unfold ChFsiInterface.Add_Rigid_ForceTorques_To_ChSystem_body at hrun
  split at hrun
  · rename_i F T r hF hT hr
    split at hrun
    · simp [Outcome.stop] at hrun
    · rename_i body0 hb
      simp only [hout, if_true, Outcome.ok, Outcome.mk.injEq, true_and] at hrun
      subst hrun
      have hlt : r < s.bodylist.length := by
        rcases Nat.lt_or_ge r s.bodylist.length with h | h
        · exact h
        · rw [List.getElem?_eq_none h] at hb
          exact absurd hb (by simp)
      exact ⟨r, _, F, T, hr, List.getElem?_set_self hlt, hF, hT, rfl⟩
  · simp [Outcome.stop] at hrun

/-- The iteration of `Add_Flex_Forces_To_ChSystem` for node `i`, when it
completes with output enabled, writes the row of the time, of the state of the
node and of the fluid force. -/
theorem Add_Flex_Forces_To_ChSystem_body_row {R3 R4 : Type} [LinearOrder D] [Zero D]
    (cv : ChUtilsTypeConvert D R3 R4) (i : Nat) (s s1 : ChFsiInterface D R3 R4)
    (hrun : ChFsiInterface.Add_Flex_Forces_To_ChSystem_body cv i s = ⟨none, s1⟩)
    (hout : s.output_fsi = true) :
    ∃ (node : ChNodeFEAxyzD D) (F : R3), s1.fsi_mesh[i]? = some node ∧
      s.Flex_FSI_ForcesD[i]? = some F ∧ node.force = cv.Real3ToChVector F ∧
      s1.files = s.files ++
        [csvEpisode (ChFsiInterface.FSI_node_filename s.outdir i) s.ChTime
          ChFsiInterface.FSI_node_header
          (ChFsiInterface.FSI_node_row s.ChTime node.pos node.pos_dt (cv.Real3ToChVector F))] := by
  unfold ChFsiInterface.Add_Flex_Forces_To_ChSystem_body at hrun
  split at hrun
  · rename_i F node0 hF hn
    simp only [hout, if_true, Outcome.ok, Outcome.mk.injEq, true_and] at hrun
    subst hrun
    have hlt : i < s.fsi_mesh.length := by
      rcases Nat.lt_or_ge i s.fsi_mesh.length with h | h
      · exact h
      · rw [List.getElem?_eq_none h] at hn
        exact absurd hn (by simp)
    exact ⟨_, F, List.getElem?_set_self hlt, hF, rfl, rfl⟩
  · simp [Outcome.stop] at hrun

/-- The iteration of the block "save rigid body position and rotation" for
body `i`, when it completes, writes the row of the time and of the state of
the body. -/
theorem saveBodyCsv_row [LinearOrder D] [Zero D] (env : demo_ROBOT_Viper_SPH.Environment D)
    (bodylist : List (ChBody D)) (ChTime : D) (i : Nat) (s s1 : demo_ROBOT_Viper_SPH.State D)
    (hrun : demo_ROBOT_Viper_SPH.saveBodyCsv env bodylist ChTime i s = ⟨none, s1⟩) :
    ∃ body : ChBody D, bodylist[i]? = some body ∧
      s1.files = s.files ++
        [csvEpisode (demo_ROBOT_Viper_SPH.body_pos_rot_vel_filename env.out_dir i) ChTime
          demo_ROBOT_Viper_SPH.body_pos_rot_vel_header
          (demo_ROBOT_Viper_SPH.body_pos_rot_vel_row ChTime body.frame_REF_to_abs.pos
            body.frame_REF_to_abs.rot body.pos_dt)] := by
  unfold demo_ROBOT_Viper_SPH.saveBodyCsv at hrun
  split at hrun
  · simp [Outcome.stop] at hrun
  · rename_i body hb
    simp only [Outcome.ok, Outcome.mk.injEq, true_and] at hrun
    subst hrun
    exact ⟨body, hb, rfl⟩

/-- C21. In each of the three CSV writers the header row and every data row
have the same number of comma-separated fields, and the data row lists its
values in the order in which the header names them: 17 fields in
`FSI_body<i>.csv` (time, position, orientation quaternion, linear velocity,
force, torque), 10 in `FSI_node<i>.csv` (time, position, velocity, force) and
11 in `body_pos_rot_vel<i>.csv` (time, position, orientation quaternion,
linear velocity).  The row that an iteration of a writer adds to its file is
the row of the simulation time and of the state of the body or node it
treats, and the iteration completes and adds this row whenever the arrays it
reads cover the index it treats (and, for the two writers of the FSI
interface, output is enabled). -/
theorem csv_rows_match_headers {R3 R4 : Type} [LinearOrder D] [Zero D] :
    (∀ (time : D) (pos : ChVector D) (rot : ChQuaternion D) (vel mforce mtorque : ChVector D),
      RowMatchesHeader "," ChFsiInterface.FSI_body_header
        (ChFsiInterface.FSI_body_row time pos rot vel mforce mtorque)
        [("Time", time), ("x", pos.x), ("y", pos.y), ("z", pos.z), ("q0", rot.e0),
         ("q1", rot.e1), ("q2", rot.e2), ("q3", rot.e3), ("Vx", vel.x), ("Vy", vel.y),
         ("Vz", vel.z), ("Fx", mforce.x), ("Fy", mforce.y), ("Fz", mforce.z),
         ("Tx", mtorque.x), ("Ty", mtorque.y), ("Tz", mtorque.z)] ∧
      (splitFields "," (ChFsiInterface.FSI_body_header : Line D)).length = 17 ∧
      (splitFields "," (ChFsiInterface.FSI_body_row time pos rot vel mforce mtorque)).length
        = 17) ∧
    (∀ (time : D) (pos vel mforce : ChVector D),
      RowMatchesHeader "," ChFsiInterface.FSI_node_header
        (ChFsiInterface.FSI_node_row time pos vel mforce)
        [("Time", time), ("x", pos.x), ("y", pos.y), ("z", pos.z), ("Vx", vel.x),
         ("Vy", vel.y), ("Vz", vel.z), ("Fx", mforce.x), ("Fy", mforce.y), ("Fz", mforce.z)] ∧
      (splitFields "," (ChFsiInterface.FSI_node_header : Line D)).length = 10 ∧
      (splitFields "," (ChFsiInterface.FSI_node_row time pos vel mforce)).length = 10) ∧
    (∀ (time : D) (pos : ChVector D) (rot : ChQuaternion D) (vel : ChVector D),
      RowMatchesHeader "," demo_ROBOT_Viper_SPH.body_pos_rot_vel_header
        (demo_ROBOT_Viper_SPH.body_pos_rot_vel_row time pos rot vel)
        [("Time", time), ("x", pos.x), ("y", pos.y), ("z", pos.z), ("q0", rot.e0),
         ("q1", rot.e1), ("q2", rot.e2), ("q3", rot.e3), ("Vx", vel.x), ("Vy", vel.y),
         ("Vz", vel.z)] ∧
      (splitFields "," (demo_ROBOT_Viper_SPH.body_pos_rot_vel_header : Line D)).length = 11 ∧
      (splitFields "," (demo_ROBOT_Viper_SPH.body_pos_rot_vel_row time pos rot vel)).length
        = 11) ∧
    (∀ (cv : ChUtilsTypeConvert D R3 R4) (acc : ChBodyAccumulators D) (i : Nat)
        (s s1 : ChFsiInterface D R3 R4),
      ChFsiInterface.Add_Rigid_ForceTorques_To_ChSystem_body cv acc i s = ⟨none, s1⟩ →
      s.output_fsi = true →
      ∃ (r : Nat) (body : ChBody D) (F T : R3), s.fsi_bodies[i]? = some r ∧
        s1.bodylist[r]? = some body ∧ s.rigid_FSI_ForcesD[i]? = some F ∧
        s.rigid_FSI_TorquesD[i]? = some T ∧
        s1.files = s.files ++
          [csvEpisode (ChFsiInterface.FSI_body_filename s.outdir i) s.ChTime
            ChFsiInterface.FSI_body_header
            (ChFsiInterface.FSI_body_row s.ChTime body.pos body.rot body.pos_dt
              (cv.Real3ToChVector F) (cv.Real3ToChVector T))]) ∧
    (∀ (cv : ChUtilsTypeConvert D R3 R4) (i : Nat) (s s1 : ChFsiInterface D R3 R4),
      ChFsiInterface.Add_Flex_Forces_To_ChSystem_body cv i s = ⟨none, s1⟩ →
      s.output_fsi = true →
      ∃ (node : ChNodeFEAxyzD D) (F : R3), s1.fsi_mesh[i]? = some node ∧
        s.Flex_FSI_ForcesD[i]? = some F ∧ node.force = cv.Real3ToChVector F ∧
        s1.files = s.files ++
          [csvEpisode (ChFsiInterface.FSI_node_filename s.outdir i) s.ChTime
            ChFsiInterface.FSI_node_header
            (ChFsiInterface.FSI_node_row s.ChTime node.pos node.pos_dt
              (cv.Real3ToChVector F))]) ∧
    (∀ (env : demo_ROBOT_Viper_SPH.Environment D) (bodylist : List (ChBody D)) (ChTime : D)
        (i : Nat) (s s1 : demo_ROBOT_Viper_SPH.State D),
      demo_ROBOT_Viper_SPH.saveBodyCsv env bodylist ChTime i s = ⟨none, s1⟩ →
      ∃ body : ChBody D, bodylist[i]? = some body ∧
        s1.files = s.files ++
          [csvEpisode (demo_ROBOT_Viper_SPH.body_pos_rot_vel_filename env.out_dir i) ChTime
            demo_ROBOT_Viper_SPH.body_pos_rot_vel_header
            (demo_ROBOT_Viper_SPH.body_pos_rot_vel_row ChTime body.frame_REF_to_abs.pos
              body.frame_REF_to_abs.rot body.pos_dt)]) ∧
    (∀ (cv : ChUtilsTypeConvert D R3 R4) (acc : ChBodyAccumulators D) (i r : Nat)
        (s : ChFsiInterface D R3 R4) (F T : R3) (body0 : ChBody D),
      s.rigid_FSI_ForcesD[i]? = some F → s.rigid_FSI_TorquesD[i]? = some T →
      s.fsi_bodies[i]? = some r → s.bodylist[r]? = some body0 → s.output_fsi = true →
      (ChFsiInterface.Add_Rigid_ForceTorques_To_ChSystem_body cv acc i s).fault = none ∧
      ∃ body : ChBody D,
        (ChFsiInterface.Add_Rigid_ForceTorques_To_ChSystem_body cv acc i s).state.bodylist[r]?
          = some body ∧
        (ChFsiInterface.Add_Rigid_ForceTorques_To_ChSystem_body cv acc i s).state.files
          = s.files ++
            [csvEpisode (ChFsiInterface.FSI_body_filename s.outdir i) s.ChTime
              ChFsiInterface.FSI_body_header
              (ChFsiInterface.FSI_body_row s.ChTime body.pos body.rot body.pos_dt
                (cv.Real3ToChVector F) (cv.Real3ToChVector T))]) ∧
    (∀ (cv : ChUtilsTypeConvert D R3 R4) (i : Nat) (s : ChFsiInterface D R3 R4) (F : R3)
        (node0 : ChNodeFEAxyzD D),
      s.Flex_FSI_ForcesD[i]? = some F → s.fsi_mesh[i]? = some node0 → s.output_fsi = true →
      (ChFsiInterface.Add_Flex_Forces_To_ChSystem_body cv i s).fault = none ∧
      (ChFsiInterface.Add_Flex_Forces_To_ChSystem_body cv i s).state.files
        = s.files ++
          [csvEpisode (ChFsiInterface.FSI_node_filename s.outdir i) s.ChTime
            ChFsiInterface.FSI_node_header
            (ChFsiInterface.FSI_node_row s.ChTime node0.pos node0.pos_dt
              (cv.Real3ToChVector F))]) ∧
    (∀ (env : demo_ROBOT_Viper_SPH.Environment D) (bodylist : List (ChBody D)) (ChTime : D)
        (i : Nat) (s : demo_ROBOT_Viper_SPH.State D) (body : ChBody D),
      bodylist[i]? = some body →
      (demo_ROBOT_Viper_SPH.saveBodyCsv env bodylist ChTime i s).fault = none ∧
      (demo_ROBOT_Viper_SPH.saveBodyCsv env bodylist ChTime i s).state.files
        = s.files ++
          [csvEpisode (demo_ROBOT_Viper_SPH.body_pos_rot_vel_filename env.out_dir i) ChTime
            demo_ROBOT_Viper_SPH.body_pos_rot_vel_header
            (demo_ROBOT_Viper_SPH.body_pos_rot_vel_row ChTime body.frame_REF_to_abs.pos
              body.frame_REF_to_abs.rot body.pos_dt)]) := by
  refine ⟨fun time pos rot vel mforce mtorque => ?_, fun time pos vel mforce => ?_,
    fun time pos rot vel => ?_, Add_Rigid_ForceTorques_To_ChSystem_body_row,
    Add_Flex_Forces_To_ChSystem_body_row, saveBodyCsv_row,
    Add_Rigid_ForceTorques_To_ChSystem_body_writes,
    Add_Flex_Forces_To_ChSystem_body_writes, saveBodyCsv_writes⟩
  · have h := FSI_body_row_columns time pos rot vel mforce mtorque
    exact ⟨h, h.2.2.1, h.2.2.2⟩
  · have h := FSI_node_row_columns time pos vel mforce
    exact ⟨h, h.2.2.1, h.2.2.2⟩
  · have h := body_pos_rot_vel_row_columns time pos rot vel
    exact ⟨h, h.2.2.1, h.2.2.2⟩

end csvrows

/-! ## Mirroring the rigid bodies and back -/

section roundtrip

variable {D R3 R4 : Type}

theorem getElem?_set_cases {α : Type} (l : List α) (i j : Nat) (a x : α) (hi : i < l.length)
    (h : (j = i → x = a) ∧ (j ≠ i → l[j]? = some x)) : (l.set i a)[j]? = some x := by
  by_cases hji : j = i
  · subst hji
    rw [List.getElem?_set_self hi, h.1 rfl]
  · rw [List.getElem?_set_ne (Ne.symm hji)]
    exact h.2 hji

theorem Copy_ChSystem_to_External_bodies (cv : ChUtilsTypeConvert D R3 R4)
    (s : ChFsiInterface D R3 R4) (bodylist : List (ChBody D)) (hb : s.bodylist = bodylist)
    (h0 : BackupHolds cv bodylist 0 s.rigid_backup) :
    (forLoop (ChFsiInterface.Copy_ChSystem_to_External_body cv) bodylist.length 0 s).fault
      = none ∧
    (forLoop (ChFsiInterface.Copy_ChSystem_to_External_body cv) bodylist.length 0
        s).state.bodylist = bodylist ∧
    (forLoop (ChFsiInterface.Copy_ChSystem_to_External_body cv) bodylist.length 0
        s).state.fsi_mesh = s.fsi_mesh ∧
    (forLoop (ChFsiInterface.Copy_ChSystem_to_External_body cv) bodylist.length 0
        s).state.flex_backup = s.flex_backup ∧
    BackupHolds cv bodylist bodylist.length
      (forLoop (ChFsiInterface.Copy_ChSystem_to_External_body cv) bodylist.length 0
        s).state.rigid_backup := by
  have key := forLoop_inv (ChFsiInterface.Copy_ChSystem_to_External_body cv)
    (fun i (u : ChFsiInterface D R3 R4) => u.bodylist = bodylist ∧ u.fsi_mesh = s.fsi_mesh ∧
      u.flex_backup = s.flex_backup ∧ BackupHolds cv bodylist i u.rigid_backup)
    bodylist.length
    (by
      intro i u hi ⟨hub, hum, huf, l1, l2, l3, l4, l5, l6, hprev⟩
      have hget : u.bodylist[i]? = some bodylist[i] := by
        rw [hub]
        exact List.getElem?_eq_getElem hi
      have e1 : i < u.rigid_backup.pos_ChSystemH.length := by omega
      have e2 : i < u.rigid_backup.vel_ChSystemH.length := by omega
      have e3 : i < u.rigid_backup.acc_ChSystemH.length := by omega
      have e4 : i < u.rigid_backup.quat_ChSystemH.length := by omega
      have e5 : i < u.rigid_backup.omegaVelGRF_ChSystemH.length := by omega
      have e6 : i < u.rigid_backup.omegaAccGRF_ChSystemH.length := by omega
      simp only [ChFsiInterface.Copy_ChSystem_to_External_body, hget, ChFsiInterface.assignAt,
        e1, e2, e3, e4, e5, e6, if_true, Outcome.ok, true_and]
      refine ⟨hub, hum, huf, by simp [l1], by simp [l2], by simp [l3], by simp [l4],
        by simp [l5], by simp [l6], ?_⟩
      intro j mBody hj hjb
      have hcase : (j = i → mBody = bodylist[i]) := by
        intro h
        subst h
        rw [List.getElem?_eq_getElem hi] at hjb
        cases hjb
        rfl
      have hp : ∀ h : j ≠ i, _ := fun h => hprev j mBody (by omega) hjb
      refine ⟨?_, ?_, ?_, ?_, ?_, ?_⟩
      · exact getElem?_set_cases _ _ _ _ _ e1 ⟨fun h => by rw [hcase h], fun h => (hp h).1⟩
      · exact getElem?_set_cases _ _ _ _ _ e2 ⟨fun h => by rw [hcase h], fun h => (hp h).2.1⟩
      · exact getElem?_set_cases _ _ _ _ _ e3 ⟨fun h => by rw [hcase h], fun h => (hp h).2.2.1⟩
      · exact getElem?_set_cases _ _ _ _ _ e4
          ⟨fun h => by rw [hcase h], fun h => (hp h).2.2.2.1⟩
      · exact getElem?_set_cases _ _ _ _ _ e5
          ⟨fun h => by rw [hcase h], fun h => (hp h).2.2.2.2.1⟩
      · exact getElem?_set_cases _ _ _ _ _ e6
          ⟨fun h => by rw [hcase h], fun h => (hp h).2.2.2.2.2⟩)
    bodylist.length 0 s (by omega) ⟨hb, rfl, rfl, h0⟩
  rw [Nat.zero_add] at key
  exact ⟨key.1, key.2.1, key.2.2.1, key.2.2.2.1, key.2.2.2.2⟩

theorem set_of_getElem?_eq_some {α : Type} (l : List α) (i : Nat) (a : α)
    (h : l[i]? = some a) : l.set i a = l := by
  apply List.ext_getElem?
  intro j
  by_cases hji : i = j
  · subst hji
    rw [List.getElem?_set_self', h]
    simp
  · rw [List.getElem?_set_ne hji]

theorem Copy_ChSystem_to_External_nodes (cv : ChUtilsTypeConvert D R3 R4)
    (s : ChFsiInterface D R3 R4)
    (h1 : s.fsi_mesh.length ≤ s.flex_backup.posFlex_ChSystemH_H.length)
    (h2 : s.fsi_mesh.length ≤ s.flex_backup.velFlex_ChSystemH_H.length)
    (h3 : s.fsi_mesh.length ≤ s.flex_backup.accFlex_ChSystemH_H.length) :
    (forLoop (ChFsiInterface.Copy_ChSystem_to_External_node cv) s.fsi_mesh.length 0 s).fault
      = none ∧
    (forLoop (ChFsiInterface.Copy_ChSystem_to_External_node cv) s.fsi_mesh.length 0
        s).state.bodylist = s.bodylist ∧
    (forLoop (ChFsiInterface.Copy_ChSystem_to_External_node cv) s.fsi_mesh.length 0
        s).state.rigid_backup = s.rigid_backup := by
  have key := forLoop_inv (ChFsiInterface.Copy_ChSystem_to_External_node cv)
    (fun _ (u : ChFsiInterface D R3 R4) => u.bodylist = s.bodylist ∧
      u.rigid_backup = s.rigid_backup ∧ u.fsi_mesh = s.fsi_mesh ∧
      s.fsi_mesh.length ≤ u.flex_backup.posFlex_ChSystemH_H.length ∧
      s.fsi_mesh.length ≤ u.flex_backup.velFlex_ChSystemH_H.length ∧
      s.fsi_mesh.length ≤ u.flex_backup.accFlex_ChSystemH_H.length)
    s.fsi_mesh.length
    (by
      intro i u hi ⟨hub, hur, hum, l1, l2, l3⟩
      have hget : u.fsi_mesh[i]? = some s.fsi_mesh[i] := by
        rw [hum]
        exact List.getElem?_eq_getElem hi
      have e1 : i < u.flex_backup.posFlex_ChSystemH_H.length := by omega
      have e2 : i < u.flex_backup.velFlex_ChSystemH_H.length := by omega
      have e3 : i < u.flex_backup.accFlex_ChSystemH_H.length := by omega
      simp only [ChFsiInterface.Copy_ChSystem_to_External_node, hget, ChFsiInterface.assignAt,
        e1, e2, e3, if_true, Outcome.ok, true_and]
      exact ⟨hub, hur, hum, by simpa using l1, by simpa using l2, by simpa using l3⟩)
    s.fsi_mesh.length 0 s (by omega) ⟨rfl, rfl, rfl, h1, h2, h3⟩
  rw [Nat.zero_add] at key
  exact ⟨key.1, key.2.1, key.2.2.1⟩

/-- The node loop of `Copy_ChSystem_to_External` leaves the bodies and their
backup buffers alone, and the only way it can stop is an index outside a
buffer. -/
theorem Copy_ChSystem_to_External_nodes_keep (cv : ChUtilsTypeConvert D R3 R4) (count : Nat)
    (s : ChFsiInterface D R3 R4) :
    (forLoop (ChFsiInterface.Copy_ChSystem_to_External_node cv) count 0 s).state.bodylist
      = s.bodylist ∧
    (forLoop (ChFsiInterface.Copy_ChSystem_to_External_node cv) count 0 s).state.rigid_backup
      = s.rigid_backup ∧
    ∀ f, (forLoop (ChFsiInterface.Copy_ChSystem_to_External_node cv) count 0 s).fault = some f →
      f = Fault.out_of_range := by
  have hkeep := forLoop_rel (ChFsiInterface.Copy_ChSystem_to_External_node cv)
    (fun (a b : ChFsiInterface D R3 R4) =>
      b.bodylist = a.bodylist ∧ b.rigid_backup = a.rigid_backup)
    (fun _ => ⟨rfl, rfl⟩) (fun a b c hab hbc => ⟨hbc.1.trans hab.1, hbc.2.trans hab.2⟩)
    (by
      intro i u
      unfold ChFsiInterface.Copy_ChSystem_to_External_node
      split
      · exact ⟨rfl, rfl⟩
      · dsimp only
        split <;> exact ⟨rfl, rfl⟩)
    count 0 s
  have hfault := forLoop_fault_of_body (ChFsiInterface.Copy_ChSystem_to_External_node cv)
    (fun f => f = Fault.out_of_range)
    (by
      intro i u f hf
      unfold ChFsiInterface.Copy_ChSystem_to_External_node at hf
      split at hf
      · simp only [Outcome.stop, Option.some.injEq] at hf
        exact hf.symm
      · dsimp only at hf
        split at hf
        · simp [Outcome.ok] at hf
        · simp only [Outcome.stop, Option.some.injEq] at hf
          exact hf.symm)
    count 0 s
  exact ⟨hkeep.1, hkeep.2, hfault⟩

theorem Copy_External_To_ChSystem_bodies (cv : ChUtilsTypeConvert D R3 R4)
    (hinv3 : ∀ v, cv.Real3ToChVector (cv.ChVectorToReal3 v) = v)
    (hinv4 : ∀ q, cv.Real4ToChQuaternion (cv.ChQuaternionToReal4 q) = q)
    (s : ChFsiInterface D R3 R4)
    (hb : BackupHolds cv s.bodylist s.bodylist.length s.rigid_backup) :
    (forLoop (ChFsiInterface.Copy_External_To_ChSystem_body cv) s.bodylist.length 0 s).fault
      = none ∧
    (forLoop (ChFsiInterface.Copy_External_To_ChSystem_body cv) s.bodylist.length 0
        s).state.bodylist = s.bodylist := by
  obtain ⟨_, _, _, _, _, _, hall⟩ := hb
  have key := forLoop_inv (ChFsiInterface.Copy_External_To_ChSystem_body cv)
    (fun _ (u : ChFsiInterface D R3 R4) => u.bodylist = s.bodylist ∧
      u.rigid_backup = s.rigid_backup)
    s.bodylist.length
    (by
      intro i u hi ⟨hub, hur⟩
      have hget : u.bodylist[i]? = some s.bodylist[i] := by
        rw [hub]
        exact List.getElem?_eq_getElem hi
      obtain ⟨g1, g2, g3, g4, g5, g6⟩ := hall i s.bodylist[i] hi (List.getElem?_eq_getElem hi)
      rw [← hur] at g1 g2 g3 g4 g5 g6
      simp only [ChFsiInterface.Copy_External_To_ChSystem_body, hget, g1, g2, g3, g4, g5, g6,
        Outcome.ok, hinv3, hinv4, true_and]
      exact ⟨by rw [set_of_getElem?_eq_some _ _ _ hget]; exact hub, hur⟩)
    s.bodylist.length 0 s (by omega) ⟨rfl, rfl⟩
  rw [Nat.zero_add] at key
  exact ⟨key.1, key.2.1⟩

theorem BackupHolds_resize [Inhabited R3] [Inhabited R4] (cv : ChUtilsTypeConvert D R3 R4)
    (bodylist : List (ChBody D)) (b : ChronoBodiesDataH R3 R4) :
    BackupHolds cv bodylist 0 (b.resize bodylist.length) := by
  refine ⟨?_, ?_, ?_, ?_, ?_, ?_, ?_⟩
  · exact length_resizeList _ _ _
  · exact length_resizeList _ _ _
  · exact length_resizeList _ _ _
  · exact length_resizeList _ _ _
  · exact length_resizeList _ _ _
  · exact length_resizeList _ _ _
  · intro j _ hj
    omega

/-- C22. For every system of `N` bodies whose backup position buffer has
length `N` (the other five buffers are resized to `N` by the first call), and
with conversions of which `Real3ToChVector` undoes `ChVectorToReal3` and
`Real4ToChQuaternion` undoes `ChQuaternionToReal4`: after
`Copy_ChSystem_to_External` and then `Copy_External_To_ChSystem` the list of
bodies is as before the two calls, so every body has its position, velocity,
acceleration, rotation, angular velocity and angular acceleration as before.
Neither call throws; the second call completes; the first call completes when
the three flexible backup buffers, which it writes without resizing them,
cover the nodes of the mesh, and otherwise stops at an index outside one of
them, after the bodies have been mirrored. -/
theorem copy_round_trip [Inhabited R3] [Inhabited R4] (cv : ChUtilsTypeConvert D R3 R4)
    (s : ChFsiInterface D R3 R4)
    (hinv3 : ∀ v, cv.Real3ToChVector (cv.ChVectorToReal3 v) = v)
    (hinv4 : ∀ q, cv.Real4ToChQuaternion (cv.ChQuaternionToReal4 q) = q)
    (hpos : s.rigid_backup.pos_ChSystemH.length = s.bodylist.length) :
    (∀ f, (ChFsiInterface.Copy_ChSystem_to_External cv s).fault = some f →
      f = Fault.out_of_range) ∧
    (s.fsi_mesh.length ≤ s.flex_backup.posFlex_ChSystemH_H.length →
      s.fsi_mesh.length ≤ s.flex_backup.velFlex_ChSystemH_H.length →
      s.fsi_mesh.length ≤ s.flex_backup.accFlex_ChSystemH_H.length →
      (ChFsiInterface.Copy_ChSystem_to_External cv s).fault = none) ∧
    (ChFsiInterface.Copy_External_To_ChSystem cv
      (ChFsiInterface.Copy_ChSystem_to_External cv s).state).fault = none ∧
    (ChFsiInterface.Copy_External_To_ChSystem cv
      (ChFsiInterface.Copy_ChSystem_to_External cv s).state).state.bodylist = s.bodylist ∧
    ∀ (i : Nat) (before : ChBody D), s.bodylist[i]? = some before →
      ∃ after : ChBody D,
        (ChFsiInterface.Copy_External_To_ChSystem cv
          (ChFsiInterface.Copy_ChSystem_to_External cv s).state).state.bodylist[i]? = some after ∧
        after.pos = before.pos ∧ after.pos_dt = before.pos_dt ∧
        after.pos_dtdt = before.pos_dtdt ∧ after.rot = before.rot ∧
        after.wvel_par = before.wvel_par ∧ after.wacc_par = before.wacc_par := by
  obtain ⟨a1, a2, a3, a4, a5⟩ := Copy_ChSystem_to_External_bodies cv
    { s with rigid_backup := s.rigid_backup.resize s.bodylist.length } s.bodylist rfl
    (BackupHolds_resize cv s.bodylist s.rigid_backup)
  have hrun1 : ChFsiInterface.Copy_ChSystem_to_External cv s
      = forLoop (ChFsiInterface.Copy_ChSystem_to_External_node cv)
          (forLoop (ChFsiInterface.Copy_ChSystem_to_External_body cv) s.bodylist.length 0
            { s with rigid_backup := s.rigid_backup.resize s.bodylist.length }).state.fsi_mesh.length
          0
          (forLoop (ChFsiInterface.Copy_ChSystem_to_External_body cv) s.bodylist.length 0
            { s with rigid_backup := s.rigid_backup.resize s.bodylist.length }).state := by
    unfold ChFsiInterface.Copy_ChSystem_to_External
    simp only [hpos, ne_eq, not_true_eq_false, if_false]
    generalize forLoop (ChFsiInterface.Copy_ChSystem_to_External_body cv) s.bodylist.length 0
      { s with rigid_backup := s.rigid_backup.resize s.bodylist.length } = r at a1 ⊢
    cases r with
    | mk flt st =>
      simp only at a1
      subst a1
      rfl
  have b1 := fun h1 h2 h3 => (Copy_ChSystem_to_External_nodes cv
    (forLoop (ChFsiInterface.Copy_ChSystem_to_External_body cv) s.bodylist.length 0
      { s with rigid_backup := s.rigid_backup.resize s.bodylist.length }).state
    (by rw [a3, a4]; exact h1) (by rw [a3, a4]; exact h2) (by rw [a3, a4]; exact h3)).1
  obtain ⟨b2, b3, b4⟩ := Copy_ChSystem_to_External_nodes_keep cv
    (forLoop (ChFsiInterface.Copy_ChSystem_to_External_body cv) s.bodylist.length 0
      { s with rigid_backup := s.rigid_backup.resize s.bodylist.length }).state.fsi_mesh.length
    (forLoop (ChFsiInterface.Copy_ChSystem_to_External_body cv) s.bodylist.length 0
      { s with rigid_backup := s.rigid_backup.resize s.bodylist.length }).state
  rw [← hrun1] at b1 b2 b3 b4
  rw [a2] at b2
  have hB : BackupHolds cv (ChFsiInterface.Copy_ChSystem_to_External cv s).state.bodylist
      (ChFsiInterface.Copy_ChSystem_to_External cv s).state.bodylist.length
      (ChFsiInterface.Copy_ChSystem_to_External cv s).state.rigid_backup := by
    rw [b2, b3]
    exact a5
  obtain ⟨c1, c2⟩ := Copy_External_To_ChSystem_bodies cv hinv3 hinv4
    (ChFsiInterface.Copy_ChSystem_to_External cv s).state hB
  have hrun2 : ChFsiInterface.Copy_External_To_ChSystem cv
        (ChFsiInterface.Copy_ChSystem_to_External cv s).state
      = forLoop (ChFsiInterface.Copy_External_To_ChSystem_body cv)
          (ChFsiInterface.Copy_ChSystem_to_External cv s).state.bodylist.length 0
          (ChFsiInterface.Copy_ChSystem_to_External cv s).state := by
    unfold ChFsiInterface.Copy_External_To_ChSystem
    have := hB.1
    simp only [this, ne_eq, not_true_eq_false, if_false]
  rw [← hrun2] at c1 c2
  rw [b2] at c2
  refine ⟨b4, b1, c1, c2, ?_⟩
  intro i before hi
  exact ⟨before, by rw [c2]; exact hi, rfl, rfl, rfl, rfl, rfl, rfl⟩

end roundtrip

/-! ## Cells of the cylinder file -/

section cells

variable {D : Type}

theorem u32_eq_self (x : Int) (h0 : 0 ≤ x) (h1 : x < 4294967296) : u32 x = x := by
  unfold u32
  exact Int.emod_eq_of_lt h0 h1

/-- The cell lines of `WriteCylinderVTK` at a resolution that is a positive
multiple of 4 and at which no index computation wraps: the `res` quads of the
lateral band, then the quads of the two caps. -/
theorem cylinderCells_eq (res : Nat) (hpos : 0 < res) (h4 : res % 4 = 0) (hres : res ≤ 2 ^ 30) :
    (demo_FSI_CylinderDrop.cylinderCells res : List (Line D))
      = (List.range (res - 1)).map (fun (i : Nat) =>
            demo_FSI_CylinderDrop.quadLine i (i + 1) (i + res + 1) (i + res))
        ++ [demo_FSI_CylinderDrop.quadLine ((res : Int) - 1) 0 res (2 * res - 1)]
        ++ (List.range (res / 4)).map (fun (i : Nat) =>
            demo_FSI_CylinderDrop.quadLine i (i + 1) ((res : Int) / 2 - i - 1)
              ((res : Int) / 2 - i))
        ++ (List.range (res / 4)).map (fun (i : Nat) =>
            demo_FSI_CylinderDrop.quadLine (i + res) (i + 1 + res) ((res : Int) / 2 - i - 1 + res)
              ((res : Int) / 2 - i + res))
        ++ [demo_FSI_CylinderDrop.quadLine ((res : Int) / 2) (1 + (res : Int) / 2)
              ((res : Int) - 1) 0]
        ++ (List.range (res / 4 - 1)).map (fun (j : Nat) =>
            demo_FSI_CylinderDrop.quadLine (j + 1 + (res : Int) / 2) (j + 1 + 1 + (res : Int) / 2)
              ((res : Int) / 2 - (j + 1) - 1 + (res : Int) / 2)
              ((res : Int) / 2 - (j + 1) + (res : Int) / 2))
        ++ [demo_FSI_CylinderDrop.quadLine (3 * (res : Int) / 2) (1 + 3 * (res : Int) / 2)
              (2 * res - 1) res]
        ++ (List.range (res / 4 - 1)).map (fun (j : Nat) =>
            demo_FSI_CylinderDrop.quadLine (j + 1 + 3 * (res : Int) / 2)
              (j + 1 + 1 + 3 * (res : Int) / 2) (2 * (res : Int) - (j + 1) - 1)
              (2 * (res : Int) - (j + 1))) := by
  have hr : (res : Int) ≤ 1073741824 := by exact_mod_cast hres
  have hrp : (0 : Int) < res := by exact_mod_cast hpos
  have h1 : (u32 ((res : Int) - 1)).toNat = res - 1 := by
    rw [u32_eq_self _ (by omega) (by omega)]
    omega
  unfold demo_FSI_CylinderDrop.cylinderCells
  simp only [h1]
  have e3 : u32 (3 * (res : Int)) = 3 * (res : Int) := u32_eq_self _ (by omega) (by omega)
  rw [e3, u32_eq_self ((res : Int) - 1) (by omega) (by omega),
    u32_eq_self (2 * (res : Int) - 1) (by omega) (by omega),
    u32_eq_self (1 + (res : Int) / 2) (by omega) (by omega),
    u32_eq_self (1 + 3 * (res : Int) / 2) (by omega) (by omega)]
  congr 1
  congr 1
  congr 1
  congr 1
  congr 1
  congr 1
  congr 1
  · apply List.map_congr_left
    intro i hi
    have := List.mem_range.mp hi
    rw [u32_eq_self (i + (res : Int) + 1) (by omega) (by omega),
      u32_eq_self (i + (res : Int)) (by omega) (by omega)]
  · apply List.map_congr_left
    intro i hi
    have := List.mem_range.mp hi
    rw [u32_eq_self ((res : Int) / 2 - i - 1) (by omega) (by omega),
      u32_eq_self ((res : Int) / 2 - i) (by omega) (by omega)]
  · apply List.map_congr_left
    intro i hi
    have := List.mem_range.mp hi
    rw [u32_eq_self (i + (res : Int)) (by omega) (by omega),
      u32_eq_self (i + 1 + (res : Int)) (by omega) (by omega),
      u32_eq_self ((res : Int) / 2 - i - 1 + res) (by omega) (by omega),
      u32_eq_self ((res : Int) / 2 - i + res) (by omega) (by omega)]
  · apply List.map_congr_left
    intro j hj
    have := List.mem_range.mp hj
    rw [u32_eq_self (j + 1 + (res : Int) / 2) (by omega) (by omega),
      u32_eq_self (j + 1 + 1 + (res : Int) / 2) (by omega) (by omega),
      u32_eq_self ((res : Int) / 2 - (j + 1) - 1 + (res : Int) / 2) (by omega) (by omega),
      u32_eq_self ((res : Int) / 2 - (j + 1) + (res : Int) / 2) (by omega) (by omega)]
  · apply List.map_congr_left
    intro j hj
    have := List.mem_range.mp hj
    rw [u32_eq_self (j + 1 + 3 * (res : Int) / 2) (by omega) (by omega),
      u32_eq_self (j + 1 + 1 + 3 * (res : Int) / 2) (by omega) (by omega),
      u32_eq_self (2 * (res : Int) - (j + 1) - 1) (by omega) (by omega),
      u32_eq_self (2 * (res : Int) - (j + 1)) (by omega) (by omega)]

theorem mem_quadLine (a b c d k : Int) :
    (Item.int k : Item D) ∈ (demo_FSI_CylinderDrop.quadLine a b c d : Line D)
      ↔ k = a ∨ k = b ∨ k = c ∨ k = d := by
  simp [demo_FSI_CylinderDrop.quadLine]

theorem isCellRecord_quadLine (a b c d : Int) :
    isCellRecord 4 (demo_FSI_CylinderDrop.quadLine a b c d : Line D) = true := by
  simp [isCellRecord, demo_FSI_CylinderDrop.quadLine, Item.isInt, List.countP_cons]
  rfl

theorem countP_isInt_quadLine (a b c d : Int) :
    (demo_FSI_CylinderDrop.quadLine a b c d : Line D).countP Item.isInt = 4 := by
  simp [demo_FSI_CylinderDrop.quadLine, Item.isInt, List.countP_cons]

/-- Every cell line of `WriteCylinderVTK` is a quad line. -/
theorem cylinderCells_quads (res : Nat) :
    ∀ l ∈ (demo_FSI_CylinderDrop.cylinderCells res : List (Line D)),
      ∃ a b c d, l = demo_FSI_CylinderDrop.quadLine a b c d := by
  intro l hl
  simp only [demo_FSI_CylinderDrop.cylinderCells, List.mem_append, List.mem_map,
    List.mem_singleton] at hl
  rcases hl with ((((((⟨i, _, h⟩ | h) | ⟨i, _, h⟩) | ⟨i, _, h⟩) | h) | ⟨i, _, h⟩) | h) |
    ⟨i, _, h⟩
  all_goals first
    | exact ⟨_, _, _, _, h.symm⟩
    | exact ⟨_, _, _, _, h⟩

theorem cylinderCells_length (res : Nat) (hpos : 0 < res) (h4 : res % 4 = 0)
    (hres : res ≤ 2 ^ 30) :
    (demo_FSI_CylinderDrop.cylinderCells res : List (Line D)).length = 2 * res := by
  rw [cylinderCells_eq res hpos h4 hres]
  simp only [List.length_append, List.length_map, List.length_range, List.length_singleton]
  omega

/-- Each cell line holds 5 integers, the count and 4 indices, so the cell
lines hold `5 * (2 * res)` integers in all. -/
theorem cylinderCells_integers (res : Nat) (hpos : 0 < res) (h4 : res % 4 = 0)
    (hres : res ≤ 2 ^ 30) :
    ((demo_FSI_CylinderDrop.cylinderCells res : List (Line D)).map
      (fun l => 1 + l.countP Item.isInt)).sum = 5 * (2 * res) := by
  have : (demo_FSI_CylinderDrop.cylinderCells res : List (Line D)).map
      (fun l => 1 + l.countP Item.isInt)
      = (demo_FSI_CylinderDrop.cylinderCells res : List (Line D)).map (fun _ => 5) := by
    apply List.map_congr_left
    intro l hl
    obtain ⟨a, b, c, d, rfl⟩ := cylinderCells_quads res l hl
    rw [countP_isInt_quadLine a b c d]
  rw [this, sum_map_const_nat, cylinderCells_length res hpos h4 hres]

/-- C24. For every resolution `res` that is a positive multiple of 4 (and at
most `2^30`, so that no index computation wraps), every point index in a cell
line written by `WriteCylinderVTK` is at least 0 and below `2 * res`, and for
every `k < res` the `k`-th cell line is the lateral quad
`(k, (k+1) mod res, res + ((k+1) mod res), res + k)`. -/
theorem WriteCylinderVTK_cell_indices (res : Nat) (hpos : 0 < res) (h4 : res % 4 = 0)
    (hres : res ≤ 2 ^ 30) :
    (∀ l ∈ (demo_FSI_CylinderDrop.cylinderCells res : List (Line D)),
      ∀ k : Int, (Item.int k : Item D) ∈ l → 0 ≤ k ∧ k < 2 * (res : Int)) ∧
    (∀ k : Nat, k < res →
      (demo_FSI_CylinderDrop.cylinderCells res : List (Line D))[k]?
        = some (demo_FSI_CylinderDrop.quadLine k (((k : Int) + 1) % res)
            (res + ((k : Int) + 1) % res) (res + k))) := by
  have hr : (res : Int) ≤ 1073741824 := by exact_mod_cast hres
  constructor
  · intro l hl k hk
    rw [cylinderCells_eq res hpos h4 hres] at hl
    simp only [List.mem_append, List.mem_map, List.mem_range, List.mem_singleton] at hl
    rcases hl with ((((((⟨i, hi, h⟩ | h) | ⟨i, hi, h⟩) | ⟨i, hi, h⟩) | h) | ⟨i, hi, h⟩) | h) |
      ⟨i, hi, h⟩
    all_goals
      subst h
      rw [mem_quadLine] at hk
      omega
  · intro k hk
    rw [cylinderCells_eq res hpos h4 hres]
    rw [List.getElem?_append_left (by simp; omega), List.getElem?_append_left (by simp; omega),
      List.getElem?_append_left (by simp; omega), List.getElem?_append_left (by simp; omega),
      List.getElem?_append_left (by simp; omega), List.getElem?_append_left (by simp; omega)]
    by_cases hlast : k < res - 1
    · rw [List.getElem?_append_left (by simp; omega), List.getElem?_map,
        List.getElem?_range hlast]
      have hm : ((k : Int) + 1) % (res : Int) = (k : Int) + 1 :=
        Int.emod_eq_of_lt (by omega) (by omega)
      simp only [Option.map_some', hm]
      congr 2 <;> omega
    · have hk' : k = res - 1 := by omega
      have hm : ((k : Int) + 1) % (res : Int) = 0 := by
        have : (k : Int) + 1 = res := by omega
        rw [this]
        exact Int.emod_self
      rw [List.getElem?_append_right (by simp; omega)]
      simp only [List.length_map, List.length_range, hm]
      have : k - (res - 1) = 0 := by omega
      rw [this]
      simp only [List.getElem?_cons_zero]
      congr 2 <;> omega

theorem countP_isCellRecord_map_pointLine {α : Type} (f : α → ChVector D) (l : List α) :
    (l.map (fun a => pointLine (f a))).countP (isCellRecord 4) = 0 :=
  countP_map_false _ _ _ (fun _ => rfl)

/-- C23 as stated fails: at the resolution `536870912 = 2^29`, a positive
multiple of 4, the file holds the line `CELLS 1073741824 1073741824`: the
declared size of the list, `5 * (res + res)` in `unsigned int`, has wrapped,
while there are `2 * res = 1073741824` cell lines that hold
`5 * (2 * res) = 5368709120` integers. -/
theorem WriteCylinderVTK_list_size_wraps :
    0 < 536870912 ∧ 536870912 % 4 = 0 ∧
    ([Item.str "CELLS ", Item.int 1073741824, Item.str "\t", Item.int 1073741824] : Line Int)
      ∈ (demo_FSI_CylinderDrop.WriteCylinderVTK Example.doubleOps "cylinder.0.vtk" (1 : Int) 2
          ⟨⟨0, 0, 0⟩, ⟨1, 0, 0, 0⟩⟩ 536870912).lines ∧
    (demo_FSI_CylinderDrop.cylinderCells 536870912 : List (Line Int)).length = 1073741824 ∧
    ((demo_FSI_CylinderDrop.cylinderCells 536870912 : List (Line Int)).map
      (fun l => 1 + l.countP Item.isInt)).sum = 5368709120 ∧
    (1073741824 : Int) ≠ 5 * (2 * 536870912) := by
  have hu : u32 (((536870912 : Nat) : Int) + ((536870912 : Nat) : Int)) = 1073741824 := by
    unfold u32
    norm_num
  have hu5 : u32 (5 * 1073741824) = 1073741824 := by
    unfold u32
    norm_num
  refine ⟨by norm_num, by norm_num, ?_, ?_, ?_, by norm_num⟩
  · simp only [demo_FSI_CylinderDrop.WriteCylinderVTK, demo_FSI_CylinderDrop.cylinderVTK, hu, hu5,
      List.mem_append, List.mem_cons]
    exact Or.inl (Or.inl (Or.inl (Or.inr (Or.inr (Or.inr (Or.inl trivial))))))
  · rw [cylinderCells_length 536870912 (by norm_num) (by norm_num) (by norm_num)]
  · rw [cylinderCells_integers 536870912 (by norm_num) (by norm_num) (by norm_num)]
/-- C23, amended. For every resolution `res` that is a positive multiple of 4
(the demo uses `res = 100`) and at most `2^30`, the bound up to which the
`int` arithmetic of the loops is defined, the lines streamed by
`WriteCylinderVTK` end with the line `CELLS 2*res n`, the cell lines, the line
`CELL_TYPES 2*res` and `2*res` lines `9`, and there is no cell record before;
there are `2*res` cell lines, each the text `4 ` followed by 4 point indices,
so the file has `2*res` cell records and the integers of the cell lines (the
count and the 4 indices of each) are `5*(2*res)` in all.  The declared list
size `n` is `5*(2*res)` modulo `2^32`; it is the number `5*(2*res)` of
integers written exactly when `10 * res < 2^32`. -/
theorem WriteCylinderVTK_cells (ops : demo_FSI_CylinderDrop.DoubleOps D) (filename : String)
    (radius length : D) (frame : ChFrame D) (res : Nat) (hpos : 0 < res) (h4 : res % 4 = 0)
    (hres : res ≤ 2 ^ 30) :
    (∃ before : List (Line D),
      (demo_FSI_CylinderDrop.WriteCylinderVTK ops filename radius length frame res).lines
        = before
          ++ [[Item.str "CELLS ", Item.int (2 * res), Item.str "\t",
                Item.int (u32 (5 * (2 * res)))]]
          ++ demo_FSI_CylinderDrop.cylinderCells res
          ++ [[], [Item.str "CELL_TYPES ", Item.int (2 * res)]]
          ++ List.replicate (2 * res) [Item.str "9"] ∧
      before.countP (isCellRecord 4) = 0) ∧
    (demo_FSI_CylinderDrop.cylinderCells res : List (Line D)).length = 2 * res ∧
    (∀ l ∈ (demo_FSI_CylinderDrop.cylinderCells res : List (Line D)),
      isCellRecord 4 l = true ∧ l.countP Item.isInt = 4 ∧
      ∃ a b c d, l = demo_FSI_CylinderDrop.quadLine a b c d) ∧
    (demo_FSI_CylinderDrop.WriteCylinderVTK ops filename radius length frame res).lines.countP
      (isCellRecord 4) = 2 * res ∧
    ((demo_FSI_CylinderDrop.cylinderCells res : List (Line D)).map
      (fun l => 1 + l.countP Item.isInt)).sum = 5 * (2 * res) ∧
    (u32 (5 * (2 * (res : Int))) = 5 * (2 * (res : Int)) ↔ 10 * res < 2 ^ 32) := by
  have hu : u32 ((res : Int) + res) = 2 * (res : Int) := by
    rw [u32_eq_self _ (by omega) (by omega)]
    ring
  have hn : (2 * (res : Int)).toNat = 2 * res := by omega
  have hlen : (demo_FSI_CylinderDrop.cylinderCells res : List (Line D)).length = 2 * res :=
    cylinderCells_length res hpos h4 hres
  have hall : ∀ l ∈ (demo_FSI_CylinderDrop.cylinderCells res : List (Line D)),
      isCellRecord 4 l = true ∧ l.countP Item.isInt = 4 ∧
      ∃ a b c d, l = demo_FSI_CylinderDrop.quadLine a b c d := by
    intro l hl
    obtain ⟨a, b, c, d, rfl⟩ := cylinderCells_quads res l hl
    exact ⟨isCellRecord_quadLine a b c d, countP_isInt_quadLine a b c d, a, b, c, d, rfl⟩
  have hcells : (demo_FSI_CylinderDrop.cylinderCells res : List (Line D)).countP (isCellRecord 4)
      = 2 * res := by
    rw [List.countP_eq_length.mpr (fun l hl => (hall l hl).1), hlen]
  have hfile : (demo_FSI_CylinderDrop.WriteCylinderVTK ops filename radius length frame res).lines
      = ([[Item.str "# vtk DataFile Version 1.0"], [Item.str "Unstructured Grid Example"],
          [Item.str "ASCII"], [], [], [Item.str "DATASET UNSTRUCTURED_GRID"],
          [Item.str "POINTS ", Item.int (u32 (2 * (res : Int))), Item.str " float"]]
          ++ demo_FSI_CylinderDrop.cylinderPoints ops radius length frame res ++ [[], []])
        ++ [[Item.str "CELLS ", Item.int (2 * res), Item.str "\t",
              Item.int (u32 (5 * (2 * res)))]]
        ++ demo_FSI_CylinderDrop.cylinderCells res
        ++ [[], [Item.str "CELL_TYPES ", Item.int (2 * res)]]
        ++ List.replicate (2 * res) [Item.str "9"] := by
    simp only [demo_FSI_CylinderDrop.WriteCylinderVTK, demo_FSI_CylinderDrop.cylinderVTK, hu,
      hn, map_const_eq_replicate]
    simp only [List.append_assoc, List.cons_append, List.nil_append]
  have hbefore : ([[Item.str "# vtk DataFile Version 1.0"], [Item.str "Unstructured Grid Example"],
          [Item.str "ASCII"], [], [], [Item.str "DATASET UNSTRUCTURED_GRID"],
          [Item.str "POINTS ", Item.int (u32 (2 * (res : Int))), Item.str " float"]]
          ++ demo_FSI_CylinderDrop.cylinderPoints ops radius length frame res
          ++ [[], []] : List (Line D)).countP (isCellRecord 4) = 0 := by
    simp only [demo_FSI_CylinderDrop.cylinderPoints, List.countP_append,
      countP_isCellRecord_map_pointLine]
    simp [isCellRecord, List.countP_cons]
  refine ⟨⟨_, hfile, hbefore⟩, hlen, hall, ?_, cylinderCells_integers res hpos h4 hres, ?_⟩
  · rw [hfile]
    simp only [List.countP_append, hbefore, hcells]
    simp [isCellRecord, List.countP_cons, List.countP_replicate]
  · unfold u32
    constructor
    · intro h
      have h1 := Int.emod_lt_of_pos (5 * (2 * (res : Int))) (show (0 : Int) < 4294967296 by decide)
      rw [h] at h1
      have : (10 * res : Int) < 4294967296 := by omega
      have h2 : 10 * res < 4294967296 := by exact_mod_cast this
      exact h2
    · intro h
      have h2 : 10 * res < 4294967296 := h
      exact Int.emod_eq_of_lt (by omega) (by omega)

end cells

/-! ## The mesh of the toroidal tire -/

section tiremesh

variable {N : Type}

theorem forLoop_nested_inv {σ : Type} (body : Nat → Nat → σ → Outcome σ)
    (Inv : Nat → Nat → σ → Prop) (n m : Nat)
    (hstep : ∀ i j s, i < n → j < m → Inv i j s →
      (body i j s).fault = none ∧ Inv i (j + 1) (body i j s).state)
    (hrow : ∀ i s, i < n → Inv i m s → Inv (i + 1) 0 s) (s : σ) (h : Inv 0 0 s) :
    (forLoop (fun i s => forLoop (fun j s => body i j s) m 0 s) n 0 s).fault = none ∧
    Inv n 0 (forLoop (fun i s => forLoop (fun j s => body i j s) m 0 s) n 0 s).state := by
  have hout := forLoop_inv (fun i s => forLoop (fun j s => body i j s) m 0 s)
    (fun i s => Inv i 0 s) n
    (by
      intro i s hi hinv
      have hin := forLoop_inv (fun j s => body i j s) (fun j s => Inv i j s) m
        (fun j s hj hs => hstep i j s hi hj hs) m 0 s (by omega) hinv
      rw [Nat.zero_add] at hin
      exact ⟨hin.1, hrow i _ hi hin.2⟩)
    n 0 s (by omega) h
  rw [Nat.zero_add] at hout
  exact hout

theorem Create_MB_FE_node_step (node : Int → Int → N) (w : Nat) (neighbors : List (List Int))
    (i j : Nat) (st : demo_FSI_Flexible_Toroidal_Tire.MeshBuild N) (hj : j < w + 1)
    (h : demo_FSI_Flexible_Toroidal_Tire.NodesBuilt node w neighbors i j st) :
    (demo_FSI_Flexible_Toroidal_Tire.Create_MB_FE_node node (w : Int) i j st).fault = none ∧
    demo_FSI_Flexible_Toroidal_Tire.NodesBuilt node w neighbors i (j + 1)
      (demo_FSI_Flexible_Toroidal_Tire.Create_MB_FE_node node (w : Int) i j st).state := by
  obtain ⟨hlen, hget, he, ht, hn⟩ := h
  have hnodes : (demo_FSI_Flexible_Toroidal_Tire.Create_MB_FE_node node (w : Int) i j st).fault = none ∧
      (demo_FSI_Flexible_Toroidal_Tire.Create_MB_FE_node node (w : Int) i j st).state.nodes
        = st.nodes ++ [node i j] ∧
      (demo_FSI_Flexible_Toroidal_Tire.Create_MB_FE_node node (w : Int) i j st).state.elements
        = st.elements ∧
      (demo_FSI_Flexible_Toroidal_Tire.Create_MB_FE_node node (w : Int) i j st).state._2D_elementsNodes_mesh
        = st._2D_elementsNodes_mesh ∧
      (demo_FSI_Flexible_Toroidal_Tire.Create_MB_FE_node node (w : Int) i j st).state.NodeNeighborElement_mesh
        = st.NodeNeighborElement_mesh := by
    unfold demo_FSI_Flexible_Toroidal_Tire.Create_MB_FE_node
    simp only []
    split <;> exact ⟨rfl, rfl, rfl, rfl, rfl⟩
  obtain ⟨h1, h2, h3, h4, h5⟩ := hnodes
  refine ⟨h1, ?_, ?_, h3.trans he, h4.trans ht, h5.trans hn⟩
  · rw [h2, List.length_append, hlen]
    rfl
  · intro a b hb hab
    rw [h2]
    by_cases hlast : a = i ∧ b = j
    · obtain ⟨rfl, rfl⟩ := hlast
      rw [show b + a * (w + 1) = st.nodes.length by omega]
      simp
    · have hold : a < i ∨ (a = i ∧ b < j) := by omega
      have hsome := hget a b hb hold
      have hlt : b + a * (w + 1) < st.nodes.length := by
        by_contra hcon
        rw [List.getElem?_eq_none (by omega)] at hsome
        cases hsome
      rw [List.getElem?_append_left hlt]
      exact hsome

theorem Create_MB_FE_node_row (node : Int → Int → N) (w : Nat) (neighbors : List (List Int))
    (i : Nat) (st : demo_FSI_Flexible_Toroidal_Tire.MeshBuild N)
    (h : demo_FSI_Flexible_Toroidal_Tire.NodesBuilt node w neighbors i (w + 1) st) :
    demo_FSI_Flexible_Toroidal_Tire.NodesBuilt node w neighbors (i + 1) 0 st := by
  obtain ⟨hlen, hget, he, ht, hn⟩ := h
  refine ⟨?_, ?_, he, ht, hn⟩
  · rw [hlen, Nat.succ_mul]
    rfl
  · intro a b hb hab
    exact hget a b hb (by omega)

/-- The node loops of `Create_MB_FE` complete and leave `c * (w + 1)` nodes. -/
theorem Create_MB_FE_nodes (node : Int → Int → N) (c w : Nat) (neighbors : List (List Int))
    (st0 : demo_FSI_Flexible_Toroidal_Tire.MeshBuild N)
    (h0 : demo_FSI_Flexible_Toroidal_Tire.NodesBuilt node w neighbors 0 0 st0) :
    (forLoop (fun i st => forLoop
        (fun j st => demo_FSI_Flexible_Toroidal_Tire.Create_MB_FE_node node (w : Int) i j st)
        (w + 1) 0 st) c 0 st0).fault = none ∧
    demo_FSI_Flexible_Toroidal_Tire.NodesBuilt node w neighbors c 0
      (forLoop (fun i st => forLoop
        (fun j st => demo_FSI_Flexible_Toroidal_Tire.Create_MB_FE_node node (w : Int) i j st)
        (w + 1) 0 st) c 0 st0).state :=
  forLoop_nested_inv
    (fun i j st => demo_FSI_Flexible_Toroidal_Tire.Create_MB_FE_node node (w : Int) i j st)
    (demo_FSI_Flexible_Toroidal_Tire.NodesBuilt node w neighbors) c (w + 1)
    (fun i j st _ hj h => Create_MB_FE_node_step node w neighbors i j st hj h)
    (fun i st _ h => Create_MB_FE_node_row node w neighbors i st h) st0 h0

theorem atInt_natCast {α : Type} (l : List α) (k : Nat) :
    ChVehicleCosimTireNodeRigid.atInt l (k : Int) = l[k]? := by
  simp [ChVehicleCosimTireNodeRigid.atInt]

theorem push_backAt_natCast {α : Type} (t : List (List α)) (k : Nat) (a : List α) (x : α)
    (h : t[k]? = some a) :
    demo_FSI_Flexible_Toroidal_Tire.push_backAt t (k : Int) x = some (t.set k (a ++ [x])) := by
  simp [demo_FSI_Flexible_Toroidal_Tire.push_backAt, atInt_natCast, h]

theorem push_backAt_length {α : Type} (t : List (List α)) (k : Nat) (x : α) (h : k < t.length) :
    ∃ t1, demo_FSI_Flexible_Toroidal_Tire.push_backAt t (k : Int) x = some t1 ∧
      t1.length = t.length :=
  ⟨_, push_backAt_natCast t k _ x (List.getElem?_eq_getElem h), by simp⟩

/-- Four `push_back` on an empty row leave the four values in the row. -/
theorem push_backAt_four {α : Type} (t : List (List α)) (k : Nat) (x0 x1 x2 x3 : α)
    (h : t[k]? = some []) :
    ∃ t0 t1 t2,
      demo_FSI_Flexible_Toroidal_Tire.push_backAt t (k : Int) x0 = some t0 ∧
      demo_FSI_Flexible_Toroidal_Tire.push_backAt t0 (k : Int) x1 = some t1 ∧
      demo_FSI_Flexible_Toroidal_Tire.push_backAt t1 (k : Int) x2 = some t2 ∧
      demo_FSI_Flexible_Toroidal_Tire.push_backAt t2 (k : Int) x3
        = some (t.set k [x0, x1, x2, x3]) := by
  have hk : k < t.length := by
    by_contra hcon
    rw [List.getElem?_eq_none (by omega)] at h
    cases h
  refine ⟨t.set k [x0], t.set k [x0, x1], t.set k [x0, x1, x2], ?_, ?_, ?_, ?_⟩
  · rw [push_backAt_natCast t k [] x0 h]
    rfl
  · rw [push_backAt_natCast (t.set k [x0]) k [x0] x1
      (List.getElem?_set_self (by simpa using hk)), List.set_set]
    rfl
  · rw [push_backAt_natCast (t.set k [x0, x1]) k [x0, x1] x2
      (List.getElem?_set_self (by simpa using hk)), List.set_set]
    rfl
  · rw [push_backAt_natCast (t.set k [x0, x1, x2]) k [x0, x1, x2] x3
      (List.getElem?_set_self (by simpa using hk)), List.set_set]
    rfl

/-- What the body of the element loops does at ring `i`, position `j`. -/
theorem Create_MB_FE_element_ok (node : Int → Int → N) (c w i j : Nat) (hi : i < c) (hj : j < w)
    (st : demo_FSI_Flexible_Toroidal_Tire.MeshBuild N)
    (hnodes : ∀ a b : Nat, a < c → b ≤ w → st.nodes[b + a * (w + 1)]? = some (node a b))
    (hnum : st.num_elem = ((i * w + j : Nat) : Int))
    (hrow : st._2D_elementsNodes_mesh[i * w + j]? = some [])
    (hnn : st.NodeNeighborElement_mesh.length = c * (w + 1)) :
    ∃ n : List (List Int), n.length = c * (w + 1) ∧
      demo_FSI_Flexible_Toroidal_Tire.Create_MB_FE_element (c : Int) (w : Int) i j st =
        Outcome.ok
          { st with
            _2D_elementsNodes_mesh :=
              st._2D_elementsNodes_mesh.set (i * w + j)
                (demo_FSI_Flexible_Toroidal_Tire.ringIndices c w i j),
            NodeNeighborElement_mesh := n,
            elements := st.elements ++ [demo_FSI_Flexible_Toroidal_Tire.ringNodes node c i j],
            num_elem := ((i * w + j : Nat) : Int) + 1 } := by
  have hr : (i + 1) % c < c := Nat.mod_lt _ (by omega)
  have h1 : ((j : Int) + (i : Int) * ((w : Int) + 1)) = ((j + i * (w + 1) : Nat) : Int) := by
    push_cast
    ring
  have h2 : ((j : Int) + 1 + (i : Int) * ((w : Int) + 1)) = ((j + 1 + i * (w + 1) : Nat) : Int) := by
    push_cast
    ring
  have h0 : (if (i : Int) = (c : Int) - 1 then (j : Int)
      else (j : Int) + ((i : Int) + 1) * ((w : Int) + 1))
      = ((j + (i + 1) % c * (w + 1) : Nat) : Int) := by
    by_cases hlast : i + 1 = c
    · rw [if_pos (by omega), hlast, Nat.mod_self]
      simp
    · rw [if_neg (by omega), Nat.mod_eq_of_lt (by omega)]
      push_cast
      ring
  have h3 : (if (i : Int) = (c : Int) - 1 then (j : Int) + 1
      else (j : Int) + 1 + ((i : Int) + 1) * ((w : Int) + 1))
      = ((j + 1 + (i + 1) % c * (w + 1) : Nat) : Int) := by
    by_cases hlast : i + 1 = c
    · rw [if_pos (by omega), hlast, Nat.mod_self]
      simp
    · rw [if_neg (by omega), Nat.mod_eq_of_lt (by omega)]
      push_cast
      ring
  have hb : ∀ a b : Nat, a < c → b ≤ w → b + a * (w + 1) < c * (w + 1) := by
    intro a b ha hb
    have := Nat.mul_le_mul_right (w + 1) (show a + 1 ≤ c by omega)
    rw [Nat.succ_mul] at this
    omega
  obtain ⟨t0, t1, t2, ht0, ht1, ht2, ht3⟩ := push_backAt_four st._2D_elementsNodes_mesh (i * w + j)
    ((j + (i + 1) % c * (w + 1) : Nat) : Int) ((j + i * (w + 1) : Nat) : Int)
    ((j + 1 + i * (w + 1) : Nat) : Int) ((j + 1 + (i + 1) % c * (w + 1) : Nat) : Int) hrow
  obtain ⟨n0, hn0, hl0⟩ := push_backAt_length st.NodeNeighborElement_mesh
    (j + (i + 1) % c * (w + 1)) ((i * w + j : Nat) : Int)
    (by rw [hnn]; exact hb _ _ hr (by omega))
  obtain ⟨n1, hn1, hl1⟩ := push_backAt_length n0 (j + i * (w + 1)) ((i * w + j : Nat) : Int)
    (by rw [hl0, hnn]; exact hb _ _ hi (by omega))
  obtain ⟨n2, hn2, hl2⟩ := push_backAt_length n1 (j + 1 + i * (w + 1)) ((i * w + j : Nat) : Int)
    (by rw [hl1, hl0, hnn]; exact hb _ _ hi (by omega))
  obtain ⟨n3, hn3, hl3⟩ := push_backAt_length n2 (j + 1 + (i + 1) % c * (w + 1))
    ((i * w + j : Nat) : Int) (by rw [hl2, hl1, hl0, hnn]; exact hb _ _ hr (by omega))
  refine ⟨n3, by rw [hl3, hl2, hl1, hl0, hnn], ?_⟩
  unfold demo_FSI_Flexible_Toroidal_Tire.Create_MB_FE_element
  simp only [h0, h1, h2, h3, atInt_natCast, hnodes _ _ hr (show j ≤ w by omega),
    hnodes _ _ hi (show j ≤ w by omega), hnodes _ _ hi (show j + 1 ≤ w by omega),
    hnodes _ _ hr (show j + 1 ≤ w by omega), hnum, ht0, ht1, ht2, ht3, hn0, hn1, hn2, hn3,
    Option.bind_eq_bind, Option.some_bind, Option.pure_def]
  rfl

theorem Create_MB_FE_element_step (node : Int → Int → N) (c w : Nat) (nodes : List N)
    (hnodes : ∀ a b : Nat, a < c → b ≤ w → nodes[b + a * (w + 1)]? = some (node a b))
    (i j : Nat) (st : demo_FSI_Flexible_Toroidal_Tire.MeshBuild N) (hi : i < c) (hj : j < w)
    (h : demo_FSI_Flexible_Toroidal_Tire.ElementsBuilt node c w nodes i j st) :
    (demo_FSI_Flexible_Toroidal_Tire.Create_MB_FE_element (c : Int) (w : Int) i j st).fault = none ∧
    demo_FSI_Flexible_Toroidal_Tire.ElementsBuilt node c w nodes i (j + 1)
      (demo_FSI_Flexible_Toroidal_Tire.Create_MB_FE_element (c : Int) (w : Int) i j st).state := by
  obtain ⟨hn, hnum, hel, htl, hnn, hdone, hrest⟩ := h
  have hcw : i * w + j < c * w := by
    have := Nat.mul_le_mul_right w (show i + 1 ≤ c by omega)
    rw [Nat.succ_mul] at this
    omega
  obtain ⟨n, hnlen, heq⟩ := Create_MB_FE_element_ok node c w i j hi hj st
    (by rw [hn]; exact hnodes) hnum (hrest _ (le_refl _) hcw) hnn
  rw [heq]
  refine ⟨rfl, hn, ?_, ?_, ?_, hnlen, ?_, ?_⟩
  · simp only [Outcome.ok]
    push_cast
    ring
  · simp only [Outcome.ok, List.length_append, hel, List.length_singleton]
    rfl
  · simp only [Outcome.ok, List.length_set, htl]
  · intro a b hb hab
    simp only [Outcome.ok]
    by_cases hlast : a = i ∧ b = j
    · obtain ⟨rfl, rfl⟩ := hlast
      constructor
      · exact List.getElem?_set_self (by rw [htl]; exact hcw)
      · rw [← hel]
        simp
    · have hold : a < i ∨ (a = i ∧ b < j) := by omega
      have hlt : a * w + b < i * w + j := by
        rcases hold with hlt | ⟨rfl, hlt⟩
        · have := Nat.mul_le_mul_right w (show a + 1 ≤ i by omega)
          rw [Nat.succ_mul] at this
          omega
        · omega
      obtain ⟨hd1, hd2⟩ := hdone a b hb hold
      constructor
      · rw [List.getElem?_set_ne (by omega)]
        exact hd1
      · rw [List.getElem?_append_left (by omega)]
        exact hd2
  · intro k hk hkc
    simp only [Outcome.ok]
    rw [List.getElem?_set_ne (by omega)]
    exact hrest k (by omega) hkc

theorem Create_MB_FE_element_row (node : Int → Int → N) (c w : Nat) (nodes : List N)
    (i : Nat) (st : demo_FSI_Flexible_Toroidal_Tire.MeshBuild N)
    (h : demo_FSI_Flexible_Toroidal_Tire.ElementsBuilt node c w nodes i w st) :
    demo_FSI_Flexible_Toroidal_Tire.ElementsBuilt node c w nodes (i + 1) 0 st := by
  obtain ⟨hn, hnum, hel, htl, hnn, hdone, hrest⟩ := h
  have hiw : (i + 1) * w + 0 = i * w + w := by
    rw [Nat.succ_mul]
    rfl
  refine ⟨hn, ?_, ?_, htl, hnn, ?_, ?_⟩
  · rw [hiw]
    exact hnum
  · rw [hiw]
    exact hel
  · intro a b hb hab
    exact hdone a b hb (by omega)
  · intro k hk hkc
    exact hrest k (by omega) hkc

/-- The mesh part of `Create_MB_FE` for `c` rings of width `w`: it completes,
there are `c * (w + 1)` nodes, node `j + i * (w + 1)` is the node made for
ring `i` and position `j`, and the elements are as `ElementsBuilt` says at
the end of the loops. -/
theorem Create_MB_FE_mesh_built (node : Int → Int → N) (c w : Nat) (neighbors : List (List Int)) :
    (demo_FSI_Flexible_Toroidal_Tire.Create_MB_FE_mesh node (c : Int) (w : Int) neighbors).fault
      = none ∧
    (demo_FSI_Flexible_Toroidal_Tire.Create_MB_FE_mesh node (c : Int) (w : Int)
      neighbors).state.nodes.length = c * (w + 1) ∧
    (∀ a b : Nat, a < c → b ≤ w →
      (demo_FSI_Flexible_Toroidal_Tire.Create_MB_FE_mesh node (c : Int) (w : Int)
        neighbors).state.nodes[b + a * (w + 1)]? = some (node a b)) ∧
    demo_FSI_Flexible_Toroidal_Tire.ElementsBuilt node c w
      (demo_FSI_Flexible_Toroidal_Tire.Create_MB_FE_mesh node (c : Int) (w : Int)
        neighbors).state.nodes c 0
      (demo_FSI_Flexible_Toroidal_Tire.Create_MB_FE_mesh node (c : Int) (w : Int)
        neighbors).state := by
  have hw1 : ((w : Int) + 1).toNat = w + 1 := by omega
  have hc : ((c : Int)).toNat = c := by omega
  have hw : ((w : Int)).toNat = w := by omega
  have hcw : ((c : Int) * (w : Int)).toNat = c * w := by
    rw [← Nat.cast_mul]
    exact Int.toNat_natCast _
  obtain ⟨hf1, hlen, hget, he, ht, hnb⟩ := Create_MB_FE_nodes node c w neighbors
    { nodes := [], elements := [], links := [], _1D_elementsNodes_mesh := [],
      _2D_elementsNodes_mesh := [], NodeNeighborElement_mesh := neighbors, num_elem := 0 }
    ⟨by simp, fun a b _ hab => by omega, rfl, rfl, rfl⟩
  unfold demo_FSI_Flexible_Toroidal_Tire.Create_MB_FE_mesh
  simp only [hw1, hc, hw, hcw]
  generalize forLoop (fun i st => forLoop
        (fun j st => demo_FSI_Flexible_Toroidal_Tire.Create_MB_FE_node node (w : Int) i j st)
        (w + 1) 0 st) c 0
      { nodes := [], elements := [], links := [], _1D_elementsNodes_mesh := [],
        _2D_elementsNodes_mesh := [], NodeNeighborElement_mesh := neighbors, num_elem := 0 }
      = r1 at hf1 hlen hget he ht hnb
  obtain ⟨f1, st1⟩ := r1
  simp only at hf1 hlen hget he ht hnb
  subst hf1
  simp only [Int.toNat_natCast]
  rw [Nat.add_zero] at hlen
  have hnodes : ∀ a b : Nat, a < c → b ≤ w → st1.nodes[b + a * (w + 1)]? = some (node a b) :=
    fun a b ha hb => hget a b hb (Or.inl ha)
  obtain ⟨hf2, hbuilt⟩ := forLoop_nested_inv
    (fun i j st => demo_FSI_Flexible_Toroidal_Tire.Create_MB_FE_element (c : Int) (w : Int) i j st)
    (demo_FSI_Flexible_Toroidal_Tire.ElementsBuilt node c w st1.nodes) c w
    (fun i j st hi hj h => Create_MB_FE_element_step node c w st1.nodes hnodes i j st hi hj h)
    (fun i st _ h => Create_MB_FE_element_row node c w st1.nodes i st h)
    { st1 with
      _2D_elementsNodes_mesh := resizeList [] (c * w) st1._2D_elementsNodes_mesh,
      NodeNeighborElement_mesh := resizeList [] st1.nodes.length st1.NodeNeighborElement_mesh,
      num_elem := 0 }
    ⟨rfl, by simp, by simp [he], length_resizeList _ _ _,
      by rw [length_resizeList, hlen],
      fun a b _ hab => by omega,
      fun k _ hk => by
        rw [ht]
        simp [resizeList, hk]⟩
  have hsame := hbuilt.1
  refine ⟨hf2, ?_, ?_, ?_⟩
  · rw [hsame]
    exact hlen
  · rw [hsame]
    exact hnodes
  · rw [hsame]
    exact hbuilt

/-- C25. In `Create_MB_FE` of the toroidal-tire demo, with
`m_div_circumference = 60` and `m_div_width = 12`, the mesh part completes;
exactly `60 * (12 + 1)` nodes and `60 * 12` shell elements are created; for
each `i < 60` and `j < 12` the element with number `i * 12 + j` is the one of
ring `i` and position `j`: row `i * 12 + j` of the 2D connectivity table holds
the node indices `(j + ((i+1) mod 60) * 13, j + i * 13, j + 1 + i * 13,
j + 1 + ((i+1) mod 60) * 13)` and the element has the nodes made for these
rings and positions, so the last ring wraps around to the first; the four
indices are pairwise distinct and lie in `[0, 60 * 13)`; and every row of the
2D connectivity table has exactly 4 indices. -/
theorem Create_MB_FE_mesh_connectivity (node : Int → Int → N) (neighbors : List (List Int)) :
    (demo_FSI_Flexible_Toroidal_Tire.Create_MB_FE node neighbors).fault = none ∧
    (demo_FSI_Flexible_Toroidal_Tire.Create_MB_FE node neighbors).state.nodes.length
      = 60 * (12 + 1) ∧
    (demo_FSI_Flexible_Toroidal_Tire.Create_MB_FE node neighbors).state.elements.length
      = 60 * 12 ∧
    (demo_FSI_Flexible_Toroidal_Tire.Create_MB_FE node neighbors).state.num_elem = 60 * 12 ∧
    (demo_FSI_Flexible_Toroidal_Tire.Create_MB_FE node
      neighbors).state._2D_elementsNodes_mesh.length = 60 * 12 ∧
    (∀ i j : Nat, i < 60 → j ≤ 12 →
      (demo_FSI_Flexible_Toroidal_Tire.Create_MB_FE node neighbors).state.nodes[j + i * (12 + 1)]?
        = some (node i j)) ∧
    (∀ i j : Nat, i < 60 → j < 12 →
      (demo_FSI_Flexible_Toroidal_Tire.Create_MB_FE node
          neighbors).state._2D_elementsNodes_mesh[i * 12 + j]?
        = some [((j + (i + 1) % 60 * (12 + 1) : Nat) : Int), ((j + i * (12 + 1) : Nat) : Int),
            ((j + 1 + i * (12 + 1) : Nat) : Int),
            ((j + 1 + (i + 1) % 60 * (12 + 1) : Nat) : Int)] ∧
      (demo_FSI_Flexible_Toroidal_Tire.Create_MB_FE node neighbors).state.elements[i * 12 + j]?
        = some (node ((i + 1) % 60 : Nat) j, node i j, node i (j + 1 : Nat),
            node ((i + 1) % 60 : Nat) (j + 1 : Nat)) ∧
      [((j + (i + 1) % 60 * (12 + 1) : Nat) : Int), ((j + i * (12 + 1) : Nat) : Int),
          ((j + 1 + i * (12 + 1) : Nat) : Int),
          ((j + 1 + (i + 1) % 60 * (12 + 1) : Nat) : Int)].Nodup ∧
      ∀ x ∈ [((j + (i + 1) % 60 * (12 + 1) : Nat) : Int), ((j + i * (12 + 1) : Nat) : Int),
          ((j + 1 + i * (12 + 1) : Nat) : Int),
          ((j + 1 + (i + 1) % 60 * (12 + 1) : Nat) : Int)], 0 ≤ x ∧ x < 60 * (12 + 1)) ∧
    ∀ l ∈ (demo_FSI_Flexible_Toroidal_Tire.Create_MB_FE node
        neighbors).state._2D_elementsNodes_mesh, l.length = 4 := by
  have hmesh : demo_FSI_Flexible_Toroidal_Tire.Create_MB_FE node neighbors
      = demo_FSI_Flexible_Toroidal_Tire.Create_MB_FE_mesh node ((60 : Nat) : Int) ((12 : Nat) : Int)
          neighbors := rfl
  obtain ⟨hf, hlen, hget, -, hnum, hel, htl, -, hdone, -⟩ :=
    Create_MB_FE_mesh_built node 60 12 neighbors
  rw [hmesh]
  refine ⟨hf, hlen, hel, ?_, htl, hget, ?_, ?_⟩
  · rw [hnum]
    rfl
  · intro i j hi hj
    obtain ⟨h1, h2⟩ := hdone i j hj (Or.inl hi)
    refine ⟨h1, h2, ?_, ?_⟩
    · simp only [List.nodup_cons, List.mem_cons, List.mem_singleton, List.not_mem_nil,
        List.nodup_nil, not_or, not_false_eq_true, and_true]
      omega
    · intro x hx
      simp only [List.mem_cons, List.mem_singleton, List.not_mem_nil, or_false] at hx
      omega
  · intro l hl
    obtain ⟨k, hk⟩ := List.mem_iff_getElem?.mp hl
    have hlt : k < 60 * 12 := by
      by_contra hcon
      rw [List.getElem?_eq_none (by rw [htl]; omega)] at hk
      cases hk
    have hrow := (hdone (k / 12) (k % 12) (Nat.mod_lt _ (by decide))
      (Or.inl (by omega))).1
    rw [show k / 12 * 12 + k % 12 = k by omega, hk] at hrow
    rw [Option.some.inj hrow]
    rfl

end tiremesh

/-! ## The theorems at example inputs -/

section witnesses

/-- On the example interface (one body, empty backup buffers) both
state-mirroring operations stop without changing the state. -/
theorem copy_size_mismatch_witness :
    Example.interface.rigid_backup.pos_ChSystemH.length ≠ Example.interface.bodylist.length ∧
    ((ChFsiInterface.Copy_ChSystem_to_External Example.convert Example.interface).fault ≠ none ∧
      (ChFsiInterface.Copy_ChSystem_to_External Example.convert Example.interface).state
        = Example.interface ∧
      (ChFsiInterface.Copy_External_To_ChSystem Example.convert Example.interface).fault ≠ none ∧
      (ChFsiInterface.Copy_External_To_ChSystem Example.convert Example.interface).state
        = Example.interface) :=
  ⟨by decide,
    ChFsiInterface.copy_size_mismatch_state_unchanged Example.convert Example.interface
      (by decide)⟩

/-- The writer of the node files, run on the example mesh of one node at time
0 and again at time 5, completes; the file `FSI_node0.csv`, which held stale
contents before, then holds the header and the two data rows. -/
theorem csv_header_once_witness :
    ((ChFsiInterface.FSI_node_header : Line Int) = ChFsiInterface.FSI_body_header ∨
      (ChFsiInterface.FSI_node_header : Line Int) = ChFsiInterface.FSI_node_header ∨
      (ChFsiInterface.FSI_node_header : Line Int)
        = demo_ROBOT_Viper_SPH.body_pos_rot_vel_header) ∧
    (ChFsiInterface.Add_Flex_Forces_To_ChSystem_body Example.convert 0
      Example.flexInterface).fault = none ∧
    (ChFsiInterface.Add_Flex_Forces_To_ChSystem_body Example.convert 0
      { (ChFsiInterface.Add_Flex_Forces_To_ChSystem_body Example.convert 0
          Example.flexInterface).state with ChTime := 5 }).fault = none ∧
    fileContents "out/FSI_node0.csv"
        (ChFsiInterface.Add_Flex_Forces_To_ChSystem_body Example.convert 0
          { (ChFsiInterface.Add_Flex_Forces_To_ChSystem_body Example.convert 0
              Example.flexInterface).state with ChTime := 5 }).state.files
        [[Item.str "stale"]]
      = [ChFsiInterface.FSI_node_header,
         ChFsiInterface.FSI_node_row 0 ⟨1, 2, 3⟩ ⟨4, 5, 6⟩ ⟨7, 8, 9⟩,
         ChFsiInterface.FSI_node_row 5 ⟨1, 2, 3⟩ ⟨4, 5, 6⟩ ⟨7, 8, 9⟩] :=
  ⟨Or.inr (Or.inl rfl),
    ((csv_header_once_then_append (ChFsiInterface.FSI_node_header : Line Int)
      (Or.inr (Or.inl rfl)) "out/FSI_node0.csv").2.2.2.2.2.2.2.2.1 _ _ Example.convert 0
      Example.flexInterface ⟨7, 8, 9⟩ ⟨⟨1, 2, 3⟩, ⟨4, 5, 6⟩, ⟨0, 0, 0⟩, ⟨0, 0, 0⟩⟩ rfl rfl rfl).1,
    ((csv_header_once_then_append (ChFsiInterface.FSI_node_header : Line Int)
      (Or.inr (Or.inl rfl)) "out/FSI_node0.csv").2.2.2.2.2.2.2.2.1 _ _ Example.convert 0
      { (ChFsiInterface.Add_Flex_Forces_To_ChSystem_body Example.convert 0
          Example.flexInterface).state with ChTime := 5 }
      ⟨7, 8, 9⟩ ⟨⟨1, 2, 3⟩, ⟨4, 5, 6⟩, ⟨0, 0, 0⟩, ⟨7, 8, 9⟩⟩ rfl rfl rfl).1,
    (csv_header_once_then_append (ChFsiInterface.FSI_node_header : Line Int)
      (Or.inr (Or.inl rfl)) "out/FSI_node0.csv").2.2.2.2.2.1 _
      (ChFsiInterface.FSI_node_row 0 ⟨1, 2, 3⟩ ⟨4, 5, 6⟩ ⟨7, 8, 9⟩)
      [((5 : Int), ChFsiInterface.FSI_node_row 5 ⟨1, 2, 3⟩ ⟨4, 5, 6⟩ ⟨7, 8, 9⟩)] _
      (by decide) (by decide)⟩

/-- At resolution 4 the cylinder file has 8 point records. -/
theorem WriteCylinderVTK_points_witness :
    4 ≤ 2 ^ 30 ∧
    (demo_FSI_CylinderDrop.WriteCylinderVTK Example.doubleOps "cylinder.0.vtk" (1 : Int) 2
        ⟨⟨0, 0, 0⟩, ⟨1, 0, 0, 0⟩⟩ 4).lines.countP isPointRecord = 2 * 4 := by
  obtain ⟨_, _, _, _, _, _, h, _, _⟩ := WriteCylinderVTK_points Example.doubleOps "cylinder.0.vtk"
    (1 : Int) 2 ⟨⟨0, 0, 0⟩, ⟨1, 0, 0, 0⟩⟩ 4 (by decide)
  exact ⟨by decide, h⟩

/-- The first call of `SaveParaViewFiles` on the example system writes 17
mesh files before anything else; the first of them is the file of the
chassis, written from the example mesh of three vertices and one face. -/
theorem SaveParaViewFiles_mesh_files_witness :
    (demo_ROBOT_Viper_SPH.State.init Int).frame_number ≠ INT_MAX ∧
    (demo_ROBOT_Viper_SPH.saveMeshes Example.environment Example.rover
      ((demo_ROBOT_Viper_SPH.State.init Int).frame_number + 1)).length = 17 ∧
    (demo_ROBOT_Viper_SPH.saveMeshes Example.environment Example.rover
      ((demo_ROBOT_Viper_SPH.State.init Int).frame_number + 1))[0]?
      = some
          { name := "out/FSI_Viper//rover/body_0.vtk", app := false,
            lines :=
              [[Item.str "# vtk DataFile Version 2.0"], [Item.str "VTK from simulation"],
               [Item.str "ASCII"], [Item.str "DATASET UNSTRUCTURED_GRID"],
               [Item.str "POINTS ", Item.int 3, Item.str " float"],
               [Item.real 0, Item.str " ", Item.real 0, Item.str " ", Item.real 0],
               [Item.real 1, Item.str " ", Item.real 0, Item.str " ", Item.real 0],
               [Item.real 0, Item.str " ", Item.real 1, Item.str " ", Item.real 0],
               [Item.str "CELLS ", Item.int 1, Item.str " ", Item.int 4],
               [Item.str "3 ", Item.int 0, Item.str " ", Item.int 1, Item.str " ", Item.int 2],
               [Item.str "CELL_TYPES ", Item.int 1],
               [Item.str "5 "]] } := by
  obtain ⟨_, h2, h3, _⟩ :=
    SaveParaViewFiles_mesh_files Example.environment Example.rover Example.bodylist 0
      (demo_ROBOT_Viper_SPH.State.init Int) (by decide)
  refine ⟨by decide, h2, ?_⟩
  rw [h3]
  rfl

/-- In the example environment every directory can be created, and the
cylinder-drop demo then treats its arguments as stated. -/
theorem main_scenario_witness :
    DirectoriesCreated Example.mainEnv
      (Example.mainEnv.GetChronoOutputPath ++ "FSI_Cylinder_Drop/") "/vtk" ∧
    ScenarioFromArguments (demo_FSI_CylinderDrop.main Example.mainEnv)
      (Example.mainEnv.GetChronoDataFile "fsi/input_json/demo_FSI_CylinderDrop_Explicit.json")
      "usage: ./demo_FSI_CylinderDrop <json_file>" :=
  ⟨⟨rfl, rfl, rfl⟩, (main_scenario_from_arguments Example.mainEnv).1 ⟨rfl, rfl, rfl⟩⟩

/-- In the example environment the Viper demo creates its three directories
first and then goes on. -/
theorem main_directories_witness :
    DirectoriesCreated Example.mainEnv (Example.mainEnv.GetChronoOutputPath ++ "FSI_Viper/")
      "/rover" ∧
    DirectoriesFirst Example.mainEnv (demo_ROBOT_Viper_SPH.main Example.mainEnv)
      (Example.mainEnv.GetChronoOutputPath ++ "FSI_Viper/") "/rover"
      (Event.engine "ChSystemNSC sysMBS") :=
  ⟨⟨rfl, rfl, rfl⟩, (main_directories_first Example.mainEnv).2.2⟩

/-- The first call of `SaveParaViewFiles` on the example system writes the
mesh files of frame 0. -/
theorem frame_files_witness :
    demo_ROBOT_Viper_SPH.SaveParaViewFiles_calls Example.environment []
        (demo_ROBOT_Viper_SPH.State.init Int)
      = ⟨none, demo_ROBOT_Viper_SPH.State.init Int⟩ ∧
    ([] : List (demo_ROBOT_Viper_SPH.Call Int)).length < 2147483648 ∧
    ∃ M rest,
      (demo_ROBOT_Viper_SPH.SaveParaViewFiles Example.environment Example.rover Example.bodylist
          0 (demo_ROBOT_Viper_SPH.State.init Int)).state.files
        = (demo_ROBOT_Viper_SPH.State.init Int).files ++ M ++ rest ∧
      M.map FileWrite.name
        = (demo_ROBOT_Viper_SPH.frameFileNames (Example.environment.out_dir ++ "/rover")
            0).take 17 :=
  ⟨rfl, by decide,
    match (@frame_files_numbered Int _ _ _ _).2.2.1 Example.environment []
        (demo_ROBOT_Viper_SPH.State.init Int) ⟨Example.rover, Example.bodylist, 0⟩ rfl
        (by decide) with
    | ⟨M, rest, h1, h2, _⟩ => ⟨M, rest, h1, h2⟩⟩

/-- On a newly constructed rig node and a tire of mass 10, `InitializeMBS`
returns in `double` arithmetic, and in exact arithmetic the two bodies get a
mass of at least 1 each. -/
theorem InitializeMBS_body_masses_witness :
    (ChVehicleCosimRigNode.ChVehicleCosimRigNode Example.mbsNode).m_num_tire_nodes = 1 ∧
    (ChVehicleCosimRigNode.ChVehicleCosimRigNode Example.mbsNode).m_DBP_rig = true ∧
    (ChVehicleCosimRigNode.InitializeMBS binary64.arith [⟨10, 1 / 2, 1 / 4⟩] ⟨10, 2⟩ 0
      (ChVehicleCosimRigNode.ChVehicleCosimRigNode Example.mbsNode)).fault = none ∧
    ∃ c sp,
      (ChVehicleCosimRigNode.InitializeMBS (DoubleArith.exact ℚ) [⟨10, 1 / 2, 1 / 4⟩] ⟨10, 2⟩ 0
          (ChVehicleCosimRigNode.ChVehicleCosimRigNode Example.mbsNode)).state.m_chassis
        = some c ∧
      (ChVehicleCosimRigNode.InitializeMBS (DoubleArith.exact ℚ) [⟨10, 1 / 2, 1 / 4⟩] ⟨10, 2⟩ 0
          (ChVehicleCosimRigNode.ChVehicleCosimRigNode Example.mbsNode)).state.m_spindle
        = some sp ∧
      1 ≤ c.Mass ∧ 1 ≤ sp.Mass :=
  ⟨rfl, rfl,
    (InitializeMBS_body_masses binary64.arith
      (ChVehicleCosimRigNode.ChVehicleCosimRigNode Example.mbsNode) ⟨10, 1 / 2, 1 / 4⟩ ⟨10, 2⟩ 0
      rfl rfl).1,
    match (InitializeMBS_body_masses binary64.arith
        (ChVehicleCosimRigNode.ChVehicleCosimRigNode Example.mbsNode) ⟨10, 1 / 2, 1 / 4⟩ ⟨10, 2⟩
        0 rfl rfl).2.2.1 ℚ (ChVehicleCosimRigNode.ChVehicleCosimRigNode Example.mbsNode)
        ⟨10, 1 / 2, 1 / 4⟩ ⟨10, 2⟩ 0 rfl rfl with
    | ⟨c, sp, hc, hsp, _, _, _, h1, h2⟩ => ⟨c, sp, hc, hsp, h1, h2⟩⟩

/-- With every directory in place already, the cylinder-drop demo stops at
the first creation. -/
theorem main_directory_failure_witness :
    Example.rerunEnv.create_directory (Example.rerunEnv.GetChronoOutputPath ++ "FSI_Cylinder_Drop/")
      = false ∧
    StopsAtDirectory (demo_FSI_CylinderDrop.main Example.rerunEnv ["demo_FSI_CylinderDrop"] 100) :=
  ⟨rfl,
    (main_directory_failure_is_fatal Example.rerunEnv ["demo_FSI_CylinderDrop"] 100).1
      (Or.inl rfl)⟩

/-- The frame record of the example tire (4 vertices, 2 triangles): the file
written for frame 0 holds 12 rows, the last of which is the second triple of
the mesh. -/
theorem OnOutputData_frame_record_witness :
    Example.tireNode.m_tire.MeshVertexStates.1.length = Example.tireNode.m_tire.NumVertices ∧
    Example.tireNode.m_tire.MeshVertexStates.2.length = Example.tireNode.m_tire.NumVertices ∧
    Example.tireNode.m_tire.MeshConnectivity.length = Example.tireNode.m_tire.NumTriangles ∧
    (0 : Int) ≠ INT_MAX ∧
    (ChVehicleCosimTireNodeRigid.OnOutputData (fun dir _ _ frame _ => dir ++ toString frame) 0
        Example.tireNode).fault = none ∧
    (ChVehicleCosimTireNodeRigid.OnOutputData (fun dir _ _ frame _ => dir ++ toString frame) 0
        Example.tireNode).state.files
      = [{ name := "TIRE/simulation1", app := false,
           lines :=
            [[Item.int 4, Item.str " "],
             [Item.real 0, Item.str " ", Item.real 0, Item.str " ", Item.real 5, Item.str " "],
             [Item.real 1, Item.str " ", Item.real 0, Item.str " ", Item.real 5, Item.str " "],
             [Item.real 0, Item.str " ", Item.real 1, Item.str " ", Item.real 5, Item.str " "],
             [Item.real 1, Item.str " ", Item.real 1, Item.str " ", Item.real 5, Item.str " "],
             [Item.real 2, Item.str " ", Item.real 0, Item.str " ", Item.real 0, Item.str " "],
             [Item.real 2, Item.str " ", Item.real 0, Item.str " ", Item.real 0, Item.str " "],
             [Item.real 2, Item.str " ", Item.real 0, Item.str " ", Item.real 0, Item.str " "],
             [Item.real 2, Item.str " ", Item.real 0, Item.str " ", Item.real 0, Item.str " "],
             [Item.int 2, Item.str " "],
             [Item.int 0, Item.str " ", Item.int 1, Item.str " ", Item.int 2, Item.str " "],
             [Item.int 1, Item.str " ", Item.int 3, Item.str " ", Item.int 2, Item.str " "]] }] := by
  obtain ⟨h1, ⟨lines, hfiles, hlines, _⟩, _⟩ :=
    OnOutputData_frame_record (fun dir _ _ frame _ => dir ++ toString frame) 0 Example.tireNode
      rfl rfl rfl (by decide)
  refine ⟨rfl, rfl, rfl, by decide, h1, ?_⟩
  rw [hfiles, hlines]
  rfl

/-- On the example mesh (two shells, one cable) a list of two quadruples is
accepted and stored. -/
theorem Resize_connectivity_tables_witness :
    ([[1, 2, 3, 4], [5, 6, 7, 8]] : List (List Int)).length
      = Example.meshInterface.fsi_elements.countP
          (fun e => decide (e = ChElement.ChElementShellANCF_3423)) ∧
    (∀ e ∈ ([[1, 2, 3, 4], [5, 6, 7, 8]] : List (List Int)), 4 ≤ e.length) ∧
    (ChFsiInterface.ResizeChronoShellsData [[1, 2, 3, 4], [5, 6, 7, 8]]
      Example.meshInterface).state.ShellElementsNodesH[1]? = some (int4.mk 5 6 7 8) :=
  ⟨by decide, by decide,
    (((Resize_connectivity_tables [[1, 2, 3, 4], [5, 6, 7, 8]] Example.meshInterface).1.2.2
      (by decide)).2 (by decide)).2.2 1 5 6 7 8 [] rfl⟩

/-- On the example tire (two triangles that share an edge) the adjacency
lists have the total length 6. -/
theorem InitializeTire_adjacency_and_area_witness :
    Example.tireNode.m_adjElements = [] ∧
    Example.tireNode.m_tire.MeshVertices.length = Example.tireNode.m_tire.NumVertices ∧
    Example.tireNode.m_tire.MeshConnectivity.length = Example.tireNode.m_tire.NumTriangles ∧
    (∀ t ∈ Example.tireNode.m_tire.MeshConnectivity,
      (0 ≤ t.x ∧ t.x < (Example.tireNode.m_tire.NumVertices : Int)) ∧
      (0 ≤ t.y ∧ t.y < (Example.tireNode.m_tire.NumVertices : Int)) ∧
      (0 ≤ t.z ∧ t.z < (Example.tireNode.m_tire.NumVertices : Int))) ∧
    (ChVehicleCosimTireNodeRigid.InitializeTire Example.area Example.tireNode).fault = none ∧
    ((ChVehicleCosimTireNodeRigid.InitializeTire Example.area
        Example.tireNode).state.m_adjElements.map List.length).sum = 3 * 2 :=
  ⟨rfl, rfl, rfl, by decide,
    (InitializeTire_adjacency_and_area Example.area Example.tireNode rfl rfl rfl
      (by decide)).1,
    (InitializeTire_adjacency_and_area Example.area Example.tireNode rfl rfl rfl
      (by decide)).2.2.2.1⟩

/-- The writer of the node files, run on the example mesh of one node,
completes and adds one episode; its data row has the ten fields that the
header names, in that order. -/
theorem csv_rows_match_headers_witness :
    (ChFsiInterface.Add_Flex_Forces_To_ChSystem_body Example.convert 0
      Example.flexInterface).fault = none ∧
    (ChFsiInterface.Add_Flex_Forces_To_ChSystem_body Example.convert 0
      Example.flexInterface).state.files
      = [csvEpisode "out/FSI_node0.csv" 0 ChFsiInterface.FSI_node_header
          (ChFsiInterface.FSI_node_row 0 ⟨1, 2, 3⟩ ⟨4, 5, 6⟩ ⟨7, 8, 9⟩)] ∧
    splitFields "," (ChFsiInterface.FSI_node_row (0 : Int) ⟨1, 2, 3⟩ ⟨4, 5, 6⟩ ⟨7, 8, 9⟩)
      = [[Item.real 0], [Item.real 1], [Item.real 2], [Item.real 3], [Item.real 4],
         [Item.real 5], [Item.real 6], [Item.real 7], [Item.real 8], [Item.real 9]] ∧
    splitFields "," (ChFsiInterface.FSI_node_header : Line Int)
      = fieldsNamed ["Time", "x", "y", "z", "Vx", "Vy", "Vz", "Fx", "Fy", "Fz"] :=
  ⟨((@csv_rows_match_headers Int (ChVector Int) (ChQuaternion Int) _ _).2.2.2.2.2.2.2.1
      Example.convert 0 Example.flexInterface ⟨7, 8, 9⟩
      ⟨⟨1, 2, 3⟩, ⟨4, 5, 6⟩, ⟨0, 0, 0⟩, ⟨0, 0, 0⟩⟩ rfl rfl rfl).1,
    ((@csv_rows_match_headers Int (ChVector Int) (ChQuaternion Int) _ _).2.2.2.2.2.2.2.1
      Example.convert 0 Example.flexInterface ⟨7, 8, 9⟩
      ⟨⟨1, 2, 3⟩, ⟨4, 5, 6⟩, ⟨0, 0, 0⟩, ⟨0, 0, 0⟩⟩ rfl rfl rfl).2,
    ((@csv_rows_match_headers Int (ChVector Int) (ChQuaternion Int) _ _).2.1 0 ⟨1, 2, 3⟩
      ⟨4, 5, 6⟩ ⟨7, 8, 9⟩).1.2.1,
    ((@csv_rows_match_headers Int (ChVector Int) (ChQuaternion Int) _ _).2.1 0 ⟨1, 2, 3⟩
      ⟨4, 5, 6⟩ ⟨7, 8, 9⟩).1.1⟩

/-- On the example interface with one body in motion the two copies leave
the list of bodies as it was. -/
theorem copy_round_trip_witness :
    (∀ v, Example.convert.Real3ToChVector (Example.convert.ChVectorToReal3 v) = v) ∧
    (∀ q, Example.convert.Real4ToChQuaternion (Example.convert.ChQuaternionToReal4 q) = q) ∧
    Example.roundTripInterface.rigid_backup.pos_ChSystemH.length
      = Example.roundTripInterface.bodylist.length ∧
    (ChFsiInterface.Copy_External_To_ChSystem Example.convert
      (ChFsiInterface.Copy_ChSystem_to_External Example.convert
        Example.roundTripInterface).state).state.bodylist
      = Example.roundTripInterface.bodylist :=
  ⟨fun _ => rfl, fun _ => rfl, by decide,
    (copy_round_trip Example.convert Example.roundTripInterface (fun _ => rfl) (fun _ => rfl)
      (by decide)).2.2.2.1⟩

/-- At the resolution 100 of the demo the cylinder file has 200 cell
records. -/
theorem WriteCylinderVTK_cells_witness :
    0 < 100 ∧ 100 % 4 = 0 ∧ 100 ≤ 2 ^ 30 ∧
    (demo_FSI_CylinderDrop.WriteCylinderVTK Example.doubleOps "cylinder.0.vtk" (1 : Int) 2
        ⟨⟨0, 0, 0⟩, ⟨1, 0, 0, 0⟩⟩ 100).lines.countP (isCellRecord 4) = 2 * 100 ∧
    (u32 (5 * (2 * ((100 : Nat) : Int))) = 5 * (2 * ((100 : Nat) : Int)) ↔ 10 * 100 < 2 ^ 32) :=
  ⟨by decide, by decide, by decide,
    (WriteCylinderVTK_cells Example.doubleOps "cylinder.0.vtk" (1 : Int) 2
      ⟨⟨0, 0, 0⟩, ⟨1, 0, 0, 0⟩⟩ 100 (by decide) (by decide) (by decide)).2.2.2.1,
    (WriteCylinderVTK_cells Example.doubleOps "cylinder.0.vtk" (1 : Int) 2
      ⟨⟨0, 0, 0⟩, ⟨1, 0, 0, 0⟩⟩ 100 (by decide) (by decide) (by decide)).2.2.2.2.2⟩

/-- At the resolution 100 of the demo every point index of a cell line is
below 200. -/
theorem WriteCylinderVTK_cell_indices_witness :
    0 < 100 ∧ 100 % 4 = 0 ∧ 100 ≤ 2 ^ 30 ∧
    ∀ l ∈ (demo_FSI_CylinderDrop.cylinderCells 100 : List (Line Int)),
      ∀ k : Int, (Item.int k : Item Int) ∈ l → 0 ≤ k ∧ k < 2 * ((100 : Nat) : Int) :=
  ⟨by decide, by decide, by decide,
    (WriteCylinderVTK_cell_indices 100 (by decide) (by decide) (by decide)).1⟩

end witnesses

end chrono
